import Mathlib

/-!
# Conntrack flow statistics collector (`ct_stats.c`)

A shallow embedding of the netlink/conntrack decoder and of the flow builder of
`src/lib/ct_stats/src/ct_stats.c`, followed by theorems about them.

The C code runs on top of libmnl and of the Linux conntrack UAPI headers. The
parts of those that the code relies on (attribute walking, attribute
validation, the numeric values of the `CTA_*` enumerations) are modelled here
after their documented behaviour. The host byte order is a parameter `be`
(`true` on a big-endian host) because the C code reads multi-byte fields
through host-order loads.
-/

namespace CtStats

/-! ## Bytes and byte order -/

/-- One octet of a netlink buffer. -/
abbrev u8 := Fin 256

/-- Value of a byte string read as a little-endian unsigned integer. -/
def load_le : List u8 → Nat
  | [] => 0
  | b :: bs => b.val + 256 * load_le bs

/-- Value of a byte string read as a big-endian (network order) unsigned integer. -/
def load_be (bs : List u8) : Nat :=
  bs.foldl (fun acc b => acc * 256 + b.val) 0

/-- A host-order load of the bytes `bs`, as done by `*(uintN_t *)p`. -/
def host_load (be : Bool) (bs : List u8) : Nat :=
  if be then load_be bs else load_le bs

/-- Byte swap of a 16-bit value. -/
def bswap16 (v : Nat) : Nat :=
  (v % 256) * 256 + (v / 256) % 256

/-- Byte swap of a 32-bit value. -/
def bswap32 (v : Nat) : Nat :=
  (v % 256) * 256 ^ 3 + (v / 256 % 256) * 256 ^ 2 + (v / 256 ^ 2 % 256) * 256
    + (v / 256 ^ 3) % 256

/-- Byte swap of a 64-bit value. -/
def bswap64 (v : Nat) : Nat :=
  (v % 256) * 256 ^ 7 + (v / 256 % 256) * 256 ^ 6 + (v / 256 ^ 2 % 256) * 256 ^ 5
    + (v / 256 ^ 3 % 256) * 256 ^ 4 + (v / 256 ^ 4 % 256) * 256 ^ 3
    + (v / 256 ^ 5 % 256) * 256 ^ 2 + (v / 256 ^ 6 % 256) * 256 + (v / 256 ^ 7) % 256

/-- The libc conversion `ntohs`: identity on a big-endian host, a swap otherwise. -/
def ntohs (be : Bool) (v : Nat) : Nat := if be then v else bswap16 v

/-- The libc conversion `ntohl`. -/
def ntohl (be : Bool) (v : Nat) : Nat := if be then v else bswap32 v

/-- The libc conversion `be64toh`. -/
def be64toh (be : Bool) (v : Nat) : Nat := if be then v else bswap64 v

/-! ## libmnl -/

/-- Callback verdict `MNL_CB_ERROR`. -/
def MNL_CB_ERROR : Int := -1
/-- Callback verdict `MNL_CB_STOP`. -/
def MNL_CB_STOP : Int := 0
/-- Callback verdict `MNL_CB_OK`. -/
def MNL_CB_OK : Int := 1

/-- Size of `struct nlattr` (two 16-bit fields). -/
def MNL_ATTR_HDRLEN : Nat := 4

/-- The macro `MNL_ALIGN`: round up to a multiple of four. -/
def MNL_ALIGN (len : Nat) : Nat := (len + 3) / 4 * 4

/-- A netlink attribute as seen through libmnl accessors: the raw `nla_type`
field and the payload, which holds exactly `nla_len - MNL_ATTR_HDRLEN` bytes
(`mnl_attr_ok` guarantees that they lie inside the buffer). -/
structure nlattr where
  nla_type : Nat
  payload : List u8
  deriving DecidableEq, Repr

/-- The accessor `mnl_attr_get_type`: `nla_type & NLA_TYPE_MASK`, which clears
the two flag bits `NLA_F_NESTED` and `NLA_F_NET_BYTEORDER`. -/
def mnl_attr_get_type (attr : nlattr) : Nat := attr.nla_type % 2 ^ 14

/-- The accessor `mnl_attr_get_payload_len`. -/
def mnl_attr_get_payload_len (attr : nlattr) : Nat := attr.payload.length

/-- The accessor `mnl_attr_get_u8`. -/
def mnl_attr_get_u8 (attr : nlattr) : Nat := load_le (attr.payload.take 1)

/-- The accessor `mnl_attr_get_u16`: a host-order load of two payload bytes. -/
def mnl_attr_get_u16 (be : Bool) (attr : nlattr) : Nat := host_load be (attr.payload.take 2)

/-- The accessor `mnl_attr_get_u32`. -/
def mnl_attr_get_u32 (be : Bool) (attr : nlattr) : Nat := host_load be (attr.payload.take 4)

/-- The accessor `mnl_attr_get_u64`. -/
def mnl_attr_get_u64 (be : Bool) (attr : nlattr) : Nat := host_load be (attr.payload.take 8)

/-- The attribute data types of libmnl that `ct_stats.c` validates against. -/
inductive mnl_attr_data_type
  | MNL_TYPE_U8
  | MNL_TYPE_U16
  | MNL_TYPE_U32
  | MNL_TYPE_U64
  | MNL_TYPE_NESTED
  | MNL_TYPE_BINARY
  deriving DecidableEq, Repr

open mnl_attr_data_type

/-- The table `mnl_attr_data_type_len`: expected payload length, 0 when free. -/
def mnl_attr_data_type_len : mnl_attr_data_type → Nat
  | MNL_TYPE_U8 => 1
  | MNL_TYPE_U16 => 2
  | MNL_TYPE_U32 => 4
  | MNL_TYPE_U64 => 8
  | MNL_TYPE_NESTED => 0
  | MNL_TYPE_BINARY => 0

/-- The libmnl internal `__mnl_attr_validate`: 0 when the payload length fits
the type, -1 otherwise. -/
def mnl_attr_validate_len (attr : nlattr) (type : mnl_attr_data_type) (exp_len : Nat) : Int :=
  let attr_len := mnl_attr_get_payload_len attr
  if attr_len < exp_len then -1
  else if type = MNL_TYPE_NESTED ∧ attr_len ≠ 0 ∧ attr_len < MNL_ATTR_HDRLEN then -1
  else if exp_len ≠ 0 ∧ attr_len > exp_len then -1
  else 0

/-- The libmnl call `mnl_attr_validate`. -/
def mnl_attr_validate (attr : nlattr) (type : mnl_attr_data_type) : Int :=
  mnl_attr_validate_len attr type (mnl_attr_data_type_len type)

/-- The libmnl call `mnl_attr_validate2`, with an explicit expected length. -/
def mnl_attr_validate2 (attr : nlattr) (type : mnl_attr_data_type) (exp_len : Nat) : Int :=
  mnl_attr_validate_len attr type exp_len

/-- The libmnl call `mnl_attr_type_valid`: -1 when the type exceeds `max`. -/
def mnl_attr_type_valid (attr : nlattr) (max : Nat) : Int :=
  if mnl_attr_get_type attr > max then -1 else 1

/-- The attribute iteration of libmnl (`mnl_attr_ok` / `mnl_attr_next`) over a
buffer: an attribute is yielded while at least a header remains, its `nla_len`
is at least a header and at most what remains; the cursor then advances by
`MNL_ALIGN(nla_len)`. The header fields are host-order 16-bit words. Every step
consumes at least four bytes, so a fuel of the buffer length is never used up. -/
def mnl_attr_walk (be : Bool) : Nat → List u8 → List nlattr
  | 0, _ => []
  | fuel + 1, buf =>
    let nla_len := host_load be (buf.take 2)
    if MNL_ATTR_HDRLEN ≤ buf.length ∧ MNL_ATTR_HDRLEN ≤ nla_len ∧ nla_len ≤ buf.length then
      { nla_type := host_load be ((buf.drop 2).take 2),
        payload := (buf.drop MNL_ATTR_HDRLEN).take (nla_len - MNL_ATTR_HDRLEN) }
        :: mnl_attr_walk be fuel (buf.drop (MNL_ALIGN nla_len))
    else []

/-- The attributes found in a buffer. -/
def mnl_attrs (be : Bool) (buf : List u8) : List nlattr :=
  mnl_attr_walk be buf.length buf

/-- An attribute table `struct nlattr *tb[MAX + 1]`. -/
abbrev attr_tb := List (Option nlattr)

/-- The idiom `memset(tb, 0, (max + 1) * sizeof(tb[0]))`. -/
def tb_zero (max : Nat) : attr_tb := List.replicate (max + 1) none

/-- Reading `tb[i]`; `none` is the NULL pointer. -/
def tb_get (tb : attr_tb) (i : Nat) : Option nlattr := tb.getD i none

/-- The assignment `tb[i] = attr`. -/
def tb_set (tb : attr_tb) (i : Nat) (attr : nlattr) : attr_tb := tb.set i (some attr)

/-- An attribute callback `mnl_attr_cb_t`; it returns its verdict and the table. -/
abbrev mnl_attr_cb_t := nlattr → attr_tb → Int × attr_tb

/-- The loop shared by `mnl_attr_parse` and `mnl_attr_parse_nested`: call `cb`
on each attribute, return at once a verdict that is `<= MNL_CB_STOP`. -/
def mnl_attr_loop (cb : mnl_attr_cb_t) : List nlattr → Int → attr_tb → Int × attr_tb
  | [], ret, tb => (ret, tb)
  | attr :: rest, _, tb =>
    let r := cb attr tb
    if r.1 ≤ MNL_CB_STOP then r else mnl_attr_loop cb rest r.1 r.2

/-- The libmnl call `mnl_attr_parse_nested`. -/
def mnl_attr_parse_nested (be : Bool) (nested : nlattr) (cb : mnl_attr_cb_t) (data : attr_tb) :
    Int × attr_tb :=
  mnl_attr_loop cb (mnl_attrs be nested.payload) MNL_CB_OK data

/-- A netlink message: the header fields and the bytes between the header and
`mnl_nlmsg_get_payload_tail`, that is `MNL_ALIGN(nlmsg_len) - MNL_NLMSG_HDRLEN`
bytes. -/
structure nlmsghdr where
  nlmsg_type : Nat
  nlmsg_flags : Nat
  nlmsg_seq : Nat
  nlmsg_pid : Nat
  payload : List u8
  deriving DecidableEq, Repr

/-- The libmnl call `mnl_attr_parse`: the attributes start `MNL_ALIGN(offset)`
bytes into the message payload. -/
def mnl_attr_parse (be : Bool) (nlh : nlmsghdr) (offset : Nat) (cb : mnl_attr_cb_t)
    (data : attr_tb) : Int × attr_tb :=
  mnl_attr_loop cb (mnl_attrs be (nlh.payload.drop (MNL_ALIGN offset))) MNL_CB_OK data

/-! ## Linux conntrack UAPI constants -/

/-- Socket address family `AF_INET`. -/
def AF_INET : Nat := 2
/-- Socket address family `AF_INET6`. -/
def AF_INET6 : Nat := 10

/-- Top-level attribute `CTA_TUPLE_ORIG` of `enum ctattr_type`. -/
def CTA_TUPLE_ORIG : Nat := 1
/-- Top-level attribute `CTA_TUPLE_REPLY`. -/
def CTA_TUPLE_REPLY : Nat := 2
/-- Top-level attribute `CTA_PROTOINFO`. -/
def CTA_PROTOINFO : Nat := 4
/-- Top-level attribute `CTA_TIMEOUT`. -/
def CTA_TIMEOUT : Nat := 7
/-- Top-level attribute `CTA_MARK`. -/
def CTA_MARK : Nat := 8
/-- Top-level attribute `CTA_COUNTERS_ORIG`. -/
def CTA_COUNTERS_ORIG : Nat := 9
/-- Top-level attribute `CTA_COUNTERS_REPLY`. -/
def CTA_COUNTERS_REPLY : Nat := 10
/-- Top-level attribute `CTA_SECMARK`. -/
def CTA_SECMARK : Nat := 17
/-- Top-level attribute `CTA_ZONE`. -/
def CTA_ZONE : Nat := 18
/-- Last top-level attribute, `CTA_MAX` (`CTA_STATUS_MASK` in current headers). -/
def CTA_MAX : Nat := 26

/-- Tuple attribute `CTA_TUPLE_IP` of `enum ctattr_tuple`. -/
def CTA_TUPLE_IP : Nat := 1
/-- Tuple attribute `CTA_TUPLE_PROTO`. -/
def CTA_TUPLE_PROTO : Nat := 2
/-- Tuple attribute `CTA_TUPLE_ZONE`. -/
def CTA_TUPLE_ZONE : Nat := 3
/-- Last tuple attribute, `CTA_TUPLE_MAX`. -/
def CTA_TUPLE_MAX : Nat := 3

/-- IP attribute `CTA_IP_V4_SRC` of `enum ctattr_ip`. -/
def CTA_IP_V4_SRC : Nat := 1
/-- IP attribute `CTA_IP_V4_DST`. -/
def CTA_IP_V4_DST : Nat := 2
/-- IP attribute `CTA_IP_V6_SRC`. -/
def CTA_IP_V6_SRC : Nat := 3
/-- IP attribute `CTA_IP_V6_DST`. -/
def CTA_IP_V6_DST : Nat := 4
/-- Last IP attribute, `CTA_IP_MAX`. -/
def CTA_IP_MAX : Nat := 4

/-- Protocol attribute `CTA_PROTO_NUM` of `enum ctattr_l4proto`. -/
def CTA_PROTO_NUM : Nat := 1
/-- Protocol attribute `CTA_PROTO_SRC_PORT`. -/
def CTA_PROTO_SRC_PORT : Nat := 2
/-- Protocol attribute `CTA_PROTO_DST_PORT`. -/
def CTA_PROTO_DST_PORT : Nat := 3
/-- Protocol attribute `CTA_PROTO_ICMP_ID`. -/
def CTA_PROTO_ICMP_ID : Nat := 4
/-- Protocol attribute `CTA_PROTO_ICMP_TYPE`. -/
def CTA_PROTO_ICMP_TYPE : Nat := 5
/-- Protocol attribute `CTA_PROTO_ICMP_CODE`. -/
def CTA_PROTO_ICMP_CODE : Nat := 6
/-- Last protocol attribute, `CTA_PROTO_MAX` (`CTA_PROTO_ICMPV6_CODE`). -/
def CTA_PROTO_MAX : Nat := 9

/-- Protoinfo attribute `CTA_PROTOINFO_TCP` of `enum ctattr_protoinfo`. -/
def CTA_PROTOINFO_TCP : Nat := 1
/-- Last protoinfo attribute, `CTA_PROTOINFO_MAX` (`CTA_PROTOINFO_SCTP`). -/
def CTA_PROTOINFO_MAX : Nat := 3

/-- TCP protoinfo attribute `CTA_PROTOINFO_TCP_STATE`. -/
def CTA_PROTOINFO_TCP_STATE : Nat := 1
/-- Last TCP protoinfo attribute, `CTA_PROTOINFO_TCP_MAX`. -/
def CTA_PROTOINFO_TCP_MAX : Nat := 5

/-- Counter attribute `CTA_COUNTERS_PACKETS` (64 bit) of `enum ctattr_counters`. -/
def CTA_COUNTERS_PACKETS : Nat := 1
/-- Counter attribute `CTA_COUNTERS_BYTES` (64 bit). -/
def CTA_COUNTERS_BYTES : Nat := 2
/-- Counter attribute `CTA_COUNTERS32_PACKETS`. -/
def CTA_COUNTERS32_PACKETS : Nat := 3
/-- Counter attribute `CTA_COUNTERS32_BYTES`. -/
def CTA_COUNTERS32_BYTES : Nat := 4
/-- Last counter attribute, `CTA_COUNTERS_MAX` (`CTA_COUNTERS_PAD`). -/
def CTA_COUNTERS_MAX : Nat := 5

/-- TCP conntrack state `TCP_CONNTRACK_SYN_SENT` of `enum tcp_conntrack`. -/
def TCP_CONNTRACK_SYN_SENT : Nat := 1
/-- TCP conntrack state `TCP_CONNTRACK_SYN_RECV`. -/
def TCP_CONNTRACK_SYN_RECV : Nat := 2
/-- TCP conntrack state `TCP_CONNTRACK_ESTABLISHED`. -/
def TCP_CONNTRACK_ESTABLISHED : Nat := 3
/-- TCP conntrack state `TCP_CONNTRACK_FIN_WAIT`. -/
def TCP_CONNTRACK_FIN_WAIT : Nat := 4
/-- TCP conntrack state `TCP_CONNTRACK_CLOSE_WAIT`. -/
def TCP_CONNTRACK_CLOSE_WAIT : Nat := 5
/-- TCP conntrack state `TCP_CONNTRACK_LAST_ACK`. -/
def TCP_CONNTRACK_LAST_ACK : Nat := 6
/-- TCP conntrack state `TCP_CONNTRACK_TIME_WAIT`. -/
def TCP_CONNTRACK_TIME_WAIT : Nat := 7
/-- TCP conntrack state `TCP_CONNTRACK_CLOSE`. -/
def TCP_CONNTRACK_CLOSE : Nat := 8
/-- TCP conntrack state `TCP_CONNTRACK_TIMEOUT_MAX`, the last enumerator. -/
def TCP_CONNTRACK_TIMEOUT_MAX : Nat := 14

/-! ## Attribute validators of `ct_stats.c` -/

/-- The callback `parse_counters_cb`. -/
def parse_counters_cb : mnl_attr_cb_t := fun attr tb =>
  let type := mnl_attr_get_type attr
  if mnl_attr_type_valid attr CTA_COUNTERS_MAX < 0 then (MNL_CB_OK, tb)
  else if (type = CTA_COUNTERS_PACKETS ∨ type = CTA_COUNTERS_BYTES)
      ∧ mnl_attr_validate attr MNL_TYPE_U64 < 0 then (MNL_CB_ERROR, tb)
  else if (type = CTA_COUNTERS32_PACKETS ∨ type = CTA_COUNTERS32_BYTES)
      ∧ mnl_attr_validate attr MNL_TYPE_U32 < 0 then (MNL_CB_ERROR, tb)
  else (MNL_CB_OK, tb_set tb type attr)

/-- The callback `parse_ip_cb`. -/
def parse_ip_cb : mnl_attr_cb_t := fun attr tb =>
  let type := mnl_attr_get_type attr
  if mnl_attr_type_valid attr CTA_IP_MAX < 0 then (MNL_CB_OK, tb)
  else if (type = CTA_IP_V4_SRC ∨ type = CTA_IP_V4_DST)
      ∧ mnl_attr_validate attr MNL_TYPE_U32 < 0 then (MNL_CB_ERROR, tb)
  else if (type = CTA_IP_V6_SRC ∨ type = CTA_IP_V6_DST)
      ∧ mnl_attr_validate2 attr MNL_TYPE_BINARY 16 < 0 then (MNL_CB_ERROR, tb)
  else (MNL_CB_OK, tb_set tb type attr)

/-- The callback `parse_proto_cb`. -/
def parse_proto_cb : mnl_attr_cb_t := fun attr tb =>
  let type := mnl_attr_get_type attr
  if mnl_attr_type_valid attr CTA_PROTO_MAX < 0 then (MNL_CB_OK, tb)
  else if (type = CTA_PROTO_NUM ∨ type = CTA_PROTO_ICMP_TYPE ∨ type = CTA_PROTO_ICMP_CODE)
      ∧ mnl_attr_validate attr MNL_TYPE_U8 < 0 then (MNL_CB_ERROR, tb)
  else if (type = CTA_PROTO_SRC_PORT ∨ type = CTA_PROTO_DST_PORT ∨ type = CTA_PROTO_ICMP_ID)
      ∧ mnl_attr_validate attr MNL_TYPE_U16 < 0 then (MNL_CB_ERROR, tb)
  else (MNL_CB_OK, tb_set tb type attr)

/-- The callback `parse_tuple_cb`. -/
def parse_tuple_cb : mnl_attr_cb_t := fun attr tb =>
  let type := mnl_attr_get_type attr
  if mnl_attr_type_valid attr CTA_TUPLE_MAX < 0 then (MNL_CB_OK, tb)
  else if type = CTA_TUPLE_IP ∧ mnl_attr_validate attr MNL_TYPE_NESTED < 0 then
    (MNL_CB_ERROR, tb)
  else if type = CTA_TUPLE_PROTO ∧ mnl_attr_validate attr MNL_TYPE_NESTED < 0 then
    (MNL_CB_ERROR, tb)
  else if type = CTA_TUPLE_ZONE ∧ mnl_attr_validate attr MNL_TYPE_U16 < 0 then
    (MNL_CB_ERROR, tb)
  else (MNL_CB_OK, tb_set tb type attr)

/-- The callback `parse_protoinfo`. -/
def parse_protoinfo : mnl_attr_cb_t := fun attr tb =>
  let type := mnl_attr_get_type attr
  if mnl_attr_type_valid attr CTA_PROTOINFO_MAX < 0 then (MNL_CB_OK, tb)
  else if type = CTA_PROTOINFO_TCP ∧ mnl_attr_validate attr MNL_TYPE_NESTED < 0 then
    (MNL_CB_ERROR, tb)
  else (MNL_CB_OK, tb_set tb type attr)

/-- The callback `parse_tcp_protoinfo`. -/
def parse_tcp_protoinfo : mnl_attr_cb_t := fun attr tb =>
  let type := mnl_attr_get_type attr
  if mnl_attr_type_valid attr CTA_PROTOINFO_TCP_MAX < 0 then (MNL_CB_OK, tb)
  else if type = CTA_PROTOINFO_TCP_STATE ∧ mnl_attr_validate attr MNL_TYPE_U8 < 0 then
    (MNL_CB_ERROR, tb)
  else (MNL_CB_OK, tb_set tb type attr)

/-- The callback `data_attr_cb`. Only `CTA_TUPLE_ORIG`, `CTA_COUNTERS_ORIG` and
`CTA_COUNTERS_REPLY` are listed in the nested case of the switch. -/
def data_attr_cb : mnl_attr_cb_t := fun attr tb =>
  let type := mnl_attr_get_type attr
  if mnl_attr_type_valid attr CTA_MAX < 0 then (MNL_CB_OK, tb)
  else if (type = CTA_TUPLE_ORIG ∨ type = CTA_COUNTERS_ORIG ∨ type = CTA_COUNTERS_REPLY)
      ∧ mnl_attr_validate attr MNL_TYPE_NESTED < 0 then (MNL_CB_ERROR, tb)
  else if (type = CTA_TIMEOUT ∨ type = CTA_MARK ∨ type = CTA_SECMARK)
      ∧ mnl_attr_validate attr MNL_TYPE_U32 < 0 then (MNL_CB_ERROR, tb)
  else if type = CTA_ZONE ∧ mnl_attr_validate attr MNL_TYPE_U16 < 0 then (MNL_CB_ERROR, tb)
  else (MNL_CB_OK, tb_set tb type attr)

/-! ## Data model (`ct_stats.h`) -/

/-- A `struct sockaddr_storage` as the collector uses it: the family and the
address bytes (`sin_addr` or `sin6_addr`); every other byte of the storage
stays zero. The zeroed storage has family 0 and no address bytes. -/
structure sockaddr_storage where
  ss_family : Nat
  addr : List u8
  deriving DecidableEq, Repr

/-- The record `layer3_info` of a flow. Ports hold the 16-bit word as loaded
from the wire bytes, without conversion. -/
structure layer3_info_t where
  src_ip : sockaddr_storage
  dst_ip : sockaddr_storage
  proto_type : Nat
  family_type : Nat
  src_port : Nat
  dst_port : Nat
  deriving DecidableEq, Repr

/-- The record `pkt_info` of a flow: 64-bit packet and byte counts. -/
structure pkt_info_t where
  pkt_cnt : Nat
  bytes : Nat
  deriving DecidableEq, Repr

/-- The flow sample `ct_flow_t`. The C field `end` is spelled `end_` here. -/
structure ct_flow_t where
  layer3_info : layer3_info_t
  pkt_info : pkt_info_t
  ct_zone : Nat
  start : Bool
  end_ : Bool
  deriving DecidableEq, Repr

/-- The plugin state `flow_stats_t`. The list `ctflow_list` holds the flows of
the `ctflow_info_t` nodes, head first; handles are kept as opaque numbers. -/
structure flow_stats_t where
  ctflow_list : List ct_flow_t
  node_count : Int
  ct_zone : Nat
  collect_filter : Option String
  aggr : Option Nat
  loop : Option Nat
  deriving DecidableEq, Repr

/-- A zeroed `struct sockaddr_storage`. -/
def sockaddr_zero : sockaddr_storage := { ss_family := 0, addr := [] }

/-- The flow held by a node fresh from `calloc(1, sizeof(struct ctflow_info))`. -/
def ct_flow_zero : ct_flow_t :=
  { layer3_info := { src_ip := sockaddr_zero, dst_ip := sockaddr_zero, proto_type := 0,
                     family_type := 0, src_port := 0, dst_port := 0 },
    pkt_info := { pkt_cnt := 0, bytes := 0 },
    ct_zone := 0, start := false, end_ := false }

/-- The helper `ct_stats_populate_sockaddr`: `ip` points at the address bytes. -/
def ct_stats_populate_sockaddr (af : Nat) (ip : List u8) (dst : sockaddr_storage) :
    sockaddr_storage :=
  if af = AF_INET then { ss_family := af, addr := ip.take 4 }
  else if af = AF_INET6 then { ss_family := af, addr := ip.take 16 }
  else dst

/-- The read `((struct sockaddr_in *)sa)->sin_addr.s_addr`: a host-order load of
the four bytes at offset 4 of the storage. In a `sockaddr_in6` those bytes are
`sin6_flowinfo`, which the collector leaves zero. -/
def sin_addr_s_addr (be : Bool) (sa : sockaddr_storage) : Nat :=
  if sa.ss_family = AF_INET6 then 0 else host_load be (sa.addr.take 4)

/-! ## Decoders of `ct_stats.c` -/

/-- The `CTA_TUPLE_IP` block of `get_tuple`. -/
def get_tuple_ip (be : Bool) (ip : nlattr) (flow : ct_flow_t) : Int × ct_flow_t :=
  let r := mnl_attr_parse_nested be ip parse_ip_cb (tb_zero CTA_IP_MAX)
  if r.1 < 0 then (MNL_CB_ERROR, flow)
  else
    let ip_tb := r.2
    let flow := match tb_get ip_tb CTA_IP_V4_SRC with
      | some a => { flow with layer3_info.src_ip :=
          ct_stats_populate_sockaddr AF_INET a.payload flow.layer3_info.src_ip }
      | none => flow
    let flow := match tb_get ip_tb CTA_IP_V4_DST with
      | some a => { flow with layer3_info.dst_ip :=
          ct_stats_populate_sockaddr AF_INET a.payload flow.layer3_info.dst_ip }
      | none => flow
    let flow := match tb_get ip_tb CTA_IP_V6_SRC with
      | some a => { flow with layer3_info.src_ip :=
          ct_stats_populate_sockaddr AF_INET6 a.payload flow.layer3_info.src_ip }
      | none => flow
    let flow := match tb_get ip_tb CTA_IP_V6_DST with
      | some a => { flow with layer3_info.dst_ip :=
          ct_stats_populate_sockaddr AF_INET6 a.payload flow.layer3_info.dst_ip }
      | none => flow
    (MNL_CB_OK, flow)

/-- The `CTA_TUPLE_PROTO` block of `get_tuple` (built without `CT_ICMP_SUPPORT`,
whose extra code only logs). -/
def get_tuple_proto (be : Bool) (proto : nlattr) (flow : ct_flow_t) : Int × ct_flow_t :=
  let r := mnl_attr_parse_nested be proto parse_proto_cb (tb_zero CTA_PROTO_MAX)
  if r.1 < 0 then (MNL_CB_ERROR, flow)
  else
    let proto_tb := r.2
    let flow := match tb_get proto_tb CTA_PROTO_NUM with
      | some a => { flow with layer3_info.proto_type := mnl_attr_get_u8 a }
      | none => flow
    let flow := match tb_get proto_tb CTA_PROTO_SRC_PORT with
      | some a => { flow with layer3_info.src_port := mnl_attr_get_u16 be a }
      | none => flow
    let flow := match tb_get proto_tb CTA_PROTO_DST_PORT with
      | some a => { flow with layer3_info.dst_port := mnl_attr_get_u16 be a }
      | none => flow
    (MNL_CB_OK, flow)

/-- The decoder `get_tuple`: a conntrack tuple into a flow. -/
def get_tuple (be : Bool) (nest : nlattr) (flow : ct_flow_t) : Int × ct_flow_t :=
  let r := mnl_attr_parse_nested be nest parse_tuple_cb (tb_zero CTA_TUPLE_MAX)
  if r.1 < 0 then (MNL_CB_ERROR, flow)
  else
    let tb := r.2
    let r_ip := match tb_get tb CTA_TUPLE_IP with
      | some ip => get_tuple_ip be ip flow
      | none => (MNL_CB_OK, flow)
    if r_ip.1 < 0 then (MNL_CB_ERROR, r_ip.2)
    else
      let r_proto := match tb_get tb CTA_TUPLE_PROTO with
        | some proto => get_tuple_proto be proto r_ip.2
        | none => (MNL_CB_OK, r_ip.2)
      if r_proto.1 < 0 then (MNL_CB_ERROR, r_proto.2)
      else
        let flow := r_proto.2
        let flow := match tb_get tb CTA_TUPLE_ZONE with
          | some a => { flow with ct_zone := mnl_attr_get_u16 be a }
          | none => flow
        (MNL_CB_OK, flow)

/-- The `switch (state)` of `get_protoinfo`. -/
def get_protoinfo_state (state : Nat) (flow : ct_flow_t) : ct_flow_t :=
  if state = TCP_CONNTRACK_SYN_SENT ∨ state = TCP_CONNTRACK_SYN_RECV
      ∨ state = TCP_CONNTRACK_ESTABLISHED then
    { flow with start := true }
  else if state = TCP_CONNTRACK_FIN_WAIT ∨ state = TCP_CONNTRACK_CLOSE_WAIT
      ∨ state = TCP_CONNTRACK_LAST_ACK ∨ state = TCP_CONNTRACK_TIME_WAIT
      ∨ state = TCP_CONNTRACK_CLOSE ∨ state = TCP_CONNTRACK_TIMEOUT_MAX then
    { flow with end_ := true }
  else flow

/-- The decoder `get_protoinfo`: conntrack protoinfo into the flow flags. -/
def get_protoinfo (be : Bool) (nest : nlattr) (flow : ct_flow_t) : Int × ct_flow_t :=
  let r := mnl_attr_parse_nested be nest parse_protoinfo (tb_zero CTA_PROTOINFO_MAX)
  if r.1 < 0 then (MNL_CB_ERROR, flow)
  else
    match tb_get r.2 CTA_PROTOINFO_TCP with
    | none => (MNL_CB_OK, flow)
    | some tcp =>
      let r_tcp := mnl_attr_parse_nested be tcp parse_tcp_protoinfo
        (tb_zero CTA_PROTOINFO_TCP_MAX)
      if r_tcp.1 < 0 then (MNL_CB_ERROR, flow)
      else
        match tb_get r_tcp.2 CTA_PROTOINFO_TCP_STATE with
        | none => (MNL_CB_OK, flow)
        | some a => (MNL_CB_OK, get_protoinfo_state (mnl_attr_get_u8 a) flow)

/-- The decoder `get_counter`: conntrack counters into the flow. -/
def get_counter (be : Bool) (nest : nlattr) (_flow : ct_flow_t) : Int × ct_flow_t :=
  let r := mnl_attr_parse_nested be nest parse_counters_cb (tb_zero CTA_COUNTERS_MAX)
  if r.1 < 0 then (MNL_CB_ERROR, _flow)
  else
    let count_tb := r.2
    let _flow := match tb_get count_tb CTA_COUNTERS32_PACKETS with
      | some a => { _flow with pkt_info.pkt_cnt := ntohl be (mnl_attr_get_u32 be a) }
      | none => _flow
    let _flow := match tb_get count_tb CTA_COUNTERS_PACKETS with
      | some a => { _flow with pkt_info.pkt_cnt := be64toh be (mnl_attr_get_u64 be a) }
      | none => _flow
    let _flow := match tb_get count_tb CTA_COUNTERS32_BYTES with
      | some a => { _flow with pkt_info.bytes := ntohl be (mnl_attr_get_u32 be a) }
      | none => _flow
    let _flow := match tb_get count_tb CTA_COUNTERS_BYTES with
      | some a => { _flow with pkt_info.bytes := be64toh be (mnl_attr_get_u64 be a) }
      | none => _flow
    (MNL_CB_OK, _flow)

/-! ## Flow builder `data_cb` -/

/-- What became of a node `data_cb` asked `calloc` for, seen when it returns:
never obtained, still allocated but neither linked nor freed, linked into the
pending list, or freed. -/
inductive node_fate
  | not_allocated
  | allocated
  | linked
  | freed
  deriving DecidableEq, Repr

/-- The outcome of the two `calloc` calls of `data_cb` (`true`: non-NULL). -/
structure calloc_results where
  flow_info : Bool
  flow_info_1 : Bool
  deriving DecidableEq, Repr

/-- What `data_cb` returns and leaves behind: the verdict, the plugin state and
the fate of its two nodes. -/
structure data_cb_result where
  rc : Int
  ct_stats : flow_stats_t
  flow_info : node_fate
  flow_info_1 : node_fate
  deriving DecidableEq, Repr

/-- The statement pair `ds_dlist_insert_tail(&ct_stats->ctflow_list, node);
ct_stats->node_count++`. -/
def insert_tail (ct_stats : flow_stats_t) (flow : ct_flow_t) : flow_stats_t :=
  { ct_stats with ctflow_list := ct_stats.ctflow_list ++ [flow],
                  node_count := ct_stats.node_count + 1 }

/-- The body of the `if (af == AF_INET)` block of `data_cb`: the collapse test on
the ORIG source address, and the exchange of destination addresses when the
test is false. It returns `reply_flag` and the two flows. -/
def data_cb_af_inet (be : Bool) (flow flow_1 : ct_flow_t) : Nat × ct_flow_t × ct_flow_t :=
  let reply_flag : Nat :=
    if sin_addr_s_addr be flow.layer3_info.src_ip &&& 0xFF000000 = 0xFF000000 then 1 else 0
  if reply_flag = 0 then
    let flow := { flow with layer3_info.dst_ip := flow_1.layer3_info.src_ip }
    let flow_1 := { flow_1 with layer3_info.dst_ip := flow.layer3_info.src_ip }
    (reply_flag, flow, flow_1)
  else (reply_flag, flow, flow_1)

/-- The tail of `data_cb`, from the protoinfo test on: protoinfo, counters and
the insertions into the pending list. -/
def data_cb_emit (be : Bool) (ct_stats : flow_stats_t) (tb : attr_tb) (af reply_flag : Nat)
    (flow flow_1 : ct_flow_t) : data_cb_result :=
  let flow_info_1_free : data_cb_result := ⟨MNL_CB_OK, ct_stats, .freed, .freed⟩
  if flow.layer3_info.proto_type ≠ 17 ∧ tb_get tb CTA_PROTOINFO = none then flow_info_1_free
  else
    let r_pi := if flow.layer3_info.proto_type ≠ 17 then
        (match tb_get tb CTA_PROTOINFO with
         | some pi => get_protoinfo be pi flow
         | none => (MNL_CB_OK, flow))
      else (MNL_CB_OK, flow)
    if r_pi.1 < 0 then flow_info_1_free
    else
      match tb_get tb CTA_COUNTERS_ORIG with
      | none => flow_info_1_free
      | some counters_orig =>
        let r_c := get_counter be counters_orig r_pi.2
        if r_c.1 < 0 then flow_info_1_free
        else
          let ct_stats := insert_tail ct_stats r_c.2
          let reply_flag_free : data_cb_result := ⟨MNL_CB_OK, ct_stats, .linked, .freed⟩
          if af = AF_INET ∧ reply_flag ≠ 0 then reply_flag_free
          else
            match tb_get tb CTA_COUNTERS_REPLY with
            | none => reply_flag_free
            | some counters_reply =>
              let r_c1 := get_counter be counters_reply flow_1
              if r_c1.1 < 0 then reply_flag_free
              else ⟨MNL_CB_OK, insert_tail ct_stats r_c1.2, .linked, .linked⟩

/-- The statements of `data_cb` between the two `get_tuple` calls and the
protoinfo test: `reply_flag` starts at 1 and the `AF_INET` block runs when the
family `af` of the REPLY source is IPv4. It returns `reply_flag` and the flows. -/
def data_cb_addr (be : Bool) (flow flow_1 : ct_flow_t) : Nat × ct_flow_t × ct_flow_t :=
  let af := flow_1.layer3_info.src_ip.ss_family
  if af = AF_INET then data_cb_af_inet be flow flow_1 else (1, flow, flow_1)

/-- The part of `data_cb` after both tuples are decoded. -/
def data_cb_build (be : Bool) (ct_stats : flow_stats_t) (tb : attr_tb)
    (flow flow_1 : ct_flow_t) : data_cb_result :=
  let af := flow_1.layer3_info.src_ip.ss_family
  let r := data_cb_addr be flow flow_1
  data_cb_emit be ct_stats tb af r.1 r.2.1 r.2.2

/-- The callback `data_cb`, run on one netlink message. The plugin state is the
singleton `g_ct_stats`, which the sweep also passes as `data`; `heap` tells
whether each `calloc` succeeds. The labels of the C function appear as the
results `flow_info_1_free` (both nodes freed), `flow_info_free` (only the first
node freed) and `reply_flag_free` (only the second node freed). -/
def data_cb (be : Bool) (heap : calloc_results) (ct_stats : flow_stats_t) (nlh : nlmsghdr) :
    data_cb_result :=
  let r := mnl_attr_parse be nlh 4 data_attr_cb (tb_zero CTA_MAX)
  if r.1 < 0 then ⟨MNL_CB_ERROR, ct_stats, .not_allocated, .not_allocated⟩
  else
    let tb := r.2
    let ct_zone := match tb_get tb CTA_ZONE with
      | some a => ntohs be (mnl_attr_get_u16 be a)
      | none => 0
    if ct_zone ≠ ct_stats.ct_zone then ⟨MNL_CB_OK, ct_stats, .not_allocated, .not_allocated⟩
    else if heap.flow_info = false then ⟨MNL_CB_OK, ct_stats, .not_allocated, .not_allocated⟩
    else if heap.flow_info_1 = false then ⟨MNL_CB_OK, ct_stats, .freed, .not_allocated⟩
    else
      let flow_info_1_free : data_cb_result := ⟨MNL_CB_OK, ct_stats, .freed, .freed⟩
      let flow_info_free : data_cb_result := ⟨MNL_CB_OK, ct_stats, .freed, .allocated⟩
      match tb_get tb CTA_TUPLE_ORIG with
      | none => flow_info_free
      | some tuple_orig =>
        let r_o := get_tuple be tuple_orig ct_flow_zero
        if r_o.1 < 0 then flow_info_1_free
        else
          match tb_get tb CTA_TUPLE_REPLY with
          | none => flow_info_1_free
          | some tuple_reply =>
            let r_r := get_tuple be tuple_reply ct_flow_zero
            if r_r.1 < 0 then flow_info_1_free
            else data_cb_build be ct_stats tb r_o.2 r_r.2

/-- Feeding a sequence of messages to `data_cb`, each with its own allocation
outcome, threading the plugin state (what `mnl_cb_run` does with the messages
of a dump while `data_cb` keeps returning `MNL_CB_OK`). -/
def data_cb_seq (be : Bool) (ct_stats : flow_stats_t) :
    List (calloc_results × nlmsghdr) → flow_stats_t
  | [] => ct_stats
  | (heap, nlh) :: rest => data_cb_seq be (data_cb be heap ct_stats nlh).ct_stats rest

/-- The plugin state right after `ct_stats_plugin_init` set up the list, with
the configured zone. -/
def ct_stats_init (zone : Nat) : flow_stats_t :=
  { ctflow_list := [], node_count := 0, ct_zone := zone, collect_filter := none,
    aggr := none, loop := none }

/-! ## Flush to the aggregator (`ct_flow_add_sample`) -/

/-- A MAC address `os_macaddr_t`: six bytes. -/
structure os_macaddr_t where
  addr : List u8
  deriving DecidableEq, Repr

/-- The record `fcm_filter_l2_info_t`: source and destination MAC as text. -/
structure fcm_filter_l2_info_t where
  src_mac : String
  dst_mac : String
  deriving DecidableEq, Repr

/-- The record `fcm_filter_l3_info_t` handed to the filter engine. -/
structure fcm_filter_l3_info_t where
  src_ip : String
  dst_ip : String
  sport : Nat
  dport : Nat
  l4_proto : Nat
  ip_type : Nat
  deriving DecidableEq, Repr

/-- The record `fcm_filter_stats_t` handed to the filter engine. -/
structure fcm_filter_stats_t where
  pkt_cnt : Nat
  bytes : Nat
  deriving DecidableEq, Repr

/-- The fields of `struct net_md_flow_key` that `ct_flow_add_sample` sets after
zeroing the key; a pointer field is `none` when it stays NULL, and an address
pointer is represented by the bytes it points at. -/
structure net_md_flow_key where
  smac : Option os_macaddr_t
  dmac : Option os_macaddr_t
  ip_version : Nat
  src_ip : Option (List u8)
  dst_ip : Option (List u8)
  ipprotocol : Nat
  sport : Nat
  dport : Nat
  fstart : Bool
  fend : Bool
  deriving DecidableEq, Repr

/-- The record `struct flow_counters` handed to the aggregator. -/
structure flow_counters where
  packets_count : Nat
  bytes_count : Nat
  deriving DecidableEq, Repr

/-- The external functions the flush calls. `neigh_table_lookup` yields the MAC
of an address when it knows one; `getnameinfo` yields its return code and the
numeric host string; `fcm_filter_7tuple_apply` yields the action it stores;
`net_md_add_sample` tells whether a submission succeeds, given the submissions
made earlier in the same flush. -/
structure flush_env where
  neigh_table_lookup : sockaddr_storage → Option os_macaddr_t
  getnameinfo : sockaddr_storage → Int × String
  fcm_filter_7tuple_apply :
    String → fcm_filter_l2_info_t → fcm_filter_l3_info_t → fcm_filter_stats_t → Bool
  net_md_add_sample : List (net_md_flow_key × flow_counters) → net_md_flow_key →
    flow_counters → Bool

/-- The six zero bytes of `memset(&smac, 0, sizeof(os_macaddr_t))`. -/
def mac_zero : os_macaddr_t := { addr := List.replicate 6 0 }

/-- The conversion `%02x` of one byte. -/
def hex2 (b : u8) : String :=
  String.mk [Nat.digitChar (b.val / 16), Nat.digitChar (b.val % 16)]

/-- The text `snprintf` writes for a MAC with the format
`%02x:%02x:%02x:%02x:%02x:%02x` (17 characters, which the destination buffers
of `fcm_filter_l2_info_t` hold). -/
def mac_str (mac : os_macaddr_t) : String :=
  hex2 (mac.addr.getD 0 0) ++ ":" ++ hex2 (mac.addr.getD 1 0) ++ ":"
    ++ hex2 (mac.addr.getD 2 0) ++ ":" ++ hex2 (mac.addr.getD 3 0) ++ ":"
    ++ hex2 (mac.addr.getD 4 0) ++ ":" ++ hex2 (mac.addr.getD 5 0)

/-- The function `apply_filter`; `filter_name` is `none` for a NULL name. -/
def apply_filter (env : flush_env) (be : Bool) (filter_name : Option String)
    (mac_filter : fcm_filter_l2_info_t) (flow : ct_flow_t) : Bool :=
  match filter_name with
  | none => true
  | some name =>
    let r_src := env.getnameinfo flow.layer3_info.src_ip
    if r_src.1 < 0 then false
    else
      let r_dst := env.getnameinfo flow.layer3_info.dst_ip
      if r_dst.1 < 0 then false
      else
        let filter : fcm_filter_l3_info_t :=
          { src_ip := r_src.2, dst_ip := r_dst.2,
            sport := ntohs be flow.layer3_info.src_port,
            dport := ntohs be flow.layer3_info.dst_port,
            l4_proto := flow.layer3_info.proto_type,
            ip_type := flow.layer3_info.family_type }
        let pkt : fcm_filter_stats_t :=
          { pkt_cnt := flow.pkt_info.pkt_cnt, bytes := flow.pkt_info.bytes }
        env.fcm_filter_7tuple_apply name mac_filter filter pkt

/-- The four bytes at `&((struct sockaddr_in *)sa)->sin_addr.s_addr`: the IPv4
address, or the zero `sin6_flowinfo` when the storage holds an IPv6 address. -/
def sin_addr_bytes (sa : sockaddr_storage) : List u8 :=
  if sa.ss_family = AF_INET6 then List.replicate 4 0
  else (sa.addr ++ List.replicate 4 0).take 4

/-- The sixteen bytes at `((struct sockaddr_in6 *)sa)->sin6_addr.s6_addr`: the
IPv6 address, or zero bytes when the storage does not hold one. -/
def sin6_addr_bytes (sa : sockaddr_storage) : List u8 :=
  if sa.ss_family = AF_INET6 then (sa.addr ++ List.replicate 16 0).take 16
  else List.replicate 16 0

/-- The key `ct_flow_add_sample` builds for an accepted flow: the statements
from `memset(&key, 0, ...)` to `if (flow->end) key.fend = true`. The arguments
`smac` and `dmac` are the results of the two neighbour lookups. -/
def flow_key (smac dmac : Option os_macaddr_t) (flow : ct_flow_t) : net_md_flow_key :=
  let af := flow.layer3_info.src_ip.ss_family
  { smac := smac,
    dmac := dmac,
    ip_version := if af = AF_INET then 4 else 6,
    src_ip := if af = AF_INET then some (sin_addr_bytes flow.layer3_info.src_ip)
              else if af = AF_INET6 then some (sin6_addr_bytes flow.layer3_info.src_ip)
              else none,
    dst_ip := if af = AF_INET then some (sin_addr_bytes flow.layer3_info.dst_ip)
              else if af = AF_INET6 then some (sin6_addr_bytes flow.layer3_info.dst_ip)
              else none,
    ipprotocol := flow.layer3_info.proto_type,
    sport := flow.layer3_info.src_port,
    dport := flow.layer3_info.dst_port,
    fstart := flow.start,
    fend := flow.end_ }

/-- The counters `ct_flow_add_sample` hands over with the key. -/
def flow_pkts_ct (flow : ct_flow_t) : flow_counters :=
  { packets_count := flow.pkt_info.pkt_cnt, bytes_count := flow.pkt_info.bytes }

/-- The test `apply_filter(ct_stats->collect_filter, &mac_filter, flow)` of one
loop iteration, with the MAC strings printed from the lookup results (a failed
lookup leaves the zeroed MAC). -/
def flow_accepted (env : flush_env) (be : Bool) (collect_filter : Option String)
    (flow : ct_flow_t) : Bool :=
  let smac := (env.neigh_table_lookup flow.layer3_info.src_ip).getD mac_zero
  let dmac := (env.neigh_table_lookup flow.layer3_info.dst_ip).getD mac_zero
  apply_filter env be collect_filter { src_mac := mac_str smac, dst_mac := mac_str dmac } flow

/-- The loop `ds_dlist_foreach` of `ct_flow_add_sample` over the pending flows,
head first. `sent` holds the submissions made so far; the loop stops at the
first submission that `net_md_add_sample` refuses. -/
def ct_flow_add_sample_loop (env : flush_env) (be : Bool) (collect_filter : Option String) :
    List ct_flow_t → List (net_md_flow_key × flow_counters) →
      List (net_md_flow_key × flow_counters)
  | [], sent => sent
  | flow :: rest, sent =>
    if flow_accepted env be collect_filter flow then
      let key := flow_key (env.neigh_table_lookup flow.layer3_info.src_ip)
        (env.neigh_table_lookup flow.layer3_info.dst_ip) flow
      let pkts_ct := flow_pkts_ct flow
      let ret := env.net_md_add_sample sent key pkts_ct
      if ret = false then sent ++ [(key, pkts_ct)]
      else ct_flow_add_sample_loop env be collect_filter rest (sent ++ [(key, pkts_ct)])
    else ct_flow_add_sample_loop env be collect_filter rest sent

/-- The loop of `free_ct_flow_list`: while the list is not empty, remove its
tail and decrement `node_count`. Each round removes one node, so a fuel of the
list length is never used up. -/
def free_ct_flow_list_loop : Nat → flow_stats_t → flow_stats_t
  | 0, ct_stats => ct_stats
  | fuel + 1, ct_stats =>
    if ct_stats.ctflow_list.isEmpty then ct_stats
    else free_ct_flow_list_loop fuel
      { ct_stats with ctflow_list := ct_stats.ctflow_list.dropLast,
                      node_count := ct_stats.node_count - 1 }

/-- The function `free_ct_flow_list`. -/
def free_ct_flow_list (ct_stats : flow_stats_t) : flow_stats_t :=
  { free_ct_flow_list_loop ct_stats.ctflow_list.length ct_stats with node_count := 0 }

/-- What a flush leaves behind: the plugin state and the submissions made to the
aggregator, in order (`sample_count` is their number). -/
structure flush_result where
  ct_stats : flow_stats_t
  submitted : List (net_md_flow_key × flow_counters)

/-- The function `ct_flow_add_sample`. -/
def ct_flow_add_sample (env : flush_env) (be : Bool) (ct_stats : flow_stats_t) : flush_result :=
  { ct_stats := free_ct_flow_list ct_stats,
    submitted := ct_flow_add_sample_loop env be ct_stats.collect_filter ct_stats.ctflow_list [] }

/-! ## Conntrack reader (`ct_stats_get_ct_flow`) -/

/-- Control message type `NLMSG_NOOP`. -/
def NLMSG_NOOP : Nat := 1
/-- Control message type `NLMSG_ERROR`. -/
def NLMSG_ERROR : Nat := 2
/-- Control message type `NLMSG_DONE`. -/
def NLMSG_DONE : Nat := 3
/-- Control message type `NLMSG_OVERRUN`. -/
def NLMSG_OVERRUN : Nat := 4
/-- First data message type, `NLMSG_MIN_TYPE`. -/
def NLMSG_MIN_TYPE : Nat := 16
/-- Message flag `NLM_F_DUMP_INTR`. -/
def NLM_F_DUMP_INTR : Nat := 16

/-- The libmnl test `mnl_nlmsg_portid_ok`. -/
def mnl_nlmsg_portid_ok (nlh : nlmsghdr) (portid : Nat) : Bool :=
  if nlh.nlmsg_pid ≠ 0 ∧ portid ≠ 0 then nlh.nlmsg_pid = portid else true

/-- The libmnl test `mnl_nlmsg_seq_ok`. -/
def mnl_nlmsg_seq_ok (nlh : nlmsghdr) (seq : Nat) : Bool :=
  if nlh.nlmsg_seq ≠ 0 ∧ seq ≠ 0 then nlh.nlmsg_seq = seq else true

/-- The default control callbacks of libmnl, by message type below
`NLMSG_MIN_TYPE`: `mnl_cb_noop` for NOOP and OVERRUN, `mnl_cb_error` for ERROR
(`MNL_CB_STOP` for an acknowledgement with error code 0, `MNL_CB_ERROR` for any
other code or a message too short for a `struct nlmsgerr`), `mnl_cb_stop` for
DONE, and no callback (`none`) for the other types. -/
def mnl_default_cb (be : Bool) (nlh : nlmsghdr) : Option Int :=
  if nlh.nlmsg_type = NLMSG_NOOP ∨ nlh.nlmsg_type = NLMSG_OVERRUN then some MNL_CB_OK
  else if nlh.nlmsg_type = NLMSG_ERROR then
    (if nlh.payload.length < 20 then some MNL_CB_ERROR
     else if host_load be (nlh.payload.take 4) = 0 then some MNL_CB_STOP
     else some MNL_CB_ERROR)
  else if nlh.nlmsg_type = NLMSG_DONE then some MNL_CB_STOP
  else none

/-- The libmnl call `mnl_cb_run(buf, len, seq, portid, data_cb, &g_ct_stats)` on
the messages of one datagram, each paired with the outcome of the allocations
`data_cb` would make for it. The argument `ret` is the verdict so far; the
function returns the verdict and the plugin state. -/
def mnl_cb_run_loop (be : Bool) (seq portid : Nat) :
    List (calloc_results × nlmsghdr) → Int → flow_stats_t → Int × flow_stats_t
  | [], ret, ct_stats => (ret, ct_stats)
  | (heap, nlh) :: rest, ret, ct_stats =>
    if mnl_nlmsg_portid_ok nlh portid = false then (-1, ct_stats)
    else if mnl_nlmsg_seq_ok nlh seq = false then (-1, ct_stats)
    else if nlh.nlmsg_flags &&& NLM_F_DUMP_INTR ≠ 0 then (-1, ct_stats)
    else if NLMSG_MIN_TYPE ≤ nlh.nlmsg_type then
      let r := data_cb be heap ct_stats nlh
      if r.rc ≤ MNL_CB_STOP then (r.rc, r.ct_stats)
      else mnl_cb_run_loop be seq portid rest r.rc r.ct_stats
    else
      match mnl_default_cb be nlh with
      | some rc =>
        if rc ≤ MNL_CB_STOP then (rc, ct_stats)
        else mnl_cb_run_loop be seq portid rest rc ct_stats
      | none => mnl_cb_run_loop be seq portid rest ret ct_stats

/-- The libmnl call `mnl_cb_run`. -/
def mnl_cb_run (be : Bool) (msgs : List (calloc_results × nlmsghdr)) (seq portid : Nat)
    (ct_stats : flow_stats_t) : Int × flow_stats_t :=
  mnl_cb_run_loop be seq portid msgs MNL_CB_OK ct_stats

/-- What the netlink socket does during one sweep: whether `mnl_socket_open`,
`mnl_socket_bind` and `mnl_socket_sendto` succeed, the sequence number and port
id, and the successive results of `mnl_socket_recvfrom` (`none` for -1,
otherwise the messages of the datagram received). -/
structure nl_env where
  socket_open : Bool
  socket_bind : Bool
  socket_sendto : Bool
  seq : Nat
  portid : Nat
  recvfrom : List (Option (List (calloc_results × nlmsghdr)))

/-- The netlink socket of a sweep when `ct_stats_get_ct_flow` returns. -/
inductive socket_state
  | not_opened
  | left_open
  | closed
  deriving DecidableEq, Repr

/-- What a sweep returns and leaves behind. -/
structure sweep_result where
  rc : Int
  ct_stats : flow_stats_t
  socket : socket_state
  deriving DecidableEq, Repr

/-- The loop `while (1)` of `ct_stats_get_ct_flow` over the results of
`mnl_socket_recvfrom`. It yields `none` when the results run out before the
loop ends: the call would block for ever. -/
def ct_stats_get_ct_flow_loop (be : Bool) (seq portid : Nat) :
    List (Option (List (calloc_results × nlmsghdr))) → flow_stats_t → Option sweep_result
  | [], _ => none
  | none :: _, ct_stats => some { rc := 1, ct_stats := ct_stats, socket := .left_open }
  | some msgs :: rest, ct_stats =>
    let r := mnl_cb_run be msgs seq portid ct_stats
    if r.1 = -1 then some { rc := -1, ct_stats := r.2, socket := .left_open }
    else if r.1 ≤ MNL_CB_STOP then some { rc := 0, ct_stats := r.2, socket := .closed }
    else ct_stats_get_ct_flow_loop be seq portid rest r.2

/-- The function `ct_stats_get_ct_flow` for one address family; the family only
enters the request sent to the kernel, whose answers are in `env`. -/
def ct_stats_get_ct_flow (be : Bool) (env : nl_env) (ct_stats : flow_stats_t) :
    Option sweep_result :=
  if env.socket_open = false then
    some { rc := -1, ct_stats := ct_stats, socket := .not_opened }
  else if env.socket_bind = false then
    some { rc := -1, ct_stats := ct_stats, socket := .left_open }
  else if env.socket_sendto = false then
    some { rc := -1, ct_stats := ct_stats, socket := .left_open }
  else ct_stats_get_ct_flow_loop be env.seq env.portid env.recvfrom ct_stats

/-! ## Collector callbacks -/

/-- The fields of the host collector `fcm_collect_plugin_t` that the plugin
reads or writes; `ct_zone` is the answer of `get_other_config(collector,
"ct_zone")`. -/
structure fcm_collect_plugin_t where
  mqtt_topic : Option String
  filters_collect : Option String
  fmt : Nat
  report_interval : Nat
  loop : Option Nat
  plugin_ctx : Option Nat
  ct_zone : Option String
  deriving DecidableEq, Repr

/-- What `ct_stats_collect_cb` did: the plugin state it leaves, whether each
sweep was started, and the flush when it ran. -/
structure collect_result where
  ct_stats : flow_stats_t
  ran_v4 : Bool
  ran_v6 : Bool
  flush : Option flush_result

/-- The callback `ct_stats_collect_cb`; `collector` is `none` for a NULL
pointer, `env4` and `env6` describe the netlink socket of the IPv4 and of the
IPv6 sweep. It yields `none` when a sweep never returns. -/
def ct_stats_collect_cb (be : Bool) (env4 env6 : nl_env) (fenv : flush_env)
    (collector : Option fcm_collect_plugin_t) (ct_stats : flow_stats_t) :
    Option collect_result :=
  match collector with
  | none => some { ct_stats := ct_stats, ran_v4 := false, ran_v6 := false, flush := none }
  | some c =>
    match ct_stats_get_ct_flow be env4 ct_stats with
    | none => none
    | some r4 =>
      if r4.rc = -1 then
        some { ct_stats := r4.ct_stats, ran_v4 := true, ran_v6 := false, flush := none }
      else
        match ct_stats_get_ct_flow be env6 r4.ct_stats with
        | none => none
        | some r6 =>
          if r6.rc = -1 then
            some { ct_stats := r6.ct_stats, ran_v4 := true, ran_v6 := true, flush := none }
          else
            let ct_stats := { r6.ct_stats with collect_filter := c.filters_collect }
            let f := ct_flow_add_sample fenv be ct_stats
            some { ct_stats := f.ct_stats, ran_v4 := true, ran_v6 := true, flush := some f }

/-- Report format `FCM_RPT_FMT_CUMUL` of `fcm.h`. -/
def FCM_RPT_FMT_CUMUL : Nat := 1
/-- Report format `FCM_RPT_FMT_DELTA` of `fcm.h`. -/
def FCM_RPT_FMT_DELTA : Nat := 2

/-- The largest `long` of `limits.h`, for a 64-bit `long` (LP64). -/
def LONG_MAX : Int := 9223372036854775807
/-- The smallest `long` of `limits.h`, for a 64-bit `long` (LP64). -/
def LONG_MIN : Int := -9223372036854775808

/-- The digits loop of `strtol`: accumulate decimal digits, stop at the first
character that is not one. The accumulator is the mathematical value; the
range of `long` is applied by `strtol`. -/
def atoi_digits : List Char → Int → Int
  | [], acc => acc
  | c :: cs, acc =>
    if c.isDigit then atoi_digits cs (acc * 10 + ((c.toNat - 48 : Nat) : Int)) else acc

/-- The number `strtol` reads before it applies the range of `long`: skip white
space, read an optional sign and the decimal digits that follow (0 when there
are none). -/
def strtol_value (s : String) : Int :=
  match s.toList.dropWhile
      (fun c => c = ' ' ∨ (9 ≤ c.toNat ∧ c.toNat ≤ 13)) with
  | '-' :: cs => - atoi_digits cs 0
  | '+' :: cs => atoi_digits cs 0
  | cs => atoi_digits cs 0

/-- The libc call `strtol (nptr, NULL, 10)`: a value above `LONG_MAX` is
returned as `LONG_MAX`, one below `LONG_MIN` as `LONG_MIN`. -/
def strtol (s : String) : Int :=
  if LONG_MAX < strtol_value s then LONG_MAX
  else if strtol_value s < LONG_MIN then LONG_MIN
  else strtol_value s

/-- The conversion of a `long` to an `int`: the low 32 bits, read as a two's
complement number. -/
def long_to_int (v : Int) : Int := (v + 2147483648) % 4294967296 - 2147483648

/-- The libc function `atoi`, which glibc defines as
`(int) strtol (nptr, (char **) NULL, 10)`. -/
def atoi (s : String) : Int := long_to_int (strtol s)

/-- The conversion of an `int` stored into a `uint16_t`. -/
def to_u16 (v : Int) : Nat := (v % 65536).toNat

/-- What the aggregator library and the IMC loader answer during
`ct_stats_plugin_init`: the handle `net_md_allocate_aggregator` returns (`none`
for NULL), whether `net_md_activate_window` succeeds, whether `ct_stats_load_imc`
succeeds, and the return code of the IMC `init_server` entry point (`none` when
the entry point is absent). -/
structure init_env where
  net_md_allocate_aggregator : Option Nat
  net_md_activate_window : Bool
  ct_stats_load_imc : Bool
  init_server : Option Int
  deriving DecidableEq, Repr

/-- What `ct_stats_plugin_init` returns and leaves behind. -/
structure init_result where
  rc : Int
  ct_stats : flow_stats_t
  collector : fcm_collect_plugin_t
  deriving DecidableEq, Repr

/-- The function `alloc_aggr`. -/
def alloc_aggr (env : init_env) (collector : fcm_collect_plugin_t) (ct_stats : flow_stats_t) :
    init_result :=
  if collector.fmt ≠ FCM_RPT_FMT_CUMUL ∧ collector.fmt ≠ FCM_RPT_FMT_DELTA then
    { rc := -1, ct_stats := ct_stats, collector := collector }
  else
    match env.net_md_allocate_aggregator with
    | none => { rc := -1, ct_stats := ct_stats, collector := collector }
    | some aggr =>
      { rc := 0, ct_stats := { ct_stats with aggr := some aggr },
        collector := { collector with plugin_ctx := some aggr } }

/-- The function `ct_stats_activate_window`. -/
def ct_stats_activate_window (env : init_env) (collector : fcm_collect_plugin_t) : Int :=
  match collector.plugin_ctx with
  | none => -1
  | some _ => if env.net_md_activate_window = false then -1 else 0

/-- The function `ct_stats_imc_init` (with `ct_stats_init_server`). -/
def ct_stats_imc_init (env : init_env) : Int :=
  if env.ct_stats_load_imc = false then -1
  else
    let rc : Int := match env.init_server with
      | none => 0
      | some rc => rc
    if rc ≠ 0 then -1 else 0

/-- The function `ct_stats_plugin_init`, run on the singleton as it stands. -/
def ct_stats_plugin_init (env : init_env) (collector : fcm_collect_plugin_t)
    (ct_stats : flow_stats_t) : init_result :=
  let ct_stats := { ct_stats with node_count := 0 }
  let ct_stats := { ct_stats with ctflow_list := [] }
  let ct_stats := { ct_stats with ct_zone :=
    match collector.ct_zone with
    | some z => to_u16 (atoi z)
    | none => 0 }
  let ct_stats := { ct_stats with loop := collector.loop }
  let r := alloc_aggr env collector ct_stats
  if r.rc ≠ 0 then { rc := -1, ct_stats := r.ct_stats, collector := r.collector }
  else
    let err : init_result :=
      { rc := -1, ct_stats := { r.ct_stats with aggr := none },
        collector := { r.collector with plugin_ctx := none } }
    if ct_stats_activate_window env r.collector ≠ 0 then err
    else if ct_stats_imc_init env ≠ 0 then err
    else { rc := 0, ct_stats := r.ct_stats, collector := r.collector }

/-! ## Report callback (`ct_stats_report_cb`) -/

/-- The calls `ct_stats_report_cb` makes outside of the plugin, and its store
to `g_ct_stats.ct_zone`, in the order in which they happen. -/
inductive report_call
  | fcm_filter_context_init
  | net_md_close_active_window
  | net_md_get_total_flows
  | net_md_reset_aggregator
  | send_report (topic : String)
  | net_md_activate_window
  | get_other_config (key : String)
  | store_ct_zone (zone : Nat)
  deriving DecidableEq, Repr

/-- What the aggregator answers during a report: whether
`net_md_close_active_window` succeeds, the count `net_md_get_total_flows`
returns, whether the `send_report` entry of the aggregator and
`net_md_activate_window` succeed. -/
structure report_env where
  net_md_close_active_window : Bool
  net_md_get_total_flows : Nat
  send_report : Bool
  net_md_activate_window : Bool
  deriving DecidableEq, Repr

/-- The plugin state during a report, with the calls made so far. -/
structure report_state where
  ct_stats : flow_stats_t
  calls : List report_call
  deriving DecidableEq, Repr

/-- The function `ct_stats_close_window`: nothing without an aggregator. -/
def ct_stats_close_window (collector : fcm_collect_plugin_t) (st : report_state) :
    report_state :=
  match collector.plugin_ctx with
  | none => st
  | some _ => { st with calls := st.calls ++ [.net_md_close_active_window] }

/-- The function `ct_stats_send_aggr_report`: nothing without an aggregator; the
aggregator is reset when it holds no flow, otherwise its `send_report` entry is
called with the MQTT topic. -/
def ct_stats_send_aggr_report (env : report_env) (collector : fcm_collect_plugin_t)
    (topic : String) (st : report_state) : report_state :=
  match collector.plugin_ctx with
  | none => st
  | some _ =>
    let st : report_state := { st with calls := st.calls ++ [.net_md_get_total_flows] }
    if env.net_md_get_total_flows ≤ 0 then
      { st with calls := st.calls ++ [.net_md_reset_aggregator] }
    else { st with calls := st.calls ++ [.send_report topic] }

/-- The call `ct_stats_activate_window(collector)` of the report, whose return
value is not looked at: nothing without an aggregator. -/
def ct_stats_activate_window_report (collector : fcm_collect_plugin_t) (st : report_state) :
    report_state :=
  match collector.plugin_ctx with
  | none => st
  | some _ => { st with calls := st.calls ++ [.net_md_activate_window] }

/-- The callback `ct_stats_report_cb`; `collector` is `none` for a NULL
pointer. The local `tmp_zone` is a `uint16_t`. -/
def ct_stats_report_cb (env : report_env) (collector : Option fcm_collect_plugin_t)
    (ct_stats : flow_stats_t) : report_state :=
  match collector with
  | none => { ct_stats := ct_stats, calls := [] }
  | some c =>
    match c.mqtt_topic with
    | none => { ct_stats := ct_stats, calls := [] }
    | some topic =>
      let st : report_state := { ct_stats := ct_stats, calls := [.fcm_filter_context_init] }
      let st := ct_stats_close_window c st
      let st := ct_stats_send_aggr_report env c topic st
      let st := ct_stats_activate_window_report c st
      let st : report_state := { st with calls := st.calls ++ [.get_other_config "ct_zone"] }
      let tmp_zone : Nat := match c.ct_zone with
        | some z => to_u16 (atoi z)
        | none => 0
      if st.ct_stats.ct_zone ≠ tmp_zone then
        { ct_stats := { st.ct_stats with ct_zone := tmp_zone },
          calls := st.calls ++ [.store_ct_zone tmp_zone] }
      else st

/-! ## Message construction, used to write down concrete conntrack messages -/

/-- The two bytes of a host-order 16-bit word. -/
def put_u16 (be : Bool) (v : Nat) : List u8 :=
  if be then [Fin.ofNat (v / 256), Fin.ofNat v] else [Fin.ofNat v, Fin.ofNat (v / 256)]

/-- The bytes of one attribute, as `mnl_attr_put` lays them out: header, payload
and zero padding up to a multiple of four. -/
def nla_put (be : Bool) (type : Nat) (payload : List u8) : List u8 :=
  put_u16 be (payload.length + MNL_ATTR_HDRLEN) ++ put_u16 be type ++ payload
    ++ List.replicate (MNL_ALIGN payload.length - payload.length) 0

/-- The bytes of a conntrack tuple: addresses of the given IP attribute types,
protocol number and ports (ports and addresses in wire order). -/
def tuple_put (be : Bool) (type src_type dst_type : Nat) (src dst : List u8) (proto : u8)
    (sport dport : List u8) : List u8 :=
  nla_put be type
    (nla_put be CTA_TUPLE_IP (nla_put be src_type src ++ nla_put be dst_type dst)
      ++ nla_put be CTA_TUPLE_PROTO
          (nla_put be CTA_PROTO_NUM [proto] ++ nla_put be CTA_PROTO_SRC_PORT sport
            ++ nla_put be CTA_PROTO_DST_PORT dport))

/-- The bytes of a counters attribute with 64-bit packet and byte counts. -/
def counters_put (be : Bool) (type : Nat) (packets bytes : List u8) : List u8 :=
  nla_put be type
    (nla_put be CTA_COUNTERS_PACKETS packets ++ nla_put be CTA_COUNTERS_BYTES bytes)

/-- The bytes of a `CTA_PROTOINFO` attribute carrying a TCP state. -/
def protoinfo_put (be : Bool) (state : u8) : List u8 :=
  nla_put be CTA_PROTOINFO
    (nla_put be CTA_PROTOINFO_TCP (nla_put be CTA_PROTOINFO_TCP_STATE [state]))

/-- A conntrack message: the `nfgenmsg` header (family, version 0, res_id 0)
followed by the given attribute bytes. -/
def ct_msg (family : u8) (attrs : List u8) : nlmsghdr :=
  { nlmsg_type := 256, nlmsg_flags := 2, nlmsg_seq := 0, nlmsg_pid := 0,
    payload := [family, 0, 0, 0] ++ attrs }

/-- Both allocations succeed. -/
def heap_ok : calloc_results := { flow_info := true, flow_info_1 := true }

/-! ## Reference readings used in the statements -/

/-- The shape invariant of a counters table: 64-bit attributes hold eight
bytes, 32-bit ones four. -/
def counters_tb_ok (tb : attr_tb) : Prop :=
  (∀ a, tb_get tb CTA_COUNTERS_PACKETS = some a → a.payload.length = 8)
  ∧ (∀ a, tb_get tb CTA_COUNTERS_BYTES = some a → a.payload.length = 8)
  ∧ (∀ a, tb_get tb CTA_COUNTERS32_PACKETS = some a → a.payload.length = 4)
  ∧ (∀ a, tb_get tb CTA_COUNTERS32_BYTES = some a → a.payload.length = 4)

/-- The value of one counter as the byte-order policy describes it: the 64-bit
attribute read big-endian; when it is absent the 32-bit fallback read in
network order; when both are absent the value `old` already in the sample. -/
def counter_value (tb : attr_tb) (t64 t32 : Nat) (old : Nat) : Nat :=
  match tb_get tb t64 with
  | some a => load_be a.payload
  | none =>
    match tb_get tb t32 with
    | some a => load_be a.payload
    | none => old

/-- The packet and byte counts a counters attribute encodes, read as the
byte-order policy describes, on top of the counts `old`. -/
def counters_decoded (be : Bool) (nest : nlattr) (old : pkt_info_t) : pkt_info_t :=
  let count_tb := (mnl_attr_parse_nested be nest parse_counters_cb (tb_zero CTA_COUNTERS_MAX)).2
  { pkt_cnt := counter_value count_tb CTA_COUNTERS_PACKETS CTA_COUNTERS32_PACKETS old.pkt_cnt,
    bytes := counter_value count_tb CTA_COUNTERS_BYTES CTA_COUNTERS32_BYTES old.bytes }

/-- The zone of a message as `data_cb` is meant to read it: the `CTA_ZONE`
payload in network order, 0 when the attribute is absent. -/
def msg_zone (tb : attr_tb) : Nat :=
  match tb_get tb CTA_ZONE with
  | some a => load_be a.payload
  | none => 0

/-- A tuple attribute decodes: `get_tuple` reports no validation error. -/
def tuple_ok (be : Bool) (nest : nlattr) : Prop := 0 ≤ (get_tuple be nest ct_flow_zero).1

/-- A protoinfo attribute decodes: `get_protoinfo` reports no validation error. -/
def protoinfo_ok (be : Bool) (nest : nlattr) : Prop :=
  0 ≤ (get_protoinfo be nest ct_flow_zero).1

/-- A counters attribute decodes: `get_counter` reports no validation error. -/
def counters_ok (be : Bool) (nest : nlattr) : Prop := 0 ≤ (get_counter be nest ct_flow_zero).1

/-- The collapse of `data_cb` fires: the REPLY source is IPv4 and the host-order
word of the ORIG source address has all of its top eight bits set, which is
the condition of the jump `if (af == AF_INET && reply_flag != 0)`. -/
def collapse_fires (be : Bool) (flow flow_1 : ct_flow_t) : Prop :=
  flow_1.layer3_info.src_ip.ss_family = AF_INET
  ∧ sin_addr_s_addr be flow.layer3_info.src_ip &&& 0xFF000000 = 0xFF000000

/-- The flow whose counters `data_cb` fills for the forward sample: the ORIG
flow, after `get_protoinfo` when the protocol is not 17. -/
def fwd_flagged (be : Bool) (tb : attr_tb) (flow : ct_flow_t) : ct_flow_t :=
  if flow.layer3_info.proto_type ≠ 17 then
    match tb_get tb CTA_PROTOINFO with
    | some pi => (get_protoinfo be pi flow).2
    | none => flow
  else flow

/-- The forward sample `data_cb` links for a message with ORIG tuple `orig`,
REPLY tuple `reply` and ORIG counters `c`. -/
def fwd_sample (be : Bool) (tb : attr_tb) (orig reply c : nlattr) : ct_flow_t :=
  (get_counter be c (fwd_flagged be tb
    (data_cb_addr be (get_tuple be orig ct_flow_zero).2
      (get_tuple be reply ct_flow_zero).2).2.1)).2

/-- The reverse sample `data_cb` links for a message with ORIG tuple `orig`,
REPLY tuple `reply` and REPLY counters `c1`. -/
def rev_sample (be : Bool) (orig reply c1 : nlattr) : ct_flow_t :=
  (get_counter be c1
    (data_cb_addr be (get_tuple be orig ct_flow_zero).2
      (get_tuple be reply ct_flow_zero).2).2.2).2

/-- The conditions under which `data_cb` reaches its first insertion with the
tuples `orig`, `reply` and the ORIG counters `c`: the message parses and is in
the configured zone, both nodes are allocated, both tuples decode, protoinfo
is present and decodes unless the protocol is 17, and the counters decode. -/
def reaches_fwd (be : Bool) (heap : calloc_results) (ct_stats : flow_stats_t) (nlh : nlmsghdr)
    (orig reply c : nlattr) : Prop :=
  0 ≤ (mnl_attr_parse be nlh 4 data_attr_cb (tb_zero CTA_MAX)).1
  ∧ msg_zone (mnl_attr_parse be nlh 4 data_attr_cb (tb_zero CTA_MAX)).2 = ct_stats.ct_zone
  ∧ heap.flow_info = true ∧ heap.flow_info_1 = true
  ∧ tb_get (mnl_attr_parse be nlh 4 data_attr_cb (tb_zero CTA_MAX)).2 CTA_TUPLE_ORIG = some orig
  ∧ tuple_ok be orig
  ∧ tb_get (mnl_attr_parse be nlh 4 data_attr_cb (tb_zero CTA_MAX)).2 CTA_TUPLE_REPLY
      = some reply
  ∧ tuple_ok be reply
  ∧ ((get_tuple be orig ct_flow_zero).2.layer3_info.proto_type ≠ 17 →
      ∃ pi, tb_get (mnl_attr_parse be nlh 4 data_attr_cb (tb_zero CTA_MAX)).2 CTA_PROTOINFO
          = some pi ∧ protoinfo_ok be pi)
  ∧ tb_get (mnl_attr_parse be nlh 4 data_attr_cb (tb_zero CTA_MAX)).2 CTA_COUNTERS_ORIG = some c
  ∧ counters_ok be c

/-- A counters attribute with both the 64-bit and the 32-bit packet and byte
attributes, laid out for a little-endian host. -/
def counters_both : nlattr :=
  { nla_type := CTA_COUNTERS_ORIG,
    payload := nla_put false CTA_COUNTERS32_PACKETS [0, 0, 0, 7]
      ++ nla_put false CTA_COUNTERS_PACKETS [0, 0, 0, 1, 0, 0, 0, 42]
      ++ nla_put false CTA_COUNTERS32_BYTES [0, 0, 1, 0]
      ++ nla_put false CTA_COUNTERS_BYTES [0, 0, 0, 0, 0, 0, 12, 128] }

/-- A `CTA_PROTOINFO` attribute carrying the given TCP state. -/
def protoinfo_attr (be : Bool) (state : u8) : nlattr :=
  { nla_type := CTA_PROTOINFO,
    payload := nla_put be CTA_PROTOINFO_TCP (nla_put be CTA_PROTOINFO_TCP_STATE [state]) }

instance (be : Bool) (flow flow_1 : ct_flow_t) : Decidable (collapse_fires be flow flow_1) := by
  unfold collapse_fires
  exact inferInstance

instance (be : Bool) (nest : nlattr) : Decidable (tuple_ok be nest) := by
  unfold tuple_ok
  exact inferInstance

instance (be : Bool) (nest : nlattr) : Decidable (protoinfo_ok be nest) := by
  unfold protoinfo_ok
  exact inferInstance

instance (be : Bool) (nest : nlattr) : Decidable (counters_ok be nest) := by
  unfold counters_ok
  exact inferInstance

/-! ## Concrete conntrack messages -/

/-- A conntrack entry with ORIG ports 1000 to 53 and the mirrored REPLY ports,
ORIG counters 42 packets / 3200 bytes and REPLY counters 41 packets / 60000
bytes; addresses, protocol and the attributes `extra` (placed between the
tuples and the counters) are given. -/
def msg_flow (be : Bool) (family : u8) (src_type dst_type : Nat)
    (osrc odst rsrc rdst : List u8) (proto : u8) (extra : List u8) : nlmsghdr :=
  ct_msg family
    (tuple_put be CTA_TUPLE_ORIG src_type dst_type osrc odst proto [3, 232] [0, 53]
      ++ tuple_put be CTA_TUPLE_REPLY src_type dst_type rsrc rdst proto [0, 53] [3, 232]
      ++ extra
      ++ counters_put be CTA_COUNTERS_ORIG [0, 0, 0, 0, 0, 0, 0, 42] [0, 0, 0, 0, 0, 0, 12, 128]
      ++ counters_put be CTA_COUNTERS_REPLY [0, 0, 0, 0, 0, 0, 0, 41]
          [0, 0, 0, 0, 0, 0, 234, 96])

/-- An IPv4 entry between 10.0.0.1 and 8.8.8.8 with the given protocol and
extra attributes. -/
def msg_v4 (be : Bool) (proto : u8) (extra : List u8) : nlmsghdr :=
  msg_flow be 2 CTA_IP_V4_SRC CTA_IP_V4_DST [10, 0, 0, 1] [8, 8, 8, 8] [8, 8, 8, 8] [10, 0, 0, 1]
    proto extra

/-- Scenario S1: a UDP flow without `CTA_ZONE`, little-endian host. -/
def msg_udp : nlmsghdr := msg_v4 false 17 []

/-- Scenario S2: a TCP flow in state ESTABLISHED. -/
def msg_tcp_established : nlmsghdr := msg_v4 false 6 (protoinfo_put false 3)

/-- Scenario S3: a TCP flow in state TIME_WAIT. -/
def msg_tcp_time_wait : nlmsghdr := msg_v4 false 6 (protoinfo_put false 7)

/-- Scenario S4: the UDP flow with `CTA_ZONE` 7 (network order). -/
def msg_zone7 : nlmsghdr := msg_v4 false 17 (nla_put false CTA_ZONE [0, 7])

/-- Scenario S6: a TCP flow without `CTA_PROTOINFO`. -/
def msg_tcp_bare : nlmsghdr := msg_v4 false 6 []

/-- An ICMP entry (protocol 1) that carries a TCP protoinfo in state
ESTABLISHED. -/
def msg_icmp_tcp_state : nlmsghdr := msg_v4 false 1 (protoinfo_put false 3)

/-- A UDP entry whose ORIG source is 255.0.0.1 (first octet 0xFF). -/
def msg_src_first_ff (be : Bool) : nlmsghdr :=
  msg_flow be 2 CTA_IP_V4_SRC CTA_IP_V4_DST [255, 0, 0, 1] [8, 8, 8, 8] [8, 8, 8, 8]
    [255, 0, 0, 1] 17 []

/-- A UDP entry whose ORIG source is 10.0.0.255 (last octet 0xFF). -/
def msg_src_last_ff (be : Bool) : nlmsghdr :=
  msg_flow be 2 CTA_IP_V4_SRC CTA_IP_V4_DST [10, 0, 0, 255] [8, 8, 8, 8] [8, 8, 8, 8]
    [10, 0, 0, 255] 17 []

/-- The IPv6 address `2001:db8::n`. -/
def v6_addr (n : u8) : List u8 := [32, 1, 13, 184, 0, 0, 0, 0, 0, 0, 0, 0, 0, 0, 0, n]

/-- An IPv6 UDP entry through destination NAT: ORIG goes from `::1` to `::2`,
the REPLY comes from `::3` back to `::1`. -/
def msg_v6_dnat : nlmsghdr :=
  msg_flow false 10 CTA_IP_V6_SRC CTA_IP_V6_DST (v6_addr 1) (v6_addr 2) (v6_addr 3) (v6_addr 1)
    17 []

/-- The forward sample of scenario S1. -/
def udp_fwd : ct_flow_t :=
  { layer3_info := { src_ip := ⟨AF_INET, [10, 0, 0, 1]⟩, dst_ip := ⟨AF_INET, [8, 8, 8, 8]⟩,
                     proto_type := 17, family_type := 0, src_port := 59395, dst_port := 13568 },
    pkt_info := { pkt_cnt := 42, bytes := 3200 }, ct_zone := 0, start := false, end_ := false }

/-- The reverse sample of scenario S1. -/
def udp_rev : ct_flow_t :=
  { layer3_info := { src_ip := ⟨AF_INET, [8, 8, 8, 8]⟩, dst_ip := ⟨AF_INET, [10, 0, 0, 1]⟩,
                     proto_type := 17, family_type := 0, src_port := 13568, dst_port := 59395 },
    pkt_info := { pkt_cnt := 41, bytes := 60000 }, ct_zone := 0, start := false, end_ := false }

/-- The submissions of a flush in the words of the aggregator gateway: hand the
candidates over in order, each with the list of earlier submissions, and stop
after the first one the aggregator refuses. -/
def submit_until_fail
    (add : List (net_md_flow_key × flow_counters) → net_md_flow_key → flow_counters → Bool) :
    List (net_md_flow_key × flow_counters) → List (net_md_flow_key × flow_counters) →
      List (net_md_flow_key × flow_counters)
  | [], _ => []
  | x :: xs, sent =>
    if add sent x.1 x.2 then x :: submit_until_fail add xs (sent ++ [x]) else [x]

/-- The key and counters a pending flow is submitted with. -/
def flow_submission (env : flush_env) (flow : ct_flow_t) : net_md_flow_key × flow_counters :=
  (flow_key (env.neigh_table_lookup flow.layer3_info.src_ip)
    (env.neigh_table_lookup flow.layer3_info.dst_ip) flow, flow_pkts_ct flow)

/-- The invariant of the pending list: `node_count` is its length. -/
def count_ok (ct_stats : flow_stats_t) : Prop :=
  ct_stats.node_count = (ct_stats.ctflow_list.length : Int)

/-- A flush environment in which no neighbour is known, the filter accepts
flows with at least `min_pkts` packets, and the aggregator accepts at most
`quota` submissions per flush. -/
def fenv_quota (min_pkts quota : Nat) : flush_env :=
  { neigh_table_lookup := fun _ => none,
    getnameinfo := fun _ => (0, ""),
    fcm_filter_7tuple_apply := fun _ _ _ pkt => decide (min_pkts ≤ pkt.pkt_cnt),
    net_md_add_sample := fun sent _ _ => decide (sent.length < quota) }

/-- A host collector with cumulative format and no `ct_zone` setting. -/
def collector_demo : fcm_collect_plugin_t :=
  { mqtt_topic := some "ct_stats", filters_collect := none, fmt := FCM_RPT_FMT_CUMUL,
    report_interval := 60, loop := some 1, plugin_ctx := none, ct_zone := none }

/-- An initialisation in which every step succeeds. -/
def ienv_ok : init_env :=
  { net_md_allocate_aggregator := some 1, net_md_activate_window := true,
    ct_stats_load_imc := true, init_server := none }

/-- The `NLMSG_DONE` message that ends a dump. -/
def msg_done : nlmsghdr :=
  { nlmsg_type := NLMSG_DONE, nlmsg_flags := 2, nlmsg_seq := 0, nlmsg_pid := 0,
    payload := [0, 0, 0, 0] }

/-- The UDP entry of scenario S1 with a `CTA_ZONE` attribute of three bytes: a
known top-level type of the wrong shape. -/
def msg_bad_zone : nlmsghdr := msg_v4 false 17 (nla_put false CTA_ZONE [0, 0, 7])

/-- A sweep whose socket works and whose kernel answers are the given
datagrams. -/
def nl_answers (recv : List (Option (List (calloc_results × nlmsghdr)))) : nl_env :=
  { socket_open := true, socket_bind := true, socket_sendto := true, seq := 1, portid := 1,
    recvfrom := recv }

/-- A dump of one datagram: the UDP entry, then `NLMSG_DONE`. -/
def sweep_udp_done : nl_env := nl_answers [some [(heap_ok, msg_udp), (heap_ok, msg_done)]]

/-- A dump of one datagram: the UDP entry, the entry with the three-byte
`CTA_ZONE`, the ESTABLISHED TCP entry, then `NLMSG_DONE`. -/
def sweep_udp_bad_zone : nl_env :=
  nl_answers [some [(heap_ok, msg_udp), (heap_ok, msg_bad_zone),
    (heap_ok, msg_tcp_established), (heap_ok, msg_done)]]

/-- A dump with no entry: `NLMSG_DONE` alone. -/
def sweep_done : nl_env := nl_answers [some [(heap_ok, msg_done)]]

/-- A sweep whose first `mnl_socket_recvfrom` fails. -/
def sweep_recv_fail : nl_env := nl_answers [none]

/-- A sweep whose `mnl_socket_open` fails. -/
def sweep_open_fail : nl_env :=
  { socket_open := false, socket_bind := true, socket_sendto := true, seq := 1, portid := 1,
    recvfrom := [] }

instance (ct_stats : flow_stats_t) : Decidable (count_ok ct_stats) := by
  unfold count_ok
  exact inferInstance

/-! ## Payload shapes the validators reject, context by context -/

/-- A top-level attribute of a type `data_attr_cb` checks, with a payload of
the wrong shape: `TUPLE_ORIG`, `COUNTERS_ORIG`, `COUNTERS_REPLY` not a nest
(one to three bytes), `TIMEOUT`, `MARK`, `SECMARK` not four bytes, `ZONE` not
two bytes. -/
def wrong_shape_top (a : nlattr) : Prop :=
  ((mnl_attr_get_type a = CTA_TUPLE_ORIG ∨ mnl_attr_get_type a = CTA_COUNTERS_ORIG
      ∨ mnl_attr_get_type a = CTA_COUNTERS_REPLY)
    ∧ a.payload.length ≠ 0 ∧ a.payload.length < MNL_ATTR_HDRLEN)
  ∨ ((mnl_attr_get_type a = CTA_TIMEOUT ∨ mnl_attr_get_type a = CTA_MARK
      ∨ mnl_attr_get_type a = CTA_SECMARK) ∧ a.payload.length ≠ 4)
  ∨ (mnl_attr_get_type a = CTA_ZONE ∧ a.payload.length ≠ 2)

/-- A tuple attribute of the wrong shape: `IP`, `PROTO` not a nest, `ZONE` not
two bytes. -/
def wrong_shape_tuple (a : nlattr) : Prop :=
  ((mnl_attr_get_type a = CTA_TUPLE_IP ∨ mnl_attr_get_type a = CTA_TUPLE_PROTO)
    ∧ a.payload.length ≠ 0 ∧ a.payload.length < MNL_ATTR_HDRLEN)
  ∨ (mnl_attr_get_type a = CTA_TUPLE_ZONE ∧ a.payload.length ≠ 2)

/-- An IP attribute of the wrong shape: `V4_SRC`, `V4_DST` not four bytes,
`V6_SRC`, `V6_DST` not sixteen bytes. -/
def wrong_shape_ip (a : nlattr) : Prop :=
  ((mnl_attr_get_type a = CTA_IP_V4_SRC ∨ mnl_attr_get_type a = CTA_IP_V4_DST)
    ∧ a.payload.length ≠ 4)
  ∨ ((mnl_attr_get_type a = CTA_IP_V6_SRC ∨ mnl_attr_get_type a = CTA_IP_V6_DST)
    ∧ a.payload.length ≠ 16)

/-- A protocol attribute of the wrong shape: `NUM`, `ICMP_TYPE`, `ICMP_CODE` not
one byte, `SRC_PORT`, `DST_PORT`, `ICMP_ID` not two bytes. -/
def wrong_shape_proto (a : nlattr) : Prop :=
  ((mnl_attr_get_type a = CTA_PROTO_NUM ∨ mnl_attr_get_type a = CTA_PROTO_ICMP_TYPE
      ∨ mnl_attr_get_type a = CTA_PROTO_ICMP_CODE) ∧ a.payload.length ≠ 1)
  ∨ ((mnl_attr_get_type a = CTA_PROTO_SRC_PORT ∨ mnl_attr_get_type a = CTA_PROTO_DST_PORT
      ∨ mnl_attr_get_type a = CTA_PROTO_ICMP_ID) ∧ a.payload.length ≠ 2)

/-- A protoinfo attribute of the wrong shape: `TCP` not a nest. -/
def wrong_shape_protoinfo (a : nlattr) : Prop :=
  mnl_attr_get_type a = CTA_PROTOINFO_TCP
    ∧ a.payload.length ≠ 0 ∧ a.payload.length < MNL_ATTR_HDRLEN

/-- A TCP protoinfo attribute of the wrong shape: `STATE` not one byte. -/
def wrong_shape_tcp (a : nlattr) : Prop :=
  mnl_attr_get_type a = CTA_PROTOINFO_TCP_STATE ∧ a.payload.length ≠ 1

/-- A counters attribute of the wrong shape: `PACKETS`, `BYTES` not eight bytes,
`COUNTERS32_PACKETS`, `COUNTERS32_BYTES` not four bytes. -/
def wrong_shape_counters (a : nlattr) : Prop :=
  ((mnl_attr_get_type a = CTA_COUNTERS_PACKETS ∨ mnl_attr_get_type a = CTA_COUNTERS_BYTES)
    ∧ a.payload.length ≠ 8)
  ∨ ((mnl_attr_get_type a = CTA_COUNTERS32_PACKETS
      ∨ mnl_attr_get_type a = CTA_COUNTERS32_BYTES) ∧ a.payload.length ≠ 4)

instance (a : nlattr) : Decidable (wrong_shape_top a) := by
  unfold wrong_shape_top
  exact inferInstance

instance (a : nlattr) : Decidable (wrong_shape_tuple a) := by
  unfold wrong_shape_tuple
  exact inferInstance

instance (a : nlattr) : Decidable (wrong_shape_ip a) := by
  unfold wrong_shape_ip
  exact inferInstance

instance (a : nlattr) : Decidable (wrong_shape_proto a) := by
  unfold wrong_shape_proto
  exact inferInstance

instance (a : nlattr) : Decidable (wrong_shape_protoinfo a) := by
  unfold wrong_shape_protoinfo
  exact inferInstance

instance (a : nlattr) : Decidable (wrong_shape_tcp a) := by
  unfold wrong_shape_tcp
  exact inferInstance

instance (a : nlattr) : Decidable (wrong_shape_counters a) := by
  unfold wrong_shape_counters
  exact inferInstance

/-- The seven parse contexts: the validator callback, the declared MAX of its
attribute types, and the wrong-shape test of its row of the shape table. -/
structure parse_context where
  cb : mnl_attr_cb_t
  max : Nat
  wrong_shape : nlattr → Prop

/-- The parse contexts of `ct_stats.c` by name: top-level (`data_cb`), tuple
(`get_tuple`), IP and proto (the two blocks of `get_tuple`), protoinfo and
tcp-protoinfo (`get_protoinfo`), counters (`get_counter`). -/
inductive parse_ctx
  | top
  | tuple
  | ip
  | proto
  | protoinfo
  | tcp
  | counters
  deriving DecidableEq, Repr

/-- The validator, the declared MAX and the shape test of each context. -/
def parse_ctx.info : parse_ctx → parse_context
  | .top => ⟨data_attr_cb, CTA_MAX, wrong_shape_top⟩
  | .tuple => ⟨parse_tuple_cb, CTA_TUPLE_MAX, wrong_shape_tuple⟩
  | .ip => ⟨parse_ip_cb, CTA_IP_MAX, wrong_shape_ip⟩
  | .proto => ⟨parse_proto_cb, CTA_PROTO_MAX, wrong_shape_proto⟩
  | .protoinfo => ⟨parse_protoinfo, CTA_PROTOINFO_MAX, wrong_shape_protoinfo⟩
  | .tcp => ⟨parse_tcp_protoinfo, CTA_PROTOINFO_TCP_MAX, wrong_shape_tcp⟩
  | .counters => ⟨parse_counters_cb, CTA_COUNTERS_MAX, wrong_shape_counters⟩

/-- The context in which the payload of an attribute of type `t`, kept in the
table of context `c`, is parsed in turn: `data_cb` hands `TUPLE_ORIG` and
`TUPLE_REPLY` to `get_tuple`, `PROTOINFO` to `get_protoinfo`, `COUNTERS_ORIG`
and `COUNTERS_REPLY` to `get_counter`; `get_tuple` parses `TUPLE_IP` and
`TUPLE_PROTO`; `get_protoinfo` parses `PROTOINFO_TCP`. Nothing else is opened. -/
def parse_ctx.child : parse_ctx → Nat → Option parse_ctx
  | .top, t =>
    if t = CTA_TUPLE_ORIG ∨ t = CTA_TUPLE_REPLY then some .tuple
    else if t = CTA_PROTOINFO then some .protoinfo
    else if t = CTA_COUNTERS_ORIG ∨ t = CTA_COUNTERS_REPLY then some .counters
    else none
  | .tuple, t =>
    if t = CTA_TUPLE_IP then some .ip
    else if t = CTA_TUPLE_PROTO then some .proto
    else none
  | .protoinfo, t => if t = CTA_PROTOINFO_TCP then some .tcp else none
  | _, _ => none

/-- What a validator callback does with an attribute, read off the parse rules:
a type above MAX is ignored, a wrong shape is an error, anything else is
stored under its type. -/
def validator_spec (max : Nat) (wrong_shape : nlattr → Prop) (cb : mnl_attr_cb_t) : Prop :=
  ∀ (attr : nlattr) (tb : attr_tb),
    (max < mnl_attr_get_type attr → cb attr tb = (MNL_CB_OK, tb))
    ∧ (mnl_attr_get_type attr ≤ max → wrong_shape attr → cb attr tb = (MNL_CB_ERROR, tb))
    ∧ (mnl_attr_get_type attr ≤ max → ¬ wrong_shape attr →
        cb attr tb = (MNL_CB_OK, tb_set tb (mnl_attr_get_type attr) attr))

/-- The attribute list `l2`, parsed in context `c`, is the list `l1` with one
attribute added whose type exceeds the declared MAX of the context in which it
is parsed: either in the list itself (`here`), or inside the payload of one of
its attributes that the decoders open, a nest that was well formed before (empty
or at least a header long), at any depth (`inside`). -/
inductive adds_unknown (be : Bool) : parse_ctx → List nlattr → List nlattr → Prop
  | here (c : parse_ctx) (l l' pre post : List nlattr) (a : nlattr) :
      c.info.max < mnl_attr_get_type a → l = pre ++ post → l' = pre ++ a :: post →
      adds_unknown be c l l'
  | inside (c c' : parse_ctx) (l l' pre post : List nlattr) (x x' : nlattr) :
      c.child (mnl_attr_get_type x) = some c' → x'.nla_type = x.nla_type →
      (x.payload.length = 0 ∨ MNL_ATTR_HDRLEN ≤ x.payload.length) →
      adds_unknown be c' (mnl_attrs be x.payload) (mnl_attrs be x'.payload) →
      l = pre ++ x :: post → l' = pre ++ x' :: post →
      adds_unknown be c l l'

/-- Two attribute tables of the same size that agree everywhere, except that at
index `t` the first may hold `x` where the second holds `x'`. -/
def tb_differ_at (tb tb' : attr_tb) (t : Nat) (x x' : nlattr) : Prop :=
  tb'.length = tb.length
    ∧ ∀ i, tb_get tb' i = tb_get tb i ∨ (i = t ∧ tb_get tb i = some x ∧ tb_get tb' i = some x')

/-! ## Messages with an attribute of unknown type -/

/-- The top-level attributes of a conntrack message on a little-endian host. -/
def top_attrs (nlh : nlmsghdr) : List nlattr :=
  mnl_attrs false (nlh.payload.drop (MNL_ALIGN 4))

/-- The attribute at position `i` of a list (a zero attribute past its end). -/
def attr_at (l : List nlattr) (i : Nat) : nlattr := l.getD i ⟨0, []⟩

/-- Scenario S1 with a top-level attribute of type 27 (above `CTA_MAX`) and a
three-byte payload added between the tuples and the counters. -/
def msg_unknown_top : nlmsghdr := msg_v4 false 17 (nla_put false 27 [1, 2, 3])

/-- Scenario S1 with an attribute of type 10 (above `CTA_PROTO_MAX`) and a
five-byte payload added to the `CTA_TUPLE_PROTO` nest of the ORIG tuple. -/
def msg_unknown_nested : nlmsghdr :=
  ct_msg 2
    (nla_put false CTA_TUPLE_ORIG
        (nla_put false CTA_TUPLE_IP
            (nla_put false CTA_IP_V4_SRC [10, 0, 0, 1] ++ nla_put false CTA_IP_V4_DST [8, 8, 8, 8])
          ++ nla_put false CTA_TUPLE_PROTO
              (nla_put false CTA_PROTO_NUM [17] ++ nla_put false 10 [9, 9, 9, 9, 9]
                ++ nla_put false CTA_PROTO_SRC_PORT [3, 232]
                ++ nla_put false CTA_PROTO_DST_PORT [0, 53]))
      ++ tuple_put false CTA_TUPLE_REPLY CTA_IP_V4_SRC CTA_IP_V4_DST [8, 8, 8, 8] [10, 0, 0, 1]
          17 [0, 53] [3, 232]
      ++ counters_put false CTA_COUNTERS_ORIG [0, 0, 0, 0, 0, 0, 0, 42] [0, 0, 0, 0, 0, 0, 12, 128]
      ++ counters_put false CTA_COUNTERS_REPLY [0, 0, 0, 0, 0, 0, 0, 41]
          [0, 0, 0, 0, 0, 0, 234, 96])

/-! ## Malformed attributes -/

instance (c : parse_ctx) (a : nlattr) : Decidable (c.info.wrong_shape a) := by
  cases c <;> simp only [parse_ctx.info] <;> exact inferInstance

/-- A list of attributes parsed in context `c` holds an attribute of a known
type (at most the MAX of the context) with a payload of the wrong shape. -/
def has_wrong_shape (c : parse_ctx) (l : List nlattr) : Prop :=
  ∃ a ∈ l, mnl_attr_get_type a ≤ c.info.max ∧ c.info.wrong_shape a

instance (c : parse_ctx) (l : List nlattr) : Decidable (has_wrong_shape c l) := by
  unfold has_wrong_shape
  exact inferInstance

/-- The table that parsing the payload of `nest` in context `c` leaves. -/
def nest_tb (be : Bool) (c : parse_ctx) (nest : nlattr) : attr_tb :=
  (mnl_attr_parse_nested be nest c.info.cb (tb_zero c.info.max)).2

/-- The table that parsing the top-level attributes of a message leaves. -/
def msg_tb (be : Bool) (nlh : nlmsghdr) : attr_tb :=
  (mnl_attr_parse be nlh 4 data_attr_cb (tb_zero CTA_MAX)).2

/-- Scenario S1 with a three-byte `CTA_PROTO_SRC_PORT` in the ORIG tuple. -/
def msg_bad_port : nlmsghdr :=
  ct_msg 2
    (nla_put false CTA_TUPLE_ORIG
        (nla_put false CTA_TUPLE_IP
            (nla_put false CTA_IP_V4_SRC [10, 0, 0, 1] ++ nla_put false CTA_IP_V4_DST [8, 8, 8, 8])
          ++ nla_put false CTA_TUPLE_PROTO
              (nla_put false CTA_PROTO_NUM [17] ++ nla_put false CTA_PROTO_SRC_PORT [3, 232, 0]
                ++ nla_put false CTA_PROTO_DST_PORT [0, 53]))
      ++ tuple_put false CTA_TUPLE_REPLY CTA_IP_V4_SRC CTA_IP_V4_DST [8, 8, 8, 8] [10, 0, 0, 1]
          17 [0, 53] [3, 232]
      ++ counters_put false CTA_COUNTERS_ORIG [0, 0, 0, 0, 0, 0, 0, 42] [0, 0, 0, 0, 0, 0, 12, 128]
      ++ counters_put false CTA_COUNTERS_REPLY [0, 0, 0, 0, 0, 0, 0, 41]
          [0, 0, 0, 0, 0, 0, 234, 96])

/-- A dump of one datagram: the entry with the malformed ORIG port, the UDP
entry of scenario S1, then `NLMSG_DONE`. -/
def sweep_bad_port_udp : nl_env :=
  nl_answers [some [(heap_ok, msg_bad_port), (heap_ok, msg_udp), (heap_ok, msg_done)]]

/-- The payload of the attribute of type `t` that `get_tuple` finds in the
`CTA_TUPLE_PROTO` nest of a tuple: the bytes of a port as received. -/
def tuple_port (be : Bool) (nest : nlattr) (t : Nat) : Option (List u8) :=
  match tb_get (nest_tb be .tuple nest) CTA_TUPLE_PROTO with
  | some proto => (tb_get (nest_tb be .proto proto) t).map (fun a => a.payload)
  | none => none

/-- The ports of the flow `f` are those of the tuple `nest` as received: when
the tuple carries `CTA_PROTO_SRC_PORT`, its payload is two bytes, these are
the two bytes of the 16-bit field `src_port` in memory, and the field is their
host-order value; likewise for `CTA_PROTO_DST_PORT` and `dst_port`. -/
def ports_as_received (be : Bool) (nest : nlattr) (f : ct_flow_t) : Prop :=
  (∀ sp, tuple_port be nest CTA_PROTO_SRC_PORT = some sp →
    sp.length = 2 ∧ put_u16 be f.layer3_info.src_port = sp
      ∧ f.layer3_info.src_port = host_load be sp)
  ∧ (∀ dp, tuple_port be nest CTA_PROTO_DST_PORT = some dp →
    dp.length = 2 ∧ put_u16 be f.layer3_info.dst_port = dp
      ∧ f.layer3_info.dst_port = host_load be dp)

/-! ## Order of the pending list -/

/-- The samples of one message: what `data_cb` links for it when the pending
list is empty and the configured zone is `zone`. -/
def msg_samples (be : Bool) (heap : calloc_results) (zone : Nat) (nlh : nlmsghdr) :
    List ct_flow_t :=
  (data_cb be heap (ct_stats_init zone) nlh).ct_stats.ctflow_list

/-! ## The configured zone -/

/-- The zone the host configuration asks for: the value `atoi` reads from the
`ct_zone` entry, held in 16 bits; 0 when there is no such entry. -/
def configured_zone (collector : fcm_collect_plugin_t) : Nat :=
  match collector.ct_zone with
  | some z => to_u16 (atoi z)
  | none => 0

/-- The aggregator calls of a report, in order, for a collector that holds an
aggregator: close the window, count the flows, send the report (or reset the
aggregator when it holds no flow), activate a window. -/
def report_aggr_calls (env : report_env) (topic : String) : List report_call :=
  [.net_md_close_active_window, .net_md_get_total_flows,
   if env.net_md_get_total_flows = 0 then .net_md_reset_aggregator else .send_report topic,
   .net_md_activate_window]

/-- A host collector that holds aggregator 1 and is configured with zone 7. -/
def collector_zone7 : fcm_collect_plugin_t :=
  { mqtt_topic := some "ct_stats", filters_collect := none, fmt := FCM_RPT_FMT_CUMUL,
    report_interval := 60, loop := some 1, plugin_ctx := some 1, ct_zone := some "7" }

/-- An aggregator that holds three flows and answers every call with success. -/
def renv_ok : report_env :=
  { net_md_close_active_window := true, net_md_get_total_flows := 3, send_report := true,
    net_md_activate_window := true }

/-! ## Messages and sweeps for the resource paths -/

/-- Scenario S1 without its `CTA_TUPLE_ORIG` attribute. -/
def msg_no_orig : nlmsghdr :=
  ct_msg 2
    (tuple_put false CTA_TUPLE_REPLY CTA_IP_V4_SRC CTA_IP_V4_DST [8, 8, 8, 8] [10, 0, 0, 1]
        17 [0, 53] [3, 232]
      ++ counters_put false CTA_COUNTERS_ORIG [0, 0, 0, 0, 0, 0, 0, 42] [0, 0, 0, 0, 0, 0, 12, 128]
      ++ counters_put false CTA_COUNTERS_REPLY [0, 0, 0, 0, 0, 0, 0, 41]
          [0, 0, 0, 0, 0, 0, 234, 96])

/-- Scenario S1 without its `CTA_TUPLE_REPLY` attribute. -/
def msg_no_reply : nlmsghdr :=
  ct_msg 2
    (tuple_put false CTA_TUPLE_ORIG CTA_IP_V4_SRC CTA_IP_V4_DST [10, 0, 0, 1] [8, 8, 8, 8]
        17 [3, 232] [0, 53]
      ++ counters_put false CTA_COUNTERS_ORIG [0, 0, 0, 0, 0, 0, 0, 42] [0, 0, 0, 0, 0, 0, 12, 128]
      ++ counters_put false CTA_COUNTERS_REPLY [0, 0, 0, 0, 0, 0, 0, 41]
          [0, 0, 0, 0, 0, 0, 234, 96])

/-- A sweep whose `mnl_socket_bind` fails. -/
def sweep_bind_fail : nl_env :=
  { socket_open := true, socket_bind := false, socket_sendto := true, seq := 1, portid := 1,
    recvfrom := [] }

/-- A sweep whose `mnl_socket_sendto` fails. -/
def sweep_send_fail : nl_env :=
  { socket_open := true, socket_bind := true, socket_sendto := false, seq := 1, portid := 1,
    recvfrom := [] }

/-! ## The shape table in the words of the specification -/

/-- The expected shapes named by the shape table. -/
inductive attr_shape
  | nested
  | u8
  | u16
  | u32
  | u64
  | binary16
  deriving DecidableEq, Repr

/-- The shape table as the specification words it, row by row: the shape it
expects for the attribute type `t` in context `c`, `none` for a pair it does
not list. -/
def spec_shape : parse_ctx → Nat → Option attr_shape
  | .top, t =>
    if t = CTA_TUPLE_ORIG ∨ t = CTA_TUPLE_REPLY ∨ t = CTA_COUNTERS_ORIG
        ∨ t = CTA_COUNTERS_REPLY ∨ t = CTA_PROTOINFO then some .nested
    else if t = CTA_TIMEOUT ∨ t = CTA_MARK ∨ t = CTA_SECMARK then some .u32
    else if t = CTA_ZONE then some .u16
    else none
  | .tuple, t =>
    if t = CTA_TUPLE_IP ∨ t = CTA_TUPLE_PROTO then some .nested
    else if t = CTA_TUPLE_ZONE then some .u16
    else none
  | .ip, t =>
    if t = CTA_IP_V4_SRC ∨ t = CTA_IP_V4_DST then some .u32
    else if t = CTA_IP_V6_SRC ∨ t = CTA_IP_V6_DST then some .binary16
    else none
  | .proto, t =>
    if t = CTA_PROTO_NUM ∨ t = CTA_PROTO_ICMP_TYPE ∨ t = CTA_PROTO_ICMP_CODE then some .u8
    else if t = CTA_PROTO_SRC_PORT ∨ t = CTA_PROTO_DST_PORT ∨ t = CTA_PROTO_ICMP_ID then
      some .u16
    else none
  | .protoinfo, t => if t = CTA_PROTOINFO_TCP then some .nested else none
  | .tcp, t => if t = CTA_PROTOINFO_TCP_STATE then some .u8 else none
  | .counters, t =>
    if t = CTA_COUNTERS_PACKETS ∨ t = CTA_COUNTERS_BYTES then some .u64
    else if t = CTA_COUNTERS32_PACKETS ∨ t = CTA_COUNTERS32_BYTES then some .u32
    else none

/-- A payload has the expected shape: exactly 1, 2, 4 or 8 bytes for the
integers, exactly 16 bytes for an IPv6 address, and for a nest an empty payload
or at least one attribute header. -/
def shape_ok : attr_shape → nlattr → Prop
  | .nested, a => a.payload.length = 0 ∨ MNL_ATTR_HDRLEN ≤ a.payload.length
  | .u8, a => a.payload.length = 1
  | .u16, a => a.payload.length = 2
  | .u32, a => a.payload.length = 4
  | .u64, a => a.payload.length = 8
  | .binary16, a => a.payload.length = 16

instance (sh : attr_shape) (a : nlattr) : Decidable (shape_ok sh a) := by
  cases sh <;> simp only [shape_ok] <;> exact inferInstance

/-- Scenario S1 with a `CTA_TUPLE_REPLY` attribute of two stray bytes, which is
not a nest. -/
def msg_reply_stray : nlmsghdr :=
  ct_msg 2
    (tuple_put false CTA_TUPLE_ORIG CTA_IP_V4_SRC CTA_IP_V4_DST [10, 0, 0, 1] [8, 8, 8, 8]
        17 [3, 232] [0, 53]
      ++ nla_put false CTA_TUPLE_REPLY [1, 2]
      ++ counters_put false CTA_COUNTERS_ORIG [0, 0, 0, 0, 0, 0, 0, 42] [0, 0, 0, 0, 0, 0, 12, 128]
      ++ counters_put false CTA_COUNTERS_REPLY [0, 0, 0, 0, 0, 0, 0, 41]
          [0, 0, 0, 0, 0, 0, 234, 96])

/-- Scenario S1 with a `CTA_TUPLE_ORIG` attribute of two stray bytes. -/
def msg_orig_stray : nlmsghdr :=
  ct_msg 2
    (nla_put false CTA_TUPLE_ORIG [1, 2]
      ++ tuple_put false CTA_TUPLE_REPLY CTA_IP_V4_SRC CTA_IP_V4_DST [8, 8, 8, 8] [10, 0, 0, 1]
          17 [0, 53] [3, 232]
      ++ counters_put false CTA_COUNTERS_ORIG [0, 0, 0, 0, 0, 0, 0, 42] [0, 0, 0, 0, 0, 0, 12, 128]
      ++ counters_put false CTA_COUNTERS_REPLY [0, 0, 0, 0, 0, 0, 0, 41]
          [0, 0, 0, 0, 0, 0, 234, 96])

/-- The sample a zeroed node holds once REPLY counters of 41 packets and 60000
bytes are stored in it: no address, no protocol, no port. -/
def empty_rev : ct_flow_t :=
  { ct_flow_zero with pkt_info := { pkt_cnt := 41, bytes := 60000 } }

/-! ## The view handed to the filter engine -/

/-- The record `filter` that `apply_filter` fills before it calls the filter
engine: the two numeric host strings, the ports through `ntohs`, the protocol
and the field `family_type` of the flow. -/
def filter_view (env : flush_env) (be : Bool) (flow : ct_flow_t) : fcm_filter_l3_info_t :=
  { src_ip := (env.getnameinfo flow.layer3_info.src_ip).2,
    dst_ip := (env.getnameinfo flow.layer3_info.dst_ip).2,
    sport := ntohs be flow.layer3_info.src_port,
    dport := ntohs be flow.layer3_info.dst_port,
    l4_proto := flow.layer3_info.proto_type,
    ip_type := flow.layer3_info.family_type }

/-- The record `pkt` that `apply_filter` fills: the counters of the flow. -/
def filter_pkt (flow : ct_flow_t) : fcm_filter_stats_t :=
  { pkt_cnt := flow.pkt_info.pkt_cnt, bytes := flow.pkt_info.bytes }

/-- A flush environment in which `getnameinfo` fails with `EAI_FAMILY` (-6) on
an address of family 0 and succeeds otherwise, no neighbour is known, the filter
engine accepts every flow and the aggregator every submission. -/
def fenv_names : flush_env :=
  { neigh_table_lookup := fun _ => none,
    getnameinfo := fun sa =>
      if sa.ss_family = AF_INET ∨ sa.ss_family = AF_INET6 then (0, "numeric-host")
      else (-6, ""),
    fcm_filter_7tuple_apply := fun _ _ _ _ => true,
    net_md_add_sample := fun _ _ _ => true }

/-- A flush environment in which the neighbour table knows the MAC
`02:00:00:00:00:01` of address 10.0.0.1 and no other, the filter engine accepts
every flow and the aggregator every submission. -/
def fenv_neigh : flush_env :=
  { neigh_table_lookup := fun sa =>
      if sa = ⟨AF_INET, [10, 0, 0, 1]⟩ then some ⟨[2, 0, 0, 0, 0, 1]⟩ else none,
    getnameinfo := fun _ => (0, "numeric-host"),
    fcm_filter_7tuple_apply := fun _ _ _ _ => true,
    net_md_add_sample := fun _ _ _ => true }

/-- An address of family IPv4 holding four bytes. -/
def is_v4 (sa : sockaddr_storage) : Prop := sa.ss_family = AF_INET ∧ sa.addr.length = 4

/-- An address of family IPv6 holding sixteen bytes. -/
def is_v6 (sa : sockaddr_storage) : Prop := sa.ss_family = AF_INET6 ∧ sa.addr.length = 16

instance (sa : sockaddr_storage) : Decidable (is_v4 sa) := by
  unfold is_v4
  exact inferInstance

instance (sa : sockaddr_storage) : Decidable (is_v6 sa) := by
  unfold is_v6
  exact inferInstance

/-! ## Addresses of the samples -/

/-- An address populated from a tuple: family IPv4 with four bytes or family
IPv6 with sixteen bytes. -/
def addr_populated (sa : sockaddr_storage) : Prop := is_v4 sa ∨ is_v6 sa

instance (sa : sockaddr_storage) : Decidable (addr_populated sa) := by
  unfold addr_populated
  exact inferInstance

/-- The tuple `nest` carries an address where `get_tuple` looks for it: its
`CTA_TUPLE_IP` nest holds the IPv4 attribute `t4` or the IPv6 attribute `t6`. -/
def tuple_carries (be : Bool) (nest : nlattr) (t4 t6 : Nat) : Prop :=
  ∃ ip, tb_get (nest_tb be .tuple nest) CTA_TUPLE_IP = some ip
    ∧ (tb_get (nest_tb be .ip ip) t4 ≠ none ∨ tb_get (nest_tb be .ip ip) t6 ≠ none)

/-- Scenario S1 whose REPLY tuple holds its protocol nest but no `CTA_TUPLE_IP`
nest: every attribute of the message is well formed. -/
def msg_reply_no_ip : nlmsghdr :=
  ct_msg 2
    (tuple_put false CTA_TUPLE_ORIG CTA_IP_V4_SRC CTA_IP_V4_DST [10, 0, 0, 1] [8, 8, 8, 8]
        17 [3, 232] [0, 53]
      ++ nla_put false CTA_TUPLE_REPLY
          (nla_put false CTA_TUPLE_PROTO
            (nla_put false CTA_PROTO_NUM [17] ++ nla_put false CTA_PROTO_SRC_PORT [0, 53]
              ++ nla_put false CTA_PROTO_DST_PORT [3, 232]))
      ++ counters_put false CTA_COUNTERS_ORIG [0, 0, 0, 0, 0, 0, 0, 42] [0, 0, 0, 0, 0, 0, 12, 128]
      ++ counters_put false CTA_COUNTERS_REPLY [0, 0, 0, 0, 0, 0, 0, 41]
          [0, 0, 0, 0, 0, 0, 234, 96])

/-- The reverse sample of scenario S1 without its addresses. -/
def rev_no_ip : ct_flow_t :=
  { udp_rev with layer3_info.src_ip := sockaddr_zero, layer3_info.dst_ip := sockaddr_zero }

/-- A UDP entry whose tuples pair an IPv6 source with an IPv4 destination: ORIG
goes from `::1` to 8.8.8.8, the REPLY comes from `::2` back to 10.0.0.1. -/
def msg_v6_to_v4 : nlmsghdr :=
  msg_flow false 10 CTA_IP_V6_SRC CTA_IP_V4_DST (v6_addr 1) [8, 8, 8, 8] (v6_addr 2) [10, 0, 0, 1]
    17 []

/-- The decimal value of a configuration entry, in the words of the
specification: the number a non-empty string of decimal digits denotes, and
nothing for any other string. -/
def decimal_value (s : String) : Option Nat :=
  match s.toList with
  | [] => none
  | cs =>
    if cs.all Char.isDigit then some (cs.foldl (fun acc c => acc * 10 + (c.toNat - 48)) 0)
    else none

/-- The host collector of `collector_zone7` configured with the entry `z` for
`ct_zone`. -/
def collector_zone (z : String) : fcm_collect_plugin_t :=
  { collector_zone7 with ct_zone := some z }

/-! # Theorems -/

/-! ## The attribute walk never runs out of fuel -/

theorem mnl_attr_walk_fuel (be : Bool) :
    ∀ (n m : Nat) (buf : List u8), buf.length ≤ n → buf.length ≤ m →
      mnl_attr_walk be n buf = mnl_attr_walk be m buf := by
  intro n
  induction n with
  | zero =>
    intro m buf hn _
    cases m with
    | zero => rfl
    | succ m =>
      have : ¬ (MNL_ATTR_HDRLEN ≤ buf.length) := by unfold MNL_ATTR_HDRLEN; omega
      simp [mnl_attr_walk, this]
  | succ n ih =>
    intro m buf hn hm
    cases m with
    | zero =>
      have : ¬ (MNL_ATTR_HDRLEN ≤ buf.length) := by unfold MNL_ATTR_HDRLEN; omega
      simp [mnl_attr_walk, this]
    | succ m =>
      simp only [mnl_attr_walk]
      split
      · next hc =>
        have h4 : 4 ≤ host_load be (List.take 2 buf) := hc.2.1
        have hal : 4 ≤ MNL_ALIGN (host_load be (List.take 2 buf)) := by
          unfold MNL_ALIGN; omega
        rw [ih m (buf.drop (MNL_ALIGN (host_load be (List.take 2 buf))))
          (by rw [List.length_drop]; omega) (by rw [List.length_drop]; omega)]
      · rfl

/-! ## Byte order, attribute tables -/

theorem tb_get_tb_set (tb : attr_tb) (i j : Nat) (a : nlattr) :
    tb_get (tb_set tb i a) j = if i = j ∧ i < tb.length then some a else tb_get tb j := by
  unfold tb_get tb_set
  simp only [List.getD_eq_getElem?_getD, List.getElem?_set]
  by_cases hij : i = j
  · subst hij
    by_cases hlt : i < tb.length
    · simp [hlt]
    · have : tb[i]? = none := List.getElem?_eq_none (by omega)
      simp [hlt, this]
  · simp [hij]

theorem tb_zero_get (max i : Nat) : tb_get (tb_zero max) i = none := by
  unfold tb_get tb_zero
  simp only [List.getD_eq_getElem?_getD, List.getElem?_replicate]
  split <;> rfl

theorem ntohs_host_load (be : Bool) (p : List u8) (h : p.length = 2) :
    ntohs be (host_load be p) = load_be p := by
  match p, h with
  | [x, y], _ =>
    have hx := x.isLt
    have hy := y.isLt
    cases be
    · simp [ntohs, host_load, load_be, load_le, bswap16]; omega
    · simp [ntohs, host_load, load_be]

theorem ntohl_host_load (be : Bool) (p : List u8) (h : p.length = 4) :
    ntohl be (host_load be p) = load_be p := by
  match p, h with
  | [x, y, z, w], _ =>
    have hx := x.isLt
    have hy := y.isLt
    have hz := z.isLt
    have hw := w.isLt
    cases be
    · simp only [ntohl, host_load, load_be, load_le, bswap32, Bool.false_eq_true, if_false,
        List.foldl_cons, List.foldl_nil]
      generalize hv : x.val + 256 * (y.val + 256 * (z.val + 256 * (w.val + 256 * 0))) = v
      have e0 : v % 256 = x.val := by omega
      have e1 : v / 256 % 256 = y.val := by omega
      have e2 : v / 256 ^ 2 % 256 = z.val := by omega
      have e3 : v / 256 ^ 3 % 256 = w.val := by omega
      rw [e0, e1, e2, e3]
      omega
    · simp [ntohl, host_load, load_be]

theorem load_le_div_pow (k : Nat) : ∀ (bs : List u8), load_le bs / 256 ^ k = load_le (bs.drop k) := by
  induction k with
  | zero => intro bs; simp
  | succ k ih =>
    intro bs
    cases bs with
    | nil => simp [load_le]
    | cons b bs =>
      have hb := b.isLt
      have h1 : load_le (b :: bs) / 256 = load_le bs := by
        simp only [load_le]; omega
      rw [pow_succ', ← Nat.div_div_eq_div_mul, h1, ih]
      simp

theorem load_le_mod (bs : List u8) : load_le bs % 256 = load_le (bs.take 1) := by
  cases bs with
  | nil => simp [load_le]
  | cons b bs =>
    have hb := b.isLt
    simp only [load_le, List.take_succ_cons, List.take_zero]
    omega

theorem be64toh_host_load (be : Bool) (p : List u8) (h : p.length = 8) :
    be64toh be (host_load be p) = load_be p := by
  match p, h with
  | [b0, b1, b2, b3, b4, b5, b6, b7], _ =>
    cases be
    · have hd := fun k => load_le_div_pow k [b0, b1, b2, b3, b4, b5, b6, b7]
      have h1 := hd 1
      rw [pow_one] at h1
      simp only [be64toh, host_load, bswap64, Bool.false_eq_true, if_false, hd, h1, load_le_mod]
      simp only [List.drop_succ_cons, List.drop_zero, List.take_succ_cons, List.take_zero,
        load_be, load_le, List.foldl_cons, List.foldl_nil]
      ring
    · simp [be64toh, host_load, load_be]

theorem mnl_attr_loop_inv (cb : mnl_attr_cb_t) (P : attr_tb → Prop)
    (hcb : ∀ attr tb, P tb → P (cb attr tb).2) :
    ∀ (attrs : List nlattr) (ret : Int) (tb : attr_tb), P tb → P (mnl_attr_loop cb attrs ret tb).2 := by
  intro attrs
  induction attrs with
  | nil => intro ret tb h; simpa [mnl_attr_loop] using h
  | cons a rest ih =>
    intro ret tb h
    simp only [mnl_attr_loop]
    split
    · exact hcb a tb h
    · exact ih _ _ (hcb a tb h)

/-! ## Frame lemmas: what each decoder leaves untouched -/

theorem get_counter_frame (be : Bool) (nest : nlattr) (flow : ct_flow_t) :
    (get_counter be nest flow).2.layer3_info = flow.layer3_info
    ∧ (get_counter be nest flow).2.start = flow.start
    ∧ (get_counter be nest flow).2.end_ = flow.end_
    ∧ (get_counter be nest flow).2.ct_zone = flow.ct_zone := by
  unfold get_counter
  simp only
  split
  · simp
  · refine ⟨?_, ?_, ?_, ?_⟩ <;> (repeat' split) <;> rfl

theorem get_protoinfo_state_frame (state : Nat) (flow : ct_flow_t) :
    (get_protoinfo_state state flow).layer3_info = flow.layer3_info
    ∧ (get_protoinfo_state state flow).pkt_info = flow.pkt_info
    ∧ (get_protoinfo_state state flow).ct_zone = flow.ct_zone := by
  unfold get_protoinfo_state
  split_ifs <;> simp

theorem get_protoinfo_frame (be : Bool) (nest : nlattr) (flow : ct_flow_t) :
    (get_protoinfo be nest flow).2.layer3_info = flow.layer3_info
    ∧ (get_protoinfo be nest flow).2.pkt_info = flow.pkt_info
    ∧ (get_protoinfo be nest flow).2.ct_zone = flow.ct_zone := by
  unfold get_protoinfo
  simp only
  split
  · simp
  · split
    · simp
    · split
      · simp
      · split
        · simp
        · exact get_protoinfo_state_frame _ _

theorem get_tuple_ip_frame (be : Bool) (ip : nlattr) (flow : ct_flow_t) :
    (get_tuple_ip be ip flow).2.start = flow.start
    ∧ (get_tuple_ip be ip flow).2.end_ = flow.end_
    ∧ (get_tuple_ip be ip flow).2.pkt_info = flow.pkt_info := by
  unfold get_tuple_ip
  simp only
  split
  · simp
  · refine ⟨?_, ?_, ?_⟩ <;> (repeat' split) <;> rfl

theorem get_tuple_proto_frame (be : Bool) (proto : nlattr) (flow : ct_flow_t) :
    (get_tuple_proto be proto flow).2.start = flow.start
    ∧ (get_tuple_proto be proto flow).2.end_ = flow.end_
    ∧ (get_tuple_proto be proto flow).2.pkt_info = flow.pkt_info := by
  unfold get_tuple_proto
  simp only
  split
  · simp
  · refine ⟨?_, ?_, ?_⟩ <;> (repeat' split) <;> rfl

theorem get_tuple_frame (be : Bool) (nest : nlattr) (flow : ct_flow_t) :
    (get_tuple be nest flow).2.start = flow.start
    ∧ (get_tuple be nest flow).2.end_ = flow.end_
    ∧ (get_tuple be nest flow).2.pkt_info = flow.pkt_info := by
  have hip : ∀ (o : Option nlattr),
      (match o with
        | some ip => get_tuple_ip be ip flow
        | none => (MNL_CB_OK, flow)).2.start = flow.start
      ∧ (match o with
        | some ip => get_tuple_ip be ip flow
        | none => (MNL_CB_OK, flow)).2.end_ = flow.end_
      ∧ (match o with
        | some ip => get_tuple_ip be ip flow
        | none => (MNL_CB_OK, flow)).2.pkt_info = flow.pkt_info := by
    intro o
    cases o with
    | none => simp
    | some ip => exact get_tuple_ip_frame be ip flow
  have hpr : ∀ (o : Option nlattr) (f : ct_flow_t),
      (match o with
        | some p => get_tuple_proto be p f
        | none => (MNL_CB_OK, f)).2.start = f.start
      ∧ (match o with
        | some p => get_tuple_proto be p f
        | none => (MNL_CB_OK, f)).2.end_ = f.end_
      ∧ (match o with
        | some p => get_tuple_proto be p f
        | none => (MNL_CB_OK, f)).2.pkt_info = f.pkt_info := by
    intro o f
    cases o with
    | none => simp
    | some p => exact get_tuple_proto_frame be p f
  obtain ⟨h1, h2, h3⟩ := hip (tb_get (mnl_attr_parse_nested be nest parse_tuple_cb
    (tb_zero CTA_TUPLE_MAX)).2 CTA_TUPLE_IP)
  obtain ⟨g1, g2, g3⟩ := hpr (tb_get (mnl_attr_parse_nested be nest parse_tuple_cb
    (tb_zero CTA_TUPLE_MAX)).2 CTA_TUPLE_PROTO)
    (match tb_get (mnl_attr_parse_nested be nest parse_tuple_cb
      (tb_zero CTA_TUPLE_MAX)).2 CTA_TUPLE_IP with
      | some ip => get_tuple_ip be ip flow
      | none => (MNL_CB_OK, flow)).2
  unfold get_tuple
  simp only
  split
  · simp
  · split
    · exact ⟨h1, h2, h3⟩
    · split
      · exact ⟨g1.trans h1, g2.trans h2, g3.trans h3⟩
      · split <;> exact ⟨g1.trans h1, g2.trans h2, g3.trans h3⟩

/-! ## What validation guarantees about the attributes kept in a table -/

theorem mnl_attr_validate_fixed (a : nlattr) (t : mnl_attr_data_type)
    (ht : mnl_attr_data_type_len t ≠ 0) :
    mnl_attr_validate a t < 0 ↔ a.payload.length ≠ mnl_attr_data_type_len t := by
  unfold mnl_attr_validate mnl_attr_validate_len mnl_attr_get_payload_len MNL_ATTR_HDRLEN
  generalize a.payload.length = n
  cases t <;> simp [mnl_attr_data_type_len] at ht ⊢ <;> split_ifs <;> simp <;> omega

theorem mnl_attr_validate2_binary (a : nlattr) (n : Nat) (hn : n ≠ 0) :
    mnl_attr_validate2 a MNL_TYPE_BINARY n < 0 ↔ a.payload.length ≠ n := by
  unfold mnl_attr_validate2 mnl_attr_validate_len mnl_attr_get_payload_len
  generalize a.payload.length = m
  simp only [reduceCtorEq, false_and, if_false]
  split_ifs <;> simp <;> omega

theorem mnl_attr_validate_nested (a : nlattr) :
    mnl_attr_validate a MNL_TYPE_NESTED < 0
      ↔ (a.payload.length ≠ 0 ∧ a.payload.length < MNL_ATTR_HDRLEN) := by
  unfold mnl_attr_validate mnl_attr_validate_len mnl_attr_get_payload_len MNL_ATTR_HDRLEN
  generalize a.payload.length = n
  simp only [mnl_attr_data_type_len, true_and, not_lt_zero', if_false, ne_eq, not_true_eq_false,
    false_and]
  split_ifs <;> simp <;> omega

theorem mnl_attr_type_valid_neg (a : nlattr) (max : Nat) :
    mnl_attr_type_valid a max < 0 ↔ max < mnl_attr_get_type a := by
  unfold mnl_attr_type_valid
  split_ifs <;> simp <;> omega

theorem parse_counters_cb_inv (attr : nlattr) (tb : attr_tb) (h : counters_tb_ok tb) :
    counters_tb_ok (parse_counters_cb attr tb).2 := by
  unfold parse_counters_cb
  simp only
  split
  · exact h
  · split
    · exact h
    · split
      · exact h
      · rename_i h1 h2 h3
        rw [mnl_attr_validate_fixed _ _ (by decide)] at h2 h3
        simp only [mnl_attr_data_type_len] at h2 h3
        obtain ⟨p1, p2, p3, p4⟩ := h
        refine ⟨?_, ?_, ?_, ?_⟩ <;> intro a <;> rw [tb_get_tb_set] <;> split
        · next hc =>
          intro ha
          simp only [Option.some.injEq] at ha
          subst ha
          by_contra hne
          exact h2 ⟨Or.inl hc.1, hne⟩
        · apply p1
        · next hc =>
          intro ha
          simp only [Option.some.injEq] at ha
          subst ha
          by_contra hne
          exact h2 ⟨Or.inr hc.1, hne⟩
        · apply p2
        · next hc =>
          intro ha
          simp only [Option.some.injEq] at ha
          subst ha
          by_contra hne
          exact h3 ⟨Or.inl hc.1, hne⟩
        · apply p3
        · next hc =>
          intro ha
          simp only [Option.some.injEq] at ha
          subst ha
          by_contra hne
          exact h3 ⟨Or.inr hc.1, hne⟩
        · apply p4

theorem counters_tb_ok_parse (be : Bool) (nest : nlattr) :
    counters_tb_ok (mnl_attr_parse_nested be nest parse_counters_cb
      (tb_zero CTA_COUNTERS_MAX)).2 := by
  unfold mnl_attr_parse_nested
  apply mnl_attr_loop_inv parse_counters_cb counters_tb_ok parse_counters_cb_inv
  refine ⟨?_, ?_, ?_, ?_⟩ <;> intro a <;> rw [tb_zero_get] <;> intro h <;> cases h

theorem get_counter_eq (be : Bool) (nest : nlattr) (flow : ct_flow_t)
    (hrc : 0 ≤ (mnl_attr_parse_nested be nest parse_counters_cb (tb_zero CTA_COUNTERS_MAX)).1) :
    get_counter be nest flow
      = (MNL_CB_OK, { flow with pkt_info := counters_decoded be nest flow.pkt_info }) := by
  obtain ⟨p1, p2, p3, p4⟩ := counters_tb_ok_parse be nest
  unfold get_counter counters_decoded counter_value
  simp only [if_neg (not_lt.mpr hrc)]
  generalize (mnl_attr_parse_nested be nest parse_counters_cb (tb_zero CTA_COUNTERS_MAX)).2 = tb
    at p1 p2 p3 p4 ⊢
  rcases h1 : tb_get tb CTA_COUNTERS_PACKETS with _ | a1 <;>
  rcases h2 : tb_get tb CTA_COUNTERS_BYTES with _ | a2 <;>
  rcases h3 : tb_get tb CTA_COUNTERS32_PACKETS with _ | a3 <;>
  rcases h4 : tb_get tb CTA_COUNTERS32_BYTES with _ | a4 <;>
  simp only [mnl_attr_get_u32, mnl_attr_get_u64] <;>
  (try rw [List.take_of_length_le (le_of_eq (p1 _ h1)), be64toh_host_load _ _ (p1 _ h1)]) <;>
  (try rw [List.take_of_length_le (le_of_eq (p2 _ h2)), be64toh_host_load _ _ (p2 _ h2)]) <;>
  (try rw [List.take_of_length_le (le_of_eq (p3 _ h3)), ntohl_host_load _ _ (p3 _ h3)]) <;>
  (try rw [List.take_of_length_le (le_of_eq (p4 _ h4)), ntohl_host_load _ _ (p4 _ h4)])

/-! ## Counters (`get_counter`) -/

/-- C10: when the counters attribute parses, `get_counter` succeeds and stores,
on a host of either byte order, the big-endian value of the eight payload bytes
of `CTA_COUNTERS_PACKETS` in `pkt_cnt` and of `CTA_COUNTERS_BYTES` in `bytes`,
whether or not a 32-bit fallback is also present; when the 64-bit attribute is
absent it stores the big-endian value of the four payload bytes of the
`COUNTERS32` attribute. -/
theorem get_counter_big_endian (be : Bool) (nest : nlattr) (flow : ct_flow_t)
    (hrc : 0 ≤ (mnl_attr_parse_nested be nest parse_counters_cb (tb_zero CTA_COUNTERS_MAX)).1) :
    (get_counter be nest flow).1 = MNL_CB_OK
    ∧ (∀ (a : nlattr) (b0 b1 b2 b3 b4 b5 b6 b7 : u8),
        tb_get (mnl_attr_parse_nested be nest parse_counters_cb (tb_zero CTA_COUNTERS_MAX)).2
          CTA_COUNTERS_PACKETS = some a →
        a.payload = [b0, b1, b2, b3, b4, b5, b6, b7] →
        (get_counter be nest flow).2.pkt_info.pkt_cnt
          = b0.val * 256 ^ 7 + b1.val * 256 ^ 6 + b2.val * 256 ^ 5 + b3.val * 256 ^ 4
            + b4.val * 256 ^ 3 + b5.val * 256 ^ 2 + b6.val * 256 + b7.val)
    ∧ (∀ (a : nlattr) (b0 b1 b2 b3 b4 b5 b6 b7 : u8),
        tb_get (mnl_attr_parse_nested be nest parse_counters_cb (tb_zero CTA_COUNTERS_MAX)).2
          CTA_COUNTERS_BYTES = some a →
        a.payload = [b0, b1, b2, b3, b4, b5, b6, b7] →
        (get_counter be nest flow).2.pkt_info.bytes
          = b0.val * 256 ^ 7 + b1.val * 256 ^ 6 + b2.val * 256 ^ 5 + b3.val * 256 ^ 4
            + b4.val * 256 ^ 3 + b5.val * 256 ^ 2 + b6.val * 256 + b7.val)
    ∧ (∀ (a : nlattr) (c0 c1 c2 c3 : u8),
        tb_get (mnl_attr_parse_nested be nest parse_counters_cb (tb_zero CTA_COUNTERS_MAX)).2
          CTA_COUNTERS_PACKETS = none →
        tb_get (mnl_attr_parse_nested be nest parse_counters_cb (tb_zero CTA_COUNTERS_MAX)).2
          CTA_COUNTERS32_PACKETS = some a →
        a.payload = [c0, c1, c2, c3] →
        (get_counter be nest flow).2.pkt_info.pkt_cnt
          = c0.val * 256 ^ 3 + c1.val * 256 ^ 2 + c2.val * 256 + c3.val)
    ∧ (∀ (a : nlattr) (c0 c1 c2 c3 : u8),
        tb_get (mnl_attr_parse_nested be nest parse_counters_cb (tb_zero CTA_COUNTERS_MAX)).2
          CTA_COUNTERS_BYTES = none →
        tb_get (mnl_attr_parse_nested be nest parse_counters_cb (tb_zero CTA_COUNTERS_MAX)).2
          CTA_COUNTERS32_BYTES = some a →
        a.payload = [c0, c1, c2, c3] →
        (get_counter be nest flow).2.pkt_info.bytes
          = c0.val * 256 ^ 3 + c1.val * 256 ^ 2 + c2.val * 256 + c3.val) := by
  rw [get_counter_eq be nest flow hrc]
  refine ⟨rfl, ?_, ?_, ?_, ?_⟩
  · intro a b0 b1 b2 b3 b4 b5 b6 b7 ha hp
    simp only [counters_decoded, counter_value, ha, hp, load_be, List.foldl_cons, List.foldl_nil]
    ring
  · intro a b0 b1 b2 b3 b4 b5 b6 b7 ha hp
    simp only [counters_decoded, counter_value, ha, hp, load_be, List.foldl_cons, List.foldl_nil]
    ring
  · intro a c0 c1 c2 c3 hn ha hp
    simp only [counters_decoded, counter_value, hn, ha, hp, load_be, List.foldl_cons,
      List.foldl_nil]
    ring
  · intro a c0 c1 c2 c3 hn ha hp
    simp only [counters_decoded, counter_value, hn, ha, hp, load_be, List.foldl_cons,
      List.foldl_nil]
    ring

set_option maxRecDepth 1000000 in
/-- Witness for C10: on a little-endian host, a counters attribute carrying both
widths yields the 64-bit big-endian values 2^32 + 42 packets and 3200 bytes. -/
theorem get_counter_big_endian_witness :
    0 ≤ (mnl_attr_parse_nested false counters_both parse_counters_cb
      (tb_zero CTA_COUNTERS_MAX)).1
    ∧ (get_counter false counters_both ct_flow_zero).1 = MNL_CB_OK
    ∧ (get_counter false counters_both ct_flow_zero).2.pkt_info.pkt_cnt = 4294967338
    ∧ (get_counter false counters_both ct_flow_zero).2.pkt_info.bytes = 3200 := by
  have h := get_counter_big_endian false counters_both ct_flow_zero (by decide)
  refine ⟨by decide, h.1, ?_, ?_⟩
  · exact h.2.1 ⟨CTA_COUNTERS_PACKETS, [0, 0, 0, 1, 0, 0, 0, 42]⟩ 0 0 0 1 0 0 0 42
      (by decide) rfl
  · exact h.2.2.1 ⟨CTA_COUNTERS_BYTES, [0, 0, 0, 0, 0, 0, 12, 128]⟩ 0 0 0 0 0 0 12 128
      (by decide) rfl

/-! ## TCP sub-state (`get_protoinfo`) -/

/-- C4: for a protoinfo attribute that parses and carries the TCP sub-state byte
`s` in `CTA_PROTOINFO_TCP_STATE`, `get_protoinfo` succeeds, sets `start` exactly
when `s` is SYN_SENT, SYN_RECV or ESTABLISHED, sets `end` exactly when `s` is
FIN_WAIT, CLOSE_WAIT, LAST_ACK, TIME_WAIT, CLOSE or TIMEOUT_MAX, and otherwise
leaves both flags, and the rest of the flow, as they were. -/
theorem get_protoinfo_flags (be : Bool) (nest tcp a : nlattr) (s : u8) (flow : ct_flow_t)
    (h1 : 0 ≤ (mnl_attr_parse_nested be nest parse_protoinfo (tb_zero CTA_PROTOINFO_MAX)).1)
    (h2 : tb_get (mnl_attr_parse_nested be nest parse_protoinfo (tb_zero CTA_PROTOINFO_MAX)).2
      CTA_PROTOINFO_TCP = some tcp)
    (h3 : 0 ≤ (mnl_attr_parse_nested be tcp parse_tcp_protoinfo
      (tb_zero CTA_PROTOINFO_TCP_MAX)).1)
    (h4 : tb_get (mnl_attr_parse_nested be tcp parse_tcp_protoinfo
      (tb_zero CTA_PROTOINFO_TCP_MAX)).2 CTA_PROTOINFO_TCP_STATE = some a)
    (h5 : a.payload = [s]) :
    get_protoinfo be nest flow
      = (MNL_CB_OK,
          { flow with
            start := flow.start || decide (s.val = TCP_CONNTRACK_SYN_SENT
              ∨ s.val = TCP_CONNTRACK_SYN_RECV ∨ s.val = TCP_CONNTRACK_ESTABLISHED),
            end_ := flow.end_ || decide (s.val = TCP_CONNTRACK_FIN_WAIT
              ∨ s.val = TCP_CONNTRACK_CLOSE_WAIT ∨ s.val = TCP_CONNTRACK_LAST_ACK
              ∨ s.val = TCP_CONNTRACK_TIME_WAIT ∨ s.val = TCP_CONNTRACK_CLOSE
              ∨ s.val = TCP_CONNTRACK_TIMEOUT_MAX) }) := by
  unfold get_protoinfo
  simp only [if_neg (not_lt.mpr h1), h2, if_neg (not_lt.mpr h3), h4]
  have hs : mnl_attr_get_u8 a = s.val := by
    simp [mnl_attr_get_u8, h5, load_le]
  rw [hs]
  unfold get_protoinfo_state
  simp only [TCP_CONNTRACK_SYN_SENT, TCP_CONNTRACK_SYN_RECV, TCP_CONNTRACK_ESTABLISHED,
    TCP_CONNTRACK_FIN_WAIT, TCP_CONNTRACK_CLOSE_WAIT, TCP_CONNTRACK_LAST_ACK,
    TCP_CONNTRACK_TIME_WAIT, TCP_CONNTRACK_CLOSE, TCP_CONNTRACK_TIMEOUT_MAX]
  split_ifs with c1 c2
  · have : ¬ (s.val = 4 ∨ s.val = 5 ∨ s.val = 6 ∨ s.val = 7 ∨ s.val = 8 ∨ s.val = 14) := by
      omega
    simp [c1, this]
  · simp [c1, c2]
  · simp [c1, c2]

set_option maxRecDepth 1000000 in
/-- Witness for C4: a protoinfo attribute in state ESTABLISHED (3) sets `start`
only, on a zeroed flow. -/
theorem get_protoinfo_flags_witness :
    get_protoinfo false (protoinfo_attr false 3) ct_flow_zero
      = (MNL_CB_OK, { ct_flow_zero with start := true, end_ := false }) :=
  get_protoinfo_flags false (protoinfo_attr false 3)
    ⟨CTA_PROTOINFO_TCP, nla_put false CTA_PROTOINFO_TCP_STATE [3]⟩
    ⟨CTA_PROTOINFO_TCP_STATE, [3]⟩ 3 ct_flow_zero
    (by decide) (by decide) (by decide) (by decide) rfl

/-! ## Zone filter of `data_cb` -/

theorem data_attr_cb_zone_inv (attr : nlattr) (tb : attr_tb)
    (h : ∀ a, tb_get tb CTA_ZONE = some a → a.payload.length = 2) :
    ∀ a, tb_get (data_attr_cb attr tb).2 CTA_ZONE = some a → a.payload.length = 2 := by
  unfold data_attr_cb
  simp only
  split
  · exact h
  · split
    · exact h
    · split
      · exact h
      · split
        · exact h
        · rename_i h1 h2 h3 h4
          rw [mnl_attr_validate_fixed _ _ (by decide)] at h4
          simp only [mnl_attr_data_type_len] at h4
          intro a
          rw [tb_get_tb_set]
          split
          · next hc =>
            intro ha
            simp only [Option.some.injEq] at ha
            subst ha
            by_contra hne
            exact h4 ⟨hc.1, hne⟩
          · apply h

theorem data_attr_cb_zone_len (be : Bool) (nlh : nlmsghdr) (a : nlattr)
    (h : tb_get (mnl_attr_parse be nlh 4 data_attr_cb (tb_zero CTA_MAX)).2 CTA_ZONE = some a) :
    a.payload.length = 2 := by
  have := mnl_attr_loop_inv data_attr_cb
    (fun tb => ∀ a, tb_get tb CTA_ZONE = some a → a.payload.length = 2)
    data_attr_cb_zone_inv (mnl_attrs be (nlh.payload.drop (MNL_ALIGN 4))) MNL_CB_OK
    (tb_zero CTA_MAX) (by intro a; rw [tb_zero_get]; intro h; cases h)
  exact this a h

theorem data_cb_zone_read (be : Bool) (nlh : nlmsghdr) :
    (match tb_get (mnl_attr_parse be nlh 4 data_attr_cb (tb_zero CTA_MAX)).2 CTA_ZONE with
      | some a => ntohs be (mnl_attr_get_u16 be a)
      | none => 0)
      = msg_zone (mnl_attr_parse be nlh 4 data_attr_cb (tb_zero CTA_MAX)).2 := by
  unfold msg_zone
  rcases hq : tb_get (mnl_attr_parse be nlh 4 data_attr_cb (tb_zero CTA_MAX)).2 CTA_ZONE
    with _ | a
  · rfl
  · have hl := data_attr_cb_zone_len be nlh a hq
    simp only
    rw [mnl_attr_get_u16, List.take_of_length_le (le_of_eq hl), ntohs_host_load be _ hl]

/-- C2: a message whose zone, that is the `CTA_ZONE` payload read in network
order or 0 when the attribute is absent, differs from the configured `ct_zone`
leaves the plugin state as it was: the pending list and `node_count` are
unchanged. A message without `CTA_ZONE` has zone 0, so it goes further only when
the configured zone is 0. -/
theorem data_cb_zone_mismatch (be : Bool) (heap : calloc_results) (ct_stats : flow_stats_t)
    (nlh : nlmsghdr)
    (hz : msg_zone (mnl_attr_parse be nlh 4 data_attr_cb (tb_zero CTA_MAX)).2
      ≠ ct_stats.ct_zone) :
    (data_cb be heap ct_stats nlh).ct_stats = ct_stats := by
  unfold data_cb
  simp only [data_cb_zone_read, if_pos hz]
  split <;> rfl

/-! ## Required attributes -/

theorem data_cb_af_inet_frame (be : Bool) (flow flow_1 : ct_flow_t) :
    (data_cb_af_inet be flow flow_1).2.1.layer3_info.proto_type = flow.layer3_info.proto_type
    ∧ (data_cb_af_inet be flow flow_1).2.1.layer3_info.src_ip = flow.layer3_info.src_ip
    ∧ (data_cb_af_inet be flow flow_1).2.2.layer3_info.src_ip = flow_1.layer3_info.src_ip
    ∧ (data_cb_af_inet be flow flow_1).2.1.start = flow.start
    ∧ (data_cb_af_inet be flow flow_1).2.1.end_ = flow.end_
    ∧ (data_cb_af_inet be flow flow_1).2.1.pkt_info = flow.pkt_info
    ∧ (data_cb_af_inet be flow flow_1).2.2.start = flow_1.start
    ∧ (data_cb_af_inet be flow flow_1).2.2.end_ = flow_1.end_
    ∧ (data_cb_af_inet be flow flow_1).2.2.pkt_info = flow_1.pkt_info := by
  unfold data_cb_af_inet
  simp only
  split <;> simp

theorem data_cb_emit_missing (be : Bool) (ct_stats : flow_stats_t) (tb : attr_tb)
    (af reply_flag : Nat) (flow flow_1 : ct_flow_t)
    (h : tb_get tb CTA_COUNTERS_ORIG = none
      ∨ (tb_get tb CTA_PROTOINFO = none ∧ flow.layer3_info.proto_type ≠ 17)) :
    (data_cb_emit be ct_stats tb af reply_flag flow flow_1).ct_stats = ct_stats := by
  rcases h with h | h
  · unfold data_cb_emit
    simp only [h]
    split_ifs <;> rfl
  · unfold data_cb_emit
    simp only [h.1, and_true]
    rw [if_pos h.2]

theorem data_cb_addr_frame (be : Bool) (flow flow_1 : ct_flow_t) :
    (data_cb_addr be flow flow_1).2.1.layer3_info.proto_type = flow.layer3_info.proto_type
    ∧ (data_cb_addr be flow flow_1).2.1.layer3_info.src_ip = flow.layer3_info.src_ip
    ∧ (data_cb_addr be flow flow_1).2.2.layer3_info.src_ip = flow_1.layer3_info.src_ip
    ∧ (data_cb_addr be flow flow_1).2.1.start = flow.start
    ∧ (data_cb_addr be flow flow_1).2.1.end_ = flow.end_
    ∧ (data_cb_addr be flow flow_1).2.1.pkt_info = flow.pkt_info
    ∧ (data_cb_addr be flow flow_1).2.2.start = flow_1.start
    ∧ (data_cb_addr be flow flow_1).2.2.end_ = flow_1.end_
    ∧ (data_cb_addr be flow flow_1).2.2.pkt_info = flow_1.pkt_info := by
  unfold data_cb_addr
  simp only
  split
  · exact data_cb_af_inet_frame be flow flow_1
  · simp

theorem data_cb_build_missing (be : Bool) (ct_stats : flow_stats_t) (tb : attr_tb)
    (flow flow_1 : ct_flow_t)
    (h : tb_get tb CTA_COUNTERS_ORIG = none
      ∨ (tb_get tb CTA_PROTOINFO = none ∧ flow.layer3_info.proto_type ≠ 17)) :
    (data_cb_build be ct_stats tb flow flow_1).ct_stats = ct_stats := by
  unfold data_cb_build
  simp only
  apply data_cb_emit_missing
  rw [(data_cb_addr_frame be flow flow_1).1]
  exact h

/-- C3: a message in which `CTA_TUPLE_ORIG`, `CTA_TUPLE_REPLY` or
`CTA_COUNTERS_ORIG` is absent, or in which `CTA_PROTOINFO` is absent while the
protocol number decoded from the ORIG tuple is not 17, yields no sample: the
plugin state, hence the pending list and `node_count`, is unchanged. -/
theorem data_cb_missing_required (be : Bool) (heap : calloc_results) (ct_stats : flow_stats_t)
    (nlh : nlmsghdr)
    (h : tb_get (mnl_attr_parse be nlh 4 data_attr_cb (tb_zero CTA_MAX)).2 CTA_TUPLE_ORIG = none
      ∨ tb_get (mnl_attr_parse be nlh 4 data_attr_cb (tb_zero CTA_MAX)).2 CTA_TUPLE_REPLY = none
      ∨ tb_get (mnl_attr_parse be nlh 4 data_attr_cb (tb_zero CTA_MAX)).2 CTA_COUNTERS_ORIG
          = none
      ∨ (tb_get (mnl_attr_parse be nlh 4 data_attr_cb (tb_zero CTA_MAX)).2 CTA_PROTOINFO = none
          ∧ ∀ orig, tb_get (mnl_attr_parse be nlh 4 data_attr_cb (tb_zero CTA_MAX)).2
              CTA_TUPLE_ORIG = some orig →
            (get_tuple be orig ct_flow_zero).2.layer3_info.proto_type ≠ 17)) :
    (data_cb be heap ct_stats nlh).ct_stats = ct_stats := by
  unfold data_cb
  simp only
  generalize (mnl_attr_parse be nlh 4 data_attr_cb (tb_zero CTA_MAX)) = r at h ⊢
  split
  · rfl
  · split
    · rfl
    · split
      · rfl
      · split
        · rfl
        · split
          · rfl
          · next orig ho =>
            split
            · rfl
            · split
              · rfl
              · next reply hr =>
                split
                · rfl
                · apply data_cb_build_missing
                  rcases h with h | h | h | h
                  · rw [ho] at h; cases h
                  · rw [hr] at h; cases h
                  · exact Or.inl h
                  · exact Or.inr ⟨h.1, h.2 orig ho⟩

/-! ## The samples `data_cb` emits -/

theorem get_counter_rc (be : Bool) (nest : nlattr) (flow : ct_flow_t) :
    (get_counter be nest flow).1 < 0 ↔ ¬ counters_ok be nest := by
  unfold counters_ok get_counter
  simp only
  split <;> simp [MNL_CB_ERROR, MNL_CB_OK]

theorem counters_ok_iff (be : Bool) (nest : nlattr) :
    counters_ok be nest
      ↔ 0 ≤ (mnl_attr_parse_nested be nest parse_counters_cb (tb_zero CTA_COUNTERS_MAX)).1 := by
  unfold counters_ok get_counter
  simp only
  split
  · next h => simp only [MNL_CB_ERROR]; omega
  · next h => simp only [MNL_CB_OK]; omega

theorem get_protoinfo_rc (be : Bool) (nest : nlattr) (flow : ct_flow_t) :
    (get_protoinfo be nest flow).1 < 0 ↔ ¬ protoinfo_ok be nest := by
  unfold protoinfo_ok get_protoinfo
  simp only
  split
  · simp [MNL_CB_ERROR]
  · split
    · simp [MNL_CB_OK]
    · split
      · simp [MNL_CB_ERROR]
      · split <;> simp [MNL_CB_OK]

theorem get_counter_ok_eq (be : Bool) (nest : nlattr) (flow : ct_flow_t)
    (h : counters_ok be nest) :
    (get_counter be nest flow).2
      = { flow with pkt_info := counters_decoded be nest flow.pkt_info } := by
  rw [get_counter_eq be nest flow ((counters_ok_iff be nest).mp h)]

theorem data_cb_emit_none (be : Bool) (ct_stats : flow_stats_t) (tb : attr_tb)
    (af reply_flag : Nat) (flow flow_1 : ct_flow_t)
    (h : ¬ ((flow.layer3_info.proto_type ≠ 17 →
              ∃ pi, tb_get tb CTA_PROTOINFO = some pi ∧ protoinfo_ok be pi)
            ∧ ∃ c, tb_get tb CTA_COUNTERS_ORIG = some c ∧ counters_ok be c)) :
    (data_cb_emit be ct_stats tb af reply_flag flow flow_1).ct_stats = ct_stats := by
  unfold data_cb_emit
  simp only [get_counter_rc]
  by_cases hp : flow.layer3_info.proto_type = 17
  · simp only [hp, ne_eq, not_true_eq_false, false_and, if_false, MNL_CB_OK]
    rcases hco : tb_get tb CTA_COUNTERS_ORIG with _ | c
    · simp
    · by_cases hc : counters_ok be c
      · exact absurd ⟨fun hne => absurd hp hne, c, hco, hc⟩ h
      · simp [get_counter_rc, hc]
  · rcases hpi : tb_get tb CTA_PROTOINFO with _ | pi
    · simp [hp]
    · simp only [hp, ne_eq, not_false_eq_true, true_and, reduceCtorEq, if_false, if_true,
        get_protoinfo_rc]
      by_cases hpo : protoinfo_ok be pi
      · rcases hco : tb_get tb CTA_COUNTERS_ORIG with _ | c
        · simp
        · by_cases hc : counters_ok be c
          · exact absurd ⟨fun _ => ⟨pi, hpi, hpo⟩, c, hco, hc⟩ h
          · simp [get_counter_rc, hc]
      · simp [hp, get_protoinfo_rc, hpo]

theorem data_cb_emit_fwd (be : Bool) (ct_stats : flow_stats_t) (tb : attr_tb)
    (af reply_flag : Nat) (flow flow_1 : ct_flow_t) (c : nlattr)
    (hpi : flow.layer3_info.proto_type ≠ 17 →
              ∃ pi, tb_get tb CTA_PROTOINFO = some pi ∧ protoinfo_ok be pi)
    (hco : tb_get tb CTA_COUNTERS_ORIG = some c) (hc : counters_ok be c) :
    (¬ (¬ (af = AF_INET ∧ reply_flag ≠ 0)
          ∧ ∃ c1, tb_get tb CTA_COUNTERS_REPLY = some c1 ∧ counters_ok be c1) →
      (data_cb_emit be ct_stats tb af reply_flag flow flow_1).ct_stats
        = insert_tail ct_stats (get_counter be c (fwd_flagged be tb flow)).2)
    ∧ (∀ c1, ¬ (af = AF_INET ∧ reply_flag ≠ 0) → tb_get tb CTA_COUNTERS_REPLY = some c1 →
        counters_ok be c1 →
      (data_cb_emit be ct_stats tb af reply_flag flow flow_1).ct_stats
        = insert_tail (insert_tail ct_stats (get_counter be c (fwd_flagged be tb flow)).2)
            (get_counter be c1 flow_1).2) := by
  have hhead : data_cb_emit be ct_stats tb af reply_flag flow flow_1
      = (if af = AF_INET ∧ reply_flag ≠ 0 then
          ⟨MNL_CB_OK, insert_tail ct_stats (get_counter be c (fwd_flagged be tb flow)).2,
            .linked, .freed⟩
        else
          match tb_get tb CTA_COUNTERS_REPLY with
          | none =>
            ⟨MNL_CB_OK, insert_tail ct_stats (get_counter be c (fwd_flagged be tb flow)).2,
              .linked, .freed⟩
          | some counters_reply =>
            if (get_counter be counters_reply flow_1).1 < 0 then
              ⟨MNL_CB_OK, insert_tail ct_stats (get_counter be c (fwd_flagged be tb flow)).2,
                .linked, .freed⟩
            else
              ⟨MNL_CB_OK,
                insert_tail (insert_tail ct_stats (get_counter be c (fwd_flagged be tb flow)).2)
                  (get_counter be counters_reply flow_1).2, .linked, .linked⟩) := by
    unfold data_cb_emit fwd_flagged
    by_cases hp : flow.layer3_info.proto_type = 17
    · simp only [hp, ne_eq, not_true_eq_false, false_and, if_false, MNL_CB_OK, hco,
        get_counter_rc, hc, not_true_eq_false]
      simp
    · obtain ⟨pi, hpi1, hpi2⟩ := hpi hp
      simp only [hp, ne_eq, not_false_eq_true, true_and, hpi1, reduceCtorEq, if_false, if_true,
        get_protoinfo_rc, hpi2, not_true_eq_false, hco, get_counter_rc, hc]
  rw [hhead]
  constructor
  · intro hn
    by_cases hcol : af = AF_INET ∧ reply_flag ≠ 0
    · rw [if_pos hcol]
    · rw [if_neg hcol]
      rcases hcr : tb_get tb CTA_COUNTERS_REPLY with _ | c1
      · rfl
      · by_cases hc1 : counters_ok be c1
        · exact absurd ⟨hcol, c1, hcr, hc1⟩ hn
        · simp only [get_counter_rc, hc1, not_false_eq_true, if_true]
  · intro c1 hcol hcr hc1
    rw [if_neg hcol]
    simp only [hcr, get_counter_rc, hc1, not_true_eq_false, if_false]

theorem get_tuple_rc (be : Bool) (nest : nlattr) :
    (get_tuple be nest ct_flow_zero).1 < 0 ↔ ¬ tuple_ok be nest := by
  unfold tuple_ok
  omega

theorem data_cb_pre_fail (be : Bool) (heap : calloc_results) (ct_stats : flow_stats_t)
    (nlh : nlmsghdr)
    (h : (mnl_attr_parse be nlh 4 data_attr_cb (tb_zero CTA_MAX)).1 < 0
      ∨ msg_zone (mnl_attr_parse be nlh 4 data_attr_cb (tb_zero CTA_MAX)).2 ≠ ct_stats.ct_zone
      ∨ heap.flow_info = false ∨ heap.flow_info_1 = false
      ∨ ∀ orig reply,
          tb_get (mnl_attr_parse be nlh 4 data_attr_cb (tb_zero CTA_MAX)).2 CTA_TUPLE_ORIG
            = some orig →
          tb_get (mnl_attr_parse be nlh 4 data_attr_cb (tb_zero CTA_MAX)).2 CTA_TUPLE_REPLY
            = some reply →
          ¬ (tuple_ok be orig ∧ tuple_ok be reply)) :
    (data_cb be heap ct_stats nlh).ct_stats = ct_stats := by
  unfold data_cb
  simp only [data_cb_zone_read, get_tuple_rc]
  generalize (mnl_attr_parse be nlh 4 data_attr_cb (tb_zero CTA_MAX)) = r at h ⊢
  by_cases h0 : r.1 < 0
  · simp [h0]
  · by_cases hz : msg_zone r.2 ≠ ct_stats.ct_zone
    · simp [h0, hz]
    · by_cases h1 : heap.flow_info = false
      · simp [h0, hz, h1]
      · by_cases h2 : heap.flow_info_1 = false
        · simp [h0, hz, h1, h2]
        · rcases h with h | h | h | h | h
          · exact absurd h h0
          · exact absurd h hz
          · exact absurd h h1
          · exact absurd h h2
          · simp only [h0, hz, h1, h2, if_false]
            rcases ho : tb_get r.2 CTA_TUPLE_ORIG with _ | orig
            · rfl
            · simp only
              by_cases hto : tuple_ok be orig
              · rcases hr : tb_get r.2 CTA_TUPLE_REPLY with _ | reply
                · simp [get_tuple_rc, hto]
                · have := h orig reply ho hr
                  have htr : ¬ tuple_ok be reply := fun x => this ⟨hto, x⟩
                  simp [get_tuple_rc, hto, htr]
              · simp [get_tuple_rc, hto]

theorem data_cb_eq_build (be : Bool) (heap : calloc_results) (ct_stats : flow_stats_t)
    (nlh : nlmsghdr) (orig reply : nlattr)
    (hparse : 0 ≤ (mnl_attr_parse be nlh 4 data_attr_cb (tb_zero CTA_MAX)).1)
    (hzone : msg_zone (mnl_attr_parse be nlh 4 data_attr_cb (tb_zero CTA_MAX)).2
      = ct_stats.ct_zone)
    (h1 : heap.flow_info = true) (h2 : heap.flow_info_1 = true)
    (ho : tb_get (mnl_attr_parse be nlh 4 data_attr_cb (tb_zero CTA_MAX)).2 CTA_TUPLE_ORIG
      = some orig)
    (hto : tuple_ok be orig)
    (hr : tb_get (mnl_attr_parse be nlh 4 data_attr_cb (tb_zero CTA_MAX)).2 CTA_TUPLE_REPLY
      = some reply)
    (htr : tuple_ok be reply) :
    data_cb be heap ct_stats nlh
      = data_cb_build be ct_stats (mnl_attr_parse be nlh 4 data_attr_cb (tb_zero CTA_MAX)).2
          (get_tuple be orig ct_flow_zero).2 (get_tuple be reply ct_flow_zero).2 := by
  unfold data_cb
  simp only [data_cb_zone_read, get_tuple_rc, hzone, ho, hr, hto, htr, h1, h2,
    not_lt.mpr hparse, ne_eq, not_true_eq_false, if_false, Bool.true_eq_false]

theorem data_cb_addr_flag (be : Bool) (flow flow_1 : ct_flow_t) :
    (flow_1.layer3_info.src_ip.ss_family = AF_INET ∧ (data_cb_addr be flow flow_1).1 ≠ 0)
      ↔ collapse_fires be flow flow_1 := by
  unfold collapse_fires data_cb_addr data_cb_af_inet
  by_cases haf : flow_1.layer3_info.src_ip.ss_family = AF_INET
  · by_cases hm : sin_addr_s_addr be flow.layer3_info.src_ip &&& 0xFF000000 = 0xFF000000
    · simp [haf, hm]
    · simp [haf, hm]
  · simp [haf]

theorem data_cb_one (be : Bool) (heap : calloc_results) (ct_stats : flow_stats_t)
    (nlh : nlmsghdr) (orig reply c : nlattr)
    (h : reaches_fwd be heap ct_stats nlh orig reply c)
    (hn : ¬ (¬ collapse_fires be (get_tuple be orig ct_flow_zero).2
                (get_tuple be reply ct_flow_zero).2
            ∧ ∃ c1, tb_get (mnl_attr_parse be nlh 4 data_attr_cb (tb_zero CTA_MAX)).2
                CTA_COUNTERS_REPLY = some c1 ∧ counters_ok be c1)) :
    (data_cb be heap ct_stats nlh).ct_stats
      = insert_tail ct_stats
          (fwd_sample be (mnl_attr_parse be nlh 4 data_attr_cb (tb_zero CTA_MAX)).2
            orig reply c) := by
  obtain ⟨hparse, hzone, h1, h2, ho, hto, hr, htr, hpi, hco, hc⟩ := h
  rw [data_cb_eq_build be heap ct_stats nlh orig reply hparse hzone h1 h2 ho hto hr htr]
  unfold data_cb_build fwd_sample
  simp only
  have hpi2 : (data_cb_addr be (get_tuple be orig ct_flow_zero).2
      (get_tuple be reply ct_flow_zero).2).2.1.layer3_info.proto_type ≠ 17 →
      ∃ pi, tb_get (mnl_attr_parse be nlh 4 data_attr_cb (tb_zero CTA_MAX)).2 CTA_PROTOINFO
          = some pi ∧ protoinfo_ok be pi := by
    rw [(data_cb_addr_frame be _ _).1]; exact hpi
  refine (data_cb_emit_fwd be ct_stats _ _ _ _ _ c hpi2 hco hc).1 ?_
  rw [data_cb_addr_flag]
  exact hn

theorem data_cb_two (be : Bool) (heap : calloc_results) (ct_stats : flow_stats_t)
    (nlh : nlmsghdr) (orig reply c c1 : nlattr)
    (h : reaches_fwd be heap ct_stats nlh orig reply c)
    (hcol : ¬ collapse_fires be (get_tuple be orig ct_flow_zero).2
                (get_tuple be reply ct_flow_zero).2)
    (hcr : tb_get (mnl_attr_parse be nlh 4 data_attr_cb (tb_zero CTA_MAX)).2
                CTA_COUNTERS_REPLY = some c1)
    (hc1 : counters_ok be c1) :
    (data_cb be heap ct_stats nlh).ct_stats
      = insert_tail (insert_tail ct_stats
          (fwd_sample be (mnl_attr_parse be nlh 4 data_attr_cb (tb_zero CTA_MAX)).2
            orig reply c)) (rev_sample be orig reply c1) := by
  obtain ⟨hparse, hzone, h1, h2, ho, hto, hr, htr, hpi, hco, hc⟩ := h
  rw [data_cb_eq_build be heap ct_stats nlh orig reply hparse hzone h1 h2 ho hto hr htr]
  unfold data_cb_build fwd_sample rev_sample
  simp only
  have hpi2 : (data_cb_addr be (get_tuple be orig ct_flow_zero).2
      (get_tuple be reply ct_flow_zero).2).2.1.layer3_info.proto_type ≠ 17 →
      ∃ pi, tb_get (mnl_attr_parse be nlh 4 data_attr_cb (tb_zero CTA_MAX)).2 CTA_PROTOINFO
          = some pi ∧ protoinfo_ok be pi := by
    rw [(data_cb_addr_frame be _ _).1]; exact hpi
  refine (data_cb_emit_fwd be ct_stats _ _ _ _ _ c hpi2 hco hc).2 c1 ?_ hcr hc1
  rw [data_cb_addr_flag]
  exact hcol

theorem data_cb_zero (be : Bool) (heap : calloc_results) (ct_stats : flow_stats_t)
    (nlh : nlmsghdr)
    (h : ∀ orig reply c, ¬ reaches_fwd be heap ct_stats nlh orig reply c) :
    (data_cb be heap ct_stats nlh).ct_stats = ct_stats := by
  by_cases hparse : 0 ≤ (mnl_attr_parse be nlh 4 data_attr_cb (tb_zero CTA_MAX)).1
  swap
  · exact data_cb_pre_fail be heap ct_stats nlh (Or.inl (by omega))
  by_cases hzone : msg_zone (mnl_attr_parse be nlh 4 data_attr_cb (tb_zero CTA_MAX)).2
      = ct_stats.ct_zone
  swap
  · exact data_cb_pre_fail be heap ct_stats nlh (Or.inr (Or.inl hzone))
  by_cases h1 : heap.flow_info = true
  swap
  · exact data_cb_pre_fail be heap ct_stats nlh (Or.inr (Or.inr (Or.inl (by simpa using h1))))
  by_cases h2 : heap.flow_info_1 = true
  swap
  · exact data_cb_pre_fail be heap ct_stats nlh
      (Or.inr (Or.inr (Or.inr (Or.inl (by simpa using h2)))))
  by_cases ht : ∃ orig reply,
      tb_get (mnl_attr_parse be nlh 4 data_attr_cb (tb_zero CTA_MAX)).2 CTA_TUPLE_ORIG
        = some orig
      ∧ tb_get (mnl_attr_parse be nlh 4 data_attr_cb (tb_zero CTA_MAX)).2 CTA_TUPLE_REPLY
        = some reply
      ∧ tuple_ok be orig ∧ tuple_ok be reply
  swap
  · refine data_cb_pre_fail be heap ct_stats nlh
      (Or.inr (Or.inr (Or.inr (Or.inr ?_))))
    intro orig reply ho hr hok
    exact ht ⟨orig, reply, ho, hr, hok.1, hok.2⟩
  obtain ⟨orig, reply, ho, hr, hto, htr⟩ := ht
  rw [data_cb_eq_build be heap ct_stats nlh orig reply hparse hzone h1 h2 ho hto hr htr]
  unfold data_cb_build
  simp only
  apply data_cb_emit_none
  rw [(data_cb_addr_frame be _ _).1]
  rintro ⟨hpi, c, hco, hc⟩
  exact h orig reply c ⟨hparse, hzone, h1, h2, ho, hto, hr, htr, hpi, hco, hc⟩

/-- The three outcomes of `data_cb` on the plugin state: nothing linked, the
forward sample linked, or the forward then the reverse sample linked. -/
theorem data_cb_cases (be : Bool) (heap : calloc_results) (ct_stats : flow_stats_t)
    (nlh : nlmsghdr) :
    (data_cb be heap ct_stats nlh).ct_stats = ct_stats
    ∨ (∃ orig reply c, reaches_fwd be heap ct_stats nlh orig reply c
        ∧ (data_cb be heap ct_stats nlh).ct_stats
          = insert_tail ct_stats
              (fwd_sample be (mnl_attr_parse be nlh 4 data_attr_cb (tb_zero CTA_MAX)).2
                orig reply c))
    ∨ (∃ orig reply c c1, reaches_fwd be heap ct_stats nlh orig reply c
        ∧ ¬ collapse_fires be (get_tuple be orig ct_flow_zero).2
              (get_tuple be reply ct_flow_zero).2
        ∧ tb_get (mnl_attr_parse be nlh 4 data_attr_cb (tb_zero CTA_MAX)).2
              CTA_COUNTERS_REPLY = some c1
        ∧ counters_ok be c1
        ∧ (data_cb be heap ct_stats nlh).ct_stats
          = insert_tail (insert_tail ct_stats
              (fwd_sample be (mnl_attr_parse be nlh 4 data_attr_cb (tb_zero CTA_MAX)).2
                orig reply c)) (rev_sample be orig reply c1)) := by
  by_cases h : ∃ orig reply c, reaches_fwd be heap ct_stats nlh orig reply c
  · obtain ⟨orig, reply, c, h⟩ := h
    by_cases h2 : ¬ collapse_fires be (get_tuple be orig ct_flow_zero).2
                (get_tuple be reply ct_flow_zero).2
            ∧ ∃ c1, tb_get (mnl_attr_parse be nlh 4 data_attr_cb (tb_zero CTA_MAX)).2
                CTA_COUNTERS_REPLY = some c1 ∧ counters_ok be c1
    · obtain ⟨hcol, c1, hcr, hc1⟩ := h2
      exact Or.inr (Or.inr ⟨orig, reply, c, c1, h, hcol, hcr, hc1,
        data_cb_two be heap ct_stats nlh orig reply c c1 h hcol hcr hc1⟩)
    · exact Or.inr (Or.inl ⟨orig, reply, c, h, data_cb_one be heap ct_stats nlh orig reply c h h2⟩)
  · refine Or.inl (data_cb_zero be heap ct_stats nlh ?_)
    intro orig reply c hr
    exact h ⟨orig, reply, c, hr⟩

/-! ## Properties of the two samples -/

theorem get_tuple_zero_frame (be : Bool) (nest : nlattr) :
    (get_tuple be nest ct_flow_zero).2.start = false
    ∧ (get_tuple be nest ct_flow_zero).2.end_ = false
    ∧ (get_tuple be nest ct_flow_zero).2.pkt_info = ct_flow_zero.pkt_info := by
  obtain ⟨h1, h2, h3⟩ := get_tuple_frame be nest ct_flow_zero
  exact ⟨h1, h2, h3⟩

theorem fwd_flagged_frame (be : Bool) (tb : attr_tb) (flow : ct_flow_t) :
    (fwd_flagged be tb flow).layer3_info = flow.layer3_info
    ∧ (fwd_flagged be tb flow).pkt_info = flow.pkt_info := by
  unfold fwd_flagged
  split
  · split
    · exact ⟨(get_protoinfo_frame be _ flow).1, (get_protoinfo_frame be _ flow).2.1⟩
    · exact ⟨rfl, rfl⟩
  · exact ⟨rfl, rfl⟩

theorem get_protoinfo_state_excl (state : Nat) (flow : ct_flow_t)
    (h0 : flow.start = false ∧ flow.end_ = false) :
    ¬ ((get_protoinfo_state state flow).start = true
        ∧ (get_protoinfo_state state flow).end_ = true) := by
  unfold get_protoinfo_state
  split_ifs <;> simp [h0.1, h0.2]

theorem get_protoinfo_excl (be : Bool) (nest : nlattr) (flow : ct_flow_t)
    (h0 : flow.start = false ∧ flow.end_ = false) :
    ¬ ((get_protoinfo be nest flow).2.start = true
        ∧ (get_protoinfo be nest flow).2.end_ = true) := by
  have hf : ¬ (flow.start = true ∧ flow.end_ = true) := by simp [h0.1]
  unfold get_protoinfo
  simp only
  split
  · exact hf
  · split
    · exact hf
    · split
      · exact hf
      · split
        · exact hf
        · exact get_protoinfo_state_excl _ flow h0

theorem fwd_flagged_excl (be : Bool) (tb : attr_tb) (flow : ct_flow_t)
    (h0 : flow.start = false ∧ flow.end_ = false) :
    ¬ ((fwd_flagged be tb flow).start = true ∧ (fwd_flagged be tb flow).end_ = true) := by
  have hf : ¬ (flow.start = true ∧ flow.end_ = true) := by simp [h0.1]
  unfold fwd_flagged
  split
  · split
    · exact get_protoinfo_excl be _ flow h0
    · exact hf
  · exact hf

theorem addr_fwd_flags (be : Bool) (orig reply : nlattr) :
    (data_cb_addr be (get_tuple be orig ct_flow_zero).2
      (get_tuple be reply ct_flow_zero).2).2.1.start = false
    ∧ (data_cb_addr be (get_tuple be orig ct_flow_zero).2
      (get_tuple be reply ct_flow_zero).2).2.1.end_ = false := by
  obtain ⟨_, _, _, h4, h5, _⟩ := data_cb_addr_frame be (get_tuple be orig ct_flow_zero).2
    (get_tuple be reply ct_flow_zero).2
  rw [h4, h5]
  exact ⟨(get_tuple_zero_frame be orig).1, (get_tuple_zero_frame be orig).2.1⟩

theorem fwd_sample_excl (be : Bool) (tb : attr_tb) (orig reply c : nlattr) :
    ¬ ((fwd_sample be tb orig reply c).start = true
        ∧ (fwd_sample be tb orig reply c).end_ = true) := by
  unfold fwd_sample
  rw [(get_counter_frame be c _).2.1, (get_counter_frame be c _).2.2.1]
  exact fwd_flagged_excl be tb _ (addr_fwd_flags be orig reply)

theorem rev_sample_flags (be : Bool) (orig reply c1 : nlattr) :
    (rev_sample be orig reply c1).start = false ∧ (rev_sample be orig reply c1).end_ = false := by
  unfold rev_sample
  rw [(get_counter_frame be c1 _).2.1, (get_counter_frame be c1 _).2.2.1]
  obtain ⟨_, _, _, _, _, _, h7, h8, _⟩ := data_cb_addr_frame be
    (get_tuple be orig ct_flow_zero).2 (get_tuple be reply ct_flow_zero).2
  rw [h7, h8]
  exact ⟨(get_tuple_zero_frame be reply).1, (get_tuple_zero_frame be reply).2.1⟩

theorem fwd_sample_pkt (be : Bool) (tb : attr_tb) (orig reply c : nlattr)
    (hc : counters_ok be c) :
    (fwd_sample be tb orig reply c).pkt_info = counters_decoded be c ct_flow_zero.pkt_info := by
  unfold fwd_sample
  rw [get_counter_ok_eq be c _ hc]
  simp only
  rw [(fwd_flagged_frame be tb _).2, (data_cb_addr_frame be _ _).2.2.2.2.2.1,
    (get_tuple_zero_frame be orig).2.2]

theorem rev_sample_pkt (be : Bool) (orig reply c1 : nlattr) (hc : counters_ok be c1) :
    (rev_sample be orig reply c1).pkt_info = counters_decoded be c1 ct_flow_zero.pkt_info := by
  unfold rev_sample
  rw [get_counter_ok_eq be c1 _ hc]
  simp only
  rw [(data_cb_addr_frame be _ _).2.2.2.2.2.2.2.2, (get_tuple_zero_frame be reply).2.2]

theorem fwd_sample_l3 (be : Bool) (tb : attr_tb) (orig reply c : nlattr) :
    (fwd_sample be tb orig reply c).layer3_info
      = (data_cb_addr be (get_tuple be orig ct_flow_zero).2
          (get_tuple be reply ct_flow_zero).2).2.1.layer3_info := by
  unfold fwd_sample
  rw [(get_counter_frame be c _).1, (fwd_flagged_frame be tb _).1]

theorem rev_sample_l3 (be : Bool) (orig reply c1 : nlattr) :
    (rev_sample be orig reply c1).layer3_info
      = (data_cb_addr be (get_tuple be orig ct_flow_zero).2
          (get_tuple be reply ct_flow_zero).2).2.2.layer3_info := by
  unfold rev_sample
  rw [(get_counter_frame be c1 _).1]

theorem data_cb_addr_l3 (be : Bool) (flow flow_1 : ct_flow_t)
    (hcol : ¬ collapse_fires be flow flow_1) :
    (flow_1.layer3_info.src_ip.ss_family = AF_INET →
      (data_cb_addr be flow flow_1).2.1.layer3_info
          = { flow.layer3_info with dst_ip := flow_1.layer3_info.src_ip }
      ∧ (data_cb_addr be flow flow_1).2.2.layer3_info
          = { flow_1.layer3_info with dst_ip := flow.layer3_info.src_ip })
    ∧ (flow_1.layer3_info.src_ip.ss_family ≠ AF_INET →
      (data_cb_addr be flow flow_1).2.1 = flow ∧ (data_cb_addr be flow flow_1).2.2 = flow_1) := by
  unfold collapse_fires at hcol
  unfold data_cb_addr data_cb_af_inet
  constructor
  · intro haf
    have hm : ¬ (sin_addr_s_addr be flow.layer3_info.src_ip &&& 0xFF000000 = 0xFF000000) :=
      fun x => hcol ⟨haf, x⟩
    simp [haf, hm]
  · intro haf
    simp [haf]

theorem insert_tail_list (s : flow_stats_t) (f : ct_flow_t) :
    (insert_tail s f).ctflow_list = s.ctflow_list ++ [f]
    ∧ (insert_tail s f).node_count = s.node_count + 1
    ∧ (insert_tail s f).ct_zone = s.ct_zone := ⟨rfl, rfl, rfl⟩

/-! ## Number of samples per message -/

/-- C1 (amended): `data_cb` appends 0, 1 or 2 samples to the pending list and
adds as many to `node_count`; it appends exactly 2 if and only if the message
parses and is in the configured zone, both nodes are allocated,
`CTA_TUPLE_ORIG` and `CTA_TUPLE_REPLY` are present and decode, `CTA_PROTOINFO`
is present and decodes unless the ORIG protocol is 17, `CTA_COUNTERS_ORIG` and
`CTA_COUNTERS_REPLY` are present and decode, and the collapse did not fire. -/
theorem data_cb_sample_count (be : Bool) (heap : calloc_results) (ct_stats : flow_stats_t)
    (nlh : nlmsghdr) :
    (∃ l : List ct_flow_t, l.length ≤ 2
        ∧ (data_cb be heap ct_stats nlh).ct_stats.ctflow_list = ct_stats.ctflow_list ++ l
        ∧ (data_cb be heap ct_stats nlh).ct_stats.node_count
            = ct_stats.node_count + (l.length : Int))
    ∧ ((∃ fwd rev, (data_cb be heap ct_stats nlh).ct_stats.ctflow_list
          = ct_stats.ctflow_list ++ [fwd, rev])
        ↔ ∃ orig reply c c1, reaches_fwd be heap ct_stats nlh orig reply c
            ∧ tb_get (mnl_attr_parse be nlh 4 data_attr_cb (tb_zero CTA_MAX)).2
                CTA_COUNTERS_REPLY = some c1
            ∧ counters_ok be c1
            ∧ ¬ collapse_fires be (get_tuple be orig ct_flow_zero).2
                  (get_tuple be reply ct_flow_zero).2) := by
  constructor
  · rcases data_cb_cases be heap ct_stats nlh with h | ⟨orig, reply, c, _, h⟩
      | ⟨orig, reply, c, c1, _, _, _, _, h⟩
    · exact ⟨[], by simp, by simp [h], by simp [h]⟩
    · refine ⟨[fwd_sample be (mnl_attr_parse be nlh 4 data_attr_cb (tb_zero CTA_MAX)).2
        orig reply c], by simp, ?_, ?_⟩
      · rw [h]; rfl
      · rw [h]; rfl
    · refine ⟨[fwd_sample be (mnl_attr_parse be nlh 4 data_attr_cb (tb_zero CTA_MAX)).2
        orig reply c, rev_sample be orig reply c1], by simp, ?_, ?_⟩
      · rw [h]; simp [insert_tail]
      · rw [h]; simp [insert_tail]; ring
  · constructor
    · rintro ⟨fwd, rev, hl⟩
      rcases data_cb_cases be heap ct_stats nlh with h | ⟨orig, reply, c, _, h⟩
        | ⟨orig, reply, c, c1, hr, hcol, hcr, hc1, _⟩
      · rw [h] at hl
        simp at hl
      · rw [h] at hl
        simp [insert_tail] at hl
      · exact ⟨orig, reply, c, c1, hr, hcr, hc1, hcol⟩
    · rintro ⟨orig, reply, c, c1, hr, hcr, hc1, hcol⟩
      refine ⟨fwd_sample be (mnl_attr_parse be nlh 4 data_attr_cb (tb_zero CTA_MAX)).2
        orig reply c, rev_sample be orig reply c1, ?_⟩
      rw [data_cb_two be heap ct_stats nlh orig reply c c1 hr hcol hcr hc1]
      simp [insert_tail]

set_option maxRecDepth 1000000 in
/-- C1 as stated fails: the TCP entry without `CTA_PROTOINFO` is in zone 0, has
both tuples and both counters, the collapse does not fire for it, yet `data_cb`
appends no sample instead of two. -/
theorem data_cb_sample_count_counterexample :
    msg_zone (mnl_attr_parse false msg_tcp_bare 4 data_attr_cb (tb_zero CTA_MAX)).2
      = (ct_stats_init 0).ct_zone
    ∧ (∃ orig reply c c1,
        tb_get (mnl_attr_parse false msg_tcp_bare 4 data_attr_cb (tb_zero CTA_MAX)).2
          CTA_TUPLE_ORIG = some orig
        ∧ tb_get (mnl_attr_parse false msg_tcp_bare 4 data_attr_cb (tb_zero CTA_MAX)).2
          CTA_TUPLE_REPLY = some reply
        ∧ tb_get (mnl_attr_parse false msg_tcp_bare 4 data_attr_cb (tb_zero CTA_MAX)).2
          CTA_COUNTERS_ORIG = some c
        ∧ tb_get (mnl_attr_parse false msg_tcp_bare 4 data_attr_cb (tb_zero CTA_MAX)).2
          CTA_COUNTERS_REPLY = some c1
        ∧ ¬ collapse_fires false (get_tuple false orig ct_flow_zero).2
              (get_tuple false reply ct_flow_zero).2)
    ∧ (data_cb false heap_ok (ct_stats_init 0) msg_tcp_bare).ct_stats.ctflow_list = [] := by
  refine ⟨by decide, ?_, by decide⟩
  exact ⟨⟨CTA_TUPLE_ORIG, (tuple_put false CTA_TUPLE_ORIG CTA_IP_V4_SRC CTA_IP_V4_DST
      [10, 0, 0, 1] [8, 8, 8, 8] 6 [3, 232] [0, 53]).drop 4⟩,
    ⟨CTA_TUPLE_REPLY, (tuple_put false CTA_TUPLE_REPLY CTA_IP_V4_SRC CTA_IP_V4_DST
      [8, 8, 8, 8] [10, 0, 0, 1] 6 [0, 53] [3, 232]).drop 4⟩,
    ⟨CTA_COUNTERS_ORIG, (counters_put false CTA_COUNTERS_ORIG [0, 0, 0, 0, 0, 0, 0, 42]
      [0, 0, 0, 0, 0, 0, 12, 128]).drop 4⟩,
    ⟨CTA_COUNTERS_REPLY, (counters_put false CTA_COUNTERS_REPLY [0, 0, 0, 0, 0, 0, 0, 41]
      [0, 0, 0, 0, 0, 0, 234, 96]).drop 4⟩,
    by decide, by decide, by decide, by decide, by decide⟩

set_option maxRecDepth 1000000 in
/-- Witness for C2 (scenario S4): the entry with `CTA_ZONE` 7 leaves the state
configured for zone 0 untouched. -/
theorem data_cb_zone_mismatch_witness :
    msg_zone (mnl_attr_parse false msg_zone7 4 data_attr_cb (tb_zero CTA_MAX)).2 = 7
    ∧ (data_cb false heap_ok (ct_stats_init 0) msg_zone7).ct_stats = ct_stats_init 0 :=
  ⟨by decide, data_cb_zone_mismatch false heap_ok (ct_stats_init 0) msg_zone7 (by decide)⟩

set_option maxRecDepth 1000000 in
/-- Witness for C3 (scenario S6): the TCP entry without `CTA_PROTOINFO` leaves
the state untouched. -/
theorem data_cb_missing_required_witness :
    tb_get (mnl_attr_parse false msg_tcp_bare 4 data_attr_cb (tb_zero CTA_MAX)).2 CTA_PROTOINFO
      = none
    ∧ (data_cb false heap_ok (ct_stats_init 0) msg_tcp_bare).ct_stats = ct_stats_init 0 :=
  ⟨by decide,
    data_cb_missing_required false heap_ok (ct_stats_init 0) msg_tcp_bare
      (Or.inr (Or.inr (Or.inr ⟨by decide, fun orig ho => by
        have he : tb_get (mnl_attr_parse false msg_tcp_bare 4 data_attr_cb (tb_zero CTA_MAX)).2
            CTA_TUPLE_ORIG
          = some ⟨CTA_TUPLE_ORIG, (tuple_put false CTA_TUPLE_ORIG CTA_IP_V4_SRC CTA_IP_V4_DST
              [10, 0, 0, 1] [8, 8, 8, 8] 6 [3, 232] [0, 53]).drop 4⟩ := by decide
        rw [he] at ho
        cases ho
        decide⟩)))⟩

/-! ## Lifecycle flags -/

theorem data_cb_flags_inv (be : Bool) (heap : calloc_results) (ct_stats : flow_stats_t)
    (nlh : nlmsghdr)
    (h : ∀ f ∈ ct_stats.ctflow_list, ¬ (f.start = true ∧ f.end_ = true)) :
    ∀ f ∈ (data_cb be heap ct_stats nlh).ct_stats.ctflow_list,
      ¬ (f.start = true ∧ f.end_ = true) := by
  rcases data_cb_cases be heap ct_stats nlh with h0 | ⟨orig, reply, c, _, h1⟩
    | ⟨orig, reply, c, c1, _, _, _, _, h2⟩
  · rw [h0]; exact h
  · rw [h1]
    intro f hf
    simp only [insert_tail, List.mem_append, List.mem_singleton] at hf
    rcases hf with hf | hf
    · exact h f hf
    · rw [hf]; exact fwd_sample_excl be _ orig reply c
  · rw [h2]
    intro f hf
    simp only [insert_tail, List.mem_append, List.mem_singleton] at hf
    rcases hf with (hf | hf) | hf
    · exact h f hf
    · rw [hf]; exact fwd_sample_excl be _ orig reply c
    · rw [hf]; simp [(rev_sample_flags be orig reply c1).1]

theorem data_cb_seq_flags_inv (be : Bool) (msgs : List (calloc_results × nlmsghdr)) :
    ∀ (ct_stats : flow_stats_t),
      (∀ f ∈ ct_stats.ctflow_list, ¬ (f.start = true ∧ f.end_ = true)) →
      ∀ f ∈ (data_cb_seq be ct_stats msgs).ctflow_list, ¬ (f.start = true ∧ f.end_ = true) := by
  induction msgs with
  | nil => intro ct_stats h; exact h
  | cons m rest ih =>
    intro ct_stats h
    obtain ⟨heap, nlh⟩ := m
    exact ih _ (data_cb_flags_inv be heap ct_stats nlh h)

/-- C5: after any sequence of messages fed to `data_cb`, whatever the outcome of
each allocation, starting from a state whose pending list is empty, no sample
of the pending list has both `start` and `end` set. -/
theorem data_cb_seq_never_start_and_end (be : Bool) (ct_stats : flow_stats_t)
    (msgs : List (calloc_results × nlmsghdr)) (hempty : ct_stats.ctflow_list = [])
    (f : ct_flow_t) (hf : f ∈ (data_cb_seq be ct_stats msgs).ctflow_list) :
    ¬ (f.start = true ∧ f.end_ = true) :=
  data_cb_seq_flags_inv be msgs ct_stats (by rw [hempty]; intro f hf; cases hf) f hf

theorem headD_mem_of_pos {α : Type} (l : List α) (d : α) (h : 0 < l.length) :
    l.headD d ∈ l := by
  cases l with
  | nil => simp at h
  | cons a rest => simp

set_option maxRecDepth 1000000 in
/-- Witness for C5: after the ESTABLISHED and the TIME_WAIT entries (scenarios S2
and S3) the pending list has four samples; its first one, the forward sample
of the ESTABLISHED entry, has `start` and therefore not both flags. -/
theorem data_cb_seq_never_start_and_end_witness :
    (data_cb_seq false (ct_stats_init 0)
      [(heap_ok, msg_tcp_established), (heap_ok, msg_tcp_time_wait)]).ctflow_list.length = 4
    ∧ ((data_cb_seq false (ct_stats_init 0)
        [(heap_ok, msg_tcp_established), (heap_ok, msg_tcp_time_wait)]).ctflow_list.headD
          ct_flow_zero).start = true
    ∧ ¬ (((data_cb_seq false (ct_stats_init 0)
            [(heap_ok, msg_tcp_established), (heap_ok, msg_tcp_time_wait)]).ctflow_list.headD
              ct_flow_zero).start = true
          ∧ ((data_cb_seq false (ct_stats_init 0)
            [(heap_ok, msg_tcp_established), (heap_ok, msg_tcp_time_wait)]).ctflow_list.headD
              ct_flow_zero).end_ = true) :=
  ⟨by decide, by decide,
    data_cb_seq_never_start_and_end false (ct_stats_init 0)
      [(heap_ok, msg_tcp_established), (heap_ok, msg_tcp_time_wait)] rfl
      ((data_cb_seq false (ct_stats_init 0)
        [(heap_ok, msg_tcp_established), (heap_ok, msg_tcp_time_wait)]).ctflow_list.headD
          ct_flow_zero)
      (headD_mem_of_pos _ _ (by decide))⟩

theorem get_protoinfo_no_state (be : Bool) (pi : nlattr) (flow : ct_flow_t)
    (h : ∀ tcp, tb_get (mnl_attr_parse_nested be pi parse_protoinfo
          (tb_zero CTA_PROTOINFO_MAX)).2 CTA_PROTOINFO_TCP = some tcp →
        tb_get (mnl_attr_parse_nested be tcp parse_tcp_protoinfo
          (tb_zero CTA_PROTOINFO_TCP_MAX)).2 CTA_PROTOINFO_TCP_STATE = none) :
    (get_protoinfo be pi flow).2 = flow := by
  unfold get_protoinfo
  simp only
  split
  · rfl
  · split
    · rfl
    · next tcp htcp =>
      split
      · rfl
      · rw [h tcp htcp]

theorem fwd_flagged_clear (be : Bool) (tb : attr_tb) (flow : ct_flow_t)
    (h : flow.layer3_info.proto_type = 17
      ∨ ∀ pi tcp, tb_get tb CTA_PROTOINFO = some pi →
          tb_get (mnl_attr_parse_nested be pi parse_protoinfo
            (tb_zero CTA_PROTOINFO_MAX)).2 CTA_PROTOINFO_TCP = some tcp →
          tb_get (mnl_attr_parse_nested be tcp parse_tcp_protoinfo
            (tb_zero CTA_PROTOINFO_TCP_MAX)).2 CTA_PROTOINFO_TCP_STATE = none) :
    fwd_flagged be tb flow = flow := by
  unfold fwd_flagged
  rcases h with h | h
  · simp [h]
  · split
    · split
      · next pi hpi => exact get_protoinfo_no_state be pi flow (fun tcp => h pi tcp hpi)
      · rfl
    · rfl

set_option maxRecDepth 1000000 in
/-- C6 as stated fails: an in-zone entry whose ORIG protocol is 1 (ICMP, not 6)
and whose `CTA_PROTOINFO` carries the TCP state ESTABLISHED yields a forward
sample with `start = true`. -/
theorem data_cb_non_tcp_flags_counterexample :
    msg_zone (mnl_attr_parse false msg_icmp_tcp_state 4 data_attr_cb (tb_zero CTA_MAX)).2
      = (ct_stats_init 0).ct_zone
    ∧ (data_cb false heap_ok (ct_stats_init 0) msg_icmp_tcp_state).ct_stats.ctflow_list.map
        (fun f => (f.layer3_info.proto_type, f.start, f.end_))
      = [(1, true, false), (1, false, false)] := by
  constructor <;> decide

/-! ## The collapse test and host byte order -/

set_option maxRecDepth 1000000 in
/-- C7: on a little-endian host the entry whose ORIG source is 255.0.0.1 (first
octet 0xFF, all required attributes present) yields two samples, the forward
and the reverse one, and the entry whose ORIG source is 10.0.0.255 (first octet
10) yields the forward sample only; on a big-endian host the entry from
255.0.0.1 yields the forward sample only. -/
theorem data_cb_collapse_host_order :
    (data_cb false heap_ok (ct_stats_init 0) (msg_src_first_ff false)).ct_stats.ctflow_list.map
        (fun f => f.layer3_info.src_ip.addr)
      = [[255, 0, 0, 1], [8, 8, 8, 8]]
    ∧ (data_cb false heap_ok (ct_stats_init 0) (msg_src_last_ff false)).ct_stats.ctflow_list.map
        (fun f => f.layer3_info.src_ip.addr)
      = [[10, 0, 0, 255]]
    ∧ (data_cb true heap_ok (ct_stats_init 0) (msg_src_first_ff true)).ct_stats.ctflow_list.map
        (fun f => f.layer3_info.src_ip.addr)
      = [[255, 0, 0, 1]] := by
  refine ⟨?_, ?_, ?_⟩ <;> decide

/-! ## Addresses and counters of a sample pair -/

theorem data_cb_pair_inv (be : Bool) (heap : calloc_results) (ct_stats : flow_stats_t)
    (nlh : nlmsghdr) (fwd rev : ct_flow_t)
    (h : (data_cb be heap ct_stats nlh).ct_stats.ctflow_list
      = ct_stats.ctflow_list ++ [fwd, rev]) :
    ∃ orig reply c c1, reaches_fwd be heap ct_stats nlh orig reply c
      ∧ ¬ collapse_fires be (get_tuple be orig ct_flow_zero).2
            (get_tuple be reply ct_flow_zero).2
      ∧ tb_get (mnl_attr_parse be nlh 4 data_attr_cb (tb_zero CTA_MAX)).2
            CTA_COUNTERS_REPLY = some c1
      ∧ counters_ok be c1
      ∧ fwd = fwd_sample be (mnl_attr_parse be nlh 4 data_attr_cb (tb_zero CTA_MAX)).2
          orig reply c
      ∧ rev = rev_sample be orig reply c1 := by
  rcases data_cb_cases be heap ct_stats nlh with h0 | ⟨orig, reply, c, _, h1⟩
    | ⟨orig, reply, c, c1, hr, hcol, hcr, hc1, h2⟩
  · rw [h0] at h
    simp at h
  · rw [h1] at h
    simp [insert_tail] at h
  · rw [h2] at h
    simp only [insert_tail, List.append_assoc, List.singleton_append,
      List.append_cancel_left_eq, List.cons.injEq, and_true] at h
    exact ⟨orig, reply, c, c1, hr, hcol, hcr, hc1, h.1.symm, h.2.symm⟩

/-- C8 (amended): when `data_cb` appends two samples, the forward sample has the
source of the ORIG tuple and the reverse sample the source of the REPLY tuple;
if the REPLY source is IPv4 (`AF_INET`) the forward destination is the REPLY
source and the reverse destination is the ORIG source; for any other family
(IPv6) no exchange takes place, the forward destination is the ORIG destination
and the reverse destination is the REPLY destination. -/
theorem data_cb_pair_addresses (be : Bool) (heap : calloc_results) (ct_stats : flow_stats_t)
    (nlh : nlmsghdr) (fwd rev : ct_flow_t)
    (h : (data_cb be heap ct_stats nlh).ct_stats.ctflow_list
      = ct_stats.ctflow_list ++ [fwd, rev]) :
    ∃ orig reply,
      tb_get (mnl_attr_parse be nlh 4 data_attr_cb (tb_zero CTA_MAX)).2 CTA_TUPLE_ORIG
        = some orig
      ∧ tb_get (mnl_attr_parse be nlh 4 data_attr_cb (tb_zero CTA_MAX)).2 CTA_TUPLE_REPLY
        = some reply
      ∧ fwd.layer3_info.src_ip = (get_tuple be orig ct_flow_zero).2.layer3_info.src_ip
      ∧ rev.layer3_info.src_ip = (get_tuple be reply ct_flow_zero).2.layer3_info.src_ip
      ∧ ((get_tuple be reply ct_flow_zero).2.layer3_info.src_ip.ss_family = AF_INET →
          fwd.layer3_info.dst_ip = (get_tuple be reply ct_flow_zero).2.layer3_info.src_ip
          ∧ rev.layer3_info.dst_ip = (get_tuple be orig ct_flow_zero).2.layer3_info.src_ip)
      ∧ ((get_tuple be reply ct_flow_zero).2.layer3_info.src_ip.ss_family ≠ AF_INET →
          fwd.layer3_info.dst_ip = (get_tuple be orig ct_flow_zero).2.layer3_info.dst_ip
          ∧ rev.layer3_info.dst_ip
              = (get_tuple be reply ct_flow_zero).2.layer3_info.dst_ip) := by
  obtain ⟨orig, reply, c, c1, hr, hcol, _, _, hf, hv⟩ :=
    data_cb_pair_inv be heap ct_stats nlh fwd rev h
  obtain ⟨h4, h6⟩ := data_cb_addr_l3 be _ _ hcol
  refine ⟨orig, reply, hr.2.2.2.2.1, hr.2.2.2.2.2.2.1, ?_, ?_, ?_, ?_⟩
  · rw [hf, fwd_sample_l3, (data_cb_addr_frame be _ _).2.1]
  · rw [hv, rev_sample_l3, (data_cb_addr_frame be _ _).2.2.1]
  · intro haf
    rw [hf, hv, fwd_sample_l3, rev_sample_l3, (h4 haf).1, (h4 haf).2]
    exact ⟨rfl, rfl⟩
  · intro haf
    rw [hf, hv, fwd_sample_l3, rev_sample_l3, (h6 haf).1, (h6 haf).2]
    exact ⟨rfl, rfl⟩

set_option maxRecDepth 1000000 in
/-- Witness for C8 (scenario S1): the IPv4 UDP entry yields the pair
10.0.0.1 → 8.8.8.8 and 8.8.8.8 → 10.0.0.1. -/
theorem data_cb_pair_addresses_witness :
    (data_cb false heap_ok (ct_stats_init 0) msg_udp).ct_stats.ctflow_list
      = (ct_stats_init 0).ctflow_list ++ [udp_fwd, udp_rev]
    ∧ ∃ orig reply,
      tb_get (mnl_attr_parse false msg_udp 4 data_attr_cb (tb_zero CTA_MAX)).2 CTA_TUPLE_ORIG
        = some orig
      ∧ tb_get (mnl_attr_parse false msg_udp 4 data_attr_cb (tb_zero CTA_MAX)).2 CTA_TUPLE_REPLY
        = some reply
      ∧ udp_fwd.layer3_info.src_ip = (get_tuple false orig ct_flow_zero).2.layer3_info.src_ip
      ∧ udp_rev.layer3_info.src_ip = (get_tuple false reply ct_flow_zero).2.layer3_info.src_ip
      ∧ ((get_tuple false reply ct_flow_zero).2.layer3_info.src_ip.ss_family = AF_INET →
          udp_fwd.layer3_info.dst_ip = (get_tuple false reply ct_flow_zero).2.layer3_info.src_ip
          ∧ udp_rev.layer3_info.dst_ip
              = (get_tuple false orig ct_flow_zero).2.layer3_info.src_ip)
      ∧ ((get_tuple false reply ct_flow_zero).2.layer3_info.src_ip.ss_family ≠ AF_INET →
          udp_fwd.layer3_info.dst_ip = (get_tuple false orig ct_flow_zero).2.layer3_info.dst_ip
          ∧ udp_rev.layer3_info.dst_ip
              = (get_tuple false reply ct_flow_zero).2.layer3_info.dst_ip) :=
  ⟨by decide,
    data_cb_pair_addresses false heap_ok (ct_stats_init 0) msg_udp udp_fwd udp_rev (by decide)⟩

set_option maxRecDepth 1000000 in
/-- C8 as stated fails for IPv6: for the IPv6 entry through destination NAT
(ORIG `::1` to `::2`, REPLY `::3` to `::1`) the collapse does not fire, two
samples are appended, and the forward sample keeps the ORIG destination `::2`
instead of the REPLY source `::3`; the reverse sample keeps the REPLY
destination. -/
theorem data_cb_pair_addresses_counterexample :
    (data_cb false heap_ok (ct_stats_init 0) msg_v6_dnat).ct_stats.ctflow_list.map
        (fun f => (f.layer3_info.src_ip, f.layer3_info.dst_ip))
      = [(⟨AF_INET6, v6_addr 1⟩, ⟨AF_INET6, v6_addr 2⟩),
         (⟨AF_INET6, v6_addr 3⟩, ⟨AF_INET6, v6_addr 1⟩)]
    ∧ ∃ orig reply,
        tb_get (mnl_attr_parse false msg_v6_dnat 4 data_attr_cb (tb_zero CTA_MAX)).2
          CTA_TUPLE_ORIG = some orig
        ∧ tb_get (mnl_attr_parse false msg_v6_dnat 4 data_attr_cb (tb_zero CTA_MAX)).2
          CTA_TUPLE_REPLY = some reply
        ∧ (get_tuple false reply ct_flow_zero).2.layer3_info.src_ip = ⟨AF_INET6, v6_addr 3⟩
        ∧ ¬ collapse_fires false (get_tuple false orig ct_flow_zero).2
              (get_tuple false reply ct_flow_zero).2 := by
  refine ⟨by decide, ?_⟩
  exact ⟨⟨CTA_TUPLE_ORIG, (tuple_put false CTA_TUPLE_ORIG CTA_IP_V6_SRC CTA_IP_V6_DST
      (v6_addr 1) (v6_addr 2) 17 [3, 232] [0, 53]).drop 4⟩,
    ⟨CTA_TUPLE_REPLY, (tuple_put false CTA_TUPLE_REPLY CTA_IP_V6_SRC CTA_IP_V6_DST
      (v6_addr 3) (v6_addr 1) 17 [0, 53] [3, 232]).drop 4⟩,
    by decide, by decide, by decide, by decide⟩

/-- C9: when `data_cb` appends two samples, the forward sample carries the
packet and byte counts decoded from `CTA_COUNTERS_ORIG` and the reverse sample
those decoded from `CTA_COUNTERS_REPLY`: each count is the big-endian 64-bit
attribute, else the network-order 32-bit fallback, else 0. -/
theorem data_cb_pair_counters (be : Bool) (heap : calloc_results) (ct_stats : flow_stats_t)
    (nlh : nlmsghdr) (fwd rev : ct_flow_t)
    (h : (data_cb be heap ct_stats nlh).ct_stats.ctflow_list
      = ct_stats.ctflow_list ++ [fwd, rev]) :
    ∃ c c1,
      tb_get (mnl_attr_parse be nlh 4 data_attr_cb (tb_zero CTA_MAX)).2 CTA_COUNTERS_ORIG
        = some c
      ∧ tb_get (mnl_attr_parse be nlh 4 data_attr_cb (tb_zero CTA_MAX)).2 CTA_COUNTERS_REPLY
        = some c1
      ∧ fwd.pkt_info = counters_decoded be c { pkt_cnt := 0, bytes := 0 }
      ∧ rev.pkt_info = counters_decoded be c1 { pkt_cnt := 0, bytes := 0 } := by
  obtain ⟨orig, reply, c, c1, hr, _, hcr, hc1, hf, hv⟩ :=
    data_cb_pair_inv be heap ct_stats nlh fwd rev h
  refine ⟨c, c1, hr.2.2.2.2.2.2.2.2.2.1, hcr, ?_, ?_⟩
  · rw [hf, fwd_sample_pkt be _ orig reply c hr.2.2.2.2.2.2.2.2.2.2]; rfl
  · rw [hv, rev_sample_pkt be orig reply c1 hc1]; rfl

set_option maxRecDepth 1000000 in
/-- Witness for C9 (scenario S1): the UDP entry yields a forward sample with 42
packets / 3200 bytes and a reverse sample with 41 packets / 60000 bytes, both
with `start = end = false`, and these are the decoded counters. -/
theorem data_cb_pair_counters_witness :
    udp_fwd.pkt_info = { pkt_cnt := 42, bytes := 3200 }
    ∧ udp_rev.pkt_info = { pkt_cnt := 41, bytes := 60000 }
    ∧ udp_fwd.start = false ∧ udp_fwd.end_ = false
    ∧ udp_rev.start = false ∧ udp_rev.end_ = false
    ∧ ∃ c c1,
      tb_get (mnl_attr_parse false msg_udp 4 data_attr_cb (tb_zero CTA_MAX)).2 CTA_COUNTERS_ORIG
        = some c
      ∧ tb_get (mnl_attr_parse false msg_udp 4 data_attr_cb (tb_zero CTA_MAX)).2
          CTA_COUNTERS_REPLY = some c1
      ∧ udp_fwd.pkt_info = counters_decoded false c { pkt_cnt := 0, bytes := 0 }
      ∧ udp_rev.pkt_info = counters_decoded false c1 { pkt_cnt := 0, bytes := 0 } :=
  ⟨rfl, rfl, rfl, rfl, rfl, rfl,
    data_cb_pair_counters false heap_ok (ct_stats_init 0) msg_udp udp_fwd udp_rev (by decide)⟩

/-! ## The collapse test, octet by octet -/

theorem and_top_byte (x : Nat) :
    x &&& 0xFF000000 = (x / 2 ^ 24 % 256) * 2 ^ 24 := by
  have hm : (0xFF000000 : Nat) = 0xFF <<< 24 := by decide
  have h1 : x &&& 0xFF000000 = ((x >>> 24) &&& 0xFF) <<< 24 := by
    rw [hm]
    apply Nat.eq_of_testBit_eq
    intro i
    simp only [Nat.testBit_and, Nat.testBit_shiftLeft, Nat.testBit_shiftRight]
    by_cases hi : 24 ≤ i
    · have : 24 + (i - 24) = i := by omega
      simp [hi, this]
    · simp [hi]
  rw [h1, Nat.shiftLeft_eq, Nat.shiftRight_eq_div_pow]
  have h2 : (0xFF : Nat) = 2 ^ 8 - 1 := by decide
  rw [h2, Nat.and_pow_two_sub_one_eq_mod]

theorem collapse_test_octet (be : Bool) (b0 b1 b2 b3 : u8) :
    (host_load be [b0, b1, b2, b3] &&& 0xFF000000 = 0xFF000000)
      ↔ (if be then b0 else b3).val = 255 := by
  rw [and_top_byte]
  have h0 := b0.isLt
  have h1 := b1.isLt
  have h2 := b2.isLt
  have h3 := b3.isLt
  cases be
  · simp only [host_load, load_le, Bool.false_eq_true, if_false]
    omega
  · simp only [host_load, load_be, List.foldl_cons, List.foldl_nil, if_true]
    omega

/-- For IPv4 tuples the collapse fires exactly when one octet of the ORIG source
is 0xFF: the first octet as received on a big-endian host, the fourth on a
little-endian host. -/
theorem collapse_fires_octet (be : Bool) (flow flow_1 : ct_flow_t) (b0 b1 b2 b3 : u8)
    (hsrc : flow.layer3_info.src_ip = ⟨AF_INET, [b0, b1, b2, b3]⟩)
    (haf : flow_1.layer3_info.src_ip.ss_family = AF_INET) :
    collapse_fires be flow flow_1 ↔ (if be then b0 else b3).val = 255 := by
  unfold collapse_fires sin_addr_s_addr
  rw [hsrc]
  simp only [haf, true_and, AF_INET, AF_INET6, List.take_succ_cons, List.take_zero]
  rw [if_neg (by decide)]
  exact collapse_test_octet be b0 b1 b2 b3

/-! ## Flush (`ct_flow_add_sample`) -/

theorem free_ct_flow_list_loop_spec (fuel : Nat) :
    ∀ (ct_stats : flow_stats_t), ct_stats.ctflow_list.length ≤ fuel →
      (free_ct_flow_list_loop fuel ct_stats).ctflow_list = []
      ∧ (free_ct_flow_list_loop fuel ct_stats).ct_zone = ct_stats.ct_zone
      ∧ (free_ct_flow_list_loop fuel ct_stats).collect_filter = ct_stats.collect_filter
      ∧ (free_ct_flow_list_loop fuel ct_stats).aggr = ct_stats.aggr
      ∧ (free_ct_flow_list_loop fuel ct_stats).loop = ct_stats.loop := by
  induction fuel with
  | zero =>
    intro ct_stats h
    have : ct_stats.ctflow_list = [] := List.eq_nil_of_length_eq_zero (by omega)
    simp [free_ct_flow_list_loop, this]
  | succ n ih =>
    intro ct_stats h
    simp only [free_ct_flow_list_loop]
    split
    · next he =>
      have : ct_stats.ctflow_list = [] := by simpa using he
      simp [this]
    · have hl : (ct_stats.ctflow_list.dropLast).length ≤ n := by
        rw [List.length_dropLast]; omega
      obtain ⟨h1, h2, h3, h4, h5⟩ := ih
        { ct_stats with ctflow_list := ct_stats.ctflow_list.dropLast,
                        node_count := ct_stats.node_count - 1 } hl
      exact ⟨h1, h2, h3, h4, h5⟩

theorem free_ct_flow_list_spec (ct_stats : flow_stats_t) :
    free_ct_flow_list ct_stats = { ct_stats with ctflow_list := [], node_count := 0 } := by
  obtain ⟨h1, h2, h3, h4, h5⟩ :=
    free_ct_flow_list_loop_spec ct_stats.ctflow_list.length ct_stats (le_refl _)
  unfold free_ct_flow_list
  generalize free_ct_flow_list_loop ct_stats.ctflow_list.length ct_stats = r at h1 h2 h3 h4 h5
  cases r
  cases ct_stats
  simp only at h1 h2 h3 h4 h5
  simp [h1, h2, h3, h4, h5]

/-- C15: when `ct_flow_add_sample` returns, whatever the pending list, the
filter verdicts and the aggregator's answers (a refusal that ends the loop
early included), the pending list is empty and `node_count` is 0. -/
theorem ct_flow_add_sample_empties (env : flush_env) (be : Bool) (ct_stats : flow_stats_t) :
    (ct_flow_add_sample env be ct_stats).ct_stats.ctflow_list = []
    ∧ (ct_flow_add_sample env be ct_stats).ct_stats.node_count = 0 := by
  unfold ct_flow_add_sample
  rw [free_ct_flow_list_spec]
  exact ⟨rfl, rfl⟩

theorem ct_flow_add_sample_loop_spec (env : flush_env) (be : Bool)
    (collect_filter : Option String) :
    ∀ (pending : List ct_flow_t) (sent : List (net_md_flow_key × flow_counters)),
      ct_flow_add_sample_loop env be collect_filter pending sent
        = sent ++ submit_until_fail env.net_md_add_sample
            ((pending.filter (flow_accepted env be collect_filter)).map (flow_submission env))
            sent := by
  intro pending
  induction pending with
  | nil => intro sent; simp [ct_flow_add_sample_loop, submit_until_fail]
  | cons flow rest ih =>
    intro sent
    simp only [ct_flow_add_sample_loop]
    by_cases ha : flow_accepted env be collect_filter flow = true
    · simp only [ha, if_true, List.filter_cons_of_pos, List.map_cons, submit_until_fail]
      by_cases hr : env.net_md_add_sample sent
          (flow_key (env.neigh_table_lookup flow.layer3_info.src_ip)
            (env.neigh_table_lookup flow.layer3_info.dst_ip) flow) (flow_pkts_ct flow) = true
      · simp only [flow_submission, hr, Bool.true_eq_false, if_false, if_true]
        rw [ih]
        simp [flow_submission]
      · simp only [Bool.not_eq_true] at hr
        simp [flow_submission, hr]
    · simp only [ha, Bool.false_eq_true, if_false]
      rw [ih, List.filter_cons_of_neg ha]

theorem submit_until_fail_prefix
    (add : List (net_md_flow_key × flow_counters) → net_md_flow_key → flow_counters → Bool) :
    ∀ (xs sent : List (net_md_flow_key × flow_counters)),
      submit_until_fail add xs sent <+: xs := by
  intro xs
  induction xs with
  | nil => intro sent; simp [submit_until_fail]
  | cons x rest ih =>
    intro sent
    simp only [submit_until_fail]
    split
    · exact (List.prefix_cons_inj x).mpr (ih _)
    · exact ⟨rest, rfl⟩

theorem submit_until_fail_cases
    (add : List (net_md_flow_key × flow_counters) → net_md_flow_key → flow_counters → Bool) :
    ∀ (xs sent : List (net_md_flow_key × flow_counters)),
      (submit_until_fail add xs sent = xs
        ∧ ∀ pre y post, xs = pre ++ y :: post → add (sent ++ pre) y.1 y.2 = true)
      ∨ ∃ pre x post, xs = pre ++ x :: post
          ∧ submit_until_fail add xs sent = pre ++ [x]
          ∧ add (sent ++ pre) x.1 x.2 = false
          ∧ ∀ pre1 y post1, pre = pre1 ++ y :: post1 → add (sent ++ pre1) y.1 y.2 = true := by
  intro xs
  induction xs with
  | nil =>
    intro sent
    left
    refine ⟨rfl, ?_⟩
    intro pre y post h
    simp at h
  | cons x rest ih =>
    intro sent
    by_cases hx : add sent x.1 x.2 = true
    · rcases ih (sent ++ [x]) with ⟨h1, h2⟩ | ⟨pre, z, post, h1, h2, h3, h4⟩
      · left
        refine ⟨by simp [submit_until_fail, hx, h1], ?_⟩
        intro pre y post h
        cases pre with
        | nil =>
          simp only [List.nil_append, List.cons.injEq] at h
          rw [← h.1]
          simpa using hx
        | cons p pre1 =>
          simp only [List.cons_append, List.cons.injEq] at h
          have := h2 pre1 y post h.2
          rw [← h.1]
          simpa [List.append_assoc] using this
      · right
        refine ⟨x :: pre, z, post, by simp [h1], by simp [submit_until_fail, hx, h2], ?_, ?_⟩
        · simpa [List.append_assoc] using h3
        · intro pre1 y post1 h
          cases pre1 with
          | nil =>
            simp only [List.nil_append, List.cons.injEq] at h
            rw [← h.1]
            simpa using hx
          | cons p pre2 =>
            simp only [List.cons_append, List.cons.injEq] at h
            have := h4 pre2 y post1 h.2
            rw [← h.1]
            simpa [List.append_assoc] using this
    · right
      simp only [Bool.not_eq_true] at hx
      refine ⟨[], x, rest, rfl, by simp [submit_until_fail, hx], by simpa using hx, ?_⟩
      intro pre1 y post1 h
      simp at h

/-- C20: the submissions of a flush are the filter-accepted pending flows, in
pending order, up to and including the first one the aggregator refuses: either
every accepted flow is submitted and none is refused, or the accepted flows
split as `pre`, `x`, `post` where the submissions are `pre` then `x`, the
aggregator refuses `x`, it accepted every flow of `pre`, and nothing of `post`
is submitted. The aggregator handle of the plugin state is the one it was. -/
theorem ct_flow_add_sample_stops_at_failure (env : flush_env) (be : Bool)
    (ct_stats : flow_stats_t) :
    (ct_flow_add_sample env be ct_stats).submitted
      = submit_until_fail env.net_md_add_sample
          ((ct_stats.ctflow_list.filter (flow_accepted env be ct_stats.collect_filter)).map
            (flow_submission env)) []
    ∧ (((ct_flow_add_sample env be ct_stats).submitted
          = (ct_stats.ctflow_list.filter (flow_accepted env be ct_stats.collect_filter)).map
              (flow_submission env)
        ∧ ∀ pre y post,
            (ct_stats.ctflow_list.filter (flow_accepted env be ct_stats.collect_filter)).map
              (flow_submission env) = pre ++ y :: post →
            env.net_md_add_sample pre y.1 y.2 = true)
      ∨ ∃ pre x post,
          (ct_stats.ctflow_list.filter (flow_accepted env be ct_stats.collect_filter)).map
              (flow_submission env) = pre ++ x :: post
          ∧ (ct_flow_add_sample env be ct_stats).submitted = pre ++ [x]
          ∧ env.net_md_add_sample pre x.1 x.2 = false
          ∧ ∀ pre1 y post1, pre = pre1 ++ y :: post1 →
              env.net_md_add_sample pre1 y.1 y.2 = true)
    ∧ (ct_flow_add_sample env be ct_stats).ct_stats.aggr = ct_stats.aggr := by
  have h : (ct_flow_add_sample env be ct_stats).submitted
      = submit_until_fail env.net_md_add_sample
          ((ct_stats.ctflow_list.filter (flow_accepted env be ct_stats.collect_filter)).map
            (flow_submission env)) [] := by
    unfold ct_flow_add_sample
    simp only [ct_flow_add_sample_loop_spec, List.nil_append]
  refine ⟨h, ?_, ?_⟩
  · rw [h]
    simpa using submit_until_fail_cases env.net_md_add_sample
      ((ct_stats.ctflow_list.filter (flow_accepted env be ct_stats.collect_filter)).map
        (flow_submission env)) []
  · unfold ct_flow_add_sample
    rw [free_ct_flow_list_spec]

/-! ## The invariant `node_count = len(pending)` -/

theorem data_cb_count_ok (be : Bool) (heap : calloc_results) (ct_stats : flow_stats_t)
    (nlh : nlmsghdr) (h : count_ok ct_stats) :
    count_ok (data_cb be heap ct_stats nlh).ct_stats := by
  unfold count_ok at h ⊢
  rcases data_cb_cases be heap ct_stats nlh with h0 | ⟨orig, reply, c, _, h1⟩
    | ⟨orig, reply, c, c1, _, _, _, _, h2⟩
  · rw [h0]; exact h
  · rw [h1]
    simp only [insert_tail, List.length_append, List.length_singleton, Nat.cast_add,
      Nat.cast_one]
    omega
  · rw [h2]
    simp only [insert_tail, List.length_append, List.length_singleton, Nat.cast_add,
      Nat.cast_one]
    omega

theorem mnl_cb_run_loop_count_ok (be : Bool) (seq portid : Nat) :
    ∀ (msgs : List (calloc_results × nlmsghdr)) (ret : Int) (ct_stats : flow_stats_t),
      count_ok ct_stats → count_ok (mnl_cb_run_loop be seq portid msgs ret ct_stats).2 := by
  intro msgs
  induction msgs with
  | nil => intro ret ct_stats h; exact h
  | cons m rest ih =>
    intro ret ct_stats h
    obtain ⟨heap, nlh⟩ := m
    simp only [mnl_cb_run_loop]
    split
    · exact h
    · split
      · exact h
      · split
        · exact h
        · split
          · split
            · exact data_cb_count_ok be heap ct_stats nlh h
            · exact ih _ _ (data_cb_count_ok be heap ct_stats nlh h)
          · split
            · split
              · exact h
              · exact ih _ _ h
            · exact ih _ _ h

theorem ct_stats_get_ct_flow_loop_count_ok (be : Bool) (seq portid : Nat) :
    ∀ (recv : List (Option (List (calloc_results × nlmsghdr)))) (ct_stats : flow_stats_t)
      (r : sweep_result), count_ok ct_stats →
      ct_stats_get_ct_flow_loop be seq portid recv ct_stats = some r → count_ok r.ct_stats := by
  intro recv
  induction recv with
  | nil => intro ct_stats r _ hr; simp [ct_stats_get_ct_flow_loop] at hr
  | cons d rest ih =>
    intro ct_stats r h hr
    cases d with
    | none =>
      simp only [ct_stats_get_ct_flow_loop, Option.some.injEq] at hr
      rw [← hr]; exact h
    | some msgs =>
      have hm := mnl_cb_run_loop_count_ok be seq portid msgs MNL_CB_OK ct_stats h
      simp only [ct_stats_get_ct_flow_loop, mnl_cb_run] at hr
      split at hr
      · simp only [Option.some.injEq] at hr
        rw [← hr]; exact hm
      · split at hr
        · simp only [Option.some.injEq] at hr
          rw [← hr]; exact hm
        · exact ih _ r hm hr

theorem ct_stats_get_ct_flow_count_ok (be : Bool) (env : nl_env) (ct_stats : flow_stats_t)
    (r : sweep_result) (h : count_ok ct_stats)
    (hr : ct_stats_get_ct_flow be env ct_stats = some r) : count_ok r.ct_stats := by
  unfold ct_stats_get_ct_flow at hr
  split at hr
  · simp only [Option.some.injEq] at hr; rw [← hr]; exact h
  · split at hr
    · simp only [Option.some.injEq] at hr; rw [← hr]; exact h
    · split at hr
      · simp only [Option.some.injEq] at hr; rw [← hr]; exact h
      · exact ct_stats_get_ct_flow_loop_count_ok be _ _ _ ct_stats r h hr

theorem ct_flow_add_sample_count_ok (env : flush_env) (be : Bool) (ct_stats : flow_stats_t) :
    count_ok (ct_flow_add_sample env be ct_stats).ct_stats := by
  unfold count_ok ct_flow_add_sample
  rw [free_ct_flow_list_spec]
  rfl

theorem ct_stats_collect_cb_count_ok (be : Bool) (env4 env6 : nl_env) (fenv : flush_env)
    (collector : Option fcm_collect_plugin_t) (ct_stats : flow_stats_t) (r : collect_result)
    (h : count_ok ct_stats)
    (hr : ct_stats_collect_cb be env4 env6 fenv collector ct_stats = some r) :
    count_ok r.ct_stats := by
  unfold ct_stats_collect_cb at hr
  cases collector with
  | none =>
    simp only [Option.some.injEq] at hr
    rw [← hr]; exact h
  | some c =>
    simp only at hr
    rcases h4 : ct_stats_get_ct_flow be env4 ct_stats with _ | r4
    · rw [h4] at hr; simp at hr
    · rw [h4] at hr
      have hc4 := ct_stats_get_ct_flow_count_ok be env4 ct_stats r4 h h4
      simp only at hr
      split at hr
      · simp only [Option.some.injEq] at hr; rw [← hr]; exact hc4
      · rcases h6 : ct_stats_get_ct_flow be env6 r4.ct_stats with _ | r6
        · rw [h6] at hr; simp at hr
        · rw [h6] at hr
          have hc6 := ct_stats_get_ct_flow_count_ok be env6 r4.ct_stats r6 hc4 h6
          simp only at hr
          split at hr
          · simp only [Option.some.injEq] at hr; rw [← hr]; exact hc6
          · simp only [Option.some.injEq] at hr
            rw [← hr]
            exact ct_flow_add_sample_count_ok fenv be _

theorem ct_stats_plugin_init_list (env : init_env) (collector : fcm_collect_plugin_t)
    (ct_stats : flow_stats_t) :
    (ct_stats_plugin_init env collector ct_stats).ct_stats.ctflow_list = []
    ∧ (ct_stats_plugin_init env collector ct_stats).ct_stats.node_count = 0 := by
  unfold ct_stats_plugin_init alloc_aggr
  simp only
  split_ifs <;> (try split) <;> simp

/-- C16: `node_count` equals the length of the pending list after
`ct_stats_plugin_init`, whatever the state before (also one in which the count
and the list disagree) and whether or not the initialisation succeeds, and
after `ct_flow_add_sample`, whatever the state before; and if it holds before
a call of `data_cb`, of a sweep `ct_stats_get_ct_flow` or of
`ct_stats_collect_cb`, it holds after it. So it holds at every return of these
functions that follows an initialisation. -/
theorem node_count_is_list_length (be : Bool) (heap : calloc_results) (nlh : nlmsghdr)
    (ienv : init_env) (collector : fcm_collect_plugin_t) (fenv : flush_env)
    (env4 env6 : nl_env) (ct_stats : flow_stats_t) :
    count_ok (ct_stats_plugin_init ienv collector ct_stats).ct_stats
    ∧ (ct_stats_plugin_init ienv collector ct_stats).ct_stats.ctflow_list = []
    ∧ (ct_stats_plugin_init ienv collector ct_stats).ct_stats.node_count = 0
    ∧ count_ok (ct_flow_add_sample fenv be ct_stats).ct_stats
    ∧ (count_ok ct_stats → count_ok (data_cb be heap ct_stats nlh).ct_stats)
    ∧ (count_ok ct_stats →
        ∀ r, ct_stats_get_ct_flow be env4 ct_stats = some r → count_ok r.ct_stats)
    ∧ (count_ok ct_stats →
        ∀ r, ct_stats_collect_cb be env4 env6 fenv (some collector) ct_stats = some r →
          count_ok r.ct_stats)
    ∧ count_ok (data_cb be heap (ct_stats_plugin_init ienv collector ct_stats).ct_stats
        nlh).ct_stats
    ∧ (∀ r, ct_stats_collect_cb be env4 env6 fenv (some collector)
          (ct_stats_plugin_init ienv collector ct_stats).ct_stats = some r →
        count_ok r.ct_stats) := by
  have hinit : count_ok (ct_stats_plugin_init ienv collector ct_stats).ct_stats := by
    unfold count_ok
    rw [(ct_stats_plugin_init_list ienv collector ct_stats).1,
      (ct_stats_plugin_init_list ienv collector ct_stats).2]
    rfl
  exact ⟨hinit, (ct_stats_plugin_init_list ienv collector ct_stats).1,
    (ct_stats_plugin_init_list ienv collector ct_stats).2,
    ct_flow_add_sample_count_ok fenv be ct_stats,
    fun h => data_cb_count_ok be heap ct_stats nlh h,
    fun h r hr => ct_stats_get_ct_flow_count_ok be env4 ct_stats r h hr,
    fun h r hr => ct_stats_collect_cb_count_ok be env4 env6 fenv _ ct_stats r h hr,
    data_cb_count_ok be heap _ nlh hinit,
    fun r hr => ct_stats_collect_cb_count_ok be env4 env6 fenv _ _ r hinit hr⟩

set_option maxRecDepth 1000000 in
/-- Witness for C16: from a state in which the count and the list disagree
(`node_count = 5`, empty list) the invariant does not hold before
`ct_stats_plugin_init` and holds after it; from the state after the UDP entry
of scenario S1 (two pending samples, `node_count = 2`) it holds after the
ESTABLISHED TCP entry, giving count 4, and after a flush, giving count 0. -/
theorem node_count_is_list_length_witness :
    ¬ count_ok { ct_stats_init 0 with node_count := 5 }
    ∧ count_ok (ct_stats_plugin_init ienv_ok collector_demo
        { ct_stats_init 0 with node_count := 5 }).ct_stats
    ∧ (data_cb false heap_ok (ct_stats_init 0) msg_udp).ct_stats.node_count = 2
    ∧ count_ok (data_cb false heap_ok (data_cb false heap_ok (ct_stats_init 0) msg_udp).ct_stats
        msg_tcp_established).ct_stats
    ∧ (data_cb false heap_ok (data_cb false heap_ok (ct_stats_init 0) msg_udp).ct_stats
        msg_tcp_established).ct_stats.node_count = 4
    ∧ (ct_flow_add_sample (fenv_quota 0 1) false
        (data_cb false heap_ok (ct_stats_init 0) msg_udp).ct_stats).ct_stats.node_count = 0 :=
  ⟨by decide,
    (node_count_is_list_length false heap_ok msg_tcp_established ienv_ok collector_demo
      (fenv_quota 0 1) sweep_udp_done sweep_done { ct_stats_init 0 with node_count := 5 }).1,
    by decide,
    (node_count_is_list_length false heap_ok msg_tcp_established ienv_ok collector_demo
      (fenv_quota 0 1) sweep_udp_done sweep_done
      (data_cb false heap_ok (ct_stats_init 0) msg_udp).ct_stats).2.2.2.2.1 (by decide),
    by decide, by decide⟩

/-! ## Sweeps and collection -/

set_option maxRecDepth 1000000 in
/-- C19: a sweep whose first `mnl_socket_recvfrom` fails returns 1, not -1, and
leaves the pending list as it was; a sweep whose `mnl_socket_open` fails
returns -1, and a dump that runs to `NLMSG_DONE` returns 0. -/
theorem ct_stats_get_ct_flow_recv_failure :
    (ct_stats_get_ct_flow false sweep_recv_fail (ct_stats_init 0)).map (fun r => r.rc) = some 1
    ∧ (ct_stats_get_ct_flow false sweep_open_fail (ct_stats_init 0)).map (fun r => r.rc)
        = some (-1)
    ∧ (ct_stats_get_ct_flow false sweep_udp_done (ct_stats_init 0)).map (fun r => r.rc)
        = some 0 := by
  refine ⟨?_, ?_, ?_⟩ <;> decide

set_option maxRecDepth 1000000 in
/-- C17: with an empty pending list at the call, an IPv4 dump that carries the
UDP entry of scenario S1 followed by an entry whose `CTA_ZONE` has three bytes
makes the IPv4 sweep return -1 after the two samples of the first entry were
linked; `ct_stats_collect_cb` then returns without the IPv6 sweep and without
the flush, and the pending list holds those two samples. -/
theorem ct_stats_collect_cb_partial_samples :
    (ct_stats_init 0).ctflow_list = []
    ∧ (ct_stats_get_ct_flow false sweep_udp_bad_zone (ct_stats_init 0)).map (fun r => r.rc)
        = some (-1)
    ∧ (ct_stats_collect_cb false sweep_udp_bad_zone sweep_done (fenv_quota 0 10)
        (some collector_demo) (ct_stats_init 0)).map
          (fun r => (r.ct_stats.ctflow_list, r.ran_v6, r.flush.isSome))
        = some ([udp_fwd, udp_rev], false, false) := by
  refine ⟨rfl, ?_, ?_⟩ <;> decide

/-- C18 (amended): when the IPv4 sweep returns -1, `ct_stats_collect_cb` returns
at once, with neither the IPv6 sweep nor the flush; for any other return value
of the IPv4 sweep it runs the IPv6 sweep, and when that one does not return -1
it stores the collector's collect filter name and runs the flush on the
resulting state; when the IPv6 sweep returns -1 it returns without flushing. -/
theorem ct_stats_collect_cb_steps (be : Bool) (env4 env6 : nl_env) (fenv : flush_env)
    (c : fcm_collect_plugin_t) (ct_stats : flow_stats_t) (r4 : sweep_result)
    (h4 : ct_stats_get_ct_flow be env4 ct_stats = some r4) :
    (r4.rc = -1 →
      ct_stats_collect_cb be env4 env6 fenv (some c) ct_stats
        = some { ct_stats := r4.ct_stats, ran_v4 := true, ran_v6 := false, flush := none })
    ∧ (r4.rc ≠ -1 → ∀ r6, ct_stats_get_ct_flow be env6 r4.ct_stats = some r6 →
        (r6.rc = -1 →
          ct_stats_collect_cb be env4 env6 fenv (some c) ct_stats
            = some { ct_stats := r6.ct_stats, ran_v4 := true, ran_v6 := true, flush := none })
        ∧ (r6.rc ≠ -1 →
          ct_stats_collect_cb be env4 env6 fenv (some c) ct_stats
            = some { ct_stats := (ct_flow_add_sample fenv be
                        { r6.ct_stats with collect_filter := c.filters_collect }).ct_stats,
                     ran_v4 := true, ran_v6 := true,
                     flush := some (ct_flow_add_sample fenv be
                        { r6.ct_stats with collect_filter := c.filters_collect }) })) := by
  constructor
  · intro h
    unfold ct_stats_collect_cb
    simp only [h4, h, if_true]
  · intro h r6 h6
    constructor
    · intro h'
      unfold ct_stats_collect_cb
      simp only [h4, h, if_false, h6, h', if_true]
    · intro h'
      unfold ct_stats_collect_cb
      simp only [h4, h, if_false, h6, h']

set_option maxRecDepth 1000000 in
/-- Witness for C18: when the IPv4 sweep fails in `mnl_socket_recvfrom` it
returns 1, so the IPv6 sweep runs; here it links the two samples of the UDP
entry and the flush then submits both and empties the list. -/
theorem ct_stats_collect_cb_steps_witness :
    ct_stats_get_ct_flow false sweep_recv_fail (ct_stats_init 0)
      = some { rc := 1, ct_stats := ct_stats_init 0, socket := .left_open }
    ∧ (ct_stats_collect_cb false sweep_recv_fail sweep_udp_done (fenv_quota 0 10)
        (some collector_demo) (ct_stats_init 0)).map
          (fun r => (r.ct_stats.ctflow_list, r.ran_v6, r.flush.map (fun f => f.submitted.length)))
        = some ([], true, some 2) := by
  have h4 : ct_stats_get_ct_flow false sweep_recv_fail (ct_stats_init 0)
      = some { rc := 1, ct_stats := ct_stats_init 0, socket := .left_open } := by decide
  have h6 : ct_stats_get_ct_flow false sweep_udp_done (ct_stats_init 0)
      = some { rc := 0, ct_stats := (data_cb false heap_ok (ct_stats_init 0) msg_udp).ct_stats,
               socket := .closed } := by decide
  refine ⟨h4, ?_⟩
  rw [((ct_stats_collect_cb_steps false sweep_recv_fail sweep_udp_done (fenv_quota 0 10)
    collector_demo (ct_stats_init 0) _ h4).2 (by decide) _ h6).2 (by decide)]
  decide

set_option maxRecDepth 1000000 in
/-- C18 as stated fails: when `mnl_socket_open` fails in the IPv4 sweep, which
returns -1, `ct_stats_collect_cb` returns without running the IPv6 sweep and
without the flush. -/
theorem ct_stats_collect_cb_steps_counterexample :
    (ct_stats_get_ct_flow false sweep_open_fail (ct_stats_init 0)).map (fun r => r.rc)
      = some (-1)
    ∧ (ct_stats_collect_cb false sweep_open_fail sweep_udp_done (fenv_quota 0 10)
        (some collector_demo) (ct_stats_init 0)).map (fun r => (r.ran_v6, r.flush.isSome))
        = some (false, false) := by
  constructor <;> decide

theorem ct_stats_get_ct_flow_loop_rc (be : Bool) (seq portid : Nat) :
    ∀ (recv : List (Option (List (calloc_results × nlmsghdr)))) (ct_stats : flow_stats_t)
      (r : sweep_result),
      ct_stats_get_ct_flow_loop be seq portid recv ct_stats = some r →
      (r.rc = -1 ∨ r.rc = 0 ∨ r.rc = 1) ∧ (r.socket = .closed ↔ r.rc = 0) := by
  intro recv
  induction recv with
  | nil => intro ct_stats r hr; simp [ct_stats_get_ct_flow_loop] at hr
  | cons d rest ih =>
    intro ct_stats r hr
    cases d with
    | none =>
      simp only [ct_stats_get_ct_flow_loop, Option.some.injEq] at hr
      rw [← hr]; simp
    | some msgs =>
      simp only [ct_stats_get_ct_flow_loop] at hr
      split at hr
      · simp only [Option.some.injEq] at hr
        rw [← hr]; simp
      · split at hr
        · simp only [Option.some.injEq] at hr
          rw [← hr]; simp
        · exact ih _ r hr

/-- The return values of a sweep: -1, 0 or 1, and the socket is closed exactly
when the value is 0. -/
theorem ct_stats_get_ct_flow_rc (be : Bool) (env : nl_env) (ct_stats : flow_stats_t)
    (r : sweep_result) (hr : ct_stats_get_ct_flow be env ct_stats = some r) :
    (r.rc = -1 ∨ r.rc = 0 ∨ r.rc = 1) ∧ (r.socket = .closed ↔ r.rc = 0) := by
  unfold ct_stats_get_ct_flow at hr
  split at hr
  · simp only [Option.some.injEq] at hr; rw [← hr]; simp
  · split at hr
    · simp only [Option.some.injEq] at hr; rw [← hr]; simp
    · split at hr
      · simp only [Option.some.injEq] at hr; rw [← hr]; simp
      · exact ct_stats_get_ct_flow_loop_rc be _ _ _ ct_stats r hr

/-! ## Validators: unknown types and wrong shapes -/

theorem data_attr_cb_spec : validator_spec CTA_MAX wrong_shape_top data_attr_cb := by
  intro attr tb
  unfold data_attr_cb wrong_shape_top
  simp only [mnl_attr_type_valid_neg, mnl_attr_validate_nested,
    mnl_attr_validate_fixed _ _ (show mnl_attr_data_type_len MNL_TYPE_U32 ≠ 0 by decide),
    mnl_attr_validate_fixed _ _ (show mnl_attr_data_type_len MNL_TYPE_U16 ≠ 0 by decide),
    mnl_attr_data_type_len]
  generalize mnl_attr_get_type attr = t
  generalize attr.payload.length = n
  simp only [CTA_MAX, CTA_TUPLE_ORIG, CTA_COUNTERS_ORIG, CTA_COUNTERS_REPLY, CTA_TIMEOUT,
    CTA_MARK, CTA_SECMARK, CTA_ZONE, MNL_ATTR_HDRLEN]
  refine ⟨?_, ?_, ?_⟩
  · intro h; rw [if_pos h]
  · intro h hw
    rw [if_neg (by omega)]
    split_ifs <;> first | rfl | omega
  · intro h hw
    rw [if_neg (by omega)]
    split_ifs <;> first | rfl | omega

theorem parse_tuple_cb_spec : validator_spec CTA_TUPLE_MAX wrong_shape_tuple parse_tuple_cb := by
  intro attr tb
  unfold parse_tuple_cb wrong_shape_tuple
  simp only [mnl_attr_type_valid_neg, mnl_attr_validate_nested,
    mnl_attr_validate_fixed _ _ (show mnl_attr_data_type_len MNL_TYPE_U16 ≠ 0 by decide),
    mnl_attr_data_type_len]
  generalize mnl_attr_get_type attr = t
  generalize attr.payload.length = n
  simp only [CTA_TUPLE_MAX, CTA_TUPLE_IP, CTA_TUPLE_PROTO, CTA_TUPLE_ZONE, MNL_ATTR_HDRLEN]
  refine ⟨?_, ?_, ?_⟩
  · intro h; rw [if_pos h]
  · intro h hw
    rw [if_neg (by omega)]
    split_ifs <;> first | rfl | omega
  · intro h hw
    rw [if_neg (by omega)]
    split_ifs <;> first | rfl | omega

theorem parse_ip_cb_spec : validator_spec CTA_IP_MAX wrong_shape_ip parse_ip_cb := by
  intro attr tb
  unfold parse_ip_cb wrong_shape_ip
  simp only [mnl_attr_type_valid_neg, mnl_attr_validate2_binary _ 16 (by decide),
    mnl_attr_validate_fixed _ _ (show mnl_attr_data_type_len MNL_TYPE_U32 ≠ 0 by decide),
    mnl_attr_data_type_len]
  generalize mnl_attr_get_type attr = t
  generalize attr.payload.length = n
  simp only [CTA_IP_MAX, CTA_IP_V4_SRC, CTA_IP_V4_DST, CTA_IP_V6_SRC, CTA_IP_V6_DST]
  refine ⟨?_, ?_, ?_⟩
  · intro h; rw [if_pos h]
  · intro h hw
    rw [if_neg (by omega)]
    split_ifs <;> first | rfl | omega
  · intro h hw
    rw [if_neg (by omega)]
    split_ifs <;> first | rfl | omega

theorem parse_proto_cb_spec : validator_spec CTA_PROTO_MAX wrong_shape_proto parse_proto_cb := by
  intro attr tb
  unfold parse_proto_cb wrong_shape_proto
  simp only [mnl_attr_type_valid_neg,
    mnl_attr_validate_fixed _ _ (show mnl_attr_data_type_len MNL_TYPE_U8 ≠ 0 by decide),
    mnl_attr_validate_fixed _ _ (show mnl_attr_data_type_len MNL_TYPE_U16 ≠ 0 by decide),
    mnl_attr_data_type_len]
  generalize mnl_attr_get_type attr = t
  generalize attr.payload.length = n
  simp only [CTA_PROTO_MAX, CTA_PROTO_NUM, CTA_PROTO_ICMP_TYPE, CTA_PROTO_ICMP_CODE,
    CTA_PROTO_SRC_PORT, CTA_PROTO_DST_PORT, CTA_PROTO_ICMP_ID]
  refine ⟨?_, ?_, ?_⟩
  · intro h; rw [if_pos h]
  · intro h hw
    rw [if_neg (by omega)]
    split_ifs <;> first | rfl | omega
  · intro h hw
    rw [if_neg (by omega)]
    split_ifs <;> first | rfl | omega

theorem parse_protoinfo_spec :
    validator_spec CTA_PROTOINFO_MAX wrong_shape_protoinfo parse_protoinfo := by
  intro attr tb
  unfold parse_protoinfo wrong_shape_protoinfo
  simp only [mnl_attr_type_valid_neg, mnl_attr_validate_nested]
  generalize mnl_attr_get_type attr = t
  generalize attr.payload.length = n
  simp only [CTA_PROTOINFO_MAX, CTA_PROTOINFO_TCP, MNL_ATTR_HDRLEN]
  refine ⟨?_, ?_, ?_⟩
  · intro h; rw [if_pos h]
  · intro h hw
    rw [if_neg (by omega)]
    split_ifs
    all_goals rfl
  · intro h hw
    rw [if_neg (by omega)]
    split_ifs
    all_goals rfl

theorem parse_tcp_protoinfo_spec :
    validator_spec CTA_PROTOINFO_TCP_MAX wrong_shape_tcp parse_tcp_protoinfo := by
  intro attr tb
  unfold parse_tcp_protoinfo wrong_shape_tcp
  simp only [mnl_attr_type_valid_neg,
    mnl_attr_validate_fixed _ _ (show mnl_attr_data_type_len MNL_TYPE_U8 ≠ 0 by decide),
    mnl_attr_data_type_len]
  generalize mnl_attr_get_type attr = t
  generalize attr.payload.length = n
  simp only [CTA_PROTOINFO_TCP_MAX, CTA_PROTOINFO_TCP_STATE]
  refine ⟨?_, ?_, ?_⟩
  · intro h; rw [if_pos h]
  · intro h hw
    rw [if_neg (by omega)]
    split_ifs
    all_goals rfl
  · intro h hw
    rw [if_neg (by omega)]
    split_ifs
    all_goals rfl

theorem parse_counters_cb_spec :
    validator_spec CTA_COUNTERS_MAX wrong_shape_counters parse_counters_cb := by
  intro attr tb
  unfold parse_counters_cb wrong_shape_counters
  simp only [mnl_attr_type_valid_neg,
    mnl_attr_validate_fixed _ _ (show mnl_attr_data_type_len MNL_TYPE_U64 ≠ 0 by decide),
    mnl_attr_validate_fixed _ _ (show mnl_attr_data_type_len MNL_TYPE_U32 ≠ 0 by decide),
    mnl_attr_data_type_len]
  generalize mnl_attr_get_type attr = t
  generalize attr.payload.length = n
  simp only [CTA_COUNTERS_MAX, CTA_COUNTERS_PACKETS, CTA_COUNTERS_BYTES,
    CTA_COUNTERS32_PACKETS, CTA_COUNTERS32_BYTES]
  refine ⟨?_, ?_, ?_⟩
  · intro h; rw [if_pos h]
  · intro h hw
    rw [if_neg (by omega)]
    split_ifs <;> first | rfl | omega
  · intro h hw
    rw [if_neg (by omega)]
    split_ifs <;> first | rfl | omega

theorem parse_ctx_spec (c : parse_ctx) :
    validator_spec c.info.max c.info.wrong_shape c.info.cb := by
  cases c
  · exact data_attr_cb_spec
  · exact parse_tuple_cb_spec
  · exact parse_ip_cb_spec
  · exact parse_proto_cb_spec
  · exact parse_protoinfo_spec
  · exact parse_tcp_protoinfo_spec
  · exact parse_counters_cb_spec

/-! ## Parsing a list of attributes with a validator -/

theorem validator_verdict (max : Nat) (wrong_shape : nlattr → Prop) (cb : mnl_attr_cb_t)
    (hcb : validator_spec max wrong_shape cb) (attr : nlattr) (tb : attr_tb) :
    ((cb attr tb).1 = MNL_CB_ERROR ∧ (cb attr tb).2 = tb
        ∧ mnl_attr_get_type attr ≤ max ∧ wrong_shape attr)
    ∨ ((cb attr tb).1 = MNL_CB_OK
        ∧ ¬ (mnl_attr_get_type attr ≤ max ∧ wrong_shape attr)) := by
  obtain ⟨h1, h2, h3⟩ := hcb attr tb
  by_cases hm : max < mnl_attr_get_type attr
  · right
    rw [h1 hm]
    exact ⟨rfl, fun h => by omega⟩
  · by_cases hw : wrong_shape attr
    · left
      rw [h2 (by omega) hw]
      exact ⟨rfl, rfl, by omega, hw⟩
    · right
      rw [h3 (by omega) hw]
      exact ⟨rfl, fun h => hw h.2⟩

theorem mnl_attr_loop_verdict (max : Nat) (wrong_shape : nlattr → Prop) (cb : mnl_attr_cb_t)
    (hcb : validator_spec max wrong_shape cb) :
    ∀ (attrs : List nlattr) (tb : attr_tb),
      ((mnl_attr_loop cb attrs MNL_CB_OK tb).1 = MNL_CB_ERROR
        ∧ ∃ a ∈ attrs, mnl_attr_get_type a ≤ max ∧ wrong_shape a)
      ∨ ((mnl_attr_loop cb attrs MNL_CB_OK tb).1 = MNL_CB_OK
        ∧ ¬ ∃ a ∈ attrs, mnl_attr_get_type a ≤ max ∧ wrong_shape a) := by
  intro attrs
  induction attrs with
  | nil =>
    intro tb
    right
    exact ⟨rfl, by simp⟩
  | cons x rest ih =>
    intro tb
    simp only [mnl_attr_loop]
    rcases validator_verdict max wrong_shape cb hcb x tb with ⟨h1, _, h3⟩ | ⟨h1, h2⟩
    · left
      rw [if_pos (by rw [h1]; decide)]
      exact ⟨h1, x, List.mem_cons_self _ _, h3⟩
    · rw [if_neg (by rw [h1]; decide), h1]
      rcases ih (cb x tb).2 with ⟨g1, a, ha, g2⟩ | ⟨g1, g2⟩
      · left
        exact ⟨g1, a, List.mem_cons_of_mem _ ha, g2⟩
      · right
        refine ⟨g1, ?_⟩
        rintro ⟨a, ha, hb⟩
        rcases List.mem_cons.mp ha with ha | ha
        · rw [ha] at hb; exact h2 hb
        · exact g2 ⟨a, ha, hb⟩

theorem mnl_attr_loop_insert (max : Nat) (wrong_shape : nlattr → Prop) (cb : mnl_attr_cb_t)
    (hcb : validator_spec max wrong_shape cb) (a : nlattr) (ha : max < mnl_attr_get_type a) :
    ∀ (l1 l2 : List nlattr) (tb : attr_tb),
      mnl_attr_loop cb (l1 ++ a :: l2) MNL_CB_OK tb = mnl_attr_loop cb (l1 ++ l2) MNL_CB_OK tb := by
  intro l1
  induction l1 with
  | nil =>
    intro l2 tb
    have h := (hcb a tb).1 ha
    have hn : ¬ (MNL_CB_OK ≤ MNL_CB_STOP) := by decide
    simp only [List.nil_append, mnl_attr_loop, h, if_neg hn]
  | cons x rest ih =>
    intro l2 tb
    have e1 : mnl_attr_loop cb (x :: rest ++ a :: l2) MNL_CB_OK tb
        = if (cb x tb).1 ≤ MNL_CB_STOP then cb x tb
          else mnl_attr_loop cb (rest ++ a :: l2) (cb x tb).1 (cb x tb).2 := rfl
    have e2 : mnl_attr_loop cb (x :: rest ++ l2) MNL_CB_OK tb
        = if (cb x tb).1 ≤ MNL_CB_STOP then cb x tb
          else mnl_attr_loop cb (rest ++ l2) (cb x tb).1 (cb x tb).2 := rfl
    rw [e1, e2]
    rcases validator_verdict max wrong_shape cb hcb x tb with ⟨h1, _, _⟩ | ⟨h1, _⟩
    · rw [if_pos (by rw [h1]; decide), if_pos (by rw [h1]; decide)]
    · rw [if_neg (by rw [h1]; decide), if_neg (by rw [h1]; decide), h1]
      exact ih l2 _

/-! ## Adding an attribute of unknown type -/

theorem mnl_attrs_ne_nil_length (be : Bool) (p : List u8) (h : mnl_attrs be p ≠ []) :
    MNL_ATTR_HDRLEN ≤ p.length := by
  unfold mnl_attrs at h
  by_contra hlt
  apply h
  cases hn : p.length with
  | zero => rfl
  | succ n =>
    unfold mnl_attr_walk
    simp only
    rw [if_neg]
    intro hc
    omega

theorem adds_unknown_ne_nil (be : Bool) (c : parse_ctx) (l l' : List nlattr)
    (h : adds_unknown be c l l') : l' ≠ [] := by
  cases h with
  | here _ _ _ pre post a _ _ h2 => rw [h2]; simp
  | inside _ _ _ _ pre post x x' _ _ _ _ _ h2 => rw [h2]; simp

theorem tb_differ_at_refl (tb : attr_tb) (t : Nat) (x x' : nlattr) :
    tb_differ_at tb tb t x x' :=
  ⟨rfl, fun _ => Or.inl rfl⟩

theorem tb_differ_at_set (tb tb' : attr_tb) (t : Nat) (x x' : nlattr) (i : Nat) (y : nlattr)
    (h : tb_differ_at tb tb' t x x') :
    tb_differ_at (tb_set tb i y) (tb_set tb' i y) t x x' := by
  obtain ⟨hl, hg⟩ := h
  refine ⟨by simp only [tb_set, List.length_set, hl], ?_⟩
  intro j
  rw [tb_get_tb_set, tb_get_tb_set, hl]
  by_cases hc : i = j ∧ i < tb.length
  · rw [if_pos hc, if_pos hc]
    exact Or.inl rfl
  · rw [if_neg hc, if_neg hc]
    exact hg j

theorem mnl_attr_loop_differ (max : Nat) (wrong_shape : nlattr → Prop) (cb : mnl_attr_cb_t)
    (hcb : validator_spec max wrong_shape cb) (t : Nat) (x x' : nlattr) :
    ∀ (l : List nlattr) (ret : Int) (tb tb' : attr_tb), tb_differ_at tb tb' t x x' →
      (mnl_attr_loop cb l ret tb').1 = (mnl_attr_loop cb l ret tb).1
      ∧ tb_differ_at (mnl_attr_loop cb l ret tb).2 (mnl_attr_loop cb l ret tb').2 t x x' := by
  intro l
  induction l with
  | nil =>
    intro ret tb tb' h
    exact ⟨rfl, h⟩
  | cons y rest ih =>
    intro ret tb tb' h
    obtain ⟨a1, a2, a3⟩ := hcb y tb
    obtain ⟨b1, b2, b3⟩ := hcb y tb'
    have e1 : mnl_attr_loop cb (y :: rest) ret tb
        = if (cb y tb).1 ≤ MNL_CB_STOP then cb y tb
          else mnl_attr_loop cb rest (cb y tb).1 (cb y tb).2 := rfl
    have e2 : mnl_attr_loop cb (y :: rest) ret tb'
        = if (cb y tb').1 ≤ MNL_CB_STOP then cb y tb'
          else mnl_attr_loop cb rest (cb y tb').1 (cb y tb').2 := rfl
    have hok : ¬ (MNL_CB_OK ≤ MNL_CB_STOP) := by decide
    have herr : MNL_CB_ERROR ≤ MNL_CB_STOP := by decide
    rw [e1, e2]
    by_cases hm : max < mnl_attr_get_type y
    · rw [a1 hm, b1 hm, if_neg hok, if_neg hok]
      exact ih MNL_CB_OK tb tb' h
    · by_cases hw : wrong_shape y
      · rw [a2 (by omega) hw, b2 (by omega) hw]
        rw [if_pos herr, if_pos herr]
        exact ⟨rfl, h⟩
      · rw [a3 (by omega) hw, b3 (by omega) hw, if_neg hok, if_neg hok]
        exact ih MNL_CB_OK _ _ (tb_differ_at_set tb tb' t x x' _ y h)

theorem mnl_attr_get_type_congr (x x' : nlattr) (h : x'.nla_type = x.nla_type) :
    mnl_attr_get_type x' = mnl_attr_get_type x := by
  unfold mnl_attr_get_type
  rw [h]

theorem mnl_attr_loop_replace (max : Nat) (wrong_shape : nlattr → Prop) (cb : mnl_attr_cb_t)
    (hcb : validator_spec max wrong_shape cb) (x x' : nlattr)
    (ht : x'.nla_type = x.nla_type) (hx : ¬ wrong_shape x) (hx' : ¬ wrong_shape x') :
    ∀ (l1 l2 : List nlattr) (tb : attr_tb),
      (mnl_attr_loop cb (l1 ++ x' :: l2) MNL_CB_OK tb).1
          = (mnl_attr_loop cb (l1 ++ x :: l2) MNL_CB_OK tb).1
      ∧ tb_differ_at (mnl_attr_loop cb (l1 ++ x :: l2) MNL_CB_OK tb).2
          (mnl_attr_loop cb (l1 ++ x' :: l2) MNL_CB_OK tb).2 (mnl_attr_get_type x) x x' := by
  have hty := mnl_attr_get_type_congr x x' ht
  have hok : ¬ (MNL_CB_OK ≤ MNL_CB_STOP) := by decide
  have herr : MNL_CB_ERROR ≤ MNL_CB_STOP := by decide
  intro l1
  induction l1 with
  | nil =>
    intro l2 tb
    obtain ⟨a1, _, a3⟩ := hcb x tb
    obtain ⟨b1, _, b3⟩ := hcb x' tb
    have e1 : mnl_attr_loop cb ([] ++ x :: l2) MNL_CB_OK tb
        = if (cb x tb).1 ≤ MNL_CB_STOP then cb x tb
          else mnl_attr_loop cb l2 (cb x tb).1 (cb x tb).2 := rfl
    have e2 : mnl_attr_loop cb ([] ++ x' :: l2) MNL_CB_OK tb
        = if (cb x' tb).1 ≤ MNL_CB_STOP then cb x' tb
          else mnl_attr_loop cb l2 (cb x' tb).1 (cb x' tb).2 := rfl
    rw [e1, e2]
    by_cases hm : max < mnl_attr_get_type x
    · rw [a1 hm, b1 (by omega)]
      exact ⟨rfl, tb_differ_at_refl _ _ _ _⟩
    · rw [a3 (by omega) hx, b3 (by omega) hx', hty, if_neg hok, if_neg hok]
      apply mnl_attr_loop_differ max wrong_shape cb hcb
      refine ⟨by simp only [tb_set, List.length_set], ?_⟩
      intro j
      rw [tb_get_tb_set, tb_get_tb_set]
      by_cases hc : mnl_attr_get_type x = j ∧ mnl_attr_get_type x < tb.length
      · rw [if_pos hc, if_pos hc]
        exact Or.inr ⟨hc.1.symm, rfl, rfl⟩
      · rw [if_neg hc, if_neg hc]
        exact Or.inl rfl
  | cons y rest ih =>
    intro l2 tb
    have e1 : mnl_attr_loop cb ((y :: rest) ++ x :: l2) MNL_CB_OK tb
        = if (cb y tb).1 ≤ MNL_CB_STOP then cb y tb
          else mnl_attr_loop cb (rest ++ x :: l2) (cb y tb).1 (cb y tb).2 := rfl
    have e2 : mnl_attr_loop cb ((y :: rest) ++ x' :: l2) MNL_CB_OK tb
        = if (cb y tb).1 ≤ MNL_CB_STOP then cb y tb
          else mnl_attr_loop cb (rest ++ x' :: l2) (cb y tb).1 (cb y tb).2 := rfl
    rw [e1, e2]
    rcases validator_verdict max wrong_shape cb hcb y tb with ⟨h1, _, _⟩ | ⟨h1, _⟩
    · rw [if_pos (by rw [h1]; exact herr), if_pos (by rw [h1]; exact herr)]
      exact ⟨rfl, tb_differ_at_refl _ _ _ _⟩
    · rw [if_neg (by rw [h1]; exact hok), if_neg (by rw [h1]; exact hok), h1]
      exact ih l2 _

theorem adds_unknown_leaf (be : Bool) (c : parse_ctx) (l l' : List nlattr)
    (hc : ∀ t, c.child t = none) (h : adds_unknown be c l l') (tb : attr_tb) :
    mnl_attr_loop c.info.cb l' MNL_CB_OK tb = mnl_attr_loop c.info.cb l MNL_CB_OK tb := by
  cases h with
  | here _ _ _ pre post a ha h1 h2 =>
    rw [h1, h2]
    exact mnl_attr_loop_insert _ _ _ (parse_ctx_spec c) a ha pre post tb
  | inside _ c' _ _ pre post x x' hch _ _ _ _ _ =>
    rw [hc] at hch
    cases hch

theorem child_nest_shape (c c' : parse_ctx) (x : nlattr)
    (hch : c.child (mnl_attr_get_type x) = some c')
    (hlen : x.payload.length = 0 ∨ MNL_ATTR_HDRLEN ≤ x.payload.length) :
    ¬ c.info.wrong_shape x := by
  revert hch hlen
  generalize hn : x.payload.length = n
  generalize ht : mnl_attr_get_type x = t
  intro hch hlen
  cases c <;>
    simp only [parse_ctx.child, parse_ctx.info, wrong_shape_top, wrong_shape_tuple,
      wrong_shape_protoinfo, hn, ht, CTA_TUPLE_ORIG, CTA_TUPLE_REPLY, CTA_PROTOINFO,
      CTA_COUNTERS_ORIG, CTA_COUNTERS_REPLY, CTA_TIMEOUT, CTA_MARK, CTA_SECMARK, CTA_ZONE,
      CTA_TUPLE_IP, CTA_TUPLE_PROTO, CTA_TUPLE_ZONE, CTA_PROTOINFO_TCP, MNL_ATTR_HDRLEN,
      reduceCtorEq] at hch hlen ⊢
  all_goals split_ifs at hch <;> omega

theorem adds_unknown_inside_loop (be : Bool) (c c' : parse_ctx) (pre post : List nlattr)
    (x x' : nlattr) (tb : attr_tb)
    (hch : c.child (mnl_attr_get_type x) = some c') (ht : x'.nla_type = x.nla_type)
    (hlen : x.payload.length = 0 ∨ MNL_ATTR_HDRLEN ≤ x.payload.length)
    (hadd : adds_unknown be c' (mnl_attrs be x.payload) (mnl_attrs be x'.payload)) :
    (mnl_attr_loop c.info.cb (pre ++ x' :: post) MNL_CB_OK tb).1
        = (mnl_attr_loop c.info.cb (pre ++ x :: post) MNL_CB_OK tb).1
    ∧ tb_differ_at (mnl_attr_loop c.info.cb (pre ++ x :: post) MNL_CB_OK tb).2
        (mnl_attr_loop c.info.cb (pre ++ x' :: post) MNL_CB_OK tb).2
        (mnl_attr_get_type x) x x' := by
  have hty := mnl_attr_get_type_congr x x' ht
  have hlen' : x'.payload.length = 0 ∨ MNL_ATTR_HDRLEN ≤ x'.payload.length :=
    Or.inr (mnl_attrs_ne_nil_length be _ (adds_unknown_ne_nil be c' _ _ hadd))
  exact mnl_attr_loop_replace _ _ _ (parse_ctx_spec c) x x' ht
    (child_nest_shape c c' x hch hlen)
    (child_nest_shape c c' x' (by rw [hty]; exact hch) hlen') pre post tb

theorem get_tuple_ip_adds (be : Bool) (y y' : nlattr) (flow : ct_flow_t)
    (h : adds_unknown be .ip (mnl_attrs be y.payload) (mnl_attrs be y'.payload)) :
    get_tuple_ip be y' flow = get_tuple_ip be y flow := by
  have e : mnl_attr_loop parse_ip_cb (mnl_attrs be y'.payload) MNL_CB_OK (tb_zero CTA_IP_MAX)
      = mnl_attr_loop parse_ip_cb (mnl_attrs be y.payload) MNL_CB_OK (tb_zero CTA_IP_MAX) :=
    adds_unknown_leaf be .ip _ _ (fun _ => rfl) h _
  unfold get_tuple_ip mnl_attr_parse_nested
  rw [e]

theorem get_tuple_proto_adds (be : Bool) (y y' : nlattr) (flow : ct_flow_t)
    (h : adds_unknown be .proto (mnl_attrs be y.payload) (mnl_attrs be y'.payload)) :
    get_tuple_proto be y' flow = get_tuple_proto be y flow := by
  have e : mnl_attr_loop parse_proto_cb (mnl_attrs be y'.payload) MNL_CB_OK
        (tb_zero CTA_PROTO_MAX)
      = mnl_attr_loop parse_proto_cb (mnl_attrs be y.payload) MNL_CB_OK
        (tb_zero CTA_PROTO_MAX) :=
    adds_unknown_leaf be .proto _ _ (fun _ => rfl) h _
  unfold get_tuple_proto mnl_attr_parse_nested
  rw [e]

theorem get_counter_adds (be : Bool) (y y' : nlattr) (flow : ct_flow_t)
    (h : adds_unknown be .counters (mnl_attrs be y.payload) (mnl_attrs be y'.payload)) :
    get_counter be y' flow = get_counter be y flow := by
  have e : mnl_attr_loop parse_counters_cb (mnl_attrs be y'.payload) MNL_CB_OK
        (tb_zero CTA_COUNTERS_MAX)
      = mnl_attr_loop parse_counters_cb (mnl_attrs be y.payload) MNL_CB_OK
        (tb_zero CTA_COUNTERS_MAX) :=
    adds_unknown_leaf be .counters _ _ (fun _ => rfl) h _
  unfold get_counter mnl_attr_parse_nested
  rw [e]

theorem get_protoinfo_adds (be : Bool) (x x' : nlattr) (flow : ct_flow_t)
    (h : adds_unknown be .protoinfo (mnl_attrs be x.payload) (mnl_attrs be x'.payload)) :
    get_protoinfo be x' flow = get_protoinfo be x flow := by
  unfold get_protoinfo mnl_attr_parse_nested
  cases h with
  | here _ _ _ pre post a ha h1 h2 =>
    have e : mnl_attr_loop parse_protoinfo (pre ++ a :: post) MNL_CB_OK
          (tb_zero CTA_PROTOINFO_MAX)
        = mnl_attr_loop parse_protoinfo (pre ++ post) MNL_CB_OK (tb_zero CTA_PROTOINFO_MAX) :=
      mnl_attr_loop_insert _ _ _ parse_protoinfo_spec a ha pre post _
    rw [h1, h2, e]
  | inside _ c' _ _ pre post y y' hch ht hlen hadd h1 h2 =>
    have hc' : mnl_attr_get_type y = CTA_PROTOINFO_TCP ∧ c' = .tcp := by
      simp only [parse_ctx.child] at hch
      split_ifs at hch with h0
      exact ⟨h0, (Option.some.inj hch).symm⟩
    obtain ⟨hty, rfl⟩ := hc'
    obtain ⟨hrc, _, hrel⟩ :
        (mnl_attr_loop parse_protoinfo (pre ++ y' :: post) MNL_CB_OK
            (tb_zero CTA_PROTOINFO_MAX)).1
          = (mnl_attr_loop parse_protoinfo (pre ++ y :: post) MNL_CB_OK
            (tb_zero CTA_PROTOINFO_MAX)).1
        ∧ tb_differ_at
          (mnl_attr_loop parse_protoinfo (pre ++ y :: post) MNL_CB_OK
            (tb_zero CTA_PROTOINFO_MAX)).2
          (mnl_attr_loop parse_protoinfo (pre ++ y' :: post) MNL_CB_OK
            (tb_zero CTA_PROTOINFO_MAX)).2 (mnl_attr_get_type y) y y' :=
      adds_unknown_inside_loop be .protoinfo .tcp pre post y y' _ hch ht hlen hadd
    rw [h1, h2]
    generalize mnl_attr_loop parse_protoinfo (pre ++ y' :: post) MNL_CB_OK
      (tb_zero CTA_PROTOINFO_MAX) = r' at hrc hrel ⊢
    generalize mnl_attr_loop parse_protoinfo (pre ++ y :: post) MNL_CB_OK
      (tb_zero CTA_PROTOINFO_MAX) = r at hrc hrel ⊢
    simp only [hrc]
    rcases hrel CTA_PROTOINFO_TCP with heq | ⟨_, g1, g2⟩
    · rw [heq]
    · have e : mnl_attr_loop parse_tcp_protoinfo (mnl_attrs be y'.payload) MNL_CB_OK
            (tb_zero CTA_PROTOINFO_TCP_MAX)
          = mnl_attr_loop parse_tcp_protoinfo (mnl_attrs be y.payload) MNL_CB_OK
            (tb_zero CTA_PROTOINFO_TCP_MAX) :=
        adds_unknown_leaf be .tcp _ _ (fun _ => rfl) hadd _
      simp only [g1, g2, e]

theorem get_tuple_adds (be : Bool) (x x' : nlattr) (flow : ct_flow_t)
    (h : adds_unknown be .tuple (mnl_attrs be x.payload) (mnl_attrs be x'.payload)) :
    get_tuple be x' flow = get_tuple be x flow := by
  unfold get_tuple mnl_attr_parse_nested
  cases h with
  | here _ _ _ pre post a ha h1 h2 =>
    have e : mnl_attr_loop parse_tuple_cb (pre ++ a :: post) MNL_CB_OK (tb_zero CTA_TUPLE_MAX)
        = mnl_attr_loop parse_tuple_cb (pre ++ post) MNL_CB_OK (tb_zero CTA_TUPLE_MAX) :=
      mnl_attr_loop_insert _ _ _ parse_tuple_cb_spec a ha pre post _
    rw [h1, h2, e]
  | inside _ c' _ _ pre post y y' hch ht hlen hadd h1 h2 =>
    obtain ⟨hrc, _, hrel⟩ :
        (mnl_attr_loop parse_tuple_cb (pre ++ y' :: post) MNL_CB_OK (tb_zero CTA_TUPLE_MAX)).1
          = (mnl_attr_loop parse_tuple_cb (pre ++ y :: post) MNL_CB_OK
            (tb_zero CTA_TUPLE_MAX)).1
        ∧ tb_differ_at
          (mnl_attr_loop parse_tuple_cb (pre ++ y :: post) MNL_CB_OK (tb_zero CTA_TUPLE_MAX)).2
          (mnl_attr_loop parse_tuple_cb (pre ++ y' :: post) MNL_CB_OK (tb_zero CTA_TUPLE_MAX)).2
          (mnl_attr_get_type y) y y' :=
      adds_unknown_inside_loop be .tuple c' pre post y y' _ hch ht hlen hadd
    rw [h1, h2]
    generalize mnl_attr_loop parse_tuple_cb (pre ++ y' :: post) MNL_CB_OK
      (tb_zero CTA_TUPLE_MAX) = r' at hrc hrel ⊢
    generalize mnl_attr_loop parse_tuple_cb (pre ++ y :: post) MNL_CB_OK
      (tb_zero CTA_TUPLE_MAX) = r at hrc hrel ⊢
    simp only [parse_ctx.child] at hch
    simp only [hrc]
    split_ifs at hch with h0 h1
    · cases Option.some.inj hch
      have hp : tb_get r'.2 CTA_TUPLE_PROTO = tb_get r.2 CTA_TUPLE_PROTO := by
        rcases hrel CTA_TUPLE_PROTO with heq | ⟨g0, _, _⟩
        · exact heq
        · rw [h0] at g0; cases g0
      have hz : tb_get r'.2 CTA_TUPLE_ZONE = tb_get r.2 CTA_TUPLE_ZONE := by
        rcases hrel CTA_TUPLE_ZONE with heq | ⟨g0, _, _⟩
        · exact heq
        · rw [h0] at g0; cases g0
      rcases hrel CTA_TUPLE_IP with heq | ⟨_, g1, g2⟩
      · rw [heq, hp, hz]
      · simp only [g1, g2, hp, hz, get_tuple_ip_adds be y y' flow hadd]
    · cases Option.some.inj hch
      have hp : tb_get r'.2 CTA_TUPLE_IP = tb_get r.2 CTA_TUPLE_IP := by
        rcases hrel CTA_TUPLE_IP with heq | ⟨g0, _, _⟩
        · exact heq
        · rw [h1] at g0; cases g0
      have hz : tb_get r'.2 CTA_TUPLE_ZONE = tb_get r.2 CTA_TUPLE_ZONE := by
        rcases hrel CTA_TUPLE_ZONE with heq | ⟨g0, _, _⟩
        · exact heq
        · rw [h1] at g0; cases g0
      rcases hrel CTA_TUPLE_PROTO with heq | ⟨_, g1, g2⟩
      · rw [heq, hp, hz]
      · simp only [g1, g2, hp, hz, get_tuple_proto_adds be y y' _ hadd]

theorem tb_differ_at_ne (tb tb' : attr_tb) (t : Nat) (x x' : nlattr) (i : Nat)
    (h : tb_differ_at tb tb' t x x') (hi : i ≠ t) : tb_get tb' i = tb_get tb i := by
  rcases h.2 i with heq | ⟨g0, _, _⟩
  · exact heq
  · exact absurd g0 hi

theorem top_child_cases (t : Nat) (c' : parse_ctx) (h : parse_ctx.top.child t = some c') :
    ((t = CTA_TUPLE_ORIG ∨ t = CTA_TUPLE_REPLY) ∧ c' = .tuple)
    ∨ (t = CTA_PROTOINFO ∧ c' = .protoinfo)
    ∨ ((t = CTA_COUNTERS_ORIG ∨ t = CTA_COUNTERS_REPLY) ∧ c' = .counters) := by
  simp only [parse_ctx.child] at h
  split_ifs at h with h0 h1 h2
  · exact Or.inl ⟨h0, (Option.some.inj h).symm⟩
  · exact Or.inr (Or.inl ⟨h1, (Option.some.inj h).symm⟩)
  · exact Or.inr (Or.inr ⟨h2, (Option.some.inj h).symm⟩)

theorem data_cb_emit_adds (be : Bool) (ct_stats : flow_stats_t) (tb tb' : attr_tb)
    (af reply_flag : Nat) (flow flow_1 : ct_flow_t) (c' : parse_ctx) (x x' : nlattr)
    (hch : parse_ctx.top.child (mnl_attr_get_type x) = some c')
    (hadd : adds_unknown be c' (mnl_attrs be x.payload) (mnl_attrs be x'.payload))
    (hrel : tb_differ_at tb tb' (mnl_attr_get_type x) x x') :
    data_cb_emit be ct_stats tb' af reply_flag flow flow_1
      = data_cb_emit be ct_stats tb af reply_flag flow flow_1 := by
  unfold data_cb_emit
  rcases top_child_cases _ _ hch with ⟨ht, rfl⟩ | ⟨ht, rfl⟩ | ⟨ht, rfl⟩
  · have hp := tb_differ_at_ne tb tb' _ x x' CTA_PROTOINFO hrel
      (by rcases ht with ht | ht <;> rw [ht] <;> decide)
    have hc := tb_differ_at_ne tb tb' _ x x' CTA_COUNTERS_ORIG hrel
      (by rcases ht with ht | ht <;> rw [ht] <;> decide)
    have hc1 := tb_differ_at_ne tb tb' _ x x' CTA_COUNTERS_REPLY hrel
      (by rcases ht with ht | ht <;> rw [ht] <;> decide)
    simp only [hp, hc, hc1]
  · have hc := tb_differ_at_ne tb tb' _ x x' CTA_COUNTERS_ORIG hrel (by rw [ht]; decide)
    have hc1 := tb_differ_at_ne tb tb' _ x x' CTA_COUNTERS_REPLY hrel (by rw [ht]; decide)
    rcases hrel.2 CTA_PROTOINFO with heq | ⟨_, g1, g2⟩
    · simp only [heq, hc, hc1]
    · simp only [g1, g2, hc, hc1, reduceCtorEq, fun f => get_protoinfo_adds be x x' f hadd]
  · have hp := tb_differ_at_ne tb tb' _ x x' CTA_PROTOINFO hrel
      (by rcases ht with ht | ht <;> rw [ht] <;> decide)
    rcases ht with ht | ht
    · have hc1 := tb_differ_at_ne tb tb' _ x x' CTA_COUNTERS_REPLY hrel (by rw [ht]; decide)
      rcases hrel.2 CTA_COUNTERS_ORIG with heq | ⟨_, g1, g2⟩
      · simp only [heq, hp, hc1]
      · simp only [g1, g2, hp, hc1, fun f => get_counter_adds be x x' f hadd]
    · have hc := tb_differ_at_ne tb tb' _ x x' CTA_COUNTERS_ORIG hrel (by rw [ht]; decide)
      rcases hrel.2 CTA_COUNTERS_REPLY with heq | ⟨_, g1, g2⟩
      · simp only [heq, hp, hc]
      · simp only [g1, g2, hp, hc, fun f => get_counter_adds be x x' f hadd]

theorem data_cb_adds (be : Bool) (heap : calloc_results) (ct_stats : flow_stats_t)
    (nlh nlh' : nlmsghdr)
    (h : adds_unknown be .top (mnl_attrs be (nlh.payload.drop (MNL_ALIGN 4)))
      (mnl_attrs be (nlh'.payload.drop (MNL_ALIGN 4)))) :
    data_cb be heap ct_stats nlh' = data_cb be heap ct_stats nlh := by
  unfold data_cb mnl_attr_parse
  cases h with
  | here _ _ _ pre post a ha h1 h2 =>
    have e : mnl_attr_loop data_attr_cb (pre ++ a :: post) MNL_CB_OK (tb_zero CTA_MAX)
        = mnl_attr_loop data_attr_cb (pre ++ post) MNL_CB_OK (tb_zero CTA_MAX) :=
      mnl_attr_loop_insert _ _ _ data_attr_cb_spec a ha pre post _
    rw [h1, h2, e]
  | inside _ c' _ _ pre post y y' hch ht hlen hadd h1 h2 =>
    obtain ⟨hrc, hrel⟩ :
        (mnl_attr_loop data_attr_cb (pre ++ y' :: post) MNL_CB_OK (tb_zero CTA_MAX)).1
          = (mnl_attr_loop data_attr_cb (pre ++ y :: post) MNL_CB_OK (tb_zero CTA_MAX)).1
        ∧ tb_differ_at
          (mnl_attr_loop data_attr_cb (pre ++ y :: post) MNL_CB_OK (tb_zero CTA_MAX)).2
          (mnl_attr_loop data_attr_cb (pre ++ y' :: post) MNL_CB_OK (tb_zero CTA_MAX)).2
          (mnl_attr_get_type y) y y' :=
      adds_unknown_inside_loop be .top c' pre post y y' _ hch ht hlen hadd
    rw [h1, h2]
    generalize mnl_attr_loop data_attr_cb (pre ++ y' :: post) MNL_CB_OK
      (tb_zero CTA_MAX) = r' at hrc hrel ⊢
    generalize mnl_attr_loop data_attr_cb (pre ++ y :: post) MNL_CB_OK
      (tb_zero CTA_MAX) = r at hrc hrel ⊢
    have hz := tb_differ_at_ne r.2 r'.2 _ y y' CTA_ZONE hrel (by
      rcases top_child_cases _ _ hch with ⟨ht, _⟩ | ⟨ht, _⟩ | ⟨ht, _⟩
      · rcases ht with ht | ht <;> rw [ht] <;> decide
      · rw [ht]; decide
      · rcases ht with ht | ht <;> rw [ht] <;> decide)
    have hemit : ∀ af rf f f1, data_cb_emit be ct_stats r'.2 af rf f f1
        = data_cb_emit be ct_stats r.2 af rf f f1 :=
      fun af rf f f1 => data_cb_emit_adds be ct_stats r.2 r'.2 af rf f f1 c' y y' hch hadd hrel
    simp only [hrc, hz, data_cb_build, hemit]
    rcases top_child_cases _ _ hch with ⟨ht, rfl⟩ | ⟨ht, rfl⟩ | ⟨ht, rfl⟩
    · rcases ht with ht | ht
      · have hr := tb_differ_at_ne r.2 r'.2 _ y y' CTA_TUPLE_REPLY hrel (by rw [ht]; decide)
        rcases hrel.2 CTA_TUPLE_ORIG with heq | ⟨_, g1, g2⟩
        · simp only [heq, hr]
        · simp only [g1, g2, hr, fun f => get_tuple_adds be y y' f hadd]
      · have ho := tb_differ_at_ne r.2 r'.2 _ y y' CTA_TUPLE_ORIG hrel (by rw [ht]; decide)
        rcases hrel.2 CTA_TUPLE_REPLY with heq | ⟨_, g1, g2⟩
        · simp only [heq, ho]
        · simp only [g1, g2, ho, fun f => get_tuple_adds be y y' f hadd]
    · have ho := tb_differ_at_ne r.2 r'.2 _ y y' CTA_TUPLE_ORIG hrel (by rw [ht]; decide)
      have hr := tb_differ_at_ne r.2 r'.2 _ y y' CTA_TUPLE_REPLY hrel (by rw [ht]; decide)
      simp only [ho, hr]
    · have ho := tb_differ_at_ne r.2 r'.2 _ y y' CTA_TUPLE_ORIG hrel
        (by rcases ht with ht | ht <;> rw [ht] <;> decide)
      have hr := tb_differ_at_ne r.2 r'.2 _ y y' CTA_TUPLE_REPLY hrel
        (by rcases ht with ht | ht <;> rw [ht] <;> decide)
      simp only [ho, hr]

/-! ## Unknown attribute types -/

/-- C12: in each of the seven parse contexts, an attribute whose type exceeds the
declared MAX of the context makes the validator return `MNL_CB_OK` and leaves
the attribute table as it was, whatever the payload of the attribute; and when
such an attribute is added to a message, at top level or inside a nest that the
decoders open, `data_cb` returns the same result as for the message without it:
the same verdict, the same pending list and `node_count`, the same node fates. -/
theorem unknown_type_ignored :
    (∀ (c : parse_ctx) (attr : nlattr) (tb : attr_tb),
        c.info.max < mnl_attr_get_type attr → c.info.cb attr tb = (MNL_CB_OK, tb))
    ∧ (∀ (be : Bool) (heap : calloc_results) (ct_stats : flow_stats_t) (nlh nlh' : nlmsghdr),
        adds_unknown be .top (mnl_attrs be (nlh.payload.drop (MNL_ALIGN 4)))
          (mnl_attrs be (nlh'.payload.drop (MNL_ALIGN 4))) →
        data_cb be heap ct_stats nlh' = data_cb be heap ct_stats nlh) :=
  ⟨fun c attr tb h => (parse_ctx_spec c attr tb).1 h,
   fun be heap ct_stats nlh nlh' h => data_cb_adds be heap ct_stats nlh nlh' h⟩

set_option maxRecDepth 1000000 in
/-- C12, on concrete input: `parse_counters_cb` ignores a three-byte attribute of
type 6; the UDP entry of scenario S1 with an attribute of type 27 added at top
level, or with an attribute of type 10 added to the protocol nest of its ORIG
tuple, yields what the entry itself yields, the forward and the reverse
sample. -/
theorem unknown_type_ignored_witness :
    parse_counters_cb ⟨6, [1, 2, 3]⟩ (tb_zero CTA_COUNTERS_MAX)
      = (MNL_CB_OK, tb_zero CTA_COUNTERS_MAX)
    ∧ data_cb false heap_ok (ct_stats_init 0) msg_unknown_top
      = data_cb false heap_ok (ct_stats_init 0) msg_udp
    ∧ data_cb false heap_ok (ct_stats_init 0) msg_unknown_nested
      = data_cb false heap_ok (ct_stats_init 0) msg_udp
    ∧ (data_cb false heap_ok (ct_stats_init 0) msg_udp).ct_stats.ctflow_list
      = [udp_fwd, udp_rev] :=
  ⟨unknown_type_ignored.1 .counters ⟨6, [1, 2, 3]⟩ _ (by decide),
   unknown_type_ignored.2 false heap_ok (ct_stats_init 0) msg_udp msg_unknown_top
    (.here .top _ _ ((top_attrs msg_udp).take 2) ((top_attrs msg_udp).drop 2) ⟨27, [1, 2, 3]⟩
      (by decide) (by decide) (by decide)),
   unknown_type_ignored.2 false heap_ok (ct_stats_init 0) msg_udp msg_unknown_nested
    (.inside .top .tuple _ _ [] ((top_attrs msg_udp).drop 1)
      (attr_at (top_attrs msg_udp) 0) (attr_at (top_attrs msg_unknown_nested) 0)
      (by decide) (by decide) (by decide)
      (.inside .tuple .proto _ _
        ((mnl_attrs false (attr_at (top_attrs msg_udp) 0).payload).take 1) []
        (attr_at (mnl_attrs false (attr_at (top_attrs msg_udp) 0).payload) 1)
        (attr_at (mnl_attrs false (attr_at (top_attrs msg_unknown_nested) 0).payload) 1)
        (by decide) (by decide) (by decide)
        (.here .proto _ _ [⟨CTA_PROTO_NUM, [17]⟩]
          [⟨CTA_PROTO_SRC_PORT, [3, 232]⟩, ⟨CTA_PROTO_DST_PORT, [0, 53]⟩] ⟨10, [9, 9, 9, 9, 9]⟩
          (by decide) (by decide) (by decide))
        (by decide) (by decide))
      (by decide) (by decide)),
   by decide⟩

/-! ## Malformed attributes and the verdicts of the decoders -/

theorem mnl_attr_loop_rc (c : parse_ctx) (l : List nlattr) (tb : attr_tb) :
    ((mnl_attr_loop c.info.cb l MNL_CB_OK tb).1 = MNL_CB_ERROR ∧ has_wrong_shape c l)
    ∨ ((mnl_attr_loop c.info.cb l MNL_CB_OK tb).1 = MNL_CB_OK ∧ ¬ has_wrong_shape c l) :=
  mnl_attr_loop_verdict _ _ _ (parse_ctx_spec c) l tb

theorem mnl_attr_loop_neg (c : parse_ctx) (l : List nlattr) (tb : attr_tb) :
    (mnl_attr_loop c.info.cb l MNL_CB_OK tb).1 < 0 ↔ has_wrong_shape c l := by
  rcases mnl_attr_loop_rc c l tb with ⟨h1, h2⟩ | ⟨h1, h2⟩
  · rw [h1]
    exact ⟨fun _ => h2, fun _ => by decide⟩
  · rw [h1]
    exact ⟨fun h => absurd h (by decide), fun h => absurd h h2⟩

theorem data_cb_emit_rc (be : Bool) (ct_stats : flow_stats_t) (tb : attr_tb)
    (af reply_flag : Nat) (flow flow_1 : ct_flow_t) :
    (data_cb_emit be ct_stats tb af reply_flag flow flow_1).rc = MNL_CB_OK := by
  unfold data_cb_emit
  simp only
  repeat' (first | rfl | split_ifs | split)

theorem data_cb_rc_ok (be : Bool) (heap : calloc_results) (ct_stats : flow_stats_t)
    (nlh : nlmsghdr)
    (h : ¬ (mnl_attr_parse be nlh 4 data_attr_cb (tb_zero CTA_MAX)).1 < 0) :
    (data_cb be heap ct_stats nlh).rc = MNL_CB_OK := by
  unfold data_cb
  simp only [h, if_false, data_cb_build]
  repeat' (first | rfl | exact data_cb_emit_rc _ _ _ _ _ _ _ | split_ifs | split)

theorem data_cb_rc (be : Bool) (heap : calloc_results) (ct_stats : flow_stats_t)
    (nlh : nlmsghdr) :
    (has_wrong_shape .top (mnl_attrs be (nlh.payload.drop (MNL_ALIGN 4))) →
      data_cb be heap ct_stats nlh = ⟨MNL_CB_ERROR, ct_stats, .not_allocated, .not_allocated⟩)
    ∧ (¬ has_wrong_shape .top (mnl_attrs be (nlh.payload.drop (MNL_ALIGN 4))) →
      (data_cb be heap ct_stats nlh).rc = MNL_CB_OK) := by
  have h : (mnl_attr_parse be nlh 4 data_attr_cb (tb_zero CTA_MAX)).1 < 0
        ↔ has_wrong_shape .top (mnl_attrs be (nlh.payload.drop (MNL_ALIGN 4))) :=
    mnl_attr_loop_neg .top _ _
  rw [← h]
  constructor
  · intro h0
    unfold data_cb
    simp only [h0, if_true]
  · exact data_cb_rc_ok be heap ct_stats nlh

/-- C13 (amended): for a conntrack message that `mnl_cb_run` hands to `data_cb`,
a known-type attribute of the wrong shape at top level makes `data_cb` return
`MNL_CB_ERROR` with the plugin state untouched, `mnl_cb_run` return -1 without
looking at the messages that follow, and the sweep return -1 with its socket
left open. Without such a top-level attribute, whatever the shapes inside the
nested attributes, `data_cb` returns `MNL_CB_OK` and `mnl_cb_run` goes on with
the next message. -/
theorem data_cb_wrong_shape_sweep (be : Bool) (heap : calloc_results)
    (ct_stats : flow_stats_t) (nlh : nlmsghdr) (seq portid : Nat)
    (rest : List (calloc_results × nlmsghdr)) (ret : Int)
    (more : List (Option (List (calloc_results × nlmsghdr))))
    (hp : mnl_nlmsg_portid_ok nlh portid = true) (hs : mnl_nlmsg_seq_ok nlh seq = true)
    (hi : nlh.nlmsg_flags &&& NLM_F_DUMP_INTR = 0) (ht : NLMSG_MIN_TYPE ≤ nlh.nlmsg_type) :
    (has_wrong_shape .top (mnl_attrs be (nlh.payload.drop (MNL_ALIGN 4))) →
      data_cb be heap ct_stats nlh = ⟨MNL_CB_ERROR, ct_stats, .not_allocated, .not_allocated⟩
      ∧ mnl_cb_run_loop be seq portid ((heap, nlh) :: rest) ret ct_stats
          = (MNL_CB_ERROR, ct_stats)
      ∧ ct_stats_get_ct_flow_loop be seq portid (some ((heap, nlh) :: rest) :: more) ct_stats
          = some { rc := -1, ct_stats := ct_stats, socket := .left_open })
    ∧ (¬ has_wrong_shape .top (mnl_attrs be (nlh.payload.drop (MNL_ALIGN 4))) →
      (data_cb be heap ct_stats nlh).rc = MNL_CB_OK
      ∧ mnl_cb_run_loop be seq portid ((heap, nlh) :: rest) ret ct_stats
          = mnl_cb_run_loop be seq portid rest MNL_CB_OK
              (data_cb be heap ct_stats nlh).ct_stats) := by
  have hstep : ∀ r0 : Int, mnl_cb_run_loop be seq portid ((heap, nlh) :: rest) r0 ct_stats
      = if (data_cb be heap ct_stats nlh).rc ≤ MNL_CB_STOP then
          ((data_cb be heap ct_stats nlh).rc, (data_cb be heap ct_stats nlh).ct_stats)
        else mnl_cb_run_loop be seq portid rest (data_cb be heap ct_stats nlh).rc
          (data_cb be heap ct_stats nlh).ct_stats := by
    intro r0
    simp only [mnl_cb_run_loop, hp, hs, hi, ht, Bool.true_eq_false, if_false, if_true,
      ne_eq, not_true_eq_false]
  obtain ⟨hbad, hgood⟩ := data_cb_rc be heap ct_stats nlh
  constructor
  · intro h
    have hloop : ∀ r0 : Int, mnl_cb_run_loop be seq portid ((heap, nlh) :: rest) r0 ct_stats
        = (MNL_CB_ERROR, ct_stats) := by
      intro r0
      rw [hstep, hbad h]
      rfl
    refine ⟨hbad h, hloop ret, ?_⟩
    simp only [ct_stats_get_ct_flow_loop, mnl_cb_run, hloop]
    rfl
  · intro h
    refine ⟨hgood h, ?_⟩
    rw [hstep, hgood h, if_neg (by decide)]

set_option maxRecDepth 1000000 in
/-- C13 (amended), on concrete input: the UDP entry whose `CTA_ZONE` holds three
bytes makes `data_cb` return `MNL_CB_ERROR` and `mnl_cb_run` return -1 although
an ESTABLISHED TCP entry follows it; the UDP entry whose ORIG source port holds
three bytes has no top-level attribute of the wrong shape, `data_cb` returns
`MNL_CB_OK` for it and `mnl_cb_run` goes on with the next message. -/
theorem data_cb_wrong_shape_sweep_witness :
    (data_cb false heap_ok (ct_stats_init 0) msg_bad_zone
        = ⟨MNL_CB_ERROR, ct_stats_init 0, .not_allocated, .not_allocated⟩
      ∧ mnl_cb_run_loop false 1 1 [(heap_ok, msg_bad_zone), (heap_ok, msg_tcp_established)]
          MNL_CB_OK (ct_stats_init 0) = (MNL_CB_ERROR, ct_stats_init 0)
      ∧ ct_stats_get_ct_flow_loop false 1 1
          [some [(heap_ok, msg_bad_zone), (heap_ok, msg_tcp_established)]] (ct_stats_init 0)
          = some { rc := -1, ct_stats := ct_stats_init 0, socket := .left_open })
    ∧ ((data_cb false heap_ok (ct_stats_init 0) msg_bad_port).rc = MNL_CB_OK
      ∧ mnl_cb_run_loop false 1 1 [(heap_ok, msg_bad_port), (heap_ok, msg_udp)]
          MNL_CB_OK (ct_stats_init 0)
        = mnl_cb_run_loop false 1 1 [(heap_ok, msg_udp)] MNL_CB_OK
            (data_cb false heap_ok (ct_stats_init 0) msg_bad_port).ct_stats) :=
  ⟨(data_cb_wrong_shape_sweep false heap_ok (ct_stats_init 0) msg_bad_zone 1 1
      [(heap_ok, msg_tcp_established)] MNL_CB_OK [] (by decide) (by decide) (by decide)
      (by decide)).1 (by decide),
   (data_cb_wrong_shape_sweep false heap_ok (ct_stats_init 0) msg_bad_port 1 1
      [(heap_ok, msg_udp)] MNL_CB_OK [] (by decide) (by decide) (by decide)
      (by decide)).2 (by decide)⟩

set_option maxRecDepth 1000000 in
/-- C13, counterexample: the UDP entry of scenario S1 with a three-byte
`CTA_ZONE`, a known top-level type of the wrong shape, makes `data_cb` return
`MNL_CB_ERROR`, not `MNL_CB_OK`; in a dump where it stands between the UDP
entry and an ESTABLISHED TCP entry, the sweep returns -1 with the two samples
of the first entry only: it did not continue with the next message. -/
theorem data_cb_wrong_shape_counterexample :
    has_wrong_shape .top (top_attrs msg_bad_zone)
    ∧ (data_cb false heap_ok (ct_stats_init 0) msg_bad_zone).rc = MNL_CB_ERROR
    ∧ (data_cb false heap_ok (ct_stats_init 0) msg_bad_zone).rc ≠ MNL_CB_OK
    ∧ (data_cb false heap_ok (ct_stats_init 0) msg_tcp_established).ct_stats.ctflow_list.length
        = 2
    ∧ (ct_stats_get_ct_flow false sweep_udp_bad_zone (ct_stats_init 0)).map
          (fun r => (r.rc, r.ct_stats.ctflow_list))
        = some (-1, [udp_fwd, udp_rev]) := by
  refine ⟨?_, ?_, ?_, ?_, ?_⟩ <;> decide

/-! ## Malformed attributes and the samples of `data_cb` -/

theorem put_u16_host_load (be : Bool) (p : List u8) (h : p.length = 2) :
    put_u16 be (host_load be p) = p := by
  match p, h with
  | [a, b], _ =>
    have ha : ∀ n : Nat, n % 256 = a.val → (Fin.ofNat n : u8) = a :=
      fun n hn => Fin.ext hn
    have hb : ∀ n : Nat, n % 256 = b.val → (Fin.ofNat n : u8) = b :=
      fun n hn => Fin.ext hn
    have ha2 := a.isLt
    have hb2 := b.isLt
    cases be
    · have e : host_load false [a, b] = a.val + 256 * b.val := by
        simp [host_load, load_le]
      rw [e]
      show [Fin.ofNat (a.val + 256 * b.val), Fin.ofNat ((a.val + 256 * b.val) / 256)] = [a, b]
      rw [ha _ (by omega), hb _ (by omega)]
    · have e : host_load true [a, b] = a.val * 256 + b.val := by
        simp [host_load, load_be]
      rw [e]
      show [Fin.ofNat ((a.val * 256 + b.val) / 256), Fin.ofNat (a.val * 256 + b.val)] = [a, b]
      rw [ha _ (by omega), hb _ (by omega)]

theorem mnl_attr_loop_kept (max : Nat) (wrong_shape : nlattr → Prop) (cb : mnl_attr_cb_t)
    (hcb : validator_spec max wrong_shape cb) (l : List nlattr) (ret : Int) (tb : attr_tb)
    (h0 : ∀ i a, tb_get tb i = some a → mnl_attr_get_type a = i ∧ ¬ wrong_shape a) :
    ∀ i a, tb_get (mnl_attr_loop cb l ret tb).2 i = some a →
      mnl_attr_get_type a = i ∧ ¬ wrong_shape a := by
  refine mnl_attr_loop_inv cb
    (fun tb => ∀ i a, tb_get tb i = some a → mnl_attr_get_type a = i ∧ ¬ wrong_shape a)
    ?_ l ret tb h0
  intro attr tb hP i a
  obtain ⟨h1, h2, h3⟩ := hcb attr tb
  by_cases hm : max < mnl_attr_get_type attr
  · rw [h1 hm]; exact hP i a
  · by_cases hw : wrong_shape attr
    · rw [h2 (by omega) hw]; exact hP i a
    · rw [h3 (by omega) hw]
      simp only
      rw [tb_get_tb_set]
      split
      · next hc =>
        intro he
        cases he
        exact ⟨hc.1, hw⟩
      · exact hP i a

theorem nest_tb_kept (be : Bool) (c : parse_ctx) (nest : nlattr) (i : Nat) (a : nlattr)
    (h : tb_get (nest_tb be c nest) i = some a) :
    mnl_attr_get_type a = i ∧ ¬ c.info.wrong_shape a := by
  refine mnl_attr_loop_kept _ _ _ (parse_ctx_spec c) _ _ _ ?_ i a h
  intro j b hb
  rw [tb_zero_get] at hb
  cases hb

theorem port_kept_length (be : Bool) (proto : nlattr) (t : Nat) (a : nlattr)
    (ht : t = CTA_PROTO_SRC_PORT ∨ t = CTA_PROTO_DST_PORT)
    (h : tb_get (nest_tb be .proto proto) t = some a) : a.payload.length = 2 := by
  obtain ⟨h1, h2⟩ := nest_tb_kept be .proto proto t a h
  simp only [parse_ctx.info, wrong_shape_proto, h1] at h2
  by_contra hne
  exact h2 (Or.inr ⟨by rcases ht with ht | ht <;> simp [ht], hne⟩)

theorem get_tuple_proto_ports (be : Bool) (proto : nlattr) (flow : ct_flow_t)
    (hok : ¬ (get_tuple_proto be proto flow).1 < 0) :
    (∀ a, tb_get (nest_tb be .proto proto) CTA_PROTO_SRC_PORT = some a →
      (get_tuple_proto be proto flow).2.layer3_info.src_port = mnl_attr_get_u16 be a)
    ∧ (∀ a, tb_get (nest_tb be .proto proto) CTA_PROTO_DST_PORT = some a →
      (get_tuple_proto be proto flow).2.layer3_info.dst_port = mnl_attr_get_u16 be a) := by
  unfold get_tuple_proto nest_tb at *
  simp only [parse_ctx.info] at *
  generalize mnl_attr_parse_nested be proto parse_proto_cb (tb_zero CTA_PROTO_MAX) = r at *
  by_cases h0 : r.1 < 0
  · simp only [h0, if_true] at hok
    exact absurd (show MNL_CB_ERROR < (0 : Int) by decide) hok
  · simp only [h0, if_false]
    constructor
    · intro a ha
      rw [ha]
      rcases tb_get r.2 CTA_PROTO_NUM with _ | n <;>
        rcases tb_get r.2 CTA_PROTO_DST_PORT with _ | d <;> rfl
    · intro a ha
      rw [ha]

theorem mnl_attr_get_u16_eq (be : Bool) (a : nlattr) (h : a.payload.length = 2) :
    mnl_attr_get_u16 be a = host_load be a.payload := by
  unfold mnl_attr_get_u16
  rw [List.take_of_length_le (by omega)]

theorem get_tuple_ports (be : Bool) (nest : nlattr) (h : tuple_ok be nest) :
    ports_as_received be nest (get_tuple be nest ct_flow_zero).2 := by
  have hport : ∀ (t : Nat) (proto a : nlattr),
      (t = CTA_PROTO_SRC_PORT ∨ t = CTA_PROTO_DST_PORT) →
      tb_get (nest_tb be .proto proto) t = some a →
      a.payload.length = 2 ∧ put_u16 be (mnl_attr_get_u16 be a) = a.payload
        ∧ mnl_attr_get_u16 be a = host_load be a.payload := by
    intro t proto a ht ha
    have hl := port_kept_length be proto t a ht ha
    rw [mnl_attr_get_u16_eq be a hl]
    exact ⟨hl, put_u16_host_load be _ hl, rfl⟩
  unfold tuple_ok at h
  unfold ports_as_received tuple_port
  unfold get_tuple nest_tb at *
  simp only [parse_ctx.info] at *
  generalize mnl_attr_parse_nested be nest parse_tuple_cb (tb_zero CTA_TUPLE_MAX) = r at *
  by_cases h0 : r.1 < 0
  · simp only [h0, if_true] at h
    exact absurd h (by decide)
  · simp only [h0, if_false] at h ⊢
    generalize (match tb_get r.2 CTA_TUPLE_IP with
      | some ip => get_tuple_ip be ip ct_flow_zero
      | none => (MNL_CB_OK, ct_flow_zero)) = r_ip at *
    by_cases h1 : r_ip.1 < 0
    · simp only [h1, if_true] at h
      exact absurd h (by decide)
    · simp only [h1, if_false] at h ⊢
      rcases hpr : tb_get r.2 CTA_TUPLE_PROTO with _ | proto
      · simp
      · simp only [hpr] at h ⊢
        by_cases h2 : (get_tuple_proto be proto r_ip.2).1 < 0
        · simp only [h2, if_true] at h
          exact absurd h (by decide)
        · obtain ⟨hs, hd⟩ := get_tuple_proto_ports be proto r_ip.2 h2
          unfold nest_tb at hs hd
          simp only [parse_ctx.info] at hs hd
          simp only [h2, if_false, Option.map_eq_some']
          constructor
          · rintro sp ⟨a, ha, rfl⟩
            have e : (match tb_get r.2 CTA_TUPLE_ZONE with
                | some z => { get_tuple_proto be proto r_ip.2 |>.2 with
                    ct_zone := mnl_attr_get_u16 be z }
                | none => (get_tuple_proto be proto r_ip.2).2).layer3_info.src_port
                = mnl_attr_get_u16 be a := by
              rw [← hs a ha]
              split <;> rfl
            rw [e]
            exact hport _ proto a (Or.inl rfl) ha
          · rintro dp ⟨a, ha, rfl⟩
            have e : (match tb_get r.2 CTA_TUPLE_ZONE with
                | some z => { get_tuple_proto be proto r_ip.2 |>.2 with
                    ct_zone := mnl_attr_get_u16 be z }
                | none => (get_tuple_proto be proto r_ip.2).2).layer3_info.dst_port
                = mnl_attr_get_u16 be a := by
              rw [← hd a ha]
              split <;> rfl
            rw [e]
            exact hport _ proto a (Or.inr rfl) ha

theorem data_cb_addr_ports (be : Bool) (flow flow_1 : ct_flow_t) :
    (data_cb_addr be flow flow_1).2.1.layer3_info.src_port = flow.layer3_info.src_port
    ∧ (data_cb_addr be flow flow_1).2.1.layer3_info.dst_port = flow.layer3_info.dst_port
    ∧ (data_cb_addr be flow flow_1).2.2.layer3_info.src_port = flow_1.layer3_info.src_port
    ∧ (data_cb_addr be flow flow_1).2.2.layer3_info.dst_port = flow_1.layer3_info.dst_port := by
  unfold data_cb_addr data_cb_af_inet
  simp only
  split_ifs <;> exact ⟨rfl, rfl, rfl, rfl⟩

theorem ports_as_received_congr (be : Bool) (nest : nlattr) (f g : ct_flow_t)
    (hs : g.layer3_info.src_port = f.layer3_info.src_port)
    (hd : g.layer3_info.dst_port = f.layer3_info.dst_port)
    (h : ports_as_received be nest f) : ports_as_received be nest g := by
  unfold ports_as_received at *
  rw [hs, hd]
  exact h

theorem fwd_sample_ports (be : Bool) (tb : attr_tb) (orig reply c : nlattr)
    (h : tuple_ok be orig) : ports_as_received be orig (fwd_sample be tb orig reply c) := by
  refine ports_as_received_congr be orig _ _ ?_ ?_ (get_tuple_ports be orig h)
  · rw [fwd_sample_l3, (data_cb_addr_ports be _ _).1]
  · rw [fwd_sample_l3, (data_cb_addr_ports be _ _).2.1]

theorem rev_sample_ports (be : Bool) (orig reply c1 : nlattr)
    (h : tuple_ok be reply) : ports_as_received be reply (rev_sample be orig reply c1) := by
  refine ports_as_received_congr be reply _ _ ?_ ?_ (get_tuple_ports be reply h)
  · rw [rev_sample_l3, (data_cb_addr_ports be _ _).2.2.1]
  · rw [rev_sample_l3, (data_cb_addr_ports be _ _).2.2.2]

theorem data_cb_single_inv (be : Bool) (heap : calloc_results) (ct_stats : flow_stats_t)
    (nlh : nlmsghdr) (fwd : ct_flow_t)
    (h : (data_cb be heap ct_stats nlh).ct_stats.ctflow_list = ct_stats.ctflow_list ++ [fwd]) :
    ∃ orig reply c, reaches_fwd be heap ct_stats nlh orig reply c
      ∧ fwd = fwd_sample be (mnl_attr_parse be nlh 4 data_attr_cb (tb_zero CTA_MAX)).2
          orig reply c := by
  rcases data_cb_cases be heap ct_stats nlh with h0 | ⟨orig, reply, c, hr, h1⟩
    | ⟨orig, reply, c, c1, _, _, _, _, h2⟩
  · rw [h0] at h
    simp at h
  · rw [h1] at h
    simp only [insert_tail, List.append_cancel_left_eq, List.cons.injEq, and_true] at h
    exact ⟨orig, reply, c, hr, h.symm⟩
  · rw [h2] at h
    simp [insert_tail] at h

theorem ct_flow_add_sample_submitted (env : flush_env) (be : Bool) (ct_stats : flow_stats_t) :
    ∀ sub ∈ (ct_flow_add_sample env be ct_stats).submitted,
      ∃ flow ∈ ct_stats.ctflow_list, sub = flow_submission env flow := by
  intro sub hsub
  unfold ct_flow_add_sample at hsub
  simp only [ct_flow_add_sample_loop_spec, List.nil_append] at hsub
  have hpre := submit_until_fail_prefix env.net_md_add_sample
    ((ct_stats.ctflow_list.filter (flow_accepted env be ct_stats.collect_filter)).map
      (flow_submission env)) []
  have hmem := hpre.subset hsub
  rw [List.mem_map] at hmem
  obtain ⟨flow, hf, he⟩ := hmem
  exact ⟨flow, (List.mem_filter.1 hf).1, he.symm⟩

/-- C11: the ports of every sample `data_cb` appends are those of its tuple as
received: the forward sample carries the two bytes of `CTA_PROTO_SRC_PORT` and
of `CTA_PROTO_DST_PORT` of the ORIG tuple unchanged in its 16-bit fields
`src_port` and `dst_port` (the field is the host-order value of the bytes, no
byte swap), the reverse sample those of the REPLY tuple; and every key that
`ct_flow_add_sample` submits has the `sport` and `dport` of a pending flow. -/
theorem ports_kept_as_received (be : Bool) (heap : calloc_results) (ct_stats : flow_stats_t)
    (nlh : nlmsghdr) (env : flush_env) :
    (∀ fwd, (data_cb be heap ct_stats nlh).ct_stats.ctflow_list
        = ct_stats.ctflow_list ++ [fwd] →
      ∃ orig, tb_get (msg_tb be nlh) CTA_TUPLE_ORIG = some orig
        ∧ ports_as_received be orig fwd)
    ∧ (∀ fwd rev, (data_cb be heap ct_stats nlh).ct_stats.ctflow_list
        = ct_stats.ctflow_list ++ [fwd, rev] →
      ∃ orig reply, tb_get (msg_tb be nlh) CTA_TUPLE_ORIG = some orig
        ∧ tb_get (msg_tb be nlh) CTA_TUPLE_REPLY = some reply
        ∧ ports_as_received be orig fwd ∧ ports_as_received be reply rev)
    ∧ (∀ sub ∈ (ct_flow_add_sample env be ct_stats).submitted,
      ∃ flow ∈ ct_stats.ctflow_list, sub.1.sport = flow.layer3_info.src_port
        ∧ sub.1.dport = flow.layer3_info.dst_port) := by
  refine ⟨?_, ?_, ?_⟩
  · intro fwd h
    obtain ⟨orig, reply, c, hr, hf⟩ := data_cb_single_inv be heap ct_stats nlh fwd h
    refine ⟨orig, hr.2.2.2.2.1, ?_⟩
    rw [hf]
    exact fwd_sample_ports be _ orig reply c hr.2.2.2.2.2.1
  · intro fwd rev h
    obtain ⟨orig, reply, c, c1, hr, _, _, _, hf, hv⟩ :=
      data_cb_pair_inv be heap ct_stats nlh fwd rev h
    refine ⟨orig, reply, hr.2.2.2.2.1, hr.2.2.2.2.2.2.1, ?_, ?_⟩
    · rw [hf]
      exact fwd_sample_ports be _ orig reply c hr.2.2.2.2.2.1
    · rw [hv]
      exact rev_sample_ports be orig reply c1 hr.2.2.2.2.2.2.2.1
  · intro sub hsub
    obtain ⟨flow, hf, he⟩ := ct_flow_add_sample_submitted env be ct_stats sub hsub
    exact ⟨flow, hf, by rw [he]; rfl, by rw [he]; rfl⟩

set_option maxRecDepth 1000000 in
/-- C11, on concrete input (scenario S1, little-endian host): the UDP entry
yields two samples; the ORIG tuple carries source port bytes 03 e8 (port 1000)
and destination port bytes 00 35 (port 53); the forward sample holds them
unswapped, that is the values 0xe803 and 0x3500, the reverse sample holds the
mirrored pair, and the keys submitted for the two flows carry these values. -/
theorem ports_kept_as_received_witness :
    (data_cb false heap_ok (ct_stats_init 0) msg_udp).ct_stats.ctflow_list
      = (ct_stats_init 0).ctflow_list ++ [udp_fwd, udp_rev]
    ∧ (∃ orig reply, tb_get (msg_tb false msg_udp) CTA_TUPLE_ORIG = some orig
        ∧ tb_get (msg_tb false msg_udp) CTA_TUPLE_REPLY = some reply
        ∧ ports_as_received false orig udp_fwd ∧ ports_as_received false reply udp_rev)
    ∧ tb_get (msg_tb false msg_udp) CTA_TUPLE_ORIG = some (attr_at (top_attrs msg_udp) 0)
    ∧ tuple_port false (attr_at (top_attrs msg_udp) 0) CTA_PROTO_SRC_PORT = some [3, 232]
    ∧ tuple_port false (attr_at (top_attrs msg_udp) 0) CTA_PROTO_DST_PORT = some [0, 53]
    ∧ (udp_fwd.layer3_info.src_port, udp_fwd.layer3_info.dst_port) = (0xe803, 0x3500)
    ∧ (udp_rev.layer3_info.src_port, udp_rev.layer3_info.dst_port) = (0x3500, 0xe803)
    ∧ (ct_flow_add_sample (fenv_quota 0 10) false
        (data_cb false heap_ok (ct_stats_init 0) msg_udp).ct_stats).submitted.map
          (fun sub => (sub.1.sport, sub.1.dport)) = [(0xe803, 0x3500), (0x3500, 0xe803)] :=
  ⟨by decide,
   (ports_kept_as_received false heap_ok (ct_stats_init 0) msg_udp (fenv_quota 0 10)).2.1
      udp_fwd udp_rev (by decide),
   by decide, by decide, by decide, by decide, by decide, by decide⟩


/-! ## Order of the pending list -/

theorem reaches_fwd_init (be : Bool) (heap : calloc_results) (ct_stats : flow_stats_t)
    (nlh : nlmsghdr) (orig reply c : nlattr) :
    reaches_fwd be heap (ct_stats_init ct_stats.ct_zone) nlh orig reply c
      ↔ reaches_fwd be heap ct_stats nlh orig reply c := Iff.rfl

theorem data_cb_append (be : Bool) (heap : calloc_results) (ct_stats : flow_stats_t)
    (nlh : nlmsghdr) :
    (data_cb be heap ct_stats nlh).ct_stats
      = { ct_stats with
          ctflow_list := ct_stats.ctflow_list ++ msg_samples be heap ct_stats.ct_zone nlh,
          node_count := ct_stats.node_count
            + ((msg_samples be heap ct_stats.ct_zone nlh).length : Int) } := by
  unfold msg_samples
  by_cases h : ∃ orig reply c, reaches_fwd be heap ct_stats nlh orig reply c
  · obtain ⟨orig, reply, c, h⟩ := h
    have h' := (reaches_fwd_init be heap ct_stats nlh orig reply c).2 h
    by_cases h2 : ¬ collapse_fires be (get_tuple be orig ct_flow_zero).2
                (get_tuple be reply ct_flow_zero).2
            ∧ ∃ c1, tb_get (mnl_attr_parse be nlh 4 data_attr_cb (tb_zero CTA_MAX)).2
                CTA_COUNTERS_REPLY = some c1 ∧ counters_ok be c1
    · obtain ⟨hcol, c1, hcr, hc1⟩ := h2
      rw [data_cb_two be heap ct_stats nlh orig reply c c1 h hcol hcr hc1,
        data_cb_two be heap (ct_stats_init ct_stats.ct_zone) nlh orig reply c c1 h' hcol hcr
          hc1]
      simp only [insert_tail, ct_stats_init, List.nil_append, List.append_assoc,
        List.singleton_append, List.length_cons, List.length_singleton, List.length_nil]
      congr 1
      push_cast
      ring
    · rw [data_cb_one be heap ct_stats nlh orig reply c h h2,
        data_cb_one be heap (ct_stats_init ct_stats.ct_zone) nlh orig reply c h' h2]
      simp only [insert_tail, ct_stats_init, List.nil_append, List.length_singleton]
      congr 1
  · have h0 : ∀ orig reply c, ¬ reaches_fwd be heap ct_stats nlh orig reply c :=
      fun orig reply c hr => h ⟨orig, reply, c, hr⟩
    rw [data_cb_zero be heap ct_stats nlh h0,
      data_cb_zero be heap (ct_stats_init ct_stats.ct_zone) nlh
        (fun orig reply c hr => h0 orig reply c
          ((reaches_fwd_init be heap ct_stats nlh orig reply c).1 hr))]
    simp [ct_stats_init]

theorem data_cb_seq_append (be : Bool) :
    ∀ (msgs : List (calloc_results × nlmsghdr)) (ct_stats : flow_stats_t),
      (data_cb_seq be ct_stats msgs).ctflow_list
          = ct_stats.ctflow_list
            ++ (msgs.map (fun m => msg_samples be m.1 ct_stats.ct_zone m.2)).flatten
      ∧ (data_cb_seq be ct_stats msgs).ct_zone = ct_stats.ct_zone := by
  intro msgs
  induction msgs with
  | nil => intro ct_stats; simp [data_cb_seq]
  | cons m rest ih =>
    intro ct_stats
    obtain ⟨heap, nlh⟩ := m
    obtain ⟨h1, h2⟩ := ih (data_cb be heap ct_stats nlh).ct_stats
    have hz : (data_cb be heap ct_stats nlh).ct_stats.ct_zone = ct_stats.ct_zone := by
      rw [data_cb_append]
    have hl : (data_cb be heap ct_stats nlh).ct_stats.ctflow_list
        = ct_stats.ctflow_list ++ msg_samples be heap ct_stats.ct_zone nlh := by
      rw [data_cb_append]
    simp only [data_cb_seq, List.map_cons, List.flatten_cons]
    rw [h1, h2, hz, hl, List.append_assoc]
    exact ⟨rfl, rfl⟩

theorem msg_samples_cases (be : Bool) (heap : calloc_results) (zone : Nat) (nlh : nlmsghdr) :
    msg_samples be heap zone nlh = []
    ∨ (∃ orig reply c, msg_samples be heap zone nlh
        = [fwd_sample be (mnl_attr_parse be nlh 4 data_attr_cb (tb_zero CTA_MAX)).2
            orig reply c])
    ∨ (∃ orig reply c c1, msg_samples be heap zone nlh
        = [fwd_sample be (mnl_attr_parse be nlh 4 data_attr_cb (tb_zero CTA_MAX)).2
            orig reply c, rev_sample be orig reply c1]) := by
  unfold msg_samples
  rcases data_cb_cases be heap (ct_stats_init zone) nlh with h0 | ⟨orig, reply, c, _, h1⟩
    | ⟨orig, reply, c, c1, _, _, _, _, h2⟩
  · left; rw [h0]; rfl
  · right; left; exact ⟨orig, reply, c, by rw [h1]; rfl⟩
  · right; right; exact ⟨orig, reply, c, c1, by rw [h2]; rfl⟩

/-- The samples of a message with the attributes of the message they are
decoded from: the forward sample from the ORIG tuple and the ORIG counters, the
reverse sample from the REPLY tuple and the REPLY counters. -/
theorem msg_samples_tied (be : Bool) (heap : calloc_results) (zone : Nat) (nlh : nlmsghdr) :
    msg_samples be heap zone nlh = []
    ∨ (∃ orig reply c, tb_get (msg_tb be nlh) CTA_TUPLE_ORIG = some orig
        ∧ tb_get (msg_tb be nlh) CTA_TUPLE_REPLY = some reply
        ∧ tb_get (msg_tb be nlh) CTA_COUNTERS_ORIG = some c
        ∧ msg_samples be heap zone nlh = [fwd_sample be (msg_tb be nlh) orig reply c]
        ∧ (fwd_sample be (msg_tb be nlh) orig reply c).pkt_info
          = counters_decoded be c ct_flow_zero.pkt_info)
    ∨ (∃ orig reply c c1, tb_get (msg_tb be nlh) CTA_TUPLE_ORIG = some orig
        ∧ tb_get (msg_tb be nlh) CTA_TUPLE_REPLY = some reply
        ∧ tb_get (msg_tb be nlh) CTA_COUNTERS_ORIG = some c
        ∧ tb_get (msg_tb be nlh) CTA_COUNTERS_REPLY = some c1
        ∧ msg_samples be heap zone nlh
          = [fwd_sample be (msg_tb be nlh) orig reply c, rev_sample be orig reply c1]
        ∧ (fwd_sample be (msg_tb be nlh) orig reply c).pkt_info
          = counters_decoded be c ct_flow_zero.pkt_info
        ∧ (rev_sample be orig reply c1).pkt_info
          = counters_decoded be c1 ct_flow_zero.pkt_info) := by
  unfold msg_samples msg_tb
  rcases data_cb_cases be heap (ct_stats_init zone) nlh with h0 | ⟨orig, reply, c, hr, h1⟩
    | ⟨orig, reply, c, c1, hr, _, hc1, hok1, h2⟩
  · left; rw [h0]; rfl
  · right; left
    obtain ⟨_, _, _, _, ho, _, hrp, _, _, hc, hok⟩ := hr
    exact ⟨orig, reply, c, ho, hrp, hc, by rw [h1]; rfl, fwd_sample_pkt be _ orig reply c hok⟩
  · right; right
    obtain ⟨_, _, _, _, ho, _, hrp, _, _, hc, hok⟩ := hr
    exact ⟨orig, reply, c, c1, ho, hrp, hc, hc1, by rw [h2]; rfl,
      fwd_sample_pkt be _ orig reply c hok, rev_sample_pkt be orig reply c1 hok1⟩

/-- C27: `data_cb` only appends at the tail of the pending list: the list after
a message is the list before it followed by the samples of the message, which
do not depend on the list. These are none, the forward sample alone, or the
forward sample followed by the reverse sample, where the forward sample is the
one decoded from the `CTA_TUPLE_ORIG` and `CTA_COUNTERS_ORIG` attributes of the
message and carries the ORIG counters, and the reverse sample the one decoded
from `CTA_TUPLE_REPLY` and `CTA_COUNTERS_REPLY`, carrying the REPLY counters.
After a sequence of messages the list is the list before it followed by the
samples of each message, in message order. -/
theorem data_cb_appends_at_tail (be : Bool) (heap : calloc_results) (ct_stats : flow_stats_t)
    (nlh : nlmsghdr) (msgs : List (calloc_results × nlmsghdr)) :
    (data_cb be heap ct_stats nlh).ct_stats.ctflow_list
      = ct_stats.ctflow_list ++ msg_samples be heap ct_stats.ct_zone nlh
    ∧ ct_stats.ctflow_list <+: (data_cb be heap ct_stats nlh).ct_stats.ctflow_list
    ∧ (msg_samples be heap ct_stats.ct_zone nlh = []
      ∨ (∃ orig reply c, tb_get (msg_tb be nlh) CTA_TUPLE_ORIG = some orig
          ∧ tb_get (msg_tb be nlh) CTA_TUPLE_REPLY = some reply
          ∧ tb_get (msg_tb be nlh) CTA_COUNTERS_ORIG = some c
          ∧ msg_samples be heap ct_stats.ct_zone nlh
            = [fwd_sample be (msg_tb be nlh) orig reply c]
          ∧ (fwd_sample be (msg_tb be nlh) orig reply c).pkt_info
            = counters_decoded be c ct_flow_zero.pkt_info)
      ∨ (∃ orig reply c c1, tb_get (msg_tb be nlh) CTA_TUPLE_ORIG = some orig
          ∧ tb_get (msg_tb be nlh) CTA_TUPLE_REPLY = some reply
          ∧ tb_get (msg_tb be nlh) CTA_COUNTERS_ORIG = some c
          ∧ tb_get (msg_tb be nlh) CTA_COUNTERS_REPLY = some c1
          ∧ msg_samples be heap ct_stats.ct_zone nlh
            = [fwd_sample be (msg_tb be nlh) orig reply c, rev_sample be orig reply c1]
          ∧ (fwd_sample be (msg_tb be nlh) orig reply c).pkt_info
            = counters_decoded be c ct_flow_zero.pkt_info
          ∧ (rev_sample be orig reply c1).pkt_info
            = counters_decoded be c1 ct_flow_zero.pkt_info))
    ∧ (data_cb_seq be ct_stats msgs).ctflow_list
      = ct_stats.ctflow_list
        ++ (msgs.map (fun m => msg_samples be m.1 ct_stats.ct_zone m.2)).flatten := by
  have hl : (data_cb be heap ct_stats nlh).ct_stats.ctflow_list
      = ct_stats.ctflow_list ++ msg_samples be heap ct_stats.ct_zone nlh := by
    rw [data_cb_append]
  refine ⟨hl, ⟨_, hl.symm⟩, msg_samples_tied be heap ct_stats.ct_zone nlh,
    (data_cb_seq_append be msgs ct_stats).1⟩

set_option maxRecDepth 1000000 in
/-- C27, on concrete input: from a pending list that already holds the reverse
sample of scenario S1, the UDP entry of scenario S1 followed by the entry with
a malformed port and by the UDP entry again leaves that sample first, then
forward and reverse of the first entry, nothing for the second, then forward
and reverse of the third; the forward sample carries the ORIG counters of the
entry and the reverse sample its REPLY counters, which differ. -/
theorem data_cb_appends_at_tail_witness :
    (data_cb_seq false { ct_stats_init 0 with ctflow_list := [udp_rev], node_count := 1 }
        [(heap_ok, msg_udp), (heap_ok, msg_bad_port), (heap_ok, msg_udp)]).ctflow_list
      = [udp_rev] ++ ([[udp_fwd, udp_rev], [], [udp_fwd, udp_rev]]).flatten
    ∧ [msg_samples false heap_ok 0 msg_udp, msg_samples false heap_ok 0 msg_bad_port]
      = [[udp_fwd, udp_rev], []]
    ∧ (tb_get (msg_tb false msg_udp) CTA_COUNTERS_ORIG).map
        (fun c => counters_decoded false c ct_flow_zero.pkt_info) = some udp_fwd.pkt_info
    ∧ (tb_get (msg_tb false msg_udp) CTA_COUNTERS_REPLY).map
        (fun c => counters_decoded false c ct_flow_zero.pkt_info) = some udp_rev.pkt_info
    ∧ udp_fwd.pkt_info ≠ udp_rev.pkt_info :=
  ⟨((data_cb_appends_at_tail false heap_ok
      { ct_stats_init 0 with ctflow_list := [udp_rev], node_count := 1 } msg_udp
      [(heap_ok, msg_udp), (heap_ok, msg_bad_port), (heap_ok, msg_udp)]).2.2.2).trans
      (by decide),
   by decide, by decide, by decide, by decide⟩


/-! ## The stored zone -/

theorem mnl_cb_run_loop_inv (be : Bool) (seq portid : Nat) (P : flow_stats_t → Prop)
    (hP : ∀ heap nlh s, P s → P (data_cb be heap s nlh).ct_stats) :
    ∀ (msgs : List (calloc_results × nlmsghdr)) (ret : Int) (ct_stats : flow_stats_t),
      P ct_stats → P (mnl_cb_run_loop be seq portid msgs ret ct_stats).2 := by
  intro msgs
  induction msgs with
  | nil => intro ret ct_stats h; exact h
  | cons m rest ih =>
    intro ret ct_stats h
    obtain ⟨heap, nlh⟩ := m
    simp only [mnl_cb_run_loop]
    split
    · exact h
    · split
      · exact h
      · split
        · exact h
        · split
          · split
            · exact hP heap nlh ct_stats h
            · exact ih _ _ (hP heap nlh ct_stats h)
          · split
            · split
              · exact h
              · exact ih _ _ h
            · exact ih _ _ h

theorem ct_stats_get_ct_flow_loop_inv (be : Bool) (seq portid : Nat) (P : flow_stats_t → Prop)
    (hP : ∀ heap nlh s, P s → P (data_cb be heap s nlh).ct_stats) :
    ∀ (recv : List (Option (List (calloc_results × nlmsghdr)))) (ct_stats : flow_stats_t)
      (r : sweep_result), P ct_stats →
      ct_stats_get_ct_flow_loop be seq portid recv ct_stats = some r → P r.ct_stats := by
  intro recv
  induction recv with
  | nil => intro ct_stats r _ hr; simp [ct_stats_get_ct_flow_loop] at hr
  | cons d rest ih =>
    intro ct_stats r h hr
    cases d with
    | none =>
      simp only [ct_stats_get_ct_flow_loop, Option.some.injEq] at hr
      rw [← hr]; exact h
    | some msgs =>
      have hm := mnl_cb_run_loop_inv be seq portid P hP msgs MNL_CB_OK ct_stats h
      simp only [ct_stats_get_ct_flow_loop, mnl_cb_run] at hr
      split at hr
      · simp only [Option.some.injEq] at hr
        rw [← hr]; exact hm
      · split at hr
        · simp only [Option.some.injEq] at hr
          rw [← hr]; exact hm
        · exact ih _ r hm hr

theorem ct_stats_get_ct_flow_inv (be : Bool) (env : nl_env) (P : flow_stats_t → Prop)
    (hP : ∀ heap nlh s, P s → P (data_cb be heap s nlh).ct_stats)
    (ct_stats : flow_stats_t) (r : sweep_result) (h : P ct_stats)
    (hr : ct_stats_get_ct_flow be env ct_stats = some r) : P r.ct_stats := by
  unfold ct_stats_get_ct_flow at hr
  split at hr
  · simp only [Option.some.injEq] at hr; rw [← hr]; exact h
  · split at hr
    · simp only [Option.some.injEq] at hr; rw [← hr]; exact h
    · split at hr
      · simp only [Option.some.injEq] at hr; rw [← hr]; exact h
      · exact ct_stats_get_ct_flow_loop_inv be _ _ P hP _ ct_stats r h hr

theorem data_cb_ct_zone (be : Bool) (heap : calloc_results) (ct_stats : flow_stats_t)
    (nlh : nlmsghdr) : (data_cb be heap ct_stats nlh).ct_stats.ct_zone = ct_stats.ct_zone := by
  rw [data_cb_append]

theorem ct_flow_add_sample_ct_zone (env : flush_env) (be : Bool) (ct_stats : flow_stats_t) :
    (ct_flow_add_sample env be ct_stats).ct_stats.ct_zone = ct_stats.ct_zone := by
  unfold ct_flow_add_sample
  rw [free_ct_flow_list_spec]

theorem ct_stats_collect_cb_ct_zone (be : Bool) (env4 env6 : nl_env) (fenv : flush_env)
    (collector : Option fcm_collect_plugin_t) (ct_stats : flow_stats_t) (r : collect_result)
    (hr : ct_stats_collect_cb be env4 env6 fenv collector ct_stats = some r) :
    r.ct_stats.ct_zone = ct_stats.ct_zone := by
  have hP : ∀ heap nlh (s : flow_stats_t), s.ct_zone = ct_stats.ct_zone →
      (data_cb be heap s nlh).ct_stats.ct_zone = ct_stats.ct_zone :=
    fun heap nlh s hs => (data_cb_ct_zone be heap s nlh).trans hs
  unfold ct_stats_collect_cb at hr
  cases collector with
  | none =>
    simp only [Option.some.injEq] at hr
    rw [← hr]
  | some c =>
    simp only at hr
    rcases h4 : ct_stats_get_ct_flow be env4 ct_stats with _ | r4
    · rw [h4] at hr; simp at hr
    · rw [h4] at hr
      have hc4 := ct_stats_get_ct_flow_inv be env4 (fun s => s.ct_zone = ct_stats.ct_zone) hP
        ct_stats r4 rfl h4
      simp only at hr hc4
      split at hr
      · simp only [Option.some.injEq] at hr; rw [← hr]; exact hc4
      · rcases h6 : ct_stats_get_ct_flow be env6 r4.ct_stats with _ | r6
        · rw [h6] at hr; simp at hr
        · rw [h6] at hr
          have hc6 := ct_stats_get_ct_flow_inv be env6 (fun s => s.ct_zone = ct_stats.ct_zone)
            hP r4.ct_stats r6 hc4 h6
          simp only at hr hc6
          split at hr
          · simp only [Option.some.injEq] at hr; rw [← hr]; exact hc6
          · simp only [Option.some.injEq] at hr
            rw [← hr]
            simp only [ct_flow_add_sample_ct_zone]
            exact hc6

/-- C24: the stored `ct_zone` is left as it was by `data_cb`, by `mnl_cb_run` over
any messages, by a sweep `ct_stats_get_ct_flow`, by the flush
`ct_flow_add_sample` and by `ct_stats_collect_cb`, for every input; so the
messages of one collection are all compared against the same zone. It is
written by `ct_stats_plugin_init` and by `ct_stats_report_cb`, which leave the
configured zone in it. -/
theorem ct_zone_constant (be : Bool) (heap : calloc_results) (nlh : nlmsghdr)
    (seq portid : Nat) (msgs : List (calloc_results × nlmsghdr)) (ret : Int)
    (env env4 env6 : nl_env) (fenv : flush_env) (collector : Option fcm_collect_plugin_t)
    (ct_stats : flow_stats_t) :
    (data_cb be heap ct_stats nlh).ct_stats.ct_zone = ct_stats.ct_zone
    ∧ (mnl_cb_run_loop be seq portid msgs ret ct_stats).2.ct_zone = ct_stats.ct_zone
    ∧ (data_cb_seq be ct_stats msgs).ct_zone = ct_stats.ct_zone
    ∧ (∀ r, ct_stats_get_ct_flow be env ct_stats = some r →
        r.ct_stats.ct_zone = ct_stats.ct_zone)
    ∧ (ct_flow_add_sample fenv be ct_stats).ct_stats.ct_zone = ct_stats.ct_zone
    ∧ (∀ r, ct_stats_collect_cb be env4 env6 fenv collector ct_stats = some r →
        r.ct_stats.ct_zone = ct_stats.ct_zone) := by
  have hP : ∀ heap nlh (s : flow_stats_t), s.ct_zone = ct_stats.ct_zone →
      (data_cb be heap s nlh).ct_stats.ct_zone = ct_stats.ct_zone :=
    fun heap nlh s hs => (data_cb_ct_zone be heap s nlh).trans hs
  exact ⟨data_cb_ct_zone be heap ct_stats nlh,
    mnl_cb_run_loop_inv be seq portid (fun s => s.ct_zone = ct_stats.ct_zone) hP msgs ret
      ct_stats rfl,
    (data_cb_seq_append be msgs ct_stats).2,
    fun r hr => ct_stats_get_ct_flow_inv be env (fun s => s.ct_zone = ct_stats.ct_zone) hP
      ct_stats r rfl hr,
    ct_flow_add_sample_ct_zone fenv be ct_stats,
    fun r hr => ct_stats_collect_cb_ct_zone be env4 env6 fenv collector ct_stats r hr⟩

set_option maxRecDepth 1000000 in
/-- C24, on concrete input (scenario S4): with zone 7 configured, a collection
whose IPv4 dump holds the UDP entry without `CTA_ZONE` and the entry with
`CTA_ZONE` 7 ends with zone 7 still stored, after linking the two samples of
the second entry only and flushing them. -/
theorem ct_zone_constant_witness :
    (ct_stats_collect_cb false
        (nl_answers [some [(heap_ok, msg_udp), (heap_ok, msg_zone7), (heap_ok, msg_done)]])
        sweep_done (fenv_quota 0 10) (some collector_demo) (ct_stats_init 7)).map
          (fun r => (r.ct_stats.ct_zone, r.flush.map (fun f => f.submitted.length)))
      = some (7, some 2)
    ∧ ∀ r, ct_stats_collect_cb false
        (nl_answers [some [(heap_ok, msg_udp), (heap_ok, msg_zone7), (heap_ok, msg_done)]])
        sweep_done (fenv_quota 0 10) (some collector_demo) (ct_stats_init 7) = some r →
      r.ct_stats.ct_zone = (ct_stats_init 7).ct_zone :=
  ⟨by decide,
   (ct_zone_constant false heap_ok msg_udp 1 1 [] MNL_CB_OK sweep_done
      (nl_answers [some [(heap_ok, msg_udp), (heap_ok, msg_zone7), (heap_ok, msg_done)]])
      sweep_done (fenv_quota 0 10) (some collector_demo) (ct_stats_init 7)).2.2.2.2.2⟩

/-! ## Report and initialisation: when the zone is written -/

theorem ct_stats_plugin_init_ct_zone (env : init_env) (collector : fcm_collect_plugin_t)
    (ct_stats : flow_stats_t) :
    (ct_stats_plugin_init env collector ct_stats).ct_stats.ct_zone
      = configured_zone collector := by
  unfold ct_stats_plugin_init alloc_aggr configured_zone
  simp only
  split_ifs <;> (try split) <;> simp

/-! ## The two nodes of `data_cb` -/

theorem data_cb_emit_fates (be : Bool) (ct_stats : flow_stats_t) (tb : attr_tb)
    (af reply_flag : Nat) (flow flow_1 : ct_flow_t) :
    ((data_cb_emit be ct_stats tb af reply_flag flow flow_1).flow_info = .freed
      ∨ (data_cb_emit be ct_stats tb af reply_flag flow flow_1).flow_info = .linked)
    ∧ ((data_cb_emit be ct_stats tb af reply_flag flow flow_1).flow_info_1 = .freed
      ∨ (data_cb_emit be ct_stats tb af reply_flag flow flow_1).flow_info_1 = .linked) := by
  unfold data_cb_emit
  simp only
  repeat' first
    | exact ⟨Or.inl rfl, Or.inl rfl⟩
    | exact ⟨Or.inr rfl, Or.inl rfl⟩
    | exact ⟨Or.inr rfl, Or.inr rfl⟩
    | split_ifs
    | split

/-- The second node of `data_cb` is left allocated, neither linked nor freed,
exactly when the message parses and is in zone, both allocations succeed and
`CTA_TUPLE_ORIG` is absent; the first node is never left so. -/
theorem data_cb_flow_info_1_allocated (be : Bool) (heap : calloc_results)
    (ct_stats : flow_stats_t) (nlh : nlmsghdr) :
    ((data_cb be heap ct_stats nlh).flow_info_1 = .allocated
      ↔ (0 ≤ (mnl_attr_parse be nlh 4 data_attr_cb (tb_zero CTA_MAX)).1
        ∧ msg_zone (msg_tb be nlh) = ct_stats.ct_zone
        ∧ heap.flow_info = true ∧ heap.flow_info_1 = true
        ∧ tb_get (msg_tb be nlh) CTA_TUPLE_ORIG = none))
    ∧ (data_cb be heap ct_stats nlh).flow_info ≠ .allocated := by
  unfold data_cb msg_tb
  simp only [data_cb_zone_read, data_cb_build]
  generalize (mnl_attr_parse be nlh 4 data_attr_cb (tb_zero CTA_MAX)) = r
  by_cases h0 : r.1 < 0
  · rw [if_pos h0]
    exact ⟨⟨fun h => absurd h (by simp), fun h => absurd h.1 (by omega)⟩, by simp⟩
  rw [if_neg h0]
  by_cases hz : msg_zone r.2 ≠ ct_stats.ct_zone
  · rw [if_pos hz]
    exact ⟨⟨fun h => absurd h (by simp), fun h => absurd h.2.1 hz⟩, by simp⟩
  rw [if_neg hz]
  by_cases h1 : heap.flow_info = false
  · rw [if_pos h1]
    exact ⟨⟨fun h => absurd h (by simp), fun h => absurd h.2.2.1 (by simp [h1])⟩, by simp⟩
  rw [if_neg h1]
  by_cases h2 : heap.flow_info_1 = false
  · rw [if_pos h2]
    exact ⟨⟨fun h => absurd h (by simp), fun h => absurd h.2.2.2.1 (by simp [h2])⟩, by simp⟩
  rw [if_neg h2]
  rcases ho : tb_get r.2 CTA_TUPLE_ORIG with _ | orig
  · exact ⟨⟨fun _ => ⟨by omega, by simpa using hz, by simpa using h1, by simpa using h2, rfl⟩,
      fun _ => rfl⟩, by simp⟩
  · have hne : ∀ (x : data_cb_result), (x.flow_info = .freed ∨ x.flow_info = .linked) →
        (x.flow_info_1 = .freed ∨ x.flow_info_1 = .linked) →
        (x.flow_info_1 = .allocated ↔ (0 ≤ r.1 ∧ msg_zone r.2 = ct_stats.ct_zone
            ∧ heap.flow_info = true ∧ heap.flow_info_1 = true
            ∧ (some orig : Option nlattr) = none))
          ∧ x.flow_info ≠ .allocated := by
      intro x e1 e2
      refine ⟨⟨fun h => ?_, fun h => absurd h.2.2.2.2 (by simp)⟩, ?_⟩
      · rcases e2 with e | e <;> rw [e] at h <;> cases h
      · rcases e1 with e | e <;> rw [e] <;> simp
    apply hne
    · simp only
      split_ifs
      · exact Or.inl rfl
      · rcases tb_get r.2 CTA_TUPLE_REPLY with _ | reply
        · exact Or.inl rfl
        · simp only
          split_ifs
          · exact Or.inl rfl
          · exact (data_cb_emit_fates be ct_stats r.2 _ _ _ _).1
    · simp only
      split_ifs
      · exact Or.inl rfl
      · rcases tb_get r.2 CTA_TUPLE_REPLY with _ | reply
        · exact Or.inl rfl
        · simp only
          split_ifs
          · exact Or.inl rfl
          · exact (data_cb_emit_fates be ct_stats r.2 _ _ _ _).2

set_option maxRecDepth 1000000 in
/-- C29: for the UDP entry of scenario S1 without its `CTA_TUPLE_ORIG`, in zone
and with both allocations successful, `data_cb` returns with its first node
freed and its second node still allocated, neither linked nor freed; without
`CTA_TUPLE_REPLY` instead, both nodes are freed. -/
theorem data_cb_tuple_orig_absent :
    tb_get (msg_tb false msg_no_orig) CTA_TUPLE_ORIG = none
    ∧ data_cb false heap_ok (ct_stats_init 0) msg_no_orig
      = ⟨MNL_CB_OK, ct_stats_init 0, .freed, .allocated⟩
    ∧ tb_get (msg_tb false msg_no_reply) CTA_TUPLE_REPLY = none
    ∧ data_cb false heap_ok (ct_stats_init 0) msg_no_reply
      = ⟨MNL_CB_OK, ct_stats_init 0, .freed, .freed⟩ := by
  refine ⟨?_, ?_, ?_, ?_⟩ <;> decide

/-! ## The socket of a sweep -/

set_option maxRecDepth 1000000 in
/-- C30: a sweep whose `mnl_socket_bind` fails, whose `mnl_socket_sendto` fails,
whose `mnl_socket_recvfrom` fails or whose callback run fails returns with its
socket opened and not closed; only the sweep that runs to `NLMSG_DONE` returns
with the socket closed. -/
theorem ct_stats_get_ct_flow_socket_left_open :
    (ct_stats_get_ct_flow false sweep_bind_fail (ct_stats_init 0)).map
        (fun r => (r.rc, r.socket)) = some (-1, .left_open)
    ∧ (ct_stats_get_ct_flow false sweep_send_fail (ct_stats_init 0)).map
        (fun r => (r.rc, r.socket)) = some (-1, .left_open)
    ∧ (ct_stats_get_ct_flow false sweep_recv_fail (ct_stats_init 0)).map
        (fun r => (r.rc, r.socket)) = some (1, .left_open)
    ∧ (ct_stats_get_ct_flow false sweep_udp_bad_zone (ct_stats_init 0)).map
        (fun r => (r.rc, r.socket)) = some (-1, .left_open)
    ∧ (ct_stats_get_ct_flow false sweep_udp_done (ct_stats_init 0)).map
        (fun r => (r.rc, r.socket)) = some (0, .closed) := by
  refine ⟨?_, ?_, ?_, ?_, ?_⟩ <;> decide


/-! ## The validators against the shape table -/

theorem validator_error_iff (c : parse_ctx) (attr : nlattr) (tb : attr_tb) :
    (c.info.cb attr tb).1 = MNL_CB_ERROR
      ↔ (mnl_attr_get_type attr ≤ c.info.max ∧ c.info.wrong_shape attr) := by
  rcases validator_verdict _ _ _ (parse_ctx_spec c) attr tb with ⟨h1, _, h3, h4⟩ | ⟨h1, h2⟩
  · exact ⟨fun _ => ⟨h3, h4⟩, fun _ => h1⟩
  · rw [h1]
    exact ⟨fun h => absurd h (by decide), fun h => absurd h h2⟩

/-- Every pair of the shape table but the two top-level pairs `TUPLE_REPLY`
and `PROTOINFO`: the validator of the context rejects an attribute of the type
exactly when its payload does not have the expected shape. -/
theorem validator_matches_table (c : parse_ctx) (t : Nat) (sh : attr_shape)
    (hs : spec_shape c t = some sh)
    (hne : ¬ (c = .top ∧ (t = CTA_TUPLE_REPLY ∨ t = CTA_PROTOINFO)))
    (attr : nlattr) (tb : attr_tb) (ht : mnl_attr_get_type attr = t) :
    (c.info.cb attr tb).1 = MNL_CB_ERROR ↔ ¬ shape_ok sh attr := by
  rw [validator_error_iff]
  generalize hn : attr.payload.length = n
  cases c <;>
    simp only [spec_shape, parse_ctx.info, wrong_shape_top, wrong_shape_tuple, wrong_shape_ip,
      wrong_shape_proto, wrong_shape_protoinfo, wrong_shape_tcp, wrong_shape_counters,
      CTA_TUPLE_ORIG, CTA_TUPLE_REPLY, CTA_PROTOINFO, CTA_TIMEOUT, CTA_MARK,
      CTA_COUNTERS_ORIG, CTA_COUNTERS_REPLY, CTA_SECMARK, CTA_ZONE, CTA_MAX, CTA_TUPLE_IP,
      CTA_TUPLE_PROTO, CTA_TUPLE_ZONE, CTA_TUPLE_MAX, CTA_IP_V4_SRC, CTA_IP_V4_DST,
      CTA_IP_V6_SRC, CTA_IP_V6_DST, CTA_IP_MAX, CTA_PROTO_NUM, CTA_PROTO_SRC_PORT,
      CTA_PROTO_DST_PORT, CTA_PROTO_ICMP_ID, CTA_PROTO_ICMP_TYPE, CTA_PROTO_ICMP_CODE,
      CTA_PROTO_MAX, CTA_PROTOINFO_TCP, CTA_PROTOINFO_MAX, CTA_PROTOINFO_TCP_STATE,
      CTA_PROTOINFO_TCP_MAX, CTA_COUNTERS_PACKETS, CTA_COUNTERS_BYTES,
      CTA_COUNTERS32_PACKETS, CTA_COUNTERS32_BYTES, CTA_COUNTERS_MAX, MNL_ATTR_HDRLEN,
      true_and, reduceCtorEq, false_and, not_false_eq_true, ht, hn] at hs hne ⊢
  all_goals
    split_ifs at hs <;> cases hs <;> simp only [shape_ok, MNL_ATTR_HDRLEN, hn] <;> omega

theorem data_attr_cb_unchecked (attr : nlattr) (tb : attr_tb)
    (h : mnl_attr_get_type attr = CTA_TUPLE_REPLY ∨ mnl_attr_get_type attr = CTA_PROTOINFO) :
    data_attr_cb attr tb = (MNL_CB_OK, tb_set tb (mnl_attr_get_type attr) attr) := by
  refine (data_attr_cb_spec attr tb).2.2 ?_ ?_
  · rcases h with h | h <;> rw [h] <;> decide
  · unfold wrong_shape_top
    rcases h with h | h <;>
      simp [h, CTA_TUPLE_REPLY, CTA_PROTOINFO, CTA_TUPLE_ORIG, CTA_COUNTERS_ORIG,
        CTA_COUNTERS_REPLY, CTA_TIMEOUT, CTA_MARK, CTA_SECMARK, CTA_ZONE]

set_option maxRecDepth 1000000 in
/-- C26: the shape table expects a nest for the top-level types `TUPLE_REPLY` and
`PROTOINFO`, yet `data_attr_cb` accepts and stores an attribute of either type
whose payload is two stray bytes, while it rejects `TUPLE_ORIG` with the same
payload; the UDP entry of scenario S1 whose `CTA_TUPLE_REPLY` holds two stray
bytes is decoded with a reverse sample that has no address, protocol or port,
while the same defect in `CTA_TUPLE_ORIG` is rejected. -/
theorem data_attr_cb_unchecked_nests :
    spec_shape .top CTA_TUPLE_REPLY = some .nested
    ∧ spec_shape .top CTA_PROTOINFO = some .nested
    ∧ ¬ shape_ok .nested ⟨CTA_TUPLE_REPLY, [1, 2]⟩
    ∧ ¬ shape_ok .nested ⟨CTA_PROTOINFO, [1, 2]⟩
    ∧ data_attr_cb ⟨CTA_TUPLE_REPLY, [1, 2]⟩ (tb_zero CTA_MAX)
      = (MNL_CB_OK, tb_set (tb_zero CTA_MAX) CTA_TUPLE_REPLY ⟨CTA_TUPLE_REPLY, [1, 2]⟩)
    ∧ data_attr_cb ⟨CTA_PROTOINFO, [1, 2]⟩ (tb_zero CTA_MAX)
      = (MNL_CB_OK, tb_set (tb_zero CTA_MAX) CTA_PROTOINFO ⟨CTA_PROTOINFO, [1, 2]⟩)
    ∧ data_attr_cb ⟨CTA_TUPLE_ORIG, [1, 2]⟩ (tb_zero CTA_MAX) = (MNL_CB_ERROR, tb_zero CTA_MAX)
    ∧ (data_cb false heap_ok (ct_stats_init 0) msg_reply_stray).ct_stats.ctflow_list
      = [udp_fwd, empty_rev]
    ∧ (data_cb false heap_ok (ct_stats_init 0) msg_orig_stray).rc = MNL_CB_ERROR := by
  refine ⟨?_, ?_, ?_, ?_, ?_, ?_, ?_, ?_, ?_⟩ <;> decide


/-! ## The filter view and the field `family_type` -/

theorem apply_filter_eq (env : flush_env) (be : Bool) (name : String)
    (mac_filter : fcm_filter_l2_info_t) (flow : ct_flow_t) :
    apply_filter env be (some name) mac_filter flow
      = if (env.getnameinfo flow.layer3_info.src_ip).1 < 0 then false
        else if (env.getnameinfo flow.layer3_info.dst_ip).1 < 0 then false
        else env.fcm_filter_7tuple_apply name mac_filter (filter_view env be flow)
          (filter_pkt flow) := rfl

theorem get_tuple_ip_family_type (be : Bool) (ip : nlattr) (flow : ct_flow_t) :
    (get_tuple_ip be ip flow).2.layer3_info.family_type = flow.layer3_info.family_type := by
  unfold get_tuple_ip
  simp only
  split
  · rfl
  · (repeat' split) <;> rfl

theorem get_tuple_proto_family_type (be : Bool) (proto : nlattr) (flow : ct_flow_t) :
    (get_tuple_proto be proto flow).2.layer3_info.family_type
      = flow.layer3_info.family_type := by
  unfold get_tuple_proto
  simp only
  split
  · rfl
  · (repeat' split) <;> rfl

theorem get_tuple_family_type (be : Bool) (nest : nlattr) (flow : ct_flow_t) :
    (get_tuple be nest flow).2.layer3_info.family_type = flow.layer3_info.family_type := by
  have hip : ∀ (o : Option nlattr),
      (match o with
        | some ip => get_tuple_ip be ip flow
        | none => (MNL_CB_OK, flow)).2.layer3_info.family_type
        = flow.layer3_info.family_type := by
    intro o
    cases o with
    | none => rfl
    | some ip => exact get_tuple_ip_family_type be ip flow
  have hpr : ∀ (o : Option nlattr) (f : ct_flow_t),
      (match o with
        | some p => get_tuple_proto be p f
        | none => (MNL_CB_OK, f)).2.layer3_info.family_type = f.layer3_info.family_type := by
    intro o f
    cases o with
    | none => rfl
    | some p => exact get_tuple_proto_family_type be p f
  have h1 := hip (tb_get (mnl_attr_parse_nested be nest parse_tuple_cb
    (tb_zero CTA_TUPLE_MAX)).2 CTA_TUPLE_IP)
  have g1 := hpr (tb_get (mnl_attr_parse_nested be nest parse_tuple_cb
    (tb_zero CTA_TUPLE_MAX)).2 CTA_TUPLE_PROTO)
    (match tb_get (mnl_attr_parse_nested be nest parse_tuple_cb
      (tb_zero CTA_TUPLE_MAX)).2 CTA_TUPLE_IP with
      | some ip => get_tuple_ip be ip flow
      | none => (MNL_CB_OK, flow)).2
  unfold get_tuple
  simp only
  split
  · rfl
  · split
    · exact h1
    · split
      · exact g1.trans h1
      · split <;> exact g1.trans h1

theorem data_cb_addr_family_type (be : Bool) (flow flow_1 : ct_flow_t) :
    (data_cb_addr be flow flow_1).2.1.layer3_info.family_type = flow.layer3_info.family_type
    ∧ (data_cb_addr be flow flow_1).2.2.layer3_info.family_type
      = flow_1.layer3_info.family_type := by
  unfold data_cb_addr data_cb_af_inet
  simp only
  split_ifs <;> exact ⟨rfl, rfl⟩

/-- Every sample of a message has `family_type` 0: no statement of the decoder
or of the flow builder writes the field of the zeroed node. -/
theorem msg_samples_family_type (be : Bool) (heap : calloc_results) (zone : Nat)
    (nlh : nlmsghdr) :
    ∀ f ∈ msg_samples be heap zone nlh, f.layer3_info.family_type = 0 := by
  have hf : ∀ tb orig reply c, (fwd_sample be tb orig reply c).layer3_info.family_type = 0 := by
    intro tb orig reply c
    rw [fwd_sample_l3, (data_cb_addr_family_type be _ _).1, get_tuple_family_type]
    rfl
  have hr : ∀ orig reply c1, (rev_sample be orig reply c1).layer3_info.family_type = 0 := by
    intro orig reply c1
    rw [rev_sample_l3, (data_cb_addr_family_type be _ _).2, get_tuple_family_type]
    rfl
  intro f hmem
  rcases msg_samples_cases be heap zone nlh with h0 | ⟨orig, reply, c, h1⟩
    | ⟨orig, reply, c, c1, h2⟩
  · rw [h0] at hmem; cases hmem
  · rw [h1, List.mem_singleton] at hmem
    rw [hmem]; exact hf _ _ _ _
  · rw [h2] at hmem
    simp only [List.mem_cons, List.mem_singleton, List.not_mem_nil, or_false] at hmem
    rcases hmem with e | e <;> rw [e]
    · exact hf _ _ _ _
    · exact hr _ _ _

set_option maxRecDepth 1000000 in
/-- C22: when both address conversions succeed, `apply_filter` hands the filter
engine a view whose `sport` and `dport` are the ports of the sample through
`ntohs`, whose `l4_proto` is its protocol number and whose counters are its
packets and bytes; but the family of the view is the field `family_type` of the
sample, which is 0 for every sample `data_cb` links: the view of the IPv4
samples of scenario S1 and that of the IPv6 samples of an IPv6 entry carry the
same family 0, whereas their addresses have families 2 and 10. -/
theorem apply_filter_family_unset (env : flush_env) (be : Bool) (name : String)
    (mac_filter : fcm_filter_l2_info_t) (flow : ct_flow_t) :
    (¬ (env.getnameinfo flow.layer3_info.src_ip).1 < 0 →
      ¬ (env.getnameinfo flow.layer3_info.dst_ip).1 < 0 →
      apply_filter env be (some name) mac_filter flow
        = env.fcm_filter_7tuple_apply name mac_filter (filter_view env be flow)
            (filter_pkt flow))
    ∧ (filter_view env be flow).sport = ntohs be flow.layer3_info.src_port
    ∧ (filter_view env be flow).dport = ntohs be flow.layer3_info.dst_port
    ∧ (filter_view env be flow).l4_proto = flow.layer3_info.proto_type
    ∧ filter_pkt flow = ⟨flow.pkt_info.pkt_cnt, flow.pkt_info.bytes⟩
    ∧ (filter_view env be flow).ip_type = flow.layer3_info.family_type
    ∧ (∀ heap zone nlh, flow ∈ msg_samples be heap zone nlh →
        (filter_view env be flow).ip_type = 0)
    ∧ (msg_samples false heap_ok 0 msg_udp).map
        (fun f => (f.layer3_info.src_ip.ss_family, (filter_view fenv_names false f).ip_type,
          (filter_view fenv_names false f).sport, (filter_view fenv_names false f).dport))
      = [(AF_INET, 0, 1000, 53), (AF_INET, 0, 53, 1000)]
    ∧ (msg_samples false heap_ok 0 msg_v6_dnat).map
        (fun f => (f.layer3_info.src_ip.ss_family, (filter_view fenv_names false f).ip_type,
          (filter_view fenv_names false f).sport, (filter_view fenv_names false f).dport))
      = [(AF_INET6, 0, 1000, 53), (AF_INET6, 0, 53, 1000)] := by
  refine ⟨?_, rfl, rfl, rfl, rfl, rfl, ?_, by decide, by decide⟩
  · intro h1 h2
    rw [apply_filter_eq, if_neg h1, if_neg h2]
  · intro heap zone nlh hmem
    exact msg_samples_family_type be heap zone nlh flow hmem


/-! ## The aggregator key -/

theorem sin_addr_bytes_v4 (sa : sockaddr_storage) (h : sa.ss_family = AF_INET)
    (hl : sa.addr.length = 4) : sin_addr_bytes sa = sa.addr := by
  unfold sin_addr_bytes
  rw [if_neg (by rw [h]; decide), List.take_append_of_le_length (by omega),
    List.take_of_length_le (by omega)]

theorem sin6_addr_bytes_v6 (sa : sockaddr_storage) (h : sa.ss_family = AF_INET6)
    (hl : sa.addr.length = 16) : sin6_addr_bytes sa = sa.addr := by
  unfold sin6_addr_bytes
  rw [if_pos h, List.take_append_of_le_length (by omega), List.take_of_length_le (by omega)]

/-- C23 (amended): every submission of `ct_flow_add_sample` is made for a pending
sample. The key has `ip_version` 4 when the family of the sample's source
address is IPv4 and 6 otherwise, and both key addresses are read in the layout
of that family: the `sin_addr` bytes of both addresses for IPv4, the
`sin6_addr` bytes of both for IPv6, and no address for any other family. In
particular, for a sample whose addresses are both IPv4 (both IPv6) the key
holds the four (sixteen) bytes of each; a destination of another family than
an IPv6 source gives sixteen zero bytes. The protocol, `fstart` and `fend` are
the sample's protocol number, `start` and `end`; the counters are the sample's
packet and byte counts; and `smac` (`dmac`) is the result of the neighbour
lookup of the source (destination) address, present exactly when that lookup
succeeded. -/
theorem submitted_key_fields (env : flush_env) (be : Bool) (ct_stats : flow_stats_t) :
    ∀ sub ∈ (ct_flow_add_sample env be ct_stats).submitted,
      ∃ flow ∈ ct_stats.ctflow_list,
        sub.1.ip_version = (if flow.layer3_info.src_ip.ss_family = AF_INET then 4 else 6)
        ∧ (flow.layer3_info.src_ip.ss_family = AF_INET →
            sub.1.src_ip = some (sin_addr_bytes flow.layer3_info.src_ip)
            ∧ sub.1.dst_ip = some (sin_addr_bytes flow.layer3_info.dst_ip))
        ∧ (flow.layer3_info.src_ip.ss_family = AF_INET6 →
            sub.1.src_ip = some (sin6_addr_bytes flow.layer3_info.src_ip)
            ∧ sub.1.dst_ip = some (sin6_addr_bytes flow.layer3_info.dst_ip))
        ∧ (flow.layer3_info.src_ip.ss_family ≠ AF_INET →
            flow.layer3_info.src_ip.ss_family ≠ AF_INET6 →
            sub.1.src_ip = none ∧ sub.1.dst_ip = none)
        ∧ (is_v4 flow.layer3_info.src_ip → is_v4 flow.layer3_info.dst_ip →
          sub.1.ip_version = 4 ∧ sub.1.src_ip = some flow.layer3_info.src_ip.addr
            ∧ sub.1.dst_ip = some flow.layer3_info.dst_ip.addr)
        ∧ (is_v6 flow.layer3_info.src_ip → is_v6 flow.layer3_info.dst_ip →
          sub.1.ip_version = 6 ∧ sub.1.src_ip = some flow.layer3_info.src_ip.addr
            ∧ sub.1.dst_ip = some flow.layer3_info.dst_ip.addr)
        ∧ (flow.layer3_info.src_ip.ss_family = AF_INET6 →
            flow.layer3_info.dst_ip.ss_family ≠ AF_INET6 →
            sub.1.dst_ip = some (List.replicate 16 0))
        ∧ sub.1.ipprotocol = flow.layer3_info.proto_type
        ∧ sub.1.fstart = flow.start ∧ sub.1.fend = flow.end_
        ∧ sub.2.packets_count = flow.pkt_info.pkt_cnt
        ∧ sub.2.bytes_count = flow.pkt_info.bytes
        ∧ sub.1.smac = env.neigh_table_lookup flow.layer3_info.src_ip
        ∧ sub.1.dmac = env.neigh_table_lookup flow.layer3_info.dst_ip
        ∧ (sub.1.smac.isSome ↔ (env.neigh_table_lookup flow.layer3_info.src_ip).isSome)
        ∧ (sub.1.dmac.isSome ↔ (env.neigh_table_lookup flow.layer3_info.dst_ip).isSome) := by
  intro sub hsub
  obtain ⟨flow, hf, he⟩ := ct_flow_add_sample_submitted env be ct_stats sub hsub
  have hne : ¬ (AF_INET6 = AF_INET) := by decide
  refine ⟨flow, hf, ?_, ?_, ?_, ?_, ?_, ?_, ?_, ?_⟩
  · rw [he]
    rfl
  · intro h1
    rw [he]
    exact ⟨by simp [flow_submission, flow_key, h1], by simp [flow_submission, flow_key, h1]⟩
  · intro h1
    rw [he]
    exact ⟨by simp [flow_submission, flow_key, h1, hne],
      by simp [flow_submission, flow_key, h1, hne]⟩
  · intro h1 h2
    rw [he]
    exact ⟨by simp [flow_submission, flow_key, h1, h2],
      by simp [flow_submission, flow_key, h1, h2]⟩
  · rintro ⟨h1, h2⟩ ⟨h3, h4⟩
    rw [he]
    exact ⟨by simp [flow_submission, flow_key, h1],
      by simp [flow_submission, flow_key, h1, sin_addr_bytes_v4 _ h1 h2],
      by simp [flow_submission, flow_key, h1, sin_addr_bytes_v4 _ h3 h4]⟩
  · rintro ⟨h1, h2⟩ ⟨h3, h4⟩
    rw [he]
    exact ⟨by simp [flow_submission, flow_key, h1, hne],
      by simp [flow_submission, flow_key, h1, hne, sin6_addr_bytes_v6 _ h1 h2],
      by simp [flow_submission, flow_key, h1, hne, sin6_addr_bytes_v6 _ h3 h4]⟩
  · intro h1 h2
    rw [he]
    simp [flow_submission, flow_key, h1, hne, sin6_addr_bytes, h2]
  · rw [he]
    exact ⟨rfl, rfl, rfl, rfl, rfl, rfl, rfl, Iff.rfl, Iff.rfl⟩

set_option maxRecDepth 1000000 in
/-- C23, on concrete input: an IPv6 UDP entry yields two samples whose keys carry
`ip_version` 6 and the sixteen address bytes; the IPv4 entry of scenario S1
yields keys with `ip_version` 4, the four address bytes, and the MAC of
10.0.0.1 on the side where that address stands, the other side being absent. -/
theorem submitted_key_fields_witness :
    (ct_flow_add_sample fenv_neigh false
        (data_cb false heap_ok (ct_stats_init 0) msg_v6_dnat).ct_stats).submitted.map
          (fun s => (s.1.ip_version, s.1.src_ip, s.1.dst_ip, s.1.ipprotocol))
      = [(6, some (v6_addr 1), some (v6_addr 2), 17), (6, some (v6_addr 3), some (v6_addr 1), 17)]
    ∧ (ct_flow_add_sample fenv_neigh false
        (data_cb false heap_ok (ct_stats_init 0) msg_udp).ct_stats).submitted.map
          (fun s => (s.1.ip_version, s.1.src_ip, s.1.dst_ip, s.2.packets_count))
      = [(4, some [10, 0, 0, 1], some [8, 8, 8, 8], 42),
         (4, some [8, 8, 8, 8], some [10, 0, 0, 1], 41)]
    ∧ (ct_flow_add_sample fenv_neigh false
        (data_cb false heap_ok (ct_stats_init 0) msg_udp).ct_stats).submitted.map
          (fun s => (s.1.smac, s.1.dmac, s.2.bytes_count))
      = [(some ⟨[2, 0, 0, 0, 0, 1]⟩, none, 3200), (none, some ⟨[2, 0, 0, 0, 0, 1]⟩, 60000)]
    ∧ ∀ sub ∈ (ct_flow_add_sample fenv_neigh false
        (data_cb false heap_ok (ct_stats_init 0) msg_udp).ct_stats).submitted,
      ∃ flow ∈ (data_cb false heap_ok (ct_stats_init 0) msg_udp).ct_stats.ctflow_list,
        sub.1.ip_version = (if flow.layer3_info.src_ip.ss_family = AF_INET then 4 else 6)
        ∧ sub.1.ipprotocol = flow.layer3_info.proto_type
        ∧ sub.1.smac = fenv_neigh.neigh_table_lookup flow.layer3_info.src_ip :=
  ⟨by decide, by decide, by decide, fun sub hsub =>
    (submitted_key_fields fenv_neigh false
      (data_cb false heap_ok (ct_stats_init 0) msg_udp).ct_stats sub hsub).imp
      (fun _ h => ⟨h.1, h.2.1, h.2.2.2.2.2.2.2.2.1, h.2.2.2.2.2.2.2.2.2.2.2.2.2.1⟩)⟩

set_option maxRecDepth 1000000 in
/-- C23 as stated fails: for a UDP entry from the IPv6 address `::1` to the IPv4
address 8.8.8.8 the forward sample holds the destination 8.8.8.8 with family
IPv4, and the key submitted for it has `ip_version` 6 and sixteen zero bytes as
destination address; for the entry whose REPLY tuple has no address, the
reverse sample, of family 0, is submitted with `ip_version` 6 and no address. -/
theorem submitted_key_fields_counterexample :
    (data_cb false heap_ok (ct_stats_init 0) msg_v6_to_v4).ct_stats.ctflow_list.map
        (fun f => (f.layer3_info.src_ip, f.layer3_info.dst_ip))
      = [(⟨AF_INET6, v6_addr 1⟩, ⟨AF_INET, [8, 8, 8, 8]⟩),
         (⟨AF_INET6, v6_addr 2⟩, ⟨AF_INET, [10, 0, 0, 1]⟩)]
    ∧ (ct_flow_add_sample fenv_neigh false
        (data_cb false heap_ok (ct_stats_init 0) msg_v6_to_v4).ct_stats).submitted.map
          (fun s => (s.1.ip_version, s.1.src_ip, s.1.dst_ip))
      = [(6, some (v6_addr 1), some (List.replicate 16 0)),
         (6, some (v6_addr 2), some (List.replicate 16 0))]
    ∧ (data_cb false heap_ok (ct_stats_init 0) msg_reply_no_ip).ct_stats.ctflow_list.map
        (fun f => (f.layer3_info.src_ip.ss_family, f.layer3_info.dst_ip.ss_family))
      = [(AF_INET, AF_INET), (0, 0)]
    ∧ (ct_flow_add_sample fenv_neigh false
        (data_cb false heap_ok (ct_stats_init 0) msg_reply_no_ip).ct_stats).submitted.map
          (fun s => (s.1.ip_version, s.1.src_ip, s.1.dst_ip))
      = [(4, some [10, 0, 0, 1], some [8, 8, 8, 8]), (6, none, none)] := by
  refine ⟨?_, ?_, ?_, ?_⟩ <;> decide

/-! ## The collect filter -/

theorem get_tuple_proto_addr (be : Bool) (proto : nlattr) (flow : ct_flow_t) :
    (get_tuple_proto be proto flow).2.layer3_info.src_ip = flow.layer3_info.src_ip
    ∧ (get_tuple_proto be proto flow).2.layer3_info.dst_ip = flow.layer3_info.dst_ip := by
  unfold get_tuple_proto
  simp only
  split
  · exact ⟨rfl, rfl⟩
  · constructor <;> (repeat' split) <;> rfl

theorem ip_kept_length (be : Bool) (ip : nlattr) (t : Nat) (a : nlattr)
    (h : tb_get (nest_tb be .ip ip) t = some a) :
    ((t = CTA_IP_V4_SRC ∨ t = CTA_IP_V4_DST) → a.payload.length = 4)
    ∧ ((t = CTA_IP_V6_SRC ∨ t = CTA_IP_V6_DST) → a.payload.length = 16) := by
  obtain ⟨h1, h2⟩ := nest_tb_kept be .ip ip t a h
  simp only [parse_ctx.info, wrong_shape_ip, h1] at h2
  constructor
  · intro ht
    by_contra hne
    exact h2 (Or.inl ⟨ht, hne⟩)
  · intro ht
    by_contra hne
    exact h2 (Or.inr ⟨ht, hne⟩)

theorem populate_v4 (p : List u8) (d : sockaddr_storage) :
    ct_stats_populate_sockaddr AF_INET p d = ⟨AF_INET, p.take 4⟩ := by
  simp [ct_stats_populate_sockaddr]

theorem populate_v6 (p : List u8) (d : sockaddr_storage) :
    ct_stats_populate_sockaddr AF_INET6 p d = ⟨AF_INET6, p.take 16⟩ := by
  have h6 : ¬ (AF_INET6 = AF_INET) := by decide
  simp [ct_stats_populate_sockaddr, h6]

theorem get_tuple_ip_addr_eq (be : Bool) (ip : nlattr) (flow : ct_flow_t)
    (hok : ¬ (get_tuple_ip be ip flow).1 < 0) :
    (get_tuple_ip be ip flow).2.layer3_info.src_ip
      = (match tb_get (nest_tb be .ip ip) CTA_IP_V6_SRC with
        | some a => ⟨AF_INET6, a.payload.take 16⟩
        | none =>
          match tb_get (nest_tb be .ip ip) CTA_IP_V4_SRC with
          | some a => ⟨AF_INET, a.payload.take 4⟩
          | none => flow.layer3_info.src_ip)
    ∧ (get_tuple_ip be ip flow).2.layer3_info.dst_ip
      = (match tb_get (nest_tb be .ip ip) CTA_IP_V6_DST with
        | some a => ⟨AF_INET6, a.payload.take 16⟩
        | none =>
          match tb_get (nest_tb be .ip ip) CTA_IP_V4_DST with
          | some a => ⟨AF_INET, a.payload.take 4⟩
          | none => flow.layer3_info.dst_ip) := by
  unfold get_tuple_ip nest_tb at *
  simp only [parse_ctx.info] at *
  generalize mnl_attr_parse_nested be ip parse_ip_cb (tb_zero CTA_IP_MAX) = r at *
  by_cases h0 : r.1 < 0
  · simp only [h0, if_true] at hok
    exact absurd (show MNL_CB_ERROR < (0 : Int) by decide) hok
  · simp only [h0, if_false, populate_v4, populate_v6]
    constructor <;>
      rcases tb_get r.2 CTA_IP_V4_SRC with _ | a4 <;>
      rcases tb_get r.2 CTA_IP_V6_SRC with _ | a6 <;>
      rcases tb_get r.2 CTA_IP_V4_DST with _ | b4 <;>
      rcases tb_get r.2 CTA_IP_V6_DST with _ | b6 <;> rfl

theorem addr_zero_or_populated (be : Bool) (ip : nlattr) (t4 t6 : Nat)
    (h4 : t4 = CTA_IP_V4_SRC ∨ t4 = CTA_IP_V4_DST)
    (h6 : t6 = CTA_IP_V6_SRC ∨ t6 = CTA_IP_V6_DST) :
    ((tb_get (nest_tb be .ip ip) t4 ≠ none ∨ tb_get (nest_tb be .ip ip) t6 ≠ none)
      ∧ addr_populated (match tb_get (nest_tb be .ip ip) t6 with
          | some a => ⟨AF_INET6, a.payload.take 16⟩
          | none =>
            match tb_get (nest_tb be .ip ip) t4 with
            | some a => ⟨AF_INET, a.payload.take 4⟩
            | none => sockaddr_zero))
    ∨ (¬ (tb_get (nest_tb be .ip ip) t4 ≠ none ∨ tb_get (nest_tb be .ip ip) t6 ≠ none)
      ∧ (match tb_get (nest_tb be .ip ip) t6 with
          | some a => ⟨AF_INET6, a.payload.take 16⟩
          | none =>
            match tb_get (nest_tb be .ip ip) t4 with
            | some a => ⟨AF_INET, a.payload.take 4⟩
            | none => sockaddr_zero) = sockaddr_zero) := by
  rcases e6 : tb_get (nest_tb be .ip ip) t6 with _ | a6
  · rcases e4 : tb_get (nest_tb be .ip ip) t4 with _ | a4
    · right
      exact ⟨by simp, rfl⟩
    · left
      have hl := (ip_kept_length be ip t4 a4 e4).1 h4
      refine ⟨Or.inl (by simp), Or.inl ⟨rfl, ?_⟩⟩
      simp only [List.length_take]
      omega
  · left
    have hl := (ip_kept_length be ip t6 a6 e6).2 h6
    refine ⟨Or.inr (by simp), Or.inr ⟨rfl, ?_⟩⟩
    simp only [List.length_take]
    omega

theorem not_populated_zero : ¬ addr_populated sockaddr_zero := by decide

/-- The addresses `get_tuple` leaves in a zeroed flow: each is populated exactly
when the tuple carries the matching address attribute, and is the zeroed
storage otherwise. -/
theorem get_tuple_addr (be : Bool) (nest : nlattr) (h : tuple_ok be nest) :
    ((tuple_carries be nest CTA_IP_V4_SRC CTA_IP_V6_SRC
        ∧ addr_populated (get_tuple be nest ct_flow_zero).2.layer3_info.src_ip)
      ∨ (¬ tuple_carries be nest CTA_IP_V4_SRC CTA_IP_V6_SRC
        ∧ (get_tuple be nest ct_flow_zero).2.layer3_info.src_ip = sockaddr_zero))
    ∧ ((tuple_carries be nest CTA_IP_V4_DST CTA_IP_V6_DST
        ∧ addr_populated (get_tuple be nest ct_flow_zero).2.layer3_info.dst_ip)
      ∨ (¬ tuple_carries be nest CTA_IP_V4_DST CTA_IP_V6_DST
        ∧ (get_tuple be nest ct_flow_zero).2.layer3_info.dst_ip = sockaddr_zero)) := by
  have hzone : ∀ (tb : attr_tb) (f : ct_flow_t),
      (match tb_get tb CTA_TUPLE_ZONE with
        | some z => { f with ct_zone := mnl_attr_get_u16 be z }
        | none => f).layer3_info = f.layer3_info := by
    intro tb f
    split <;> rfl
  have hproto : ∀ (tb : attr_tb) (f : ct_flow_t),
      (match tb_get tb CTA_TUPLE_PROTO with
        | some proto => get_tuple_proto be proto f
        | none => (MNL_CB_OK, f)).2.layer3_info.src_ip = f.layer3_info.src_ip
      ∧ (match tb_get tb CTA_TUPLE_PROTO with
        | some proto => get_tuple_proto be proto f
        | none => (MNL_CB_OK, f)).2.layer3_info.dst_ip = f.layer3_info.dst_ip := by
    intro tb f
    split
    · exact get_tuple_proto_addr be _ f
    · exact ⟨rfl, rfl⟩
  unfold tuple_ok at h
  unfold tuple_carries
  unfold get_tuple at *
  unfold nest_tb
  simp only [parse_ctx.info] at *
  generalize mnl_attr_parse_nested be nest parse_tuple_cb (tb_zero CTA_TUPLE_MAX) = r at *
  by_cases h0 : r.1 < 0
  · simp only [h0, if_true] at h
    exact absurd h (by decide)
  · simp only [h0, if_false] at h ⊢
    rcases hip : tb_get r.2 CTA_TUPLE_IP with _ | ip
    · simp only [hip] at h ⊢
      have h1 : ¬ (MNL_CB_OK < (0 : Int)) := by decide
      simp only [h1, if_false] at h ⊢
      by_cases h2 : (match tb_get r.2 CTA_TUPLE_PROTO with
          | some proto => get_tuple_proto be proto ct_flow_zero
          | none => (MNL_CB_OK, ct_flow_zero)).1 < 0
      · simp only [h2, if_true] at h
        exact absurd h (by decide)
      · simp only [h2, if_false, hzone, (hproto r.2 ct_flow_zero).1, (hproto r.2 ct_flow_zero).2]
        constructor <;> right <;> exact ⟨by simp, rfl⟩
    · simp only [hip] at h ⊢
      by_cases h1 : (get_tuple_ip be ip ct_flow_zero).1 < 0
      · simp only [h1, if_true] at h
        exact absurd h (by decide)
      · simp only [h1, if_false] at h ⊢
        by_cases h2 : (match tb_get r.2 CTA_TUPLE_PROTO with
            | some proto => get_tuple_proto be proto (get_tuple_ip be ip ct_flow_zero).2
            | none => (MNL_CB_OK, (get_tuple_ip be ip ct_flow_zero).2)).1 < 0
        · simp only [h2, if_true] at h
          exact absurd h (by decide)
        · obtain ⟨es, ed⟩ := get_tuple_ip_addr_eq be ip ct_flow_zero h1
          simp only [h2, if_false, hzone, (hproto r.2 _).1, (hproto r.2 _).2, es, ed,
            Option.some.injEq, exists_eq_left']
          exact ⟨addr_zero_or_populated be ip _ _ (Or.inl rfl) (Or.inl rfl),
            addr_zero_or_populated be ip _ _ (Or.inr rfl) (Or.inr rfl)⟩

theorem data_cb_addr_src_dst (be : Bool) (flow flow_1 : ct_flow_t) :
    (data_cb_addr be flow flow_1).2.1.layer3_info.src_ip = flow.layer3_info.src_ip
    ∧ (data_cb_addr be flow flow_1).2.2.layer3_info.src_ip = flow_1.layer3_info.src_ip
    ∧ ((data_cb_addr be flow flow_1).2.1.layer3_info.dst_ip = flow.layer3_info.dst_ip
      ∨ (data_cb_addr be flow flow_1).2.1.layer3_info.dst_ip = flow_1.layer3_info.src_ip)
    ∧ ((data_cb_addr be flow flow_1).2.2.layer3_info.dst_ip = flow_1.layer3_info.dst_ip
      ∨ (data_cb_addr be flow flow_1).2.2.layer3_info.dst_ip = flow.layer3_info.src_ip) := by
  unfold data_cb_addr data_cb_af_inet
  simp only
  split_ifs
  all_goals first
    | exact ⟨rfl, rfl, Or.inl rfl, Or.inl rfl⟩
    | exact ⟨rfl, rfl, Or.inr rfl, Or.inr rfl⟩

theorem populated_or_zero_iff (sa : sockaddr_storage) (P : Prop)
    (h : (P ∧ addr_populated sa) ∨ (¬ P ∧ sa = sockaddr_zero)) :
    (addr_populated sa ∨ sa = sockaddr_zero) ∧ (addr_populated sa ↔ P) := by
  rcases h with ⟨hp, ha⟩ | ⟨hp, hz⟩
  · exact ⟨Or.inl ha, fun _ => hp, fun _ => ha⟩
  · refine ⟨Or.inr hz, fun ha => ?_, fun h => absurd h hp⟩
    rw [hz] at ha
    exact absurd ha not_populated_zero

theorem fwd_sample_addr (be : Bool) (tb : attr_tb) (orig reply c : nlattr)
    (ho : tuple_ok be orig) (hr : tuple_ok be reply) :
    (addr_populated (fwd_sample be tb orig reply c).layer3_info.src_ip
      ∨ (fwd_sample be tb orig reply c).layer3_info.src_ip = sockaddr_zero)
    ∧ (addr_populated (fwd_sample be tb orig reply c).layer3_info.dst_ip
      ∨ (fwd_sample be tb orig reply c).layer3_info.dst_ip = sockaddr_zero)
    ∧ (addr_populated (fwd_sample be tb orig reply c).layer3_info.src_ip
      ↔ tuple_carries be orig CTA_IP_V4_SRC CTA_IP_V6_SRC) := by
  obtain ⟨os, od⟩ := get_tuple_addr be orig ho
  obtain ⟨rs, _⟩ := get_tuple_addr be reply hr
  obtain ⟨e1, _, e3, _⟩ := data_cb_addr_src_dst be (get_tuple be orig ct_flow_zero).2
    (get_tuple be reply ct_flow_zero).2
  rw [fwd_sample_l3, e1]
  refine ⟨(populated_or_zero_iff _ _ os).1, ?_, (populated_or_zero_iff _ _ os).2⟩
  rcases e3 with e | e <;> rw [e]
  · exact (populated_or_zero_iff _ _ od).1
  · exact (populated_or_zero_iff _ _ rs).1

theorem rev_sample_addr (be : Bool) (orig reply c1 : nlattr)
    (ho : tuple_ok be orig) (hr : tuple_ok be reply) :
    (addr_populated (rev_sample be orig reply c1).layer3_info.src_ip
      ∨ (rev_sample be orig reply c1).layer3_info.src_ip = sockaddr_zero)
    ∧ (addr_populated (rev_sample be orig reply c1).layer3_info.dst_ip
      ∨ (rev_sample be orig reply c1).layer3_info.dst_ip = sockaddr_zero)
    ∧ (addr_populated (rev_sample be orig reply c1).layer3_info.src_ip
      ↔ tuple_carries be reply CTA_IP_V4_SRC CTA_IP_V6_SRC) := by
  obtain ⟨os, _⟩ := get_tuple_addr be orig ho
  obtain ⟨rs, rd⟩ := get_tuple_addr be reply hr
  obtain ⟨_, e2, _, e4⟩ := data_cb_addr_src_dst be (get_tuple be orig ct_flow_zero).2
    (get_tuple be reply ct_flow_zero).2
  rw [rev_sample_l3, e2]
  refine ⟨(populated_or_zero_iff _ _ rs).1, ?_, (populated_or_zero_iff _ _ rs).2⟩
  rcases e4 with e | e <;> rw [e]
  · exact (populated_or_zero_iff _ _ rd).1
  · exact (populated_or_zero_iff _ _ os).1

/-- The samples of a message with the tuples they were decoded from. -/
theorem msg_samples_tuples (be : Bool) (heap : calloc_results) (zone : Nat) (nlh : nlmsghdr) :
    msg_samples be heap zone nlh = []
    ∨ (∃ orig reply c, tb_get (msg_tb be nlh) CTA_TUPLE_ORIG = some orig ∧ tuple_ok be orig
        ∧ tb_get (msg_tb be nlh) CTA_TUPLE_REPLY = some reply ∧ tuple_ok be reply
        ∧ msg_samples be heap zone nlh = [fwd_sample be (msg_tb be nlh) orig reply c])
    ∨ (∃ orig reply c c1, tb_get (msg_tb be nlh) CTA_TUPLE_ORIG = some orig ∧ tuple_ok be orig
        ∧ tb_get (msg_tb be nlh) CTA_TUPLE_REPLY = some reply ∧ tuple_ok be reply
        ∧ msg_samples be heap zone nlh
          = [fwd_sample be (msg_tb be nlh) orig reply c, rev_sample be orig reply c1]) := by
  unfold msg_samples msg_tb
  rcases data_cb_cases be heap (ct_stats_init zone) nlh with h0 | ⟨orig, reply, c, hr, h1⟩
    | ⟨orig, reply, c, c1, hr, _, _, _, h2⟩
  · left; rw [h0]; rfl
  · right; left
    obtain ⟨_, _, _, _, ho, hok, hrp, hrok, _⟩ := hr
    exact ⟨orig, reply, c, ho, hok, hrp, hrok, by rw [h1]; rfl⟩
  · right; right
    obtain ⟨_, _, _, _, ho, hok, hrp, hrok, _⟩ := hr
    exact ⟨orig, reply, c, c1, ho, hok, hrp, hrok, by rw [h2]; rfl⟩

/-- C28, as the code has it: each address of every sample `data_cb` appends is
either populated (family IPv4 with four bytes or family IPv6 with sixteen
bytes) or the zeroed storage of the fresh node, whose family is 0; the source
address of the forward sample is populated exactly when the ORIG tuple of the
message carries a source address attribute, and the source address of the
reverse sample exactly when the REPLY tuple carries one. -/
theorem data_cb_sample_addresses (be : Bool) (heap : calloc_results) (zone : Nat)
    (nlh : nlmsghdr) :
    (∀ f ∈ msg_samples be heap zone nlh,
      (addr_populated f.layer3_info.src_ip ∨ f.layer3_info.src_ip = sockaddr_zero)
      ∧ (addr_populated f.layer3_info.dst_ip ∨ f.layer3_info.dst_ip = sockaddr_zero))
    ∧ (∀ orig f, tb_get (msg_tb be nlh) CTA_TUPLE_ORIG = some orig →
        (msg_samples be heap zone nlh)[0]? = some f →
        (addr_populated f.layer3_info.src_ip
          ↔ tuple_carries be orig CTA_IP_V4_SRC CTA_IP_V6_SRC))
    ∧ (∀ reply f, tb_get (msg_tb be nlh) CTA_TUPLE_REPLY = some reply →
        (msg_samples be heap zone nlh)[1]? = some f →
        (addr_populated f.layer3_info.src_ip
          ↔ tuple_carries be reply CTA_IP_V4_SRC CTA_IP_V6_SRC)) := by
  rcases msg_samples_tuples be heap zone nlh with h0 | ⟨orig, reply, c, ho, hok, hr, hrok, h1⟩
    | ⟨orig, reply, c, c1, ho, hok, hr, hrok, h2⟩
  · rw [h0]
    refine ⟨fun f hf => absurd hf (List.not_mem_nil f), fun _ f _ hf => ?_, fun _ f _ hf => ?_⟩
    · simp at hf
    · simp at hf
  · rw [h1]
    have hf := fwd_sample_addr be (msg_tb be nlh) orig reply c hok hrok
    refine ⟨fun f hmem => ?_, fun o f hto hget => ?_, fun _ f _ hget => ?_⟩
    · rw [List.mem_singleton] at hmem
      rw [hmem]
      exact ⟨hf.1, hf.2.1⟩
    · rw [ho] at hto
      cases hto
      simp only [List.getElem?_cons_zero, Option.some.injEq] at hget
      rw [← hget]
      exact hf.2.2
    · simp at hget
  · rw [h2]
    have hf := fwd_sample_addr be (msg_tb be nlh) orig reply c hok hrok
    have hv := rev_sample_addr be orig reply c1 hok hrok
    refine ⟨fun f hmem => ?_, fun o f hto hget => ?_, fun r f htr hget => ?_⟩
    · simp only [List.mem_cons, List.mem_singleton, List.not_mem_nil, or_false] at hmem
      rcases hmem with e | e <;> rw [e]
      · exact ⟨hf.1, hf.2.1⟩
      · exact ⟨hv.1, hv.2.1⟩
    · rw [ho] at hto
      cases hto
      simp only [List.getElem?_cons_zero, Option.some.injEq] at hget
      rw [← hget]
      exact hf.2.2
    · rw [hr] at htr
      cases htr
      simp only [List.getElem?_cons_succ, List.getElem?_cons_zero, Option.some.injEq] at hget
      rw [← hget]
      exact hv.2.2

set_option maxRecDepth 1000000 in
/-- C28, witness: for scenario S1 both samples have populated addresses and
both tuples carry a source address; for the message whose REPLY tuple has no
address nest the reverse source is not populated. -/
theorem data_cb_sample_addresses_witness :
    (∀ f ∈ msg_samples false heap_ok 0 msg_udp,
      (addr_populated f.layer3_info.src_ip ∨ f.layer3_info.src_ip = sockaddr_zero)
      ∧ (addr_populated f.layer3_info.dst_ip ∨ f.layer3_info.dst_ip = sockaddr_zero))
    ∧ msg_samples false heap_ok 0 msg_udp = [udp_fwd, udp_rev]
    ∧ addr_populated udp_fwd.layer3_info.src_ip ∧ addr_populated udp_fwd.layer3_info.dst_ip
    ∧ addr_populated udp_rev.layer3_info.src_ip ∧ addr_populated udp_rev.layer3_info.dst_ip :=
  ⟨(data_cb_sample_addresses false heap_ok 0 msg_udp).1, by decide, by decide, by decide,
    by decide, by decide⟩

set_option maxRecDepth 1000000 in
/-- C28, counterexample: a message with no malformed top-level attribute, whose
REPLY tuple decodes without error and has no address nest. `data_cb` appends two samples, and
both addresses of the second are the zeroed storage, of family 0: neither IPv4
nor IPv6. -/
theorem data_cb_sample_addresses_counterexample :
    ¬ has_wrong_shape .top (mnl_attrs false (msg_reply_no_ip.payload.drop (MNL_ALIGN 4)))
    ∧ (tb_get (msg_tb false msg_reply_no_ip) CTA_TUPLE_REPLY).map
        (fun x => (get_tuple false x ct_flow_zero).1) = some MNL_CB_OK
    ∧ (data_cb false heap_ok (ct_stats_init 0) msg_reply_no_ip).rc = MNL_CB_OK
    ∧ (data_cb false heap_ok (ct_stats_init 0) msg_reply_no_ip).ct_stats.ctflow_list
      = [udp_fwd, rev_no_ip]
    ∧ rev_no_ip.layer3_info.src_ip = sockaddr_zero
    ∧ rev_no_ip.layer3_info.dst_ip = sockaddr_zero
    ∧ sockaddr_zero.ss_family = 0
    ∧ sockaddr_zero.ss_family ≠ AF_INET ∧ sockaddr_zero.ss_family ≠ AF_INET6
    ∧ ¬ addr_populated rev_no_ip.layer3_info.src_ip
    ∧ ¬ addr_populated rev_no_ip.layer3_info.dst_ip := by
  refine ⟨?_, ?_, ?_, ?_, ?_, ?_, ?_, ?_, ?_, ?_, ?_⟩ <;> decide


/-! ## The reverse sample carries no lifecycle flag -/

set_option maxRecDepth 1000000 in
/-- C31: whenever `data_cb` appends a forward and a reverse sample, the reverse
sample has `start = false` and `end = false`, for every message, allocation
outcome and prior state: `get_protoinfo` is run on the forward flow only. The
TCP entry in state ESTABLISHED yields a forward sample with `start` set and the
one in state TIME_WAIT a forward sample with `end` set, each followed by a
reverse sample with neither flag. -/
theorem data_cb_reverse_no_lifecycle (be : Bool) (heap : calloc_results)
    (ct_stats : flow_stats_t) (nlh : nlmsghdr) :
    (∀ fwd rev, (data_cb be heap ct_stats nlh).ct_stats.ctflow_list
        = ct_stats.ctflow_list ++ [fwd, rev] → rev.start = false ∧ rev.end_ = false)
    ∧ (∀ rev, (msg_samples be heap ct_stats.ct_zone nlh)[1]? = some rev →
        rev.start = false ∧ rev.end_ = false)
    ∧ (msg_samples false heap_ok 0 msg_tcp_established).map (fun f => (f.start, f.end_))
      = [(true, false), (false, false)]
    ∧ (msg_samples false heap_ok 0 msg_tcp_time_wait).map (fun f => (f.start, f.end_))
      = [(false, true), (false, false)] := by
  refine ⟨?_, ?_, by decide, by decide⟩
  · intro fwd rev h
    obtain ⟨orig, reply, c, c1, _, _, _, _, _, hrev⟩ := data_cb_pair_inv be heap ct_stats nlh
      fwd rev h
    rw [hrev]
    exact rev_sample_flags be orig reply c1
  · intro rev h
    rcases msg_samples_cases be heap ct_stats.ct_zone nlh with h0 | ⟨orig, reply, c, h1⟩
      | ⟨orig, reply, c, c1, h2⟩
    · rw [h0] at h
      simp at h
    · rw [h1] at h
      simp at h
    · rw [h2] at h
      simp only [List.getElem?_cons_succ, List.getElem?_cons_zero, Option.some.injEq] at h
      rw [← h]
      exact rev_sample_flags be orig reply c1

set_option maxRecDepth 1000000 in
/-- C31, on concrete input: the ESTABLISHED TCP entry appended to an empty list
gives two samples, and the second has neither `start` nor `end`. -/
theorem data_cb_reverse_no_lifecycle_witness :
    (data_cb false heap_ok (ct_stats_init 0) msg_tcp_established).ct_stats.ctflow_list.length = 2
    ∧ ∀ rev, (msg_samples false heap_ok 0 msg_tcp_established)[1]? = some rev →
        rev.start = false ∧ rev.end_ = false :=
  ⟨by decide,
    (data_cb_reverse_no_lifecycle false heap_ok (ct_stats_init 0) msg_tcp_established).2.1⟩


/-! ## Lifecycle flags of the samples of one message -/

theorem get_protoinfo_with_state (be : Bool) (pi tcp st : nlattr) (flow : ct_flow_t)
    (hok : protoinfo_ok be pi)
    (htcp : tb_get (nest_tb be .protoinfo pi) CTA_PROTOINFO_TCP = some tcp)
    (hst : tb_get (nest_tb be .tcp tcp) CTA_PROTOINFO_TCP_STATE = some st) :
    (get_protoinfo be pi flow).2 = get_protoinfo_state (mnl_attr_get_u8 st) flow := by
  unfold protoinfo_ok at hok
  unfold nest_tb at htcp hst
  simp only [parse_ctx.info] at htcp hst
  unfold get_protoinfo at *
  simp only at hok ⊢
  by_cases h0 : (mnl_attr_parse_nested be pi parse_protoinfo (tb_zero CTA_PROTOINFO_MAX)).1 < 0
  · rw [if_pos h0] at hok
    exact absurd hok (by decide)
  · rw [if_neg h0] at hok ⊢
    simp only [htcp] at hok ⊢
    by_cases h1 : (mnl_attr_parse_nested be tcp parse_tcp_protoinfo
        (tb_zero CTA_PROTOINFO_TCP_MAX)).1 < 0
    · rw [if_pos h1] at hok
      exact absurd hok (by decide)
    · rw [if_neg h1]
      simp only [hst]

theorem get_protoinfo_state_flags (state : Nat) (flow : ct_flow_t)
    (hs : flow.start = false) (he : flow.end_ = false) :
    ((get_protoinfo_state state flow).start = true
      ↔ (state = TCP_CONNTRACK_SYN_SENT ∨ state = TCP_CONNTRACK_SYN_RECV
        ∨ state = TCP_CONNTRACK_ESTABLISHED))
    ∧ ((get_protoinfo_state state flow).end_ = true
      ↔ (state = TCP_CONNTRACK_FIN_WAIT ∨ state = TCP_CONNTRACK_CLOSE_WAIT
        ∨ state = TCP_CONNTRACK_LAST_ACK ∨ state = TCP_CONNTRACK_TIME_WAIT
        ∨ state = TCP_CONNTRACK_CLOSE ∨ state = TCP_CONNTRACK_TIMEOUT_MAX)) := by
  unfold get_protoinfo_state
  simp only [TCP_CONNTRACK_SYN_SENT, TCP_CONNTRACK_SYN_RECV, TCP_CONNTRACK_ESTABLISHED,
    TCP_CONNTRACK_FIN_WAIT, TCP_CONNTRACK_CLOSE_WAIT, TCP_CONNTRACK_LAST_ACK,
    TCP_CONNTRACK_TIME_WAIT, TCP_CONNTRACK_CLOSE, TCP_CONNTRACK_TIMEOUT_MAX]
  split_ifs with c1 c2
  · have c3 : ¬ (state = 4 ∨ state = 5 ∨ state = 6 ∨ state = 7 ∨ state = 8 ∨ state = 14) := by
      omega
    simp [c1, c3, he]
  · simp [c1, c2, hs]
  · simp [c1, c2, hs, he]

/-- The flags of the forward sample of an entry whose protocol is not 17 and
whose protoinfo carries a TCP sub-state. -/
theorem fwd_sample_state_flags (be : Bool) (tb : attr_tb) (orig reply c pi tcp st : nlattr)
    (hproto : (get_tuple be orig ct_flow_zero).2.layer3_info.proto_type ≠ 17)
    (hpi : tb_get tb CTA_PROTOINFO = some pi) (hok : protoinfo_ok be pi)
    (htcp : tb_get (nest_tb be .protoinfo pi) CTA_PROTOINFO_TCP = some tcp)
    (hst : tb_get (nest_tb be .tcp tcp) CTA_PROTOINFO_TCP_STATE = some st) :
    ((fwd_sample be tb orig reply c).start = true
      ↔ (mnl_attr_get_u8 st = TCP_CONNTRACK_SYN_SENT ∨ mnl_attr_get_u8 st = TCP_CONNTRACK_SYN_RECV
        ∨ mnl_attr_get_u8 st = TCP_CONNTRACK_ESTABLISHED))
    ∧ ((fwd_sample be tb orig reply c).end_ = true
      ↔ (mnl_attr_get_u8 st = TCP_CONNTRACK_FIN_WAIT ∨ mnl_attr_get_u8 st = TCP_CONNTRACK_CLOSE_WAIT
        ∨ mnl_attr_get_u8 st = TCP_CONNTRACK_LAST_ACK
        ∨ mnl_attr_get_u8 st = TCP_CONNTRACK_TIME_WAIT
        ∨ mnl_attr_get_u8 st = TCP_CONNTRACK_CLOSE
        ∨ mnl_attr_get_u8 st = TCP_CONNTRACK_TIMEOUT_MAX)) := by
  have hp : (data_cb_addr be (get_tuple be orig ct_flow_zero).2
      (get_tuple be reply ct_flow_zero).2).2.1.layer3_info.proto_type ≠ 17 := by
    rw [(data_cb_addr_frame be _ _).1]
    exact hproto
  have hf : fwd_flagged be tb (data_cb_addr be (get_tuple be orig ct_flow_zero).2
      (get_tuple be reply ct_flow_zero).2).2.1
      = get_protoinfo_state (mnl_attr_get_u8 st)
          (data_cb_addr be (get_tuple be orig ct_flow_zero).2
            (get_tuple be reply ct_flow_zero).2).2.1 := by
    unfold fwd_flagged
    rw [if_pos hp]
    simp only [hpi]
    exact get_protoinfo_with_state be pi tcp st _ hok htcp hst
  unfold fwd_sample
  rw [(get_counter_frame be c _).2.1, (get_counter_frame be c _).2.2.1, hf]
  exact get_protoinfo_state_flags _ _ (addr_fwd_flags be orig reply).1
    (addr_fwd_flags be orig reply).2

/-- C6 (amended): the samples `data_cb` appends for a message form a list. When
the protocol number decoded from the ORIG tuple is 17, or when `CTA_PROTOINFO`
carries no TCP sub-state attribute, every one of them has `start = false` and
`end = false`. For any other protocol, 6 or not, whose `CTA_PROTOINFO` carries
a TCP sub-state, the first of them, the forward sample, has `start` exactly
when the sub-state is SYN_SENT, SYN_RECV or ESTABLISHED, and `end` exactly when
it is FIN_WAIT, CLOSE_WAIT, LAST_ACK, TIME_WAIT, CLOSE or TIMEOUT_MAX. -/
theorem data_cb_flags_clear (be : Bool) (heap : calloc_results) (ct_stats : flow_stats_t)
    (nlh : nlmsghdr) :
    ∃ l : List ct_flow_t,
      (data_cb be heap ct_stats nlh).ct_stats.ctflow_list = ct_stats.ctflow_list ++ l
      ∧ (((∀ orig, tb_get (msg_tb be nlh) CTA_TUPLE_ORIG = some orig →
              (get_tuple be orig ct_flow_zero).2.layer3_info.proto_type = 17)
          ∨ ∀ pi tcp, tb_get (msg_tb be nlh) CTA_PROTOINFO = some pi →
              tb_get (nest_tb be .protoinfo pi) CTA_PROTOINFO_TCP = some tcp →
              tb_get (nest_tb be .tcp tcp) CTA_PROTOINFO_TCP_STATE = none) →
        ∀ f ∈ l, f.start = false ∧ f.end_ = false)
      ∧ (∀ orig pi tcp st fwd, tb_get (msg_tb be nlh) CTA_TUPLE_ORIG = some orig →
          (get_tuple be orig ct_flow_zero).2.layer3_info.proto_type ≠ 17 →
          tb_get (msg_tb be nlh) CTA_PROTOINFO = some pi →
          tb_get (nest_tb be .protoinfo pi) CTA_PROTOINFO_TCP = some tcp →
          tb_get (nest_tb be .tcp tcp) CTA_PROTOINFO_TCP_STATE = some st →
          l.head? = some fwd →
          (fwd.start = true
            ↔ (mnl_attr_get_u8 st = TCP_CONNTRACK_SYN_SENT
              ∨ mnl_attr_get_u8 st = TCP_CONNTRACK_SYN_RECV
              ∨ mnl_attr_get_u8 st = TCP_CONNTRACK_ESTABLISHED))
          ∧ (fwd.end_ = true
            ↔ (mnl_attr_get_u8 st = TCP_CONNTRACK_FIN_WAIT
              ∨ mnl_attr_get_u8 st = TCP_CONNTRACK_CLOSE_WAIT
              ∨ mnl_attr_get_u8 st = TCP_CONNTRACK_LAST_ACK
              ∨ mnl_attr_get_u8 st = TCP_CONNTRACK_TIME_WAIT
              ∨ mnl_attr_get_u8 st = TCP_CONNTRACK_CLOSE
              ∨ mnl_attr_get_u8 st = TCP_CONNTRACK_TIMEOUT_MAX))) := by
  have hclear : ((∀ orig, tb_get (msg_tb be nlh) CTA_TUPLE_ORIG = some orig →
              (get_tuple be orig ct_flow_zero).2.layer3_info.proto_type = 17)
          ∨ ∀ pi tcp, tb_get (msg_tb be nlh) CTA_PROTOINFO = some pi →
              tb_get (nest_tb be .protoinfo pi) CTA_PROTOINFO_TCP = some tcp →
              tb_get (nest_tb be .tcp tcp) CTA_PROTOINFO_TCP_STATE = none) →
      ∀ orig reply c, tb_get (msg_tb be nlh) CTA_TUPLE_ORIG = some orig →
        (fwd_sample be (msg_tb be nlh) orig reply c).start = false
        ∧ (fwd_sample be (msg_tb be nlh) orig reply c).end_ = false := by
    intro h orig reply c ho
    unfold fwd_sample
    rw [(get_counter_frame be c _).2.1, (get_counter_frame be c _).2.2.1]
    rw [fwd_flagged_clear]
    · exact addr_fwd_flags be orig reply
    · rcases h with h | h
      · left
        rw [(data_cb_addr_frame be _ _).1]
        exact h orig ho
      · right
        intro pi tcp hpi htcp
        exact h pi tcp hpi htcp
  have hstate : ∀ orig reply c, reaches_fwd be heap ct_stats nlh orig reply c →
      ∀ orig1 pi tcp st fwd, tb_get (msg_tb be nlh) CTA_TUPLE_ORIG = some orig1 →
        (get_tuple be orig1 ct_flow_zero).2.layer3_info.proto_type ≠ 17 →
        tb_get (msg_tb be nlh) CTA_PROTOINFO = some pi →
        tb_get (nest_tb be .protoinfo pi) CTA_PROTOINFO_TCP = some tcp →
        tb_get (nest_tb be .tcp tcp) CTA_PROTOINFO_TCP_STATE = some st →
        some (fwd_sample be (msg_tb be nlh) orig reply c) = some fwd →
        (fwd.start = true
          ↔ (mnl_attr_get_u8 st = TCP_CONNTRACK_SYN_SENT
            ∨ mnl_attr_get_u8 st = TCP_CONNTRACK_SYN_RECV
            ∨ mnl_attr_get_u8 st = TCP_CONNTRACK_ESTABLISHED))
        ∧ (fwd.end_ = true
          ↔ (mnl_attr_get_u8 st = TCP_CONNTRACK_FIN_WAIT
            ∨ mnl_attr_get_u8 st = TCP_CONNTRACK_CLOSE_WAIT
            ∨ mnl_attr_get_u8 st = TCP_CONNTRACK_LAST_ACK
            ∨ mnl_attr_get_u8 st = TCP_CONNTRACK_TIME_WAIT
            ∨ mnl_attr_get_u8 st = TCP_CONNTRACK_CLOSE
            ∨ mnl_attr_get_u8 st = TCP_CONNTRACK_TIMEOUT_MAX)) := by
    intro orig reply c hr orig1 pi tcp st fwd ho1 hproto hpi htcp hst hfwd
    obtain ⟨_, _, _, _, ho, _, _, _, hprot, _, _⟩ := hr
    have e : orig1 = orig := by
      have := ho1.symm.trans ho
      exact Option.some.inj this
    subst e
    obtain ⟨pi1, hpi1, hok⟩ := hprot hproto
    have e2 : pi1 = pi := Option.some.inj (hpi1.symm.trans hpi)
    subst e2
    rw [← Option.some.inj hfwd]
    exact fwd_sample_state_flags be _ orig1 reply c pi1 tcp st hproto hpi hok htcp hst
  rcases data_cb_cases be heap ct_stats nlh with h0 | ⟨orig, reply, c, hr, h1⟩
    | ⟨orig, reply, c, c1, hr, _, _, _, h2⟩
  · refine ⟨[], by simp [h0], fun _ f hf => absurd hf (List.not_mem_nil f), ?_⟩
    intro _ _ _ _ fwd _ _ _ _ _ hh
    simp at hh
  · refine ⟨[fwd_sample be (msg_tb be nlh) orig reply c], by rw [h1]; rfl, ?_, ?_⟩
    · intro h f hf
      simp only [List.mem_singleton] at hf
      rw [hf]
      exact hclear h orig reply c hr.2.2.2.2.1
    · intro orig1 pi tcp st fwd ho1 hproto hpi htcp hst hh
      exact hstate orig reply c hr orig1 pi tcp st fwd ho1 hproto hpi htcp hst hh
  · refine ⟨[fwd_sample be (msg_tb be nlh) orig reply c, rev_sample be orig reply c1],
      by rw [h2]; simp [insert_tail, msg_tb], ?_, ?_⟩
    · intro h f hf
      simp only [List.mem_cons, List.mem_singleton, List.not_mem_nil, or_false] at hf
      rcases hf with hf | hf
      · rw [hf]; exact hclear h orig reply c hr.2.2.2.2.1
      · rw [hf]; exact rev_sample_flags be orig reply c1
    · intro orig1 pi tcp st fwd ho1 hproto hpi htcp hst hh
      exact hstate orig reply c hr orig1 pi tcp st fwd ho1 hproto hpi htcp hst hh

set_option maxRecDepth 1000000 in
/-- Witness for C6: the UDP entry of scenario S1 yields two samples with neither
flag; the ESTABLISHED TCP entry and the protocol 1 entry that carries the same
TCP sub-state both yield a forward sample with `start` only, and the TIME_WAIT
entry a forward sample with `end` only. -/
theorem data_cb_flags_clear_witness :
    (msg_samples false heap_ok 0 msg_udp).map
        (fun f => (f.layer3_info.proto_type, f.start, f.end_))
      = [(17, false, false), (17, false, false)]
    ∧ (msg_samples false heap_ok 0 msg_tcp_established).map
        (fun f => (f.layer3_info.proto_type, f.start, f.end_))
      = [(6, true, false), (6, false, false)]
    ∧ (msg_samples false heap_ok 0 msg_icmp_tcp_state).map
        (fun f => (f.layer3_info.proto_type, f.start, f.end_))
      = [(1, true, false), (1, false, false)]
    ∧ (msg_samples false heap_ok 0 msg_tcp_time_wait).map
        (fun f => (f.layer3_info.proto_type, f.start, f.end_))
      = [(6, false, true), (6, false, false)]
    ∧ ∃ l : List ct_flow_t,
        (data_cb false heap_ok (ct_stats_init 0) msg_tcp_established).ct_stats.ctflow_list
          = (ct_stats_init 0).ctflow_list ++ l
        ∧ l.length = 2 :=
  ⟨by decide, by decide, by decide, by decide,
    (data_cb_flags_clear false heap_ok (ct_stats_init 0) msg_tcp_established).elim
      (fun l hl => ⟨l, hl.1, by
        have h2 : (data_cb false heap_ok (ct_stats_init 0)
            msg_tcp_established).ct_stats.ctflow_list.length = 2 := by decide
        rw [hl.1] at h2
        simpa [ct_stats_init] using h2⟩)⟩


/-! ## The configured zone as a decimal value -/

theorem isDigit_toNat (c : Char) (h : c.isDigit = true) : 48 ≤ c.toNat ∧ c.toNat ≤ 57 := by
  unfold Char.isDigit at h
  simp only [Bool.and_eq_true, decide_eq_true_eq] at h
  unfold Char.toNat
  have h1 : (48 : UInt32) ≤ c.val := h.1
  have h2 : c.val ≤ (57 : UInt32) := h.2
  rw [UInt32.le_def] at h1 h2
  exact ⟨h1, h2⟩

theorem atoi_digits_all (cs : List Char) (hall : cs.all Char.isDigit = true) (acc : Nat) :
    atoi_digits cs (acc : Int)
      = ((cs.foldl (fun acc c => acc * 10 + (c.toNat - 48)) acc : Nat) : Int) := by
  induction cs generalizing acc with
  | nil => rfl
  | cons c cs ih =>
    simp only [List.all_cons, Bool.and_eq_true] at hall
    simp only [atoi_digits, hall.1, if_true, List.foldl_cons]
    rw [← ih hall.2 (acc * 10 + (c.toNat - 48))]
    push_cast
    rfl

theorem strtol_value_decimal (z : String) (n : Nat) (h : decimal_value z = some n) :
    strtol_value z = (n : Int) := by
  unfold decimal_value at h
  unfold strtol_value
  rcases hz : z.toList with _ | ⟨c, cs⟩
  · rw [hz] at h
    simp at h
  · rw [hz] at h
    simp only at h
    split_ifs at h with hall
    have hn : (c :: cs).foldl (fun acc c => acc * 10 + (c.toNat - 48)) 0 = n :=
      Option.some.inj h
    have hc : c.isDigit = true := by
      simp only [List.all_cons, Bool.and_eq_true] at hall
      exact hall.1
    obtain ⟨h48, h57⟩ := isDigit_toNat c hc
    have hsp : ¬ (c = ' ' ∨ (9 ≤ c.toNat ∧ c.toNat ≤ 13)) := by
      rintro (e | e)
      · rw [e] at h48
        exact absurd h48 (by decide)
      · omega
    have hdrop : (c :: cs).dropWhile (fun c => decide (c = ' ' ∨ (9 ≤ c.toNat ∧ c.toNat ≤ 13)))
        = c :: cs := by
      simp [List.dropWhile, hsp]
    rw [hdrop]
    have hm : c ≠ '-' := by
      intro e
      rw [e] at h48
      exact absurd h48 (by decide)
    have hp : c ≠ '+' := by
      intro e
      rw [e] at h48
      exact absurd h48 (by decide)
    split
    · next cs1 heq =>
      simp only [List.cons.injEq] at heq
      exact absurd heq.1 hm
    · next cs1 heq =>
      simp only [List.cons.injEq] at heq
      exact absurd heq.1 hp
    · rw [← hn]
      exact atoi_digits_all (c :: cs) hall 0

theorem to_u16_long_to_int (v : Int) : to_u16 (long_to_int v) = (v % 65536).toNat := by
  unfold to_u16 long_to_int
  congr 1
  omega

theorem configured_zone_strtol (c : fcm_collect_plugin_t) (z : String)
    (hz : c.ct_zone = some z) : configured_zone c = (strtol z % 65536).toNat := by
  unfold configured_zone atoi
  rw [hz]
  exact to_u16_long_to_int _

theorem configured_zone_decimal (c : fcm_collect_plugin_t) (z : String) (n : Nat)
    (hz : c.ct_zone = some z) (hd : decimal_value z = some n) :
    configured_zone c = (if (n : Int) ≤ LONG_MAX then n % 65536 else 65535) := by
  rw [configured_zone_strtol c z hz]
  unfold strtol
  rw [strtol_value_decimal z n hd]
  unfold LONG_MAX LONG_MIN
  split_ifs <;> omega


/-! ## Order of the report callback -/

/-- C25 (amended): for a collector with an MQTT topic, `ct_stats_report_cb` calls,
in this order, the filter context initialisation, then (when the collector
holds an aggregator) the window close, the flow count followed by the report
sending (or by the aggregator reset when there is no flow) and the window
activation, and only then reads `ct_zone` from the host configuration; the
stored zone is written after all of these, and ends as the configured value.
`ct_stats_plugin_init` leaves the same configured value stored. The calls
before the configuration read are those of `ct_stats_close_window`,
`ct_stats_send_aggr_report` and `ct_stats_activate_window`, run in this order
after the filter context initialisation. The configured value is 0 when the
entry is absent; for an entry that is a decimal numeral it is the decimal value
reduced modulo 65536, hence the decimal value itself when this is at most
65535, and 65535 when the decimal value exceeds `LONG_MAX`; for any entry it
is what `strtol` reads, reduced modulo 65536. -/
theorem ct_stats_report_cb_order (env : report_env) (ienv : init_env)
    (c : fcm_collect_plugin_t) (ct_stats : flow_stats_t) (topic : String)
    (h : c.mqtt_topic = some topic) :
    (ct_stats_report_cb env (some c) ct_stats).calls
      = [report_call.fcm_filter_context_init]
        ++ (if c.plugin_ctx = none then [] else report_aggr_calls env topic)
        ++ [report_call.get_other_config "ct_zone"]
        ++ (if ct_stats.ct_zone = configured_zone c then []
            else [report_call.store_ct_zone (configured_zone c)])
    ∧ (ct_stats_report_cb env (some c) ct_stats).ct_stats
      = { ct_stats with ct_zone := configured_zone c }
    ∧ (ct_stats_plugin_init ienv c ct_stats).ct_stats.ct_zone = configured_zone c
    ∧ (ct_stats_report_cb env (some c) ct_stats).calls
      = (ct_stats_activate_window_report c
          (ct_stats_send_aggr_report env c topic
            (ct_stats_close_window c ⟨ct_stats, [report_call.fcm_filter_context_init]⟩))).calls
        ++ [report_call.get_other_config "ct_zone"]
        ++ (if ct_stats.ct_zone = configured_zone c then []
            else [report_call.store_ct_zone (configured_zone c)])
    ∧ (c.ct_zone = none → configured_zone c = 0)
    ∧ (∀ z n, c.ct_zone = some z → decimal_value z = some n →
        configured_zone c = (if (n : Int) ≤ LONG_MAX then n % 65536 else 65535)
        ∧ (n ≤ 65535 → configured_zone c = n))
    ∧ (∀ z, c.ct_zone = some z → configured_zone c = (strtol z % 65536).toNat) := by
  refine ⟨?_, ?_, ct_stats_plugin_init_ct_zone ienv c ct_stats, ?_, ?_, ?_,
    fun z hz => configured_zone_strtol c z hz⟩
  rotate_right 2
  · intro hnone
    unfold configured_zone
    rw [hnone]
  · intro z n hz hd
    have hv := configured_zone_decimal c z n hz hd
    refine ⟨hv, fun hn => ?_⟩
    rw [hv]
    unfold LONG_MAX
    rw [if_pos (by omega)]
    omega
  · unfold ct_stats_report_cb ct_stats_close_window ct_stats_send_aggr_report
      ct_stats_activate_window_report configured_zone report_aggr_calls
    simp only [h]
    rcases hc : c.plugin_ctx with _ | aggr
    · by_cases hz : ct_stats.ct_zone = (match c.ct_zone with
          | some z => to_u16 (atoi z)
          | none => 0)
      · simp [hz]
      · simp [hz]
    · by_cases hn : env.net_md_get_total_flows = 0
      · by_cases hz : ct_stats.ct_zone = (match c.ct_zone with
            | some z => to_u16 (atoi z)
            | none => 0)
        · simp [hz, hn]
        · simp [hz, hn]
      · by_cases hz : ct_stats.ct_zone = (match c.ct_zone with
            | some z => to_u16 (atoi z)
            | none => 0)
        · simp [hz, hn]
        · simp [hz, hn]
  · unfold ct_stats_report_cb ct_stats_close_window ct_stats_send_aggr_report
      ct_stats_activate_window_report configured_zone
    simp only [h]
    rcases hc : c.plugin_ctx with _ | aggr
    · by_cases hz : ct_stats.ct_zone = (match c.ct_zone with
          | some z => to_u16 (atoi z)
          | none => 0)
      · simp [hz]
        rw [← hz]
      · simp [hz]
    · by_cases hz : ct_stats.ct_zone = (match c.ct_zone with
          | some z => to_u16 (atoi z)
          | none => 0)
      · simp only [hz, ne_eq, not_true_eq_false, if_false]
        split <;> (simp only; rw [← hz])
      · simp only [hz, ne_eq, not_false_eq_true, if_true]
        split <;> rfl
  · have hfr : (ct_stats_activate_window_report c
        (ct_stats_send_aggr_report env c topic
          (ct_stats_close_window c
            ⟨ct_stats, [report_call.fcm_filter_context_init]⟩))).ct_stats = ct_stats := by
      unfold ct_stats_activate_window_report ct_stats_send_aggr_report ct_stats_close_window
      rcases c.plugin_ctx with _ | aggr
      · rfl
      · simp only
        split <;> rfl
    unfold ct_stats_report_cb configured_zone
    simp only [h, hfr]
    by_cases hz : ct_stats.ct_zone = (match c.ct_zone with
        | some z => to_u16 (atoi z)
        | none => 0)
    · simp [hz]
    · simp [hz]

set_option maxRecDepth 1000000 in
/-- C25, on concrete input: a collector that holds an aggregator with three flows
and is configured with `ct_zone` "7", reporting from stored zone 0: the calls
are filter context initialisation, window close, flow count, report to the
topic, window activation, configuration read, and the store of zone 7 comes
last; the decimal value of "7" is 7; a collector without the entry stores zone
0 at initialisation. -/
theorem ct_stats_report_cb_order_witness :
    collector_zone7.mqtt_topic = some "ct_stats"
    ∧ (ct_stats_report_cb renv_ok (some collector_zone7) (ct_stats_init 0)).calls
      = [.fcm_filter_context_init, .net_md_close_active_window, .net_md_get_total_flows,
         .send_report "ct_stats", .net_md_activate_window, .get_other_config "ct_zone",
         .store_ct_zone 7]
    ∧ (ct_stats_report_cb renv_ok (some collector_zone7) (ct_stats_init 0)).ct_stats.ct_zone = 7
    ∧ (ct_stats_plugin_init ienv_ok collector_zone7 (ct_stats_init 0)).ct_stats.ct_zone = 7
    ∧ (ct_stats_plugin_init ienv_ok collector_demo (ct_stats_init 7)).ct_stats.ct_zone = 0
    ∧ decimal_value "7" = some 7
    ∧ configured_zone collector_zone7 = 7 :=
  have h := ct_stats_report_cb_order renv_ok ienv_ok collector_zone7 (ct_stats_init 0)
    "ct_stats" rfl
  ⟨rfl, h.1.trans (by decide), by rw [h.2.1]; decide, h.2.2.1.trans (by decide), by decide,
    by decide, (h.2.2.2.2.2.1 "7" 7 rfl (by decide)).2 (by decide)⟩

set_option maxRecDepth 1000000 in
/-- C25 as stated fails: for the entry "65543", whose decimal value is 65543,
the report callback and the initialisation both store zone 7; for the entry
"9223372036854775808", whose decimal value exceeds `LONG_MAX`, both store zone
65535. -/
theorem ct_stats_report_cb_order_counterexample :
    (collector_zone "65543").mqtt_topic = some "ct_stats"
    ∧ decimal_value "65543" = some 65543
    ∧ (ct_stats_report_cb renv_ok (some (collector_zone "65543"))
        (ct_stats_init 0)).ct_stats.ct_zone = 7
    ∧ (ct_stats_plugin_init ienv_ok (collector_zone "65543") (ct_stats_init 0)).ct_stats.ct_zone
      = 7
    ∧ decimal_value "9223372036854775808" = some 9223372036854775808
    ∧ (ct_stats_report_cb renv_ok (some (collector_zone "9223372036854775808"))
        (ct_stats_init 0)).ct_stats.ct_zone = 65535
    ∧ (ct_stats_plugin_init ienv_ok (collector_zone "9223372036854775808")
        (ct_stats_init 0)).ct_stats.ct_zone = 65535 := by
  refine ⟨rfl, ?_, ?_, ?_, ?_, ?_, ?_⟩ <;> decide

end CtStats
